import Mathlib

/-!
# opencluster: bucket table, hash-mask split, rebalancer and migration handlers

A shallow embedding of `src/server/bucket.c` and `src/server/process.c`.

* Pointers to heap objects that are shared (`node_t *`, `client_t *`, `data_t *`) are
  addresses into explicit heaps (`List`s, address = position).  A `bucket_t *` held in the
  bucket table is embedded by value in its slot: every bucket object is referenced from
  exactly one slot.
* `hash_t` is an unsigned 64-bit integer and `int` a signed 32-bit integer; conversions
  between them are written out (`toU64`, `toInt32`).
* A run of a C function either returns or stops: `Except Fault`.  A `Fault` is a failed
  `assert`, a dereferenced NULL pointer, an access outside an array, a signed overflow or a
  division by zero.  `assert` is compiled out under `NDEBUG`; every function of the embedding
  takes the flag `ndebug` and checks its assertions only when it is `false`.
* Functions of modules that are not part of the sources (the Store of `bucket_data.c`, the
  `push_*` senders) are modelled from the specification and record their calls in a trace.
-/

namespace OpenCluster

/-! ## Outcomes -/

/-- The ways a run stops without returning; the number is the source line. -/
inductive Fault where
  | assertion (line : Nat)
  | nullDeref (line : Nat)
  | outOfBounds (line : Nat)
  | overflow (line : Nat)
  | divByZero (line : Nat)
  deriving DecidableEq, Repr

deriving instance DecidableEq for Except

/-- The C macro assert: checked unless NDEBUG is defined. -/
def cassert (ndebug : Bool) (line : Nat) (c : Bool) : Except Fault Unit :=
  if ndebug || c then .ok () else .error (.assertion line)

/-! ## Machine integers -/

/-- Largest value of a C int (32 bits). -/
def INT_MAX : Int := 2147483647

/-- Smallest value of a C int (32 bits). -/
def INT_MIN : Int := -2147483648

/-- Conversion of an integer value to (signed 32-bit) int: reduction modulo 2^32. -/
def toInt32 (n : Int) : Int := (n + 2147483648) % 4294967296 - 2147483648

/-- Conversion of an integer value to hash_t (unsigned 64-bit): reduction modulo 2^64. -/
def toU64 (n : Int) : Nat := (n % 18446744073709551616).toNat

/-- Addition of two ints; signed overflow is undefined behaviour and stops the run. -/
def iadd (line : Nat) (a b : Int) : Except Fault Int :=
  if INT_MIN ≤ a + b ∧ a + b ≤ INT_MAX then .ok (a + b) else .error (.overflow line)

/-- Subtraction of two ints; signed overflow is undefined behaviour and stops the run. -/
def isub (line : Nat) (a b : Int) : Except Fault Int :=
  if INT_MIN ≤ a - b ∧ a - b ≤ INT_MAX then .ok (a - b) else .error (.overflow line)

/-! ## Data model -/

/-- The promoting field of a bucket. -/
inductive Promoting where
  | NOT_PROMOTING
  | PROMOTING
  deriving DecidableEq, Repr

/-- The struct node_t (node.c, node_new); events are recorded as armed or not. -/
structure Node where
  name : String
  client : Option Nat := none
  connect_event : Bool := false
  loadlevel_event : Bool := false
  wait_event : Bool := false
  shutdown_event : Bool := false
  connect_attempts : Int := 0
  deriving DecidableEq, Repr

/-- The struct client_t, as far as the bucket code reads it: the node it belongs to. -/
structure Client where
  node : Option Nat := none
  deriving DecidableEq, Repr

/-- Modelled from the spec: the Store object data_t of bucket_data.c, which is not part of the
sources.  The sources read its fields next (the parent store of a split) and ref (the reference
count); the contents are the values stored under (map_hash, key_hash). -/
structure Data where
  items : List ((Nat × Nat) × Nat) := []
  next : Option Nat := none
  ref : Int := 1
  deriving DecidableEq, Repr

/-- The struct bucket_t, with the fields the sources use. -/
structure Bucket where
  hash : Nat
  level : Int
  backup_node : Option Nat := none
  target_node : Option Nat := none
  logging_node : Option Nat := none
  transfer_event : Bool := false
  shutdown_event : Bool := false
  transfer_client : Option Nat := none
  oldbucket_event : Bool := false
  transfer_mode_special : Int := 0
  promoting : Promoting := .NOT_PROMOTING
  data : Option Nat := none
  deriving DecidableEq, Repr

/-- The struct hashmask_t: the primary and secondary address of one bucket index. -/
structure Hashmask where
  primary : Option String := none
  secondary : Option String := none
  deriving DecidableEq, Repr

/-- Calls into modules outside the sources, in the order they are made. -/
inductive Event where
  | data_set_value (map_hash key_hash : Nat) (data : Option Nat) (name : Option String)
      (name_int : Int) (value : Nat) (expires : Int) (backup_client : Option Nat)
  | data_set_name_str (key_hash : Nat) (data : Option Nat) (name : String)
  | data_set_name_int (key_hash : Nat) (data : Option Nat) (int_key : Int)
  | push_control_bucket (client : Nat) (hash : Nat) (level : Int)
  | push_accept_bucket (client : Nat) (hash : Nat)
  | push_hashmask_update (hash : Nat)
  | push_loadlevels (client : Nat)
  | push_finalise_migration (client : Nat) (hash : Nat) (level : Int)
  | push_promote (client : Nat) (hash : Nat)
  | data_migrate_items (client : Option Nat) (data : Option Nat) (hash : Nat) (avail : Int)
  | data_migrated (data : Option Nat) (map_hash key_hash : Nat)
  | data_destroy (data : Nat) (hash : Nat)
  | data_free (data : Nat)
  | event_free_shutdown (hash : Nat)
  | evtimer_add_shutdown (hash : Nat)
  | event_free_loadlevel (node : Nat)
  | event_free_connect (node : Nat)
  | close (fd : Int)
  | evtimer_add_wait (node : Nat)
  | evtimer_add_loadlevel (node : Nat)
  | client_attach_node (client node : Nat) (fd : Int)
  | push_serverhello (client : Nat)
  | evtimer_add_node_shutdown (node : Nat)
  | free_node (node : Nat)
  deriving DecidableEq, Repr

/-- The globals of bucket.c and node.c (nodes is the array _nodes of pointers into the node
heap), the heaps the pointers refer to, the counter of items in transit kept by the Store, the outgoing payload buffer, the global _interface (this node's
own address) and the trace of calls made to the outside. -/
structure State where
  mask : Nat := 0
  buckets : Option (List (Option Bucket)) := none
  hashmasks : Option (List (Option Hashmask)) := none
  nobackup_buckets : Int := 0
  primary_buckets : Int := 0
  secondary_buckets : Int := 0
  bucket_transfer : Int := 0
  migrate_sync : Int := 0
  node_count : Int := 0
  active_nodes : Int := 0
  nodes : Option (List (Option Nat)) := none
  nodeHeap : List Node := []
  clientHeap : List Client := []
  dataHeap : List Data := []
  in_transit : Int := 0
  payload_length : Int := 0
  interface : Option String := none
  trace : List Event := []
  deriving DecidableEq, Repr

/-- Constants of constants.h, which is not part of the sources. -/
structure Consts where
  MIN_BUCKETS : Int
  TRANSIT_MIN : Int
  TRANSIT_MAX : Int
  deriving DecidableEq, Repr

/-! ## The Store (modelled) -/

/-- Modelled from the spec: the lookup behind data_get_value (bucket_data.c is not part of the
sources): search the store's own contents, then the chain of parent stores reached through next.
The first argument bounds the length of the chain that is followed. -/
def data_lookup (heap : List Data) (map_hash key_hash : Nat) : Nat → Option Nat → Option Nat
  | 0, _ => none
  | _ + 1, none => none
  | fuel + 1, some p =>
    match heap[p]? with
    | none => none
    | some d =>
      match d.items.lookup (map_hash, key_hash) with
      | some v => some v
      | none => data_lookup heap map_hash key_hash fuel d.next

/-- Modelled from the spec: data_get_value of the Store (bucket_data.c is not part of the
sources): the value stored under (map_hash, key_hash) in the store or in one of its parents. -/
def data_get_value (s : State) (map_hash key_hash : Nat) (data : Option Nat) : Option Nat :=
  data_lookup s.dataHeap map_hash key_hash s.dataHeap.length data

/-- Modelled from the spec: data_set_value of the Store (bucket_data.c is not part of the
sources): one write of the value under (map_hash, key_hash) into the store itself; the call,
with the backup client it was given, is recorded in the trace. -/
def data_set_value (s : State) (map_hash key_hash : Nat) (data : Option Nat)
    (name : Option String) (name_int : Int) (value : Nat) (expires : Int)
    (backup_client : Option Nat) : State :=
  let heap :=
    match data with
    | none => s.dataHeap
    | some p =>
      match s.dataHeap[p]? with
      | none => s.dataHeap
      | some d =>
        s.dataHeap.set p { d with items := ((map_hash, key_hash), value) :: d.items }
  { s with
    dataHeap := heap
    trace := s.trace ++
      [Event.data_set_value map_hash key_hash data name name_int value expires backup_client] }

/-! ## bucket.c: request dispatch -/

/-- Reading slot i of the array _buckets: the pointer must not be NULL and the (int) index
must lie inside the array. -/
def bucket_at (line : Nat) (s : State) (i : Int) : Except Fault (Option Bucket) :=
  match s.buckets with
  | none => .error (.nullDeref line)
  | some bs =>
    if i < 0 then .error (.outOfBounds line)
    else
      match bs[i.toNat]? with
      | none => .error (.outOfBounds line)
      | some slot => .ok slot

/-- The function buckets_get_value (bucket.c 66-99); the index is held in an int. -/
def buckets_get_value (ndebug : Bool) (s : State) (map_hash key_hash : Nat) :
    Except Fault (Option Nat × State) := do
  let bucket_index : Int := toInt32 (s.mask &&& key_hash : Nat)
  cassert ndebug 74 (decide (bucket_index ≥ 0))
  cassert ndebug 75 (decide (toU64 bucket_index ≤ s.mask))
  let bucket ← bucket_at 76 s bucket_index
  match bucket with
  | some b =>
    cassert ndebug 81 (decide (b.hash = toU64 bucket_index))
    if b.level ≠ 0 then
      pure (none, s)
    else
      cassert ndebug 90 b.data.isSome
      pure (data_get_value s map_hash key_hash b.data, s)
  | none => pure (none, s)

/-- The function buckets_store_value (bucket.c 106-140). -/
def buckets_store_value (ndebug : Bool) (s : State) (map_hash key_hash : Nat)
    (name : Option String) (name_int : Int) (expires : Int) (value : Nat) :
    Except Fault (Int × State) := do
  let bucket_index : Int := toInt32 (s.mask &&& key_hash : Nat)
  cassert ndebug 114 (decide (bucket_index ≥ 0))
  cassert ndebug 115 (decide (toU64 bucket_index ≤ s.mask))
  let bucket ← bucket_at 116 s bucket_index
  match bucket with
  | some b =>
    cassert ndebug 121 (decide (b.hash = toU64 bucket_index))
    let backup_client ←
      match b.backup_node with
      | some n =>
        match s.nodeHeap[n]? with
        | none => Except.error (Fault.nullDeref 124)
        | some node => do
          cassert ndebug 125 node.client.isSome
          pure node.client
      | none => pure none
    pure (0, data_set_value s map_hash key_hash b.data name name_int value expires backup_client)
  | none =>
    cassert ndebug 137 false
    pure (-1, s)

/-- The function buckets_get_primary (bucket.c 689-708): the slot is dereferenced without a
test for NULL. -/
def buckets_get_primary (ndebug : Bool) (s : State) (key_hash : Nat) :
    Except Fault (Option String) := do
  let bucket_index : Int := toInt32 (s.mask &&& key_hash : Nat)
  cassert ndebug 696 (decide (bucket_index ≥ 0))
  cassert ndebug 697 (decide (toU64 bucket_index ≤ s.mask))
  let bucket ← bucket_at 698 s bucket_index
  match bucket with
  | none => .error (.nullDeref 699)
  | some b =>
    if b.target_node.isSome then
      pure none
    else
      match s.hashmasks with
      | none => .error (.nullDeref 704)
      | some hs =>
        match hs[bucket_index.toNat]? with
        | none => .error (.outOfBounds 704)
        | some none => do
          cassert ndebug 704 false
          .error (.nullDeref 705)
        | some (some h) => do
          cassert ndebug 705 h.primary.isSome
          pure h.primary

/-! ## bucket.c: creating buckets and splitting the mask -/

/-- Modelled from the spec: data_new of the Store (bucket_data.c is not part of the sources):
a fresh, empty store with no parent and one reference, at a new address. -/
def data_new (s : State) : Nat × State :=
  (s.dataHeap.length, { s with dataHeap := s.dataHeap ++ [{ items := [], next := none, ref := 1 }] })

/-- The assertion of bucket.c 148, assert(_buckets[hash] == NULL): it reads the global array. -/
def bucket_new_assert (ndebug : Bool) (s : State) (hash : Nat) : Except Fault Unit :=
  if ndebug then .ok ()
  else
    match s.buckets with
    | none => .error (.nullDeref 148)
    | some bs =>
      match bs[hash]? with
      | none => .error (.outOfBounds 148)
      | some slot => cassert ndebug 148 slot.isNone

/-- The function bucket_new (bucket.c 144-168).  The assertions of lines 154-163 read fields of
the bucket that calloc has just zeroed. -/
def bucket_new (ndebug : Bool) (s : State) (hash : Nat) : Except Fault (Bucket × State) := do
  bucket_new_assert ndebug s hash
  cassert ndebug 160 (decide (s.in_transit = 0))
  let r := data_new s
  pure ({ hash := hash, level := -1, data := some r.1 }, r.2)

/-- The function bucket_close (bucket.c 191-199): a stub that asserts 0. -/
def bucket_close (ndebug : Bool) (_bucket : Bucket) : Except Fault Unit := do
  cassert ndebug 198 false

/-- Reading entry index of the old hashmask list and dereferencing it (bucket.c 263). -/
def oldlist_at (line : Nat) (oldlist : List (Option Hashmask)) (index : Int) :
    Except Fault Hashmask :=
  if index < 0 then .error (.outOfBounds line)
  else
    match oldlist[index.toNat]? with
    | none => .error (.outOfBounds line)
    | some none => .error (.nullDeref line)
    | some (some h) => .ok h

/-- Reading slot index of the old bucket array (bucket.c 269). -/
def oldbuckets_at (line : Nat) (oldbuckets : List (Option Bucket)) (index : Int) :
    Except Fault (Option Bucket) :=
  if index < 0 then .error (.outOfBounds line)
  else
    match oldbuckets[index.toNat]? with
    | none => .error (.outOfBounds line)
    | some slot => .ok slot

/-- Dereferencing a data_t pointer. -/
def data_at (line : Nat) (s : State) (p : Option Nat) : Except Fault (Nat × Data) :=
  match p with
  | none => .error (.nullDeref line)
  | some a =>
    match s.dataHeap[a]? with
    | none => .error (.nullDeref line)
    | some d => .ok (a, d)

/-- The new hashmask entry built at bucket.c 261-266.  The entry comes from malloc, so a field
that is not assigned keeps what the memory held (junk); when the old secondary is absent the
else branch of line 266 assigns primary, not secondary. -/
def split_hashmask_entry (junk : Option String) (old : Hashmask) : Hashmask :=
  let e : Hashmask := { primary := junk, secondary := junk }
  let e := if old.primary.isSome then { e with primary := old.primary }
    else { e with primary := none }
  let e := if old.secondary.isSome then { e with secondary := old.secondary }
    else { e with primary := none }
  e

/-- An assertion that the reference count behind a data_t pointer exceeds a bound
(bucket.c 281, 320): it dereferences the pointer. -/
def assert_ref (ndebug : Bool) (line : Nat) (s : State) (p : Option Nat) (bound : Int) :
    Except Fault Unit :=
  if ndebug then .ok ()
  else
    match data_at line s p with
    | .error e => .error e
    | .ok r => cassert ndebug line (decide (r.2.ref > bound))

/-- Writing a data_t object back through its pointer. -/
def set_data (s : State) (a : Nat) (d : Data) : State :=
  { s with dataHeap := s.dataHeap.set a d }

/-- The new bucket built at bucket.c 273-292 for new index i from the old bucket. -/
def split_bucket (ndebug : Bool) (s : State) (i : Nat) (old : Bucket) :
    Except Fault (Bucket × State) := do
  let r ← bucket_new ndebug s i
  cassert ndebug 278 r.1.data.isSome
  let n ← data_at 279 r.2 r.1.data
  cassert ndebug 279 n.2.next.isNone
  cassert ndebug 280 old.data.isSome
  assert_ref ndebug 281 r.2 old.data 0
  let s2 := set_data r.2 n.1 { n.2 with next := old.data }
  let o ← data_at 283 s2 old.data
  let s3 := set_data s2 o.1 { o.2 with ref := o.2.ref + 1 }
  cassert ndebug 285 (decide (r.1.hash = i))
  cassert ndebug 292 (decide (s3.in_transit = 0))
  pure ({ r.1 with
          level := old.level
          target_node := old.target_node
          backup_node := old.backup_node
          logging_node := old.logging_node }, s3)

/-- The bucket slot built at bucket.c 269-293 for new index i. -/
def split_slot (ndebug : Bool) (oldbuckets : Option (List (Option Bucket))) (s : State)
    (i : Nat) (index : Int) : Except Fault (Option Bucket × State) :=
  match oldbuckets with
  | none => .ok (none, s)
  | some obs =>
    match oldbuckets_at 269 obs index with
    | .error e => .error e
    | .ok none => .ok (none, s)
    | .ok (some ob) =>
      match split_bucket ndebug s i ob with
      | .error e => .error e
      | .ok r => .ok (some r.1, r.2)

/-- One pass of the loop of bucket.c 255-294 for new index i: the new hashmask entry, the new
bucket slot and the state (the store heap) after it. -/
def split_step (ndebug : Bool) (junk : Nat → Option String) (old_mask : Nat)
    (oldlist : List (Option Hashmask)) (oldbuckets : Option (List (Option Bucket)))
    (s : State) (i : Nat) : Except Fault (Hashmask × Option Bucket × State) := do
  let index : Int := toInt32 ((i &&& old_mask : Nat) : Int)
  cassert ndebug 262 (decide (old_mask = 0 ∨ toU64 index < old_mask))
  let old ← oldlist_at 263 oldlist index
  let r ← split_slot ndebug oldbuckets s i index
  pure (split_hashmask_entry (junk i) old, r.1, r.2)

/-- The loop of bucket.c 255-294 from index i on, for the given number of passes; the
counter is an int, whose increment past INT_MAX is an overflow. -/
def split_loop (ndebug : Bool) (junk : Nat → Option String) (old_mask : Nat)
    (oldlist : List (Option Hashmask)) (oldbuckets : Option (List (Option Bucket))) :
    Nat → Nat → List (Option Hashmask) × List (Option Bucket) × State →
    Except Fault (List (Option Hashmask) × List (Option Bucket) × State)
  | 0, _, acc => .ok acc
  | n + 1, i, acc =>
    match split_step ndebug junk old_mask oldlist oldbuckets acc.2.2 i with
    | .error e => .error e
    | .ok r =>
      if (i : Int) + 1 > INT_MAX then .error (.overflow 255)
      else
        split_loop ndebug junk old_mask oldlist oldbuckets n (i + 1)
          (acc.1 ++ [some r.1], acc.2.1 ++ [r.2.1], r.2.2)

/-- One pass of the loop of bucket.c 301-310 that frees the old hashmask list. -/
def split_free_entry (ndebug : Bool) (oldlist : List (Option Hashmask)) (i : Nat) :
    Except Fault Unit :=
  match oldlist[i]? with
  | none => .error (.outOfBounds 302)
  | some none => if ndebug then .error (.nullDeref 303) else .error (.assertion 302)
  | some (some _) => .ok ()

/-- The loop of bucket.c 301-310 that frees the old hashmask list. -/
def split_free_hashmasks (ndebug : Bool) (oldlist : List (Option Hashmask)) :
    Nat → Nat → Except Fault Unit
  | 0, _ => .ok ()
  | n + 1, i =>
    match split_free_entry ndebug oldlist i with
    | .error e => .error e
    | .ok _ =>
      if (i : Int) + 1 > INT_MAX then .error (.overflow 301)
      else split_free_hashmasks ndebug oldlist n (i + 1)

/-- One pass of the loop of bucket.c 317-328 on an old bucket: it gives up its reference to
its store and is handed to bucket_close. -/
def split_close_bucket (ndebug : Bool) (s : State) (ob : Bucket) : Except Fault State := do
  cassert ndebug 319 ob.data.isSome
  assert_ref ndebug 320 s ob.data 1
  let o ← data_at 321 s ob.data
  let s1 := set_data s o.1 { o.2 with ref := o.2.ref - 1 }
  cassert ndebug 322 (decide (o.2.ref - 1 > 0))
  bucket_close ndebug { ob with data := none }
  pure s1

/-- One pass of the loop of bucket.c 317-328 on a slot of the old array. -/
def split_close_slot (ndebug : Bool) (s : State) (slot : Option Bucket) : Except Fault State :=
  match slot with
  | none => .ok s
  | some ob => split_close_bucket ndebug s ob

/-- The loop of bucket.c 317-328 that releases the old buckets. -/
def split_close_buckets (ndebug : Bool) (oldbuckets : List (Option Bucket)) :
    Nat → Nat → State → Except Fault State
  | 0, _, s => .ok s
  | n + 1, i, s =>
    match oldbuckets[i]? with
    | none => .error (.outOfBounds 318)
    | some slot =>
      match split_close_slot ndebug s slot with
      | .error e => .error e
      | .ok s1 =>
        if (i : Int) + 1 > INT_MAX then .error (.overflow 317)
        else split_close_buckets ndebug oldbuckets n (i + 1) s1

/-- The old hashmask list of bucket.c 227-240: the global list, or one dummy entry. -/
def split_oldlist (s : State) : List (Option Hashmask) :=
  match s.hashmasks with
  | none => [some { primary := none, secondary := none }]
  | some l => l

/-- Releasing the old buckets (bucket.c 316-329), when there is an old array. -/
def split_close (ndebug : Bool) (oldbuckets : Option (List (Option Bucket))) (old_mask : Nat)
    (s : State) : Except Fault State :=
  match oldbuckets with
  | none => .ok s
  | some obs => split_close_buckets ndebug obs (old_mask + 1) 0 s

/-- The function buckets_split_mask (bucket.c 211-339).  The argument junk gives, for each new
index, what the memory returned by malloc for its hashmask entry holds. -/
def buckets_split_mask (ndebug : Bool) (junk : Nat → Option String) (s : State) (mask : Nat) :
    Except Fault State := do
  cassert ndebug 222 (decide (mask > s.mask))
  let s0 : State := { s with hashmasks := none, buckets := none }
  let r ← split_loop ndebug junk s.mask (split_oldlist s) s.buckets (mask + 1) 0 ([], [], s0)
  split_free_hashmasks ndebug (split_oldlist s) (s.mask + 1) 0
  let s2 ← split_close ndebug s.buckets s.mask r.2.2
  let s3 : State := { s2 with hashmasks := some r.1, buckets := some r.2.1, mask := mask }
  cassert ndebug 336 (decide (s3.mask > 0))
  cassert ndebug 337 s3.hashmasks.isSome
  cassert ndebug 338 s3.buckets.isSome
  pure s3

/-! ## process.c: the rebalancer -/

/-- Modelled from the spec: the senders of push.c, which is not part of the sources: each sends
one message, recorded in the trace, and leaves the outgoing payload buffer as it found it. -/
def push (s : State) (e : Event) : State :=
  { s with trace := s.trace ++ [e] }

/-- Storing a bucket through a pointer into the bucket table: slot i of _buckets. -/
def set_bucket (s : State) (i : Nat) (b : Bucket) : State :=
  { s with buckets := s.buckets.map fun bs => bs.set i (some b) }

/-- Dereferencing a client_t pointer and reading its node field. -/
def client_node (line : Nat) (s : State) (client : Nat) : Except Fault (Option Nat) :=
  match s.clientHeap[client]? with
  | none => .error (.nullDeref line)
  | some c => .ok c.node

/-- Reading the name of the node of a client, as the logger calls do:
((node_t*)client->node)->name. -/
def client_node_name (line : Nat) (s : State) (client : Nat) : Except Fault String :=
  match client_node line s client with
  | .error e => .error e
  | .ok none => .error (.nullDeref line)
  | .ok (some n) =>
    match s.nodeHeap[n]? with
    | none => .error (.nullDeref line)
    | some node => .ok node.name

/-- The function node_active_count (node.c 322-326). -/
def node_active_count (ndebug : Bool) (s : State) : Except Fault Int := do
  cassert ndebug 324 (decide (s.active_nodes ≥ 0))
  pure s.active_nodes

/-- The function buckets_nobackup_count (bucket.c 342-346). -/
def buckets_nobackup_count (ndebug : Bool) (s : State) : Except Fault Int := do
  cassert ndebug 344 (decide (s.nobackup_buckets ≥ 0))
  pure s.nobackup_buckets

/-- The loops of process.c over the bucket table, for (i=0; i<=_mask && bucket == NULL; i++):
the body is run for index i, i+1, ... until it has found a bucket or the given number of passes
is done.  The counter is an int, whose increment past INT_MAX is an overflow. -/
def scan_buckets (line : Nat) (body : State → Nat → Except Fault (Option Nat × State)) :
    Nat → Nat → State → Except Fault (Option Nat × State)
  | 0, _, s => .ok (none, s)
  | n + 1, i, s =>
    match body s i with
    | .error e => .error e
    | .ok r =>
      if (i : Int) + 1 > INT_MAX then .error (.overflow line)
      else
        match r.1 with
        | some b => .ok (some b, r.2)
        | none => scan_buckets line body n (i + 1) r.2

/-- The promotion started at process.c 62-74 for the bucket b found in slot i. -/
def attempt_switch_start (ndebug : Bool) (client : Nat) (s : State) (i : Nat) (b : Bucket) :
    Except Fault (Option Nat × State) := do
  let _ ← client_node_name 65 s client
  cassert ndebug 67 b.transfer_client.isNone
  let s1 := set_bucket s i { b with transfer_client := some client }
  cassert ndebug 70 (decide (s1.bucket_transfer = 0))
  pure (some i, push { s1 with bucket_transfer := 1 }
    (Event.push_control_bucket client b.hash b.level))

/-- The body of the loop of attempt_switch (process.c 53-77) for index i. -/
def attempt_switch_body (ndebug : Bool) (client : Nat) (s : State) (i : Nat) :
    Except Fault (Option Nat × State) :=
  match bucket_at 53 s i with
  | .error e => .error e
  | .ok none => .ok (none, s)
  | .ok (some b) =>
    if b.level = 0 then
      match client_node 59 s client with
      | .error e => .error e
      | .ok cnode =>
        if b.backup_node = cnode then attempt_switch_start ndebug client s i b
        else .ok (none, s)
    else .ok (none, s)

/-- The function attempt_switch (process.c 44-83): 1 if a switch was started, 0 if not. -/
def attempt_switch (ndebug : Bool) (s : State) (client : Nat) : Except Fault (Int × State) :=
  match scan_buckets 50 (attempt_switch_body ndebug client) (s.mask + 1) 0 s with
  | .error e => .error e
  | .ok r => .ok (if r.1.isSome then 1 else 0, r.2)

/-- The body of the loop of find_nobackup_bucket (process.c 94-106) for index i. -/
def find_nobackup_body (ndebug : Bool) (s : State) (i : Nat) :
    Except Fault (Option Nat × State) :=
  match bucket_at 94 s i with
  | .error e => .error e
  | .ok none => .ok (none, s)
  | .ok (some b) =>
    if b.level = 0 ∧ b.backup_node = none then do
      cassert ndebug 102 (decide (b.hash = i))
      cassert ndebug 103 b.transfer_client.isNone
      pure (some i, s)
    else .ok (none, s)

/-- The function find_nobackup_bucket (process.c 88-110); the bucket is given by its slot. -/
def find_nobackup_bucket (ndebug : Bool) (s : State) : Except Fault (Option Nat) :=
  match scan_buckets 93 (find_nobackup_body ndebug) (s.mask + 1) 0 s with
  | .error e => .error e
  | .ok r => .ok r.1

/-- The test of process.c 139-154 on a bucket b of the level to send: the asserted shape of the
bucket, and whether its other copy lies on another node than the client's. -/
def choose_test (ndebug : Bool) (s : State) (client : Nat) (send_level : Int) (b : Bucket) :
    Except Fault Bool :=
  if send_level = 0 then do
    cassert ndebug 140 b.target_node.isNone
    cassert ndebug 141 b.backup_node.isSome
    let cnode ← client_node 143 s client
    pure (decide (b.backup_node ≠ cnode))
  else do
    cassert ndebug 148 b.target_node.isSome
    cassert ndebug 149 b.backup_node.isNone
    let cnode ← client_node 151 s client
    pure (decide (b.target_node ≠ cnode))

/-- The body of the loop of choose_bucket_for_migrate (process.c 136-156) for index i. -/
def choose_body (ndebug : Bool) (client : Nat) (send_level : Int) (s : State) (i : Nat) :
    Except Fault (Option Nat × State) :=
  match bucket_at 136 s i with
  | .error e => .error e
  | .ok none => .ok (none, s)
  | .ok (some b) =>
    if b.level = send_level then
      match choose_test ndebug s client send_level b with
      | .error e => .error e
      | .ok true => .ok (some i, s)
      | .ok false => .ok (none, s)
    else .ok (none, s)

/-- The level of the bucket that choose_bucket_for_migrate sends (process.c 129-132). -/
def send_level (s : State) : Int :=
  if s.secondary_buckets ≥ s.primary_buckets then 1 else 0

/-- The function choose_bucket_for_migrate (process.c 116-161); the bucket is given by its
slot.  The sum of the two reported counts is an int addition. -/
def choose_bucket_for_migrate (ndebug : Bool) (s : State) (client : Nat)
    (primary backups ideal : Int) : Except Fault (Option Nat) :=
  match iadd 122 primary backups with
  | .error e => .error e
  | .ok sum =>
    if sum < ideal ∧ s.primary_buckets + s.secondary_buckets > ideal then
      match scan_buckets 135 (choose_body ndebug client (send_level s)) (s.mask + 1) 0 s with
      | .error e => .error e
      | .ok r => .ok r.1
    else .ok none

/-- The tail of process_loadlevels (process.c 248-268): start the migration of the bucket
chosen, if any. -/
def start_migration (ndebug : Bool) (s : State) (client : Nat) (bucket : Option Nat) :
    Except Fault State :=
  match bucket with
  | none => .ok s
  | some i =>
    match bucket_at 252 s i with
    | .error e => .error e
    | .ok none => .error (.nullDeref 252)
    | .ok (some b) => do
      cassert ndebug 252 b.transfer_client.isNone
      let s1 := set_bucket s i { b with transfer_client := some client }
      let _ ← client_node_name 258 s1 client
      cassert ndebug 260 (decide (s1.bucket_transfer = 0))
      pure (push { s1 with bucket_transfer := 1 } (Event.push_accept_bucket client b.hash))

/-- The assertion of process.c 184, assert(client->node): it dereferences the client. -/
def assert_client_node (ndebug : Bool) (s : State) (client : Nat) : Except Fault Unit :=
  if ndebug then .ok ()
  else
    match client_node 184 s client with
    | .error e => .error e
    | .ok cnode => cassert ndebug 184 cnode.isSome

/-- Rule 1 of process_loadlevels (process.c 203-212): true when a promotion was started. -/
def loadlevels_switch (ndebug : Bool) (s : State) (client : Nat) (primary backups : Int) :
    Except Fault (Bool × State) :=
  if s.primary_buckets - 1 ≥ s.secondary_buckets + 1 ∧ backups > primary then
    match attempt_switch ndebug s client with
    | .error e => .error e
    | .ok r =>
      if r.1 = 1 then do
        cassert ndebug 207 (decide (r.2.bucket_transfer = 1))
        cassert ndebug 208 (decide (r.2.payload_length = 0))
        pure (true, r.2)
      else do
        cassert ndebug 211 (decide (r.2.bucket_transfer = 0))
        pure (false, r.2)
  else .ok (false, s)

/-- Rule 2 of process_loadlevels (process.c 217-221): a bucket without backup copy, when
there is one to send.  The sum is an int; it is compared with _mask+1 as a hash_t. -/
def loadlevels_nobackup (ndebug : Bool) (s : State) (primary backups : Int) :
    Except Fault (Option Nat) := do
  let nobackup ← buckets_nobackup_count ndebug s
  if nobackup > 0 then do
    let sum ← iadd 218 primary backups
    if toU64 sum < (s.mask + 1) % 18446744073709551616 then do
      let b ← find_nobackup_bucket ndebug s
      cassert ndebug 220 (decide (s.bucket_transfer = 0))
      pure b
    else pure none
  else pure none

/-- The ideal number of buckets of process.c 233: ((_mask+1) * 2) / active, computed as a
hash_t and stored in an int. -/
def ideal_buckets (s : State) (active : Int) : Int :=
  toInt32 (((((s.mask + 1) % 18446744073709551616) * 2) % 18446744073709551616 /
    toU64 active : Nat) : Int)

/-- Rule 3 of process_loadlevels (process.c 223-246), run when rule 2 gave no bucket. -/
def loadlevels_ideal (ndebug : Bool) (k : Consts) (s : State) (client : Nat)
    (primary backups : Int) : Except Fault (Option Nat) := do
  let active ← node_active_count ndebug s
  cassert ndebug 232 (decide (active > 0))
  if toU64 active = 0 then Except.error (Fault.divByZero 233)
  else do
    cassert ndebug 234 (decide (ideal_buckets s active > 0))
    if ideal_buckets s active < k.MIN_BUCKETS then do
      cassert ndebug 241 false
      pure none
    else choose_bucket_for_migrate ndebug s client primary backups (ideal_buckets s active)

/-- The choice of process.c 217-246: rule 2, then rule 3 when rule 2 gave no bucket. -/
def loadlevels_choose (ndebug : Bool) (k : Consts) (s : State) (client : Nat)
    (primary backups : Int) : Except Fault (Option Nat) :=
  match loadlevels_nobackup ndebug s primary backups with
  | .error e => .error e
  | .ok (some i) => .ok (some i)
  | .ok none => loadlevels_ideal ndebug k s client primary backups

/-- The function process_loadlevels (process.c 171-270), on the three ints of the payload. -/
def process_loadlevels (ndebug : Bool) (k : Consts) (s : State) (client : Nat)
    (primary backups transferring : Int) : Except Fault State := do
  assert_client_node ndebug s client
  if s.bucket_transfer = 0 ∧ transferring = 0 then do
    let _ ← client_node_name 198 s client
    let r ← loadlevels_switch ndebug s client primary backups
    if r.1 then pure r.2
    else do
      let bucket ← loadlevels_choose ndebug k r.2 client primary backups
      start_migration ndebug r.2 client bucket
  else pure s

/-! ## bucket.c and process.c: initialisation, migration and shutdown -/

/-- An assertion assert(client->node) of a reply handler: it dereferences the client. -/
def assert_node (ndebug : Bool) (line : Nat) (s : State) (client : Nat) : Except Fault Unit :=
  if ndebug then .ok ()
  else
    match client_node line s client with
    | .error e => .error e
    | .ok cnode => cassert ndebug line cnode.isSome

/-- Emptying slot i of _buckets. -/
def clear_bucket (line : Nat) (s : State) (i : Nat) : Except Fault State :=
  match s.buckets with
  | none => .error (.nullDeref line)
  | some bs =>
    if i < bs.length then .ok { s with buckets := some (bs.set i none) }
    else .error (.outOfBounds line)

/-- Storing a hashmask entry in slot i of _hashmasks. -/
def set_hashmask (s : State) (i : Nat) (h : Hashmask) : State :=
  { s with hashmasks := s.hashmasks.map fun hs => hs.set i (some h) }

/-- One pass of the loop of buckets_init (bucket.c 480-493) for index i: a new bucket, made
Primary and announced, and a hashmask entry with this node's own address as primary. -/
def buckets_init_step (ndebug : Bool) (s : State) (i : Nat) : Except Fault State := do
  let r ← bucket_new ndebug s i
  let s1 := set_bucket r.2 i { r.1 with level := 0 }
  let primary ← iadd 482 s1.primary_buckets 1
  let s2 := push { s1 with primary_buckets := primary } (Event.push_hashmask_update r.1.hash)
  cassert ndebug 491 s2.interface.isSome
  match s2.interface with
  | none => Except.error (Fault.nullDeref 492)
  | some a => pure (set_hashmask s2 i { primary := some a, secondary := none })

/-- The loop of buckets_init (bucket.c 479-494) from index i on. -/
def buckets_init_loop (ndebug : Bool) : Nat → Nat → State → Except Fault State
  | 0, _, s => .ok s
  | n + 1, i, s =>
    match buckets_init_step ndebug s i with
    | .error e => .error e
    | .ok s1 =>
      if (i : Int) + 1 > INT_MAX then .error (.overflow 479)
      else buckets_init_loop ndebug n (i + 1) s1

/-- The function buckets_init (bucket.c 462-501). -/
def buckets_init (ndebug : Bool) (s : State) : Except Fault State := do
  cassert ndebug 466 (decide (s.mask > 0))
  let s1 : State := { s with buckets := some (List.replicate (s.mask + 1) none) }
  cassert ndebug 471 (decide (s1.primary_buckets = 0))
  cassert ndebug 472 (decide (s1.secondary_buckets = 0))
  cassert ndebug 474 s1.hashmasks.isNone
  let s2 : State := { s1 with hashmasks := some (List.replicate (s.mask + 1) none) }
  let s3 ← buckets_init_loop ndebug (s.mask + 1) 0 s2
  pure { s3 with nobackup_buckets := toInt32 (((s.mask + 1) % 18446744073709551616 : Nat) : Int) }

/-- The function hashmask_switch (bucket.c 668-681): exchange primary and secondary. -/
def hashmask_switch (ndebug : Bool) (s : State) (hash : Nat) : Except Fault State := do
  cassert ndebug 672 s.hashmasks.isSome
  cassert ndebug 673 (decide (hash ≤ s.mask))
  match s.hashmasks with
  | none => Except.error (Fault.nullDeref 678)
  | some hs =>
    match hs[hash]? with
    | none => Except.error (Fault.outOfBounds (if ndebug then 678 else 674))
    | some none => do
      cassert ndebug 674 false
      Except.error (Fault.nullDeref 678)
    | some (some h) => do
      cassert ndebug 675 h.primary.isSome
      cassert ndebug 676 h.secondary.isSome
      pure (set_hashmask s hash { primary := h.secondary, secondary := h.primary })

/-- Modelled from the spec: data_destroy and data_free of the Store (bucket_data.c is not part
of the sources): the contents of the store are deleted and the reference to it is given up;
both calls are recorded in the trace. -/
def data_destroy_free (s : State) (a : Nat) (hash : Nat) : State :=
  let heap :=
    match s.dataHeap[a]? with
    | none => s.dataHeap
    | some d => s.dataHeap.set a { d with items := [], ref := d.ref - 1 }
  { s with dataHeap := heap, trace := s.trace ++ [Event.data_destroy a hash, Event.data_free a] }

/-- The function bucket_destroy_contents (bucket.c 174-188) on a bucket: the bucket without its
store, and the state after the store is destroyed. -/
def bucket_destroy_contents (ndebug : Bool) (s : State) (b : Bucket) :
    Except Fault (Bucket × State) := do
  cassert ndebug 179 b.transfer_client.isNone
  match b.data with
  | none => pure (b, s)
  | some a => pure ({ b with data := none }, data_destroy_free s a b.hash)

/-- The function bucket_free (bucket.c 350-365): the assertions on the bucket being freed. -/
def bucket_free (ndebug : Bool) (b : Bucket) : Except Fault Unit := do
  cassert ndebug 353 (decide (b.level < 0))
  cassert ndebug 354 b.data.isNone
  cassert ndebug 355 b.target_node.isNone
  cassert ndebug 356 b.backup_node.isNone
  cassert ndebug 357 b.logging_node.isNone
  cassert ndebug 358 b.transfer_client.isNone
  cassert ndebug 359 (decide (b.transfer_mode_special = 0))
  cassert ndebug 360 (!b.shutdown_event)
  cassert ndebug 361 (!b.transfer_event)
  cassert ndebug 362 (!b.oldbucket_event)

/-- The promotion of bucket.c 396-403: tell the backup node that it is now the primary. -/
def shutdown_promote (ndebug : Bool) (s : State) (b : Bucket) (n : Nat) :
    Except Fault (Bucket × State) :=
  match s.nodeHeap[n]? with
  | none => .error (.nullDeref 397)
  | some node => do
    cassert ndebug 397 node.client.isSome
    match node.client with
    | none => Except.error (Fault.nullDeref 398)
    | some c => do
      let s1 := push s (Event.push_promote c b.hash)
      cassert ndebug 400 (decide (b.promoting = Promoting.NOT_PROMOTING))
      pure ({ b with promoting := Promoting.PROMOTING }, s1)

/-- The decision of bucket_shutdown_handler (bucket.c 381-417): the value of done, the bucket
and the state after it. -/
def shutdown_decide (ndebug : Bool) (s : State) (b : Bucket) :
    Except Fault (Int × Bucket × State) :=
  if b.level > 0 then .ok (1, b, s)
  else do
    cassert ndebug 385 (decide (b.level = 0))
    if s.node_count = 0 then pure (1, b, s)
    else do
      cassert ndebug 392 (decide (s.node_count > 0))
      match b.backup_node with
      | some n => do
        let r ← shutdown_promote ndebug s b n
        pure (1, r.1, r.2)
      | none => do
        cassert ndebug 408 false
        pure (0, b, s)

/-- A call of libevent on the timer of a bucket (event_free, evtimer_add): it dereferences the
event. -/
def shutdown_event_deref (line : Nat) (b : Bucket) : Except Fault Unit :=
  if b.shutdown_event then .ok () else .error (.nullDeref line)

/-- The end of bucket_shutdown_handler when done > 0 (bucket.c 419-435): the contents are
destroyed, the clients told, the timer freed, the slot emptied and the bucket freed. -/
def shutdown_finish (ndebug : Bool) (s : State) (i : Nat) (b : Bucket) :
    Except Fault State := do
  cassert ndebug 422 b.transfer_client.isNone
  let r ← bucket_destroy_contents ndebug s b
  let s1 := push r.2 (Event.push_hashmask_update b.hash)
  cassert ndebug 426 r.1.shutdown_event
  shutdown_event_deref 427 r.1
  let s2 := push s1 (Event.event_free_shutdown b.hash)
  let b2 : Bucket := { r.1 with shutdown_event := false }
  cassert ndebug 430 (decide (b2.hash = i))
  let s3 ← clear_bucket 431 s2 b2.hash
  bucket_free ndebug b2
  pure s3

/-- The function bucket_shutdown_handler (bucket.c 369-441), fired for the bucket of slot i. -/
def bucket_shutdown_handler (ndebug : Bool) (s : State) (i : Nat) : Except Fault State :=
  match bucket_at 371 s i with
  | .error e => .error e
  | .ok none => if ndebug then .error (.nullDeref 381) else .error (.assertion 376)
  | .ok (some b) => do
    cassert ndebug 377 b.shutdown_event
    let d ← shutdown_decide ndebug s b
    if d.1 > 0 then shutdown_finish ndebug d.2.2 i d.2.1
    else do
      cassert ndebug 438 d.2.1.shutdown_event
      shutdown_event_deref 439 d.2.1
      pure (push (set_bucket d.2.2 i d.2.1) (Event.evtimer_add_shutdown d.2.1.hash))

/-- The function bucket_shutdown (bucket.c 446-458) for the bucket of slot i: the shutdown
timer is created and armed unless the bucket has one. -/
def bucket_shutdown (ndebug : Bool) (s : State) (i : Nat) : Except Fault State :=
  match bucket_at 450 s i with
  | .error e => .error e
  | .ok none => if ndebug then .error (.nullDeref 450) else .error (.assertion 448)
  | .ok (some b) =>
    if b.shutdown_event then .ok s
    else .ok (push (set_bucket s i { b with shutdown_event := true })
      (Event.evtimer_add_shutdown b.hash))

/-- The function finalize_migration (process.c 279-323). -/
def finalize_migration (ndebug : Bool) (s : State) (client : Option Nat) (b : Bucket) :
    Except Fault State := do
  cassert ndebug 281 client.isSome
  if b.level = 0 then
    match b.backup_node with
    | none =>
      match client with
      | none => Except.error (Fault.nullDeref 289)
      | some c => pure (push s (Event.push_finalise_migration c b.hash 1))
    | some _ => do
      cassert ndebug 295 false
      cassert ndebug 299 false
      pure s
  else if b.level = 1 then do
    cassert ndebug 306 b.target_node.isSome
    cassert ndebug 309 false
    cassert ndebug 312 false
    pure s
  else do
    cassert ndebug 316 false
    pure s

/-- Modelled from the spec: data_migrate_items of the Store (bucket_data.c is not part of the
sources): it sends up to avail items of the bucket to the client and returns how many it sent;
each item sent counts as in transit.  The number it returns is the argument items. -/
def data_migrate_items (s : State) (items : Int) (client : Option Nat) (data : Option Nat)
    (hash : Nat) (avail : Int) : State :=
  { s with
    in_transit := s.in_transit + (if items > 0 then items else 0)
    trace := s.trace ++ [Event.data_migrate_items client data hash avail] }

/-- The function send_transfer_items (process.c 328-355) for the bucket b; items is what
data_migrate_items returns. -/
def send_transfer_items (ndebug : Bool) (k : Consts) (items : Int) (s : State) (b : Bucket) :
    Except Fault State := do
  cassert ndebug 334 (decide (s.in_transit ≥ 0))
  cassert ndebug 335 (decide (s.in_transit ≤ k.TRANSIT_MIN))
  cassert ndebug 336 b.transfer_client.isSome
  cassert ndebug 337 (decide (k.TRANSIT_MAX ≥ k.TRANSIT_MIN))
  cassert ndebug 338 (decide (k.TRANSIT_MIN ≥ 0))
  let avail ← isub 340 k.TRANSIT_MAX s.in_transit
  cassert ndebug 345 b.data.isSome
  cassert ndebug 346 (decide (avail > 0))
  let s1 := data_migrate_items s items b.transfer_client b.data b.hash avail
  if items ≤ 0 then do
    cassert ndebug 351 b.transfer_client.isSome
    cassert ndebug 352 (decide (s1.in_transit = 0))
    finalize_migration ndebug s1 b.transfer_client b
  else pure s1

/-- A bucket pointer read from the table and handed to send_transfer_items. -/
def send_transfer_items_slot (ndebug : Bool) (k : Consts) (items : Int) (s : State)
    (slot : Option Bucket) : Except Fault State :=
  match slot with
  | none => if ndebug then .error (.nullDeref 347) else .error (.assertion 333)
  | some b => send_transfer_items ndebug k items s b

/-- The function process_accept_bucket (process.c 364-400), on the mask and hash of the
payload; items is what data_migrate_items returns.  The increment of line 391 is taken as the
machine computes it, modulo 2^32; lines 390 and 392 are the checks of the source around it. -/
def process_accept_bucket (ndebug : Bool) (k : Consts) (items : Int) (s : State)
    (client mask hash : Nat) : Except Fault State := do
  assert_node ndebug 372 s client
  cassert ndebug 383 s.buckets.isSome
  cassert ndebug 384 (decide (mask = s.mask))
  let slot ← bucket_at 385 s hash
  cassert ndebug 386 slot.isSome
  cassert ndebug 390 (decide (s.migrate_sync ≥ 0))
  let sync : Int := toInt32 (s.migrate_sync + 1)
  cassert ndebug 392 (decide (sync > 0))
  let s1 : State := { s with migrate_sync := sync }
  cassert ndebug 396 (decide (s1.in_transit = 0))
  send_transfer_items_slot ndebug k items s1 slot

/-- The assertions of process.c 594 and 636-637 that the client is the one of the backup node of
the bucket: bucket->backup_node (line l1) and bucket->backup_node->client == client (line l2). -/
def assert_backup_client (ndebug : Bool) (l1 l2 : Nat) (s : State) (b : Bucket) (client : Nat) :
    Except Fault Unit :=
  if ndebug then .ok ()
  else
    match b.backup_node with
    | none => .error (.assertion l1)
    | some n =>
      match s.nodeHeap[n]? with
      | none => .error (.nullDeref l2)
      | some node => cassert ndebug l2 (decide (node.client = some client))

/-- The function process_sync_name_ack (process.c 571-597), on the hash of the payload. -/
def process_sync_name_ack (ndebug : Bool) (s : State) (client hash : Nat) :
    Except Fault State := do
  assert_node ndebug 579 s client
  let index : Int := toInt32 ((hash &&& s.mask : Nat) : Int)
  cassert ndebug 588 s.buckets.isSome
  cassert ndebug 589 (decide (index ≥ 0 ∧ toU64 index ≤ s.mask))
  let slot ← bucket_at 590 s index
  cassert ndebug 591 slot.isSome
  match slot with
  | none => pure s
  | some b =>
    if b.transfer_client = some client then pure s
    else do
      assert_backup_client ndebug 594 594 s b client
      pure s

/-- Modelled from the spec: data_migrated and data_in_transit_dec of the Store (bucket_data.c is
not part of the sources): the item is marked as migrated, which is recorded in the trace, and
the count of items in transit goes down by one. -/
def data_migrated_dec (s : State) (data : Option Nat) (map_hash key_hash : Nat) : State :=
  { s with
    in_transit := s.in_transit - 1
    trace := s.trace ++ [Event.data_migrated data map_hash key_hash] }

/-- The function process_sync_ack (process.c 601-641), on the map and hash of the payload;
items is what data_migrate_items returns. -/
def process_sync_ack (ndebug : Bool) (k : Consts) (items : Int) (s : State)
    (client map_hash hash : Nat) : Except Fault State := do
  assert_node ndebug 610 s client
  let index : Int := toInt32 ((hash &&& s.mask : Nat) : Int)
  cassert ndebug 621 s.buckets.isSome
  cassert ndebug 622 (decide (index ≥ 0 ∧ toU64 index ≤ s.mask))
  let slot ← bucket_at 623 s index
  cassert ndebug 624 slot.isSome
  match slot with
  | none => Except.error (Fault.nullDeref 626)
  | some b =>
    if some client = b.transfer_client then
      send_transfer_items ndebug k items (data_migrated_dec s b.data map_hash hash) b
    else do
      assert_backup_client ndebug 636 637 s b client
      pure s

/-- The exchange of roles of process.c 439-465: a Primary becomes the Secondary of its backup
node and a Secondary the Primary backed by its source node; the counters follow. -/
def switch_roles (ndebug : Bool) (s : State) (b : Bucket) : Except Fault (Bucket × State) :=
  if b.level = 0 then do
    let primary ← isub 441 s.primary_buckets 1
    let secondary ← iadd 442 s.secondary_buckets 1
    let s1 : State := { s with primary_buckets := primary, secondary_buckets := secondary }
    cassert ndebug 444 b.backup_node.isSome
    cassert ndebug 445 b.target_node.isNone
    cassert ndebug 449 (decide (s1.primary_buckets ≥ 0))
    cassert ndebug 450 (decide (s1.secondary_buckets > 0))
    pure ({ b with level := 1, target_node := b.backup_node, backup_node := none }, s1)
  else do
    cassert ndebug 453 (decide (b.level = 1))
    let primary ← iadd 455 s.primary_buckets 1
    let secondary ← isub 456 s.secondary_buckets 1
    let s1 : State := { s with primary_buckets := primary, secondary_buckets := secondary }
    cassert ndebug 458 b.backup_node.isNone
    cassert ndebug 459 b.target_node.isSome
    cassert ndebug 463 (decide (s1.primary_buckets > 0))
    cassert ndebug 464 (decide (s1.secondary_buckets ≥ 0))
    pure ({ b with level := 0, backup_node := b.target_node, target_node := none }, s1)

/-- The function process_control_bucket_complete (process.c 405-478), on the mask and hash of
the payload. -/
def process_control_bucket_complete (ndebug : Bool) (s : State) (client mask hash : Nat) :
    Except Fault State := do
  assert_node ndebug 413 s client
  cassert ndebug 422 s.buckets.isSome
  cassert ndebug 423 (decide (mask = s.mask))
  cassert ndebug 424 (decide (hash ≤ mask))
  let slot ← bucket_at 425 s hash
  cassert ndebug 426 slot.isSome
  match slot with
  | none => Except.error (Fault.nullDeref 430)
  | some b => do
    cassert ndebug 427 (decide (b.hash = hash))
    cassert ndebug 429 (decide (b.transfer_client = some client))
    let r ← switch_roles ndebug s { b with transfer_client := none }
    let s1 := set_bucket r.2 hash r.1
    let s2 ← hashmask_switch ndebug s1 hash
    let s3 := push s2 (Event.push_hashmask_update r.1.hash)
    cassert ndebug 473 (decide (s3.bucket_transfer = 1))
    pure (push { s3 with bucket_transfer := 0 } (Event.push_loadlevels client))

/-- The end of a migration of process.c 518-536 for the bucket b: a Primary without backup
keeps its contents and takes the client's node as backup; any other bucket gives up its
contents, and the counter of its level goes down. -/
def migration_done (ndebug : Bool) (s : State) (client : Nat) (b : Bucket) :
    Except Fault (Bucket × State) :=
  if b.level = 0 ∧ b.backup_node = none then do
    assert_node ndebug 519 s client
    let cnode ← client_node 520 s client
    cassert ndebug 521 (decide (s.nobackup_buckets > 0))
    let nobackup ← isub 522 s.nobackup_buckets 1
    let s1 : State := { s with nobackup_buckets := nobackup }
    cassert ndebug 523 (decide (s1.nobackup_buckets ≥ 0))
    pure ({ b with backup_node := cnode }, s1)
  else if b.level = 0 then do
    let primary ← isub 527 s.primary_buckets 1
    bucket_destroy_contents ndebug { s with primary_buckets := primary } b
  else do
    cassert ndebug 530 (decide (b.level = 1))
    let secondary ← isub 531 s.secondary_buckets 1
    bucket_destroy_contents ndebug { s with secondary_buckets := secondary } b

/-- The function process_migration_ack (process.c 486-543), on the mask and hash of the
payload.  The bucket stays in its slot: line 535 clears the local pointer only. -/
def process_migration_ack (ndebug : Bool) (s : State) (client mask hash : Nat) :
    Except Fault State := do
  assert_node ndebug 494 s client
  cassert ndebug 502 s.buckets.isSome
  cassert ndebug 503 (decide (mask = s.mask))
  cassert ndebug 504 (decide (hash ≤ mask))
  let slot ← bucket_at 505 s hash
  cassert ndebug 506 slot.isSome
  match slot with
  | none => Except.error (Fault.nullDeref 509)
  | some b => do
    cassert ndebug 508 (decide (b.transfer_client = some client))
    let r ← migration_done ndebug s client { b with transfer_client := none }
    let s1 := set_bucket r.2 hash r.1
    cassert ndebug 538 (decide (s1.bucket_transfer = 1))
    pure (push { s1 with bucket_transfer := 0 } (Event.push_loadlevels client))

/-! ## bucket.c: name bindings -/

/-- Modelled from the spec: data_set_name_str of the Store (bucket_data.c is not part of the
sources): one name binding for the key, recorded in the trace. -/
def data_set_name_str (s : State) (key_hash : Nat) (data : Option Nat) (name : String) : State :=
  push s (Event.data_set_name_str key_hash data name)

/-- Modelled from the spec: data_set_name_int of the Store (bucket_data.c is not part of the
sources): one integer name binding for the key, recorded in the trace. -/
def data_set_name_int (s : State) (key_hash : Nat) (data : Option Nat) (int_key : Int) : State :=
  push s (Event.data_set_name_int key_hash data int_key)

/-- Reading slot i of the array _buckets with an index of type hash_t. -/
def bucket_at_hash (line : Nat) (s : State) (i : Nat) : Except Fault (Option Bucket) :=
  match s.buckets with
  | none => .error (.nullDeref line)
  | some bs =>
    match bs[i]? with
    | none => .error (.outOfBounds line)
    | some slot => .ok slot

/-- The function buckets_store_name_str (bucket.c 507-532); the index is a hash_t and the name a
pointer that may be NULL. -/
def buckets_store_name_str (ndebug : Bool) (s : State) (key_hash : Nat)
    (name : Option String) : Except Fault (Int × State) := do
  cassert ndebug 512 name.isSome
  let bucket_index : Nat := s.mask &&& key_hash
  cassert ndebug 516 (decide (bucket_index ≤ s.mask))
  let bucket ← bucket_at_hash 517 s bucket_index
  match bucket with
  | some b => do
    cassert ndebug 521 (decide (b.hash = bucket_index))
    cassert ndebug 524 b.data.isSome
    match name with
    | none => Except.error (Fault.nullDeref 525)
    | some nm => pure (0, data_set_name_str s key_hash b.data nm)
  | none => pure (-1, s)

/-- The function buckets_store_name_int (bucket.c 537-560); the index is a hash_t. -/
def buckets_store_name_int (ndebug : Bool) (s : State) (key_hash : Nat) (int_key : Int) :
    Except Fault (Int × State) := do
  let bucket_index : Nat := s.mask &&& key_hash
  cassert ndebug 544 (decide (bucket_index ≤ s.mask))
  let bucket ← bucket_at_hash 545 s bucket_index
  match bucket with
  | some b => do
    cassert ndebug 549 (decide (b.hash = bucket_index))
    cassert ndebug 552 b.data.isSome
    pure (0, data_set_name_int s key_hash b.data int_key)
  | none => pure (-1, s)

/-! ## node.c: connection handling -/

/-- The flag EV_TIMEOUT of libevent (event2/event.h). -/
def EV_TIMEOUT : Nat := 1

/-- The error number ECONNREFUSED (errno.h, Linux). -/
def ECONNREFUSED : Int := 111

/-- Storing a node through a pointer: cell n of the node heap. -/
def set_node (s : State) (n : Nat) (node : Node) : State :=
  { s with nodeHeap := s.nodeHeap.set n node }

/-- The function node_detach_client (node.c 56-69) for the node at address n. -/
def node_detach_client (ndebug : Bool) (s : State) (n : Nat) : Except Fault State :=
  match s.nodeHeap[n]? with
  | none => .error (.nullDeref 60)
  | some node => do
    let s1 := if node.loadlevel_event then push s (Event.event_free_loadlevel n) else s
    let s2 := set_node s1 n { node with loadlevel_event := false, client := none }
    let active ← isub 66 s2.active_nodes 1
    cassert ndebug 67 (decide (active ≥ 0))
    pure { s2 with active_nodes := active }

/-- The function node_retry (node.c 210-221) for the node at address n; evbase says whether the
global _evbase is set. -/
def node_retry (ndebug : Bool) (evbase : Bool) (s : State) (n : Nat) : Except Fault State :=
  match s.nodeHeap[n]? with
  | none => if ndebug then .error (.nullDeref 215) else .error (.assertion 212)
  | some node => do
    cassert ndebug 213 evbase
    cassert ndebug 217 (!node.connect_event)
    cassert ndebug 218 (!node.wait_event)
    pure (push (set_node s n { node with client := none, wait_event := true })
      (Event.evtimer_add_wait n))

/-- Modelled from the spec: client_new and client_attach_node of client.c, which is not part of
the sources: a new client object that belongs to the node; the call is recorded in the trace. -/
def client_attach_node (s : State) (n : Nat) (fd : Int) : Nat × State :=
  (s.clientHeap.length,
    { s with
      clientHeap := s.clientHeap ++ [{ node := some n }]
      trace := s.trace ++ [Event.client_attach_node s.clientHeap.length n fd] })

/-- The branch of node_connect_handler for a connection that was refused (node.c 99-109). -/
def node_connect_refused (ndebug : Bool) (evbase : Bool) (s : State) (fd : Int) (n : Nat)
    (node : Node) : Except Fault State := do
  let s1 := push s (Event.close fd)
  cassert ndebug 105 (!node.connect_event)
  cassert ndebug 106 (!node.wait_event)
  cassert ndebug 107 evbase
  pure (push (set_node s1 n { node with wait_event := true }) (Event.evtimer_add_wait n))

/-- The branch of node_connect_handler for a connection that was made (node.c 112-132). -/
def node_connect_made (ndebug : Bool) (evbase : Bool) (s : State) (fd : Int) (n : Nat)
    (node : Node) : Except Fault State := do
  cassert ndebug 117 (!node.connect_event)
  cassert ndebug 118 (!node.wait_event)
  let r := client_attach_node s n fd
  cassert ndebug 125 (!node.loadlevel_event)
  cassert ndebug 126 evbase
  let s1 := set_node r.2 n { node with client := some r.1, loadlevel_event := true }
  pure (push (push s1 (Event.evtimer_add_loadlevel n)) (Event.push_serverhello r.1))

/-- The function node_connect_handler (node.c 72-133) for the node at address n; error is what
getsockopt reports for the socket. -/
def node_connect_handler (ndebug : Bool) (evbase : Bool) (s : State) (fd : Int) (flags : Nat)
    (n : Nat) (error : Int) : Except Fault State :=
  match s.nodeHeap[n]? with
  | none => if ndebug then .error (.nullDeref 83) else .error (.assertion 77)
  | some node => do
    cassert ndebug 77 (decide (fd ≥ 0 ∧ flags ≠ 0))
    if flags &&& EV_TIMEOUT ≠ 0 then do
      cassert ndebug 84 false
      pure s
    else do
      cassert ndebug 89 node.connect_event
      if node.connect_event then
        let node1 := { node with connect_event := false }
        let s1 := push (set_node s n node1) (Event.event_free_connect n)
        if error = ECONNREFUSED then node_connect_refused ndebug evbase s1 fd n node1
        else node_connect_made ndebug evbase s1 fd n node1
      else Except.error (Fault.nullDeref 90)

/-! ## node.c: shutdown of a node -/

/-- The function node_free (node.c 349-364) for the node at address n: the assertions on the
node being freed, and the release of its memory. -/
def node_free (ndebug : Bool) (s : State) (n : Nat) (node : Node) : Except Fault State := do
  cassert ndebug 354 node.client.isNone
  cassert ndebug 355 (!node.connect_event)
  cassert ndebug 356 (!node.loadlevel_event)
  cassert ndebug 357 (!node.wait_event)
  cassert ndebug 358 (!node.shutdown_event)
  pure (push s (Event.free_node n))

/-- The loop of node.c 397-402 from index i on: the first slot of _nodes that points to the
node is set to NULL. -/
def nodes_remove (s : State) (n : Nat) : Nat → Nat → Except Fault State
  | 0, _ => .ok s
  | fuel + 1, i =>
    match s.nodes with
    | none => .error (.nullDeref 398)
    | some ns =>
      match ns[i]? with
      | none => .error (.outOfBounds 398)
      | some slot =>
        if slot = some n then .ok { s with nodes := some (ns.set i none) }
        else if (i : Int) + 1 > INT_MAX then .error (.overflow 397)
        else nodes_remove s n fuel (i + 1)

/-- The function node_shutdown_handler (node.c 371-407), fired on descriptor fd for the node at
address n. -/
def node_shutdown_handler (ndebug : Bool) (s : State) (fd : Int) (n : Nat) :
    Except Fault State :=
  match s.nodeHeap[n]? with
  | none => if ndebug then .error (.nullDeref 380) else .error (.assertion 376)
  | some node => do
    cassert ndebug 376 (decide (fd = -1))
    if node.connect_event then do
      cassert ndebug 381 node.shutdown_event
      if node.shutdown_event then pure (push s (Event.evtimer_add_node_shutdown n))
      else Except.error (Fault.nullDeref 382)
    else do
      cassert ndebug 388 (!node.wait_event)
      if node.client.isSome then pure s
      else do
        let s1 ← nodes_remove s n s.node_count.toNat 0
        node_free ndebug s1 n node

/-- The function node_shutdown (node.c 411-422) for the node at address n; evbase says whether
the global _evbase is set. -/
def node_shutdown (ndebug : Bool) (evbase : Bool) (s : State) (n : Nat) : Except Fault State :=
  match s.nodeHeap[n]? with
  | none => if ndebug then .error (.nullDeref 415) else .error (.assertion 413)
  | some node =>
    if node.shutdown_event then .ok s
    else do
      cassert ndebug 417 evbase
      pure (push (set_node s n { node with shutdown_event := true })
        (Event.evtimer_add_node_shutdown n))

/-! ## Predicates used in the statements -/

/-- Every object of the first heap is still there in the second, with the same contents and the
same parent. -/
def HeapExt (h h' : List Data) : Prop :=
  h.length ≤ h'.length ∧
    ∀ (a : Nat) (d : Data), h[a]? = some d →
      ∃ d' : Data, h'[a]? = some d' ∧ d'.items = d.items ∧ d'.next = d.next

/-- What the split builds for new index x, whose old index is x & old_mask: the hashmask entry
made from the old entry, and a bucket slot that is empty when the old slot is, and otherwise a
bucket with index x, the role and peers of the old bucket, and a fresh empty store whose parent
is the old bucket's store (read in the given heap), at an address not below base. -/
def SplitSlot (ndebug : Bool) (junk : Nat → Option String) (old_mask : Nat)
    (oldlist : List (Option Hashmask)) (oldbuckets : Option (List (Option Bucket)))
    (base x : Nat) (entry : Hashmask) (slot : Option Bucket) (heap : List Data) : Prop :=
  (∃ old, oldlist[x &&& old_mask]? = some (some old) ∧
      entry = split_hashmask_entry (junk x) old) ∧
    (ndebug = false → old_mask = 0 ∨ x &&& old_mask < old_mask) ∧
    ((slot = none ∧
        (oldbuckets = none ∨ ∃ obs, oldbuckets = some obs ∧ obs[x &&& old_mask]? = some none)) ∨
      ∃ (obs : List (Option Bucket)) (ob : Bucket) (a : Nat) (d : Data),
        oldbuckets = some obs ∧ obs[x &&& old_mask]? = some (some ob) ∧
        slot = some { hash := x, level := ob.level, target_node := ob.target_node,
                      backup_node := ob.backup_node, logging_node := ob.logging_node,
                      data := some a } ∧
        base ≤ a ∧ heap[a]? = some d ∧ d.items = [] ∧ d.next = ob.data ∧ ndebug = true)

/-- A state on which the split can run: the old hashmask list has one entry per old index and
none of them is NULL; the old bucket array, when there is one, has one slot per old index and
every bucket in it points to a store of the heap. -/
def SplitPre (s : State) : Prop :=
  (∀ i, i ≤ s.mask → ∃ h : Hashmask, (split_oldlist s)[i]? = some (some h)) ∧
    ∀ obs, s.buckets = some obs →
      obs.length = s.mask + 1 ∧
      ∀ (i : Nat) (b : Bucket), obs[i]? = some (some b) →
        ∃ a, b.data = some a ∧ a < s.dataHeap.length

/-- The state after the bucket b of slot i has been marked as transferring to a client, the
flag _bucket_transfer set and one message sent. -/
def marked (s : State) (i : Nat) (b : Bucket) (client : Nat) (e : Event) : State :=
  push { (set_bucket s i { b with transfer_client := some client }) with bucket_transfer := 1 } e

/-- The number of slots of the bucket table that satisfy a test on the replica they hold. -/
def count_buckets (s : State) (p : Bucket → Bool) : Nat :=
  match s.buckets with
  | none => 0
  | some bs => bs.countP fun slot =>
    match slot with
    | none => false
    | some b => p b

/-- The number of Primary replicas in the bucket table. -/
def count_primary (s : State) : Nat :=
  count_buckets s fun b => decide (b.level = 0)

/-- The number of Secondary replicas in the bucket table. -/
def count_secondary (s : State) : Nat :=
  count_buckets s fun b => decide (b.level = 1)

/-- The number of populated slots of the bucket table. -/
def count_hosted (s : State) : Nat :=
  count_buckets s fun _ => true

/-- The number of Primary replicas without backup peer in the bucket table. -/
def count_nobackup (s : State) : Nat :=
  count_buckets s fun b => decide (b.level = 0) && b.backup_node.isNone

/-- The number of replicas in the bucket table that are marked as being transferred. -/
def count_transfer (s : State) : Nat :=
  count_buckets s fun b => b.transfer_client.isSome

/-- The counters of a state next to the populations they stand for: primary_count and the
number of Primary replicas, secondary_count and the number of Secondary replicas, unbacked_count
and the number of Primary replicas without backup, and the number of populated slots. -/
def census (s : State) : (Int × Nat) × (Int × Nat) × (Int × Nat) × Nat :=
  ((s.primary_buckets, count_primary s), (s.secondary_buckets, count_secondary s),
    (s.nobackup_buckets, count_nobackup s), count_hosted s)

/-- The state of the loop of buckets_init before index i is handled, for a table of L slots, on
a node whose address is addr and whose data heap had base cells before: the slots below i hold
a new Primary replica each, with no peer, no marker and a store of its own, the slots from i on
are empty, the hashmask entries below i hold addr as primary and no secondary, and
primary_count is i. -/
def InitInv (addr : String) (L base : Nat) (i : Nat) (s : State) : Prop :=
  ∃ (bs : List (Option Bucket)) (hs : List (Option Hashmask)),
    s.buckets = some bs ∧ bs.length = L ∧
    (∀ j, j < i → bs[j]? = some (some { hash := j, level := 0, data := some (base + j) })) ∧
    (∀ j, i ≤ j → j < L → bs[j]? = some none) ∧
    s.hashmasks = some hs ∧ hs.length = L ∧
    (∀ j, j < i → hs[j]? = some (some { primary := some addr, secondary := none })) ∧
    s.primary_buckets = (i : Int) ∧ s.in_transit = 0 ∧ s.interface = some addr ∧
    s.dataHeap.length = base + i

/-- One call that returns of an operation of the bucket table, the rebalancer or the migration
engine other than process_accept_bucket, from the state before to the state after. -/
inductive OtherOp : State → State → Prop
  | init (ndebug : Bool) (s s' : State) :
      buckets_init ndebug s = .ok s' → OtherOp s s'
  | get_value (ndebug : Bool) (s : State) (map_hash key_hash : Nat) (r : Option Nat × State) :
      buckets_get_value ndebug s map_hash key_hash = .ok r → OtherOp s r.2
  | store_value (ndebug : Bool) (s : State) (map_hash key_hash : Nat) (name : Option String)
      (name_int expires : Int) (value : Nat) (r : Int × State) :
      buckets_store_value ndebug s map_hash key_hash name name_int expires value = .ok r →
      OtherOp s r.2
  | store_name_str (ndebug : Bool) (s : State) (key_hash : Nat) (name : Option String)
      (r : Int × State) :
      buckets_store_name_str ndebug s key_hash name = .ok r → OtherOp s r.2
  | store_name_int (ndebug : Bool) (s : State) (key_hash : Nat) (int_key : Int)
      (r : Int × State) :
      buckets_store_name_int ndebug s key_hash int_key = .ok r → OtherOp s r.2
  | split_mask (ndebug : Bool) (junk : Nat → Option String) (s s' : State) (mask : Nat) :
      buckets_split_mask ndebug junk s mask = .ok s' → OtherOp s s'
  | switch (ndebug : Bool) (s s' : State) (hash : Nat) :
      hashmask_switch ndebug s hash = .ok s' → OtherOp s s'
  | shutdown (ndebug : Bool) (s s' : State) (i : Nat) :
      bucket_shutdown ndebug s i = .ok s' → OtherOp s s'
  | shutdown_handler (ndebug : Bool) (s s' : State) (i : Nat) :
      bucket_shutdown_handler ndebug s i = .ok s' → OtherOp s s'
  | loadlevels (ndebug : Bool) (k : Consts) (s s' : State) (client : Nat)
      (primary backups transferring : Int) :
      process_loadlevels ndebug k s client primary backups transferring = .ok s' → OtherOp s s'
  | sync_name_ack (ndebug : Bool) (s s' : State) (client hash : Nat) :
      process_sync_name_ack ndebug s client hash = .ok s' → OtherOp s s'
  | sync_ack (ndebug : Bool) (k : Consts) (items : Int) (s s' : State)
      (client map_hash hash : Nat) :
      process_sync_ack ndebug k items s client map_hash hash = .ok s' → OtherOp s s'
  | control_bucket_complete (ndebug : Bool) (s s' : State) (client mask hash : Nat) :
      process_control_bucket_complete ndebug s client mask hash = .ok s' → OtherOp s s'
  | migration_ack (ndebug : Bool) (s s' : State) (client mask hash : Nat) :
      process_migration_ack ndebug s client mask hash = .ok s' → OtherOp s s'

/-- A sequence of calls that return, from the first state to the last: each is a call of
process_accept_bucket, made while the sync counter is not negative and below INT_MAX, or a call
of one of the other operations. -/
inductive Run : State → State → Prop
  | refl (s : State) : Run s s
  | accept (ndebug : Bool) (k : Consts) (items : Int) (s s' s'' : State)
      (client mask hash : Nat) :
      Run s s' → 0 ≤ s'.migrate_sync ∧ s'.migrate_sync < 2147483647 →
      process_accept_bucket ndebug k items s' client mask hash = .ok s'' → Run s s''
  | other (s s' s'' : State) : Run s s' → OtherOp s' s'' → Run s s''

/-- Role/peer exclusivity of a replica: a Primary has no source peer and a Secondary has no
backup peer. -/
def Exclusive (b : Bucket) : Prop :=
  (b.level = 0 → b.target_node = none) ∧ (b.level = 1 → b.backup_node = none)

/-- Every replica of the bucket table satisfies role/peer exclusivity. -/
def AllExclusive (s : State) : Prop :=
  ∀ (bs : List (Option Bucket)) (i : Nat) (b : Bucket),
    s.buckets = some bs → bs[i]? = some (some b) → Exclusive b

/-- The states reached from a call of buckets_init that returns by calls that return of
process_loadlevels, process_control_bucket_complete, process_migration_ack and
buckets_split_mask. -/
inductive Reachable : State → Prop
  | init (ndebug : Bool) (s0 s : State) :
      buckets_init ndebug s0 = .ok s → Reachable s
  | loadlevels (ndebug : Bool) (k : Consts) (s s' : State) (client : Nat)
      (primary backups transferring : Int) :
      Reachable s →
      process_loadlevels ndebug k s client primary backups transferring = .ok s' → Reachable s'
  | control_bucket_complete (ndebug : Bool) (s s' : State) (client mask hash : Nat) :
      Reachable s →
      process_control_bucket_complete ndebug s client mask hash = .ok s' → Reachable s'
  | migration_ack (ndebug : Bool) (s s' : State) (client mask hash : Nat) :
      Reachable s →
      process_migration_ack ndebug s client mask hash = .ok s' → Reachable s'
  | split_mask (ndebug : Bool) (junk : Nat → Option String) (s s' : State) (mask : Nat) :
      Reachable s →
      buckets_split_mask ndebug junk s mask = .ok s' → Reachable s'

/-- A node with mask 1 that hosts bucket 0 as a Primary without backup and does not host
bucket 1. -/
def exampleHalf : State :=
  { mask := 1
    buckets := some [some { hash := 0, level := 0, data := some 0 }, none]
    hashmasks := some [some { primary := some "a:1" }, some { primary := some "b:1" }]
    nobackup_buckets := 1
    primary_buckets := 1
    dataHeap := [{ items := [((7, 4), 99)] }] }

/-- No junk: malloc returns zeroed memory. -/
def noJunk : Nat → Option String := fun _ => none

/-- A node with mask 0 and no bucket, knowing a primary address for index 0. -/
def exampleBare : State :=
  { mask := 0
    buckets := some [none]
    hashmasks := some [some { primary := some "a:1" }] }

/-- A node with mask 1 and no bucket. -/
def exampleEmpty : State :=
  { mask := 1
    buckets := some [none, none]
    hashmasks := some [some { primary := some "a:1" }, some { primary := some "b:1" }] }

/-- A node with mask 3 in a cluster of three: it hosts buckets 0 and 1 as Primary with their
backup on node 0, bucket 2 as Primary without backup and bucket 3 as Secondary of node 1; both
peers are connected, node 0 through client 0 and node 1 through client 1. -/
def exampleCluster : State :=
  { mask := 3
    buckets := some [some { hash := 0, level := 0, backup_node := some 0, data := some 0 },
                     some { hash := 1, level := 0, backup_node := some 0, data := some 1 },
                     some { hash := 2, level := 0, data := some 2 },
                     some { hash := 3, level := 1, target_node := some 1, data := some 3 }]
    hashmasks := some [some { primary := some "a:1", secondary := some "b:1" },
                       some { primary := some "a:1", secondary := some "b:1" },
                       some { primary := some "a:1" },
                       some { primary := some "c:1", secondary := some "a:1" }]
    nobackup_buckets := 1
    primary_buckets := 3
    secondary_buckets := 1
    node_count := 2
    active_nodes := 2
    nodeHeap := [{ name := "b:1", client := some 0, loadlevel_event := true },
                 { name := "c:1", client := some 1, loadlevel_event := true }]
    clientHeap := [{ node := some 0 }, { node := some 1 }]
    dataHeap := [{}, {}, {}, {}] }

/-- Constants as in the scenarios of the specification. -/
def exampleConsts : Consts :=
  { MIN_BUCKETS := 4, TRANSIT_MIN := 2, TRANSIT_MAX := 8 }

/-- The cluster of exampleCluster after bucket 2 has been given up: every Primary left is
backed on node 0. -/
def exampleBacked : State :=
  { exampleCluster with
    buckets := some [some { hash := 0, level := 0, backup_node := some 0, data := some 0 },
                     some { hash := 1, level := 0, backup_node := some 0, data := some 1 },
                     none,
                     some { hash := 3, level := 1, target_node := some 1, data := some 3 }]
    nobackup_buckets := 0
    primary_buckets := 2 }

/-- The cluster of exampleBacked when four nodes are active. -/
def exampleQuad : State :=
  { exampleBacked with active_nodes := 4 }

/-- A node before buckets_init: mask 3 and its own address are configured, one peer is
connected through client 0, and every other global has its initial value. -/
def exampleFresh : State :=
  { mask := 3
    interface := some "a:1"
    node_count := 1
    active_nodes := 1
    nodeHeap := [{ name := "b:1", client := some 0, loadlevel_event := true }]
    clientHeap := [{ node := some 0 }] }

/-- The first scenario of the specification after the load report: the node hosts buckets 0 to
3 as Primary without backup, bucket 0 is being migrated to the peer of client 0 and every item
has been sent. -/
def exampleFirstBackup : State :=
  { mask := 3
    interface := some "a:1"
    buckets := some [some { hash := 0, level := 0, data := some 0, transfer_client := some 0 },
                     some { hash := 1, level := 0, data := some 1 },
                     some { hash := 2, level := 0, data := some 2 },
                     some { hash := 3, level := 0, data := some 3 }]
    hashmasks := some [some { primary := some "a:1" }, some { primary := some "a:1" },
                       some { primary := some "a:1" }, some { primary := some "a:1" }]
    nobackup_buckets := 4
    primary_buckets := 4
    bucket_transfer := 1
    migrate_sync := 1
    node_count := 1
    active_nodes := 1
    nodeHeap := [{ name := "b:1", client := some 0, loadlevel_event := true }]
    clientHeap := [{ node := some 0 }]
    dataHeap := [{}, {}, {}, {}] }

/-- The cluster of exampleCluster while bucket 0, a Primary backed on node 0, is marked as
transferring to client 0. -/
def exampleSwap : State :=
  { exampleCluster with
    buckets := some [some { hash := 0, level := 0, backup_node := some 0, data := some 0,
                            transfer_client := some 0 },
                     some { hash := 1, level := 0, backup_node := some 0, data := some 1 },
                     some { hash := 2, level := 0, data := some 2 },
                     some { hash := 3, level := 1, target_node := some 1, data := some 3 }]
    bucket_transfer := 1 }

/-- The cluster of exampleCluster while bucket 3, the Secondary of node 1, is marked as
transferring to client 1. -/
def exampleSwapBack : State :=
  { exampleCluster with
    buckets := some [some { hash := 0, level := 0, backup_node := some 0, data := some 0 },
                     some { hash := 1, level := 0, backup_node := some 0, data := some 1 },
                     some { hash := 2, level := 0, data := some 2 },
                     some { hash := 3, level := 1, target_node := some 1, data := some 3,
                            transfer_client := some 1 }]
    bucket_transfer := 1 }

/-- The cluster of exampleCluster while bucket 0, a Primary backed on node 0, is marked as
migrating to client 1. -/
def exampleMigrate : State :=
  { exampleCluster with
    buckets := some [some { hash := 0, level := 0, backup_node := some 0, data := some 0,
                            transfer_client := some 1 },
                     some { hash := 1, level := 0, backup_node := some 0, data := some 1 },
                     some { hash := 2, level := 0, data := some 2 },
                     some { hash := 3, level := 1, target_node := some 1, data := some 3 }]
    bucket_transfer := 1 }

/-- The cluster of exampleCluster after bucket_shutdown has armed the timer of bucket 0. -/
def exampleShutdown : State :=
  { exampleCluster with
    buckets := some [some { hash := 0, level := 0, backup_node := some 0, data := some 0,
                            shutdown_event := true },
                     some { hash := 1, level := 0, backup_node := some 0, data := some 1 },
                     some { hash := 2, level := 0, data := some 2 },
                     some { hash := 3, level := 1, target_node := some 1, data := some 3 }] }

/-- The cluster of exampleCluster while bucket 2, a Primary without backup, is streamed to
client 1 and one item is in transit. -/
def exampleStreaming : State :=
  { exampleCluster with
    buckets := some [some { hash := 0, level := 0, backup_node := some 0, data := some 0 },
                     some { hash := 1, level := 0, backup_node := some 0, data := some 1 },
                     some { hash := 2, level := 0, data := some 2, transfer_client := some 1 },
                     some { hash := 3, level := 1, target_node := some 1, data := some 3 }]
    bucket_transfer := 1
    migrate_sync := 1
    in_transit := 1 }

/-- The cluster of exampleCluster while bucket 3, the Secondary of node 1, is marked as
migrating to client 0. -/
def exampleMigrateSecondary : State :=
  { exampleCluster with
    buckets := some [some { hash := 0, level := 0, backup_node := some 0, data := some 0 },
                     some { hash := 1, level := 0, backup_node := some 0, data := some 1 },
                     some { hash := 2, level := 0, data := some 2 },
                     some { hash := 3, level := 1, target_node := some 1, data := some 3,
                            transfer_client := some 0 }]
    bucket_transfer := 1 }

/-- The cluster of exampleStreaming when as many items are in transit as TRANSIT_MAX of
exampleConsts allows. -/
def exampleWindowFull : State :=
  { exampleStreaming with in_transit := 8 }

/-- The cluster of exampleCluster while bucket 3, the Secondary of node 1, is streamed to
client 0 and no item is in transit. -/
def exampleStreamingSecondary : State :=
  { exampleMigrateSecondary with migrate_sync := 1 }

/-- The cluster of exampleCluster after bucket_shutdown has armed the timer of bucket 3, the
Secondary of node 1. -/
def exampleShutdownSecondary : State :=
  { exampleCluster with
    buckets := some [some { hash := 0, level := 0, backup_node := some 0, data := some 0 },
                     some { hash := 1, level := 0, backup_node := some 0, data := some 1 },
                     some { hash := 2, level := 0, data := some 2 },
                     some { hash := 3, level := 1, target_node := some 1, data := some 3,
                            shutdown_event := true }] }

/-- A node with mask 1 that knows no other node and hosts buckets 0 and 1 as Primary; the
shutdown timer of bucket 0 is armed. -/
def exampleAloneShutdown : State :=
  { mask := 1
    interface := some "a:1"
    buckets := some [some { hash := 0, level := 0, data := some 0, shutdown_event := true },
                     some { hash := 1, level := 0, data := some 1 }]
    hashmasks := some [some { primary := some "a:1" }, some { primary := some "a:1" }]
    nobackup_buckets := 2
    primary_buckets := 2
    dataHeap := [{ items := [((7, 4), 99)] }, {}] }

/-- A node that is connecting to the peer "b:1": the connect event of the node object is set,
and it has no client and no timer. -/
def exampleConnecting : State :=
  { mask := 3
    interface := some "a:1"
    node_count := 1
    nodeHeap := [{ name := "b:1", connect_event := true, connect_attempts := 1 }] }

/-- A node whose mask is 2^32 - 1 (k = 32); every slot of the bucket table is empty. -/
def exampleWide : State :=
  { mask := 4294967295
    buckets := some (List.replicate 4294967296 none) }

/-- A node that knows two peers, registered in slots 0 and 1 of _nodes.  Node 0 has lost its
connection and is idle; node 1 is connected through client 0.  Both are being shut down: their
shutdown timers are armed. -/
def exampleRegistry : State :=
  { mask := 3
    interface := some "a:1"
    node_count := 2
    active_nodes := 1
    nodes := some [some 0, some 1]
    nodeHeap := [{ name := "b:1", shutdown_event := true },
                 { name := "c:1", client := some 0, loadlevel_event := true,
                   shutdown_event := true }]
    clientHeap := [{ node := some 1 }] }

/-- The node of exampleConnecting, registered in slot 0 of _nodes, while it is shut down: it is
connecting and its shutdown timer is armed. -/
def exampleConnectingShutdown : State :=
  { exampleConnecting with
    nodes := some [some 0]
    nodeHeap := [{ name := "b:1", connect_event := true, shutdown_event := true,
                   connect_attempts := 1 }] }

/-- The cluster of exampleCluster after the load report (1, 0, 0) of client 1: bucket 2, the
Primary without backup, has been offered to client 1. -/
def exampleOffered : State :=
  { exampleCluster with
    buckets := some [some { hash := 0, level := 0, backup_node := some 0, data := some 0 },
                     some { hash := 1, level := 0, backup_node := some 0, data := some 1 },
                     some { hash := 2, level := 0, data := some 2, transfer_client := some 1 },
                     some { hash := 3, level := 1, target_node := some 1, data := some 3 }]
    bucket_transfer := 1
    trace := [Event.push_accept_bucket 1 2] }

/-- The cluster of exampleOffered after client 1 has accepted bucket 2 and the store has sent
three items. -/
def exampleAccepted : State :=
  { exampleOffered with
    migrate_sync := 1
    in_transit := 3
    trace := [Event.push_accept_bucket 1 2,
              Event.data_migrate_items (some 1) (some 2) 2 8] }

/-- The node of exampleFresh after buckets_init: it hosts buckets 0 to 3 as Primary without
backup and has announced them. -/
def exampleInitialised : State :=
  { exampleFresh with
    buckets := some [some { hash := 0, level := 0, data := some 0 },
                     some { hash := 1, level := 0, data := some 1 },
                     some { hash := 2, level := 0, data := some 2 },
                     some { hash := 3, level := 0, data := some 3 }]
    hashmasks := some [some { primary := some "a:1" }, some { primary := some "a:1" },
                       some { primary := some "a:1" }, some { primary := some "a:1" }]
    nobackup_buckets := 4
    primary_buckets := 4
    dataHeap := [{ items := [], next := none, ref := 1 }, { items := [], next := none, ref := 1 },
                 { items := [], next := none, ref := 1 }, { items := [], next := none, ref := 1 }]
    trace := [Event.push_hashmask_update 0, Event.push_hashmask_update 1,
              Event.push_hashmask_update 2, Event.push_hashmask_update 3] }

/-- The node of exampleInitialised after the load report (0, 0, 0) of client 0: bucket 0 has
been offered to client 0. -/
def exampleFirstOffer : State :=
  { exampleInitialised with
    buckets := some [some { hash := 0, level := 0, data := some 0, transfer_client := some 0 },
                     some { hash := 1, level := 0, data := some 1 },
                     some { hash := 2, level := 0, data := some 2 },
                     some { hash := 3, level := 0, data := some 3 }]
    bucket_transfer := 1
    trace := exampleInitialised.trace ++ [Event.push_accept_bucket 0 0] }

/-- The node of exampleFirstOffer after client 0 has acknowledged the migration of bucket 0:
the node of client 0 is the backup of bucket 0. -/
def exampleFirstBacked : State :=
  { exampleFirstOffer with
    buckets := some [some { hash := 0, level := 0, backup_node := some 0, data := some 0 },
                     some { hash := 1, level := 0, data := some 1 },
                     some { hash := 2, level := 0, data := some 2 },
                     some { hash := 3, level := 0, data := some 3 }]
    nobackup_buckets := 3
    bucket_transfer := 0
    trace := exampleFirstOffer.trace ++ [Event.push_loadlevels 0] }

/-- The cluster of exampleOffered when the sync counter has reached INT_MAX. -/
def exampleSyncMax : State :=
  { exampleOffered with migrate_sync := 2147483647 }

theorem toInt32_of_lt (n : Nat) (h : n < 2147483648) : toInt32 (n : Int) = (n : Int) := by
  unfold toInt32
  omega

theorem toU64_natCast (n : Nat) (h : n < 18446744073709551616) : toU64 (n : Int) = n := by
  unfold toU64
  omega

theorem bucket_at_ok (line : Nat) (s : State) (bs : List (Option Bucket)) (i : Nat)
    (slot : Option Bucket) (hb : s.buckets = some bs) (hi : bs[i]? = some slot) :
    bucket_at line s (i : Int) = .ok slot := by
  unfold bucket_at
  simp [hb, hi]

theorem cassert_true (ndebug : Bool) (line : Nat) : cassert ndebug line true = .ok () := by
  simp [cassert]

theorem cassert_ndebug (line : Nat) (c : Bool) : cassert true line c = .ok () := by
  simp [cassert]

theorem cassert_false (line : Nat) : cassert false line false = .error (.assertion line) := by
  simp [cassert]

theorem bucket_at_hash_ok (line : Nat) (s : State) (bs : List (Option Bucket)) (i : Nat)
    (slot : Option Bucket) (hb : s.buckets = some bs) (hi : bs[i]? = some slot) :
    bucket_at_hash line s i = .ok slot := by
  simp only [bucket_at_hash, hb, hi]

/-! ## Lemmas: outcomes, heaps and the split -/



theorem bind_eq_ok {α β : Type} (m : Except Fault α) (f : α → Except Fault β) (r : β) :
    (m >>= f) = .ok r ↔ ∃ a, m = .ok a ∧ f a = .ok r := by
  cases m with
  | error e => simp [bind, Except.bind]
  | ok a => simp [bind, Except.bind]

theorem cassert_eq_ok (ndebug : Bool) (line : Nat) (c : Bool) (u : Unit) :
    cassert ndebug line c = .ok u ↔ (ndebug = true ∨ c = true) := by
  unfold cassert
  cases ndebug <;> cases c <;> simp

theorem pure_eq_ok {α : Type} (a r : α) : (pure a : Except Fault α) = .ok r ↔ a = r := by
  simp [pure, Except.pure]

theorem HeapExt.refl (h : List Data) : HeapExt h h :=
  ⟨le_refl _, fun _ d hd => ⟨d, hd, rfl, rfl⟩⟩

theorem HeapExt.trans {h1 h2 h3 : List Data} (e1 : HeapExt h1 h2) (e2 : HeapExt h2 h3) :
    HeapExt h1 h3 := by
  refine ⟨le_trans e1.1 e2.1, ?_⟩
  intro x d hd
  obtain ⟨d', hd', hi, hn⟩ := e1.2 x d hd
  obtain ⟨d'', hd'', hi', hn'⟩ := e2.2 x d' hd'
  exact ⟨d'', hd'', hi'.trans hi, hn'.trans hn⟩

theorem HeapExt.append (h : List Data) (d : Data) : HeapExt h (h ++ [d]) := by
  refine ⟨by simp, ?_⟩
  intro a x hx
  have hlt : a < h.length := by
    by_contra hc
    rw [List.getElem?_eq_none (by omega)] at hx
    cases hx
  exact ⟨x, by rw [List.getElem?_append_left hlt]; exact hx, rfl, rfl⟩

theorem HeapExt.set_same (h : List Data) (a : Nat) (d d2 : Data)
    (hd : h[a]? = some d) (hi : d2.items = d.items) (hn : d2.next = d.next) :
    HeapExt h (h.set a d2) := by
  refine ⟨by simp, ?_⟩
  intro x y hy
  by_cases hx : x = a
  · subst hx
    rw [hd] at hy
    cases hy
    have hlt : x < h.length := by
      by_contra hc
      rw [List.getElem?_eq_none (by omega)] at hd
      cases hd
    exact ⟨_, List.getElem?_set_self hlt, hi, hn⟩
  · exact ⟨y, by rw [List.getElem?_set_ne (Ne.symm hx)]; exact hy, rfl, rfl⟩

theorem data_at_eq_ok (line : Nat) (s : State) (p : Option Nat) (r : Nat × Data) :
    data_at line s p = .ok r ↔ p = some r.1 ∧ s.dataHeap[r.1]? = some r.2 := by
  obtain ⟨r1, r2⟩ := r
  cases p with
  | none => simp [data_at]
  | some a =>
    rcases hh : s.dataHeap[a]? with _ | d
    · simp only [data_at, hh, Option.some.injEq]
      constructor
      · intro h; cases h
      · rintro ⟨h1, h2⟩
        subst h1
        rw [hh] at h2
        cases h2
    · simp only [data_at, hh, Except.ok.injEq, Option.some.injEq, Prod.mk.injEq]
      constructor
      · rintro ⟨h1, h2⟩
        subst h1 h2
        exact ⟨rfl, hh⟩
      · rintro ⟨h1, h2⟩
        subst h1
        rw [hh] at h2
        cases h2
        exact ⟨rfl, rfl⟩

theorem HeapExt.set_outside {h h' : List Data} (e : HeapExt h h') (a : Nat) (d : Data)
    (ha : h.length ≤ a) : HeapExt h (h'.set a d) := by
  refine ⟨by simpa using e.1, ?_⟩
  intro x y hy
  have hlt : x < h.length := by
    by_contra hc
    rw [List.getElem?_eq_none (by omega)] at hy
    cases hy
  obtain ⟨d', hd', hi, hn⟩ := e.2 x y hy
  exact ⟨d', by rw [List.getElem?_set_ne (by omega)]; exact hd', hi, hn⟩

theorem bucket_new_ok (ndebug : Bool) (s : State) (i : Nat) (r : Bucket × State)
    (h : bucket_new ndebug s i = .ok r) :
    r.1 = { hash := i, level := -1, data := some s.dataHeap.length } ∧
      r.2 = { s with dataHeap := s.dataHeap ++ [{ items := [], next := none, ref := 1 }] } ∧
      (ndebug = false → s.buckets ≠ none) := by
  unfold bucket_new at h
  simp only [bind_eq_ok, pure_eq_ok] at h
  obtain ⟨_, h1, _, _, h3⟩ := h
  subst h3
  refine ⟨rfl, rfl, ?_⟩
  intro hnd hb
  subst hnd
  simp [bucket_new_assert, hb] at h1

theorem split_bucket_ok (ndebug : Bool) (s : State) (i : Nat) (ob : Bucket) (r : Bucket × State)
    (h : split_bucket ndebug s i ob = .ok r) :
    r.1 = { hash := i, level := ob.level, target_node := ob.target_node,
            backup_node := ob.backup_node, logging_node := ob.logging_node,
            data := some s.dataHeap.length } ∧
      (∃ heap, r.2 = { s with dataHeap := heap } ∧ heap.length = s.dataHeap.length + 1 ∧
        HeapExt s.dataHeap heap ∧
        ∃ d : Data, heap[s.dataHeap.length]? = some d ∧ d.items = [] ∧ d.next = ob.data) ∧
      (ndebug = false → s.buckets ≠ none) := by
  unfold split_bucket at h
  simp only [bind_eq_ok, pure_eq_ok] at h
  obtain ⟨bn, hbn, -, -, n, hn, -, -, -, -, -, -, o, ho, -, -, -, -, hr⟩ := h
  obtain ⟨hb1, hb2, hb3⟩ := bucket_new_ok ndebug s i bn hbn
  clear hbn
  rw [data_at_eq_ok] at hn ho
  obtain ⟨bn1, bn2⟩ := bn
  obtain ⟨n1, n2⟩ := n
  obtain ⟨o1, o2⟩ := o
  simp only at hb1 hb2 hn ho hr
  subst hb1 hb2
  obtain ⟨hn1, hn2⟩ := hn
  obtain ⟨ho1, ho2⟩ := ho
  simp only [Option.some.injEq] at hn1
  subst hn1
  simp only [List.getElem?_concat_length, Option.some.injEq] at hn2
  subst hn2
  subst hr
  simp only [set_data] at ho2
  refine ⟨rfl, ⟨_, rfl, by simp [set_data], ?_, ?_⟩, hb3⟩
  · exact HeapExt.trans
      (HeapExt.set_outside (HeapExt.append _ _) _ _ (le_refl _))
      (HeapExt.set_same _ _ _ _ ho2 rfl rfl)
  · simp only [set_data]
    by_cases hal : o1 = s.dataHeap.length
    · subst hal
      rw [List.getElem?_set_self (by simp)] at ho2
      cases ho2
      exact ⟨_, List.getElem?_set_self (by simp), rfl, rfl⟩
    · refine ⟨{ items := [], next := ob.data, ref := 1 }, ?_, rfl, rfl⟩
      rw [List.getElem?_set_ne hal, List.getElem?_set_self (by simp)]

theorem SplitSlot.mono {ndebug : Bool} {junk : Nat → Option String} {old_mask : Nat}
    {oldlist : List (Option Hashmask)} {oldbuckets : Option (List (Option Bucket))}
    {base base' x : Nat} {entry : Hashmask} {slot : Option Bucket} {h h' : List Data}
    (p : SplitSlot ndebug junk old_mask oldlist oldbuckets base x entry slot h)
    (e : HeapExt h h') (hb : base' ≤ base) :
    SplitSlot ndebug junk old_mask oldlist oldbuckets base' x entry slot h' := by
  obtain ⟨p1, p2, p3⟩ := p
  refine ⟨p1, p2, ?_⟩
  rcases p3 with p3 | ⟨obs, ob, a, d, q1, q2, q3, q0, q4, q5, q6, q7⟩
  · exact Or.inl p3
  · obtain ⟨d', hd', hi, hn⟩ := e.2 a d q4
    exact Or.inr ⟨obs, ob, a, d', q1, q2, q3, le_trans hb q0, hd', hi.trans q5, hn.trans q6, q7⟩

theorem oldlist_at_eq_ok (line : Nat) (l : List (Option Hashmask)) (i : Nat) (h : Hashmask) :
    oldlist_at line l (i : Int) = .ok h ↔ l[i]? = some (some h) := by
  unfold oldlist_at
  have : ¬ ((i : Int) < 0) := by omega
  simp only [this, if_false, Int.toNat_ofNat]
  rcases hh : l[i]? with _ | _ | x <;> simp

theorem oldbuckets_at_eq_ok (line : Nat) (l : List (Option Bucket)) (i : Nat)
    (b : Option Bucket) :
    oldbuckets_at line l (i : Int) = .ok b ↔ l[i]? = some b := by
  unfold oldbuckets_at
  have : ¬ ((i : Int) < 0) := by omega
  simp only [this, if_false, Int.toNat_ofNat]
  rcases hh : l[i]? with _ | x <;> simp

theorem split_slot_ok (ndebug : Bool) (oldbuckets : Option (List (Option Bucket))) (s : State)
    (i idx : Nat) (r : Option Bucket × State)
    (h : split_slot ndebug oldbuckets s i (idx : Int) = .ok r) (hs : s.buckets = none) :
    ((r.1 = none ∧ r.2 = s ∧
        (oldbuckets = none ∨ ∃ obs, oldbuckets = some obs ∧ obs[idx]? = some none)) ∨
      ∃ (obs : List (Option Bucket)) (ob : Bucket) (heap : List Data) (d : Data),
        oldbuckets = some obs ∧ obs[idx]? = some (some ob) ∧
        r.1 = some { hash := i, level := ob.level, target_node := ob.target_node,
                     backup_node := ob.backup_node, logging_node := ob.logging_node,
                     data := some s.dataHeap.length } ∧
        r.2 = { s with dataHeap := heap } ∧ HeapExt s.dataHeap heap ∧
        heap[s.dataHeap.length]? = some d ∧ d.items = [] ∧ d.next = ob.data ∧ ndebug = true) := by
  unfold split_slot at h
  cases oldbuckets with
  | none =>
    simp only [Except.ok.injEq] at h
    subst h
    exact Or.inl ⟨rfl, rfl, Or.inl rfl⟩
  | some obs =>
    simp only at h
    rcases hob : oldbuckets_at 269 obs (idx : Int) with e | slot
    · rw [hob] at h; cases h
    · rw [hob] at h
      rw [oldbuckets_at_eq_ok] at hob
      cases slot with
      | none =>
        simp only [Except.ok.injEq] at h
        subst h
        exact Or.inl ⟨rfl, rfl, Or.inr ⟨obs, rfl, hob⟩⟩
      | some ob =>
        simp only at h
        rcases hsb : split_bucket ndebug s i ob with e | q
        · rw [hsb] at h; cases h
        · rw [hsb] at h
          simp only [Except.ok.injEq] at h
          subst h
          obtain ⟨q1, ⟨heap, q2, -, q4, d, q5, q6, q7⟩, q8⟩ := split_bucket_ok ndebug s i ob q hsb
          refine Or.inr ⟨obs, ob, heap, d, rfl, hob, by rw [q1], q2, q4, q5, q6, q7, ?_⟩
          cases ndebug with
          | true => rfl
          | false => exact absurd hs (q8 rfl)

theorem split_step_ok (ndebug : Bool) (junk : Nat → Option String) (old_mask : Nat)
    (oldlist : List (Option Hashmask)) (oldbuckets : Option (List (Option Bucket)))
    (s : State) (i : Nat) (r : Hashmask × Option Bucket × State)
    (h : split_step ndebug junk old_mask oldlist oldbuckets s i = .ok r)
    (hm : old_mask < 2147483648) (hs : s.buckets = none) :
    SplitSlot ndebug junk old_mask oldlist oldbuckets s.dataHeap.length i r.1 r.2.1
        r.2.2.dataHeap ∧
      (∃ heap, r.2.2 = { s with dataHeap := heap }) ∧ HeapExt s.dataHeap r.2.2.dataHeap := by
  have hle : i &&& old_mask ≤ old_mask := Nat.and_le_right
  have h32 : toInt32 ((i &&& old_mask : Nat) : Int) = ((i &&& old_mask : Nat) : Int) :=
    toInt32_of_lt _ (by omega)
  have h64 : toU64 ((i &&& old_mask : Nat) : Int) = i &&& old_mask :=
    toU64_natCast _ (by omega)
  unfold split_step at h
  simp only [h32, h64, bind_eq_ok, pure_eq_ok, cassert_eq_ok, oldlist_at_eq_ok] at h
  obtain ⟨-, hc, old, hold, q, hq, hr⟩ := h
  subst hr
  have hq2 := split_slot_ok ndebug oldbuckets s i (i &&& old_mask) q hq hs
  have hassert : ndebug = false → old_mask = 0 ∨ i &&& old_mask < old_mask := by
    intro hnd
    subst hnd
    simpa using hc
  rcases hq2 with ⟨q1, q2, q3⟩ | ⟨obs, ob, heap, d, q1, q2, q3, q4, q5, q6, q7, q8, q9⟩
  · refine ⟨⟨⟨old, hold, rfl⟩, hassert, Or.inl ⟨q1, q3⟩⟩, ⟨s.dataHeap, ?_⟩, ?_⟩
    · simp only [q2]
    · simp only [q2]
      exact HeapExt.refl _
  · refine ⟨⟨⟨old, hold, rfl⟩, hassert,
        Or.inr ⟨obs, ob, s.dataHeap.length, d, q1, q2, q3, le_refl _, ?_, q7, q8, q9⟩⟩,
      ⟨heap, q4⟩, ?_⟩
    · simp only [q4]
      exact q6
    · simp only [q4]
      exact q5

theorem split_loop_ok (ndebug : Bool) (junk : Nat → Option String) (old_mask : Nat)
    (oldlist : List (Option Hashmask)) (oldbuckets : Option (List (Option Bucket)))
    (hm : old_mask < 2147483648) :
    ∀ (n i : Nat) (acc r : List (Option Hashmask) × List (Option Bucket) × State),
      split_loop ndebug junk old_mask oldlist oldbuckets n i acc = .ok r →
      acc.2.2.buckets = none →
      r.1.length = acc.1.length + n ∧ r.2.1.length = acc.2.1.length + n ∧
      (∀ j, j < acc.1.length → r.1[j]? = acc.1[j]?) ∧
      (∀ j, j < acc.2.1.length → r.2.1[j]? = acc.2.1[j]?) ∧
      (∃ heap, r.2.2 = { acc.2.2 with dataHeap := heap }) ∧
      HeapExt acc.2.2.dataHeap r.2.2.dataHeap ∧
      (0 < n → ((i + n : Nat) : Int) ≤ INT_MAX) ∧
      ∀ j, j < n → ∃ e sl, r.1[acc.1.length + j]? = some (some e) ∧
        r.2.1[acc.2.1.length + j]? = some sl ∧
        SplitSlot ndebug junk old_mask oldlist oldbuckets acc.2.2.dataHeap.length (i + j) e sl
          r.2.2.dataHeap := by
  intro n
  induction n with
  | zero =>
    intro i acc r h _
    simp only [split_loop, Except.ok.injEq] at h
    subst h
    refine ⟨rfl, rfl, fun _ _ => rfl, fun _ _ => rfl, ⟨_, rfl⟩, HeapExt.refl _, ?_, ?_⟩
    · intro h0; omega
    · intro j hj; omega
  | succ n ih =>
    intro i acc r h hs
    unfold split_loop at h
    rcases hst : split_step ndebug junk old_mask oldlist oldbuckets acc.2.2 i with e | q
    · rw [hst] at h; cases h
    · rw [hst] at h
      simp only at h
      by_cases hov : (i : Int) + 1 > INT_MAX
      · rw [if_pos hov] at h; cases h
      · rw [if_neg hov] at h
        obtain ⟨p1, ⟨heap1, p2⟩, p3⟩ :=
          split_step_ok ndebug junk old_mask oldlist oldbuckets acc.2.2 i q hst hm hs
        have hs1 : q.2.2.buckets = none := by rw [p2]; exact hs
        obtain ⟨a1, a2, a3, a4, ⟨heap2, a5⟩, a6, a7, a8⟩ := ih (i + 1) _ r h hs1
        simp only [List.length_append, List.length_singleton] at a1 a2 a3 a4 a8
        refine ⟨by omega, by omega, ?_, ?_, ⟨heap2, ?_⟩, HeapExt.trans p3 a6, ?_, ?_⟩
        · intro j hj
          rw [a3 j (by omega), List.getElem?_append_left hj]
        · intro j hj
          rw [a4 j (by omega), List.getElem?_append_left hj]
        · rw [a5, p2]
        · intro _
          by_cases hn : 0 < n
          · have := a7 hn
            push_cast at this ⊢
            omega
          · have : n = 0 := by omega
            subst this
            push_cast at hov ⊢
            omega
        · intro j hj
          cases j with
          | zero =>
            refine ⟨q.1, q.2.1, ?_, ?_, SplitSlot.mono p1 a6 (le_refl _)⟩
            · rw [a3 _ (by omega)]
              simp
            · rw [a4 _ (by omega)]
              simp
          | succ j =>
            obtain ⟨e, sl, b1, b2, b3⟩ := a8 j (by omega)
            refine ⟨e, sl, ?_, ?_, ?_⟩
            · rw [← b1]; congr 1; omega
            · rw [← b2]; congr 1; omega
            · have : i + (j + 1) = i + 1 + j := by omega
              rw [this]; exact SplitSlot.mono b3 (HeapExt.refl _) p3.1

theorem split_close_bucket_ok (ndebug : Bool) (s s' : State) (ob : Bucket)
    (h : split_close_bucket ndebug s ob = .ok s') :
    (∃ heap, s' = { s with dataHeap := heap }) ∧ HeapExt s.dataHeap s'.dataHeap ∧
      ndebug = true := by
  unfold split_close_bucket at h
  simp only [bind_eq_ok, pure_eq_ok, cassert_eq_ok, data_at_eq_ok, bucket_close] at h
  obtain ⟨-, -, -, -, o, ⟨-, ho⟩, -, -, -, hbc, hr⟩ := h
  subst hr
  refine ⟨⟨_, rfl⟩, ?_, ?_⟩
  · simp only [set_data]
    exact HeapExt.set_same _ _ _ _ ho rfl rfl
  · simpa using hbc

theorem split_close_buckets_ok (ndebug : Bool) (obs : List (Option Bucket)) :
    ∀ (n i : Nat) (s s' : State), split_close_buckets ndebug obs n i s = .ok s' →
      (∃ heap, s' = { s with dataHeap := heap }) ∧ HeapExt s.dataHeap s'.dataHeap ∧
      (ndebug = false → ∀ j, j < n → obs[i + j]? = some none) := by
  intro n
  induction n with
  | zero =>
    intro i s s' h
    simp only [split_close_buckets, Except.ok.injEq] at h
    subst h
    exact ⟨⟨_, rfl⟩, HeapExt.refl _, fun _ j hj => by omega⟩
  | succ n ih =>
    intro i s s' h
    unfold split_close_buckets at h
    rcases hsl : obs[i]? with _ | slot
    · rw [hsl] at h; cases h
    · rw [hsl] at h
      simp only at h
      rcases hcs : split_close_slot ndebug s slot with e | s1
      · rw [hcs] at h; cases h
      · rw [hcs] at h
        simp only at h
        by_cases hov : (i : Int) + 1 > INT_MAX
        · rw [if_pos hov] at h; cases h
        · rw [if_neg hov] at h
          obtain ⟨⟨heap2, a1⟩, a2, a3⟩ := ih (i + 1) s1 s' h
          have key : (∃ heap, s1 = { s with dataHeap := heap }) ∧ HeapExt s.dataHeap s1.dataHeap ∧
              (ndebug = false → slot = none) := by
            cases slot with
            | none =>
              simp only [split_close_slot, Except.ok.injEq] at hcs
              subst hcs
              exact ⟨⟨_, rfl⟩, HeapExt.refl _, fun _ => rfl⟩
            | some ob =>
              simp only [split_close_slot] at hcs
              obtain ⟨c1, c2, c3⟩ := split_close_bucket_ok ndebug s s1 ob hcs
              refine ⟨c1, c2, ?_⟩
              intro hnd
              rw [hnd] at c3
              cases c3
          obtain ⟨⟨heap1, k1⟩, k2, k3⟩ := key
          refine ⟨⟨heap2, ?_⟩, HeapExt.trans k2 a2, ?_⟩
          · rw [a1, k1]
          · intro hnd j hj
            cases j with
            | zero => rw [Nat.add_zero, hsl, k3 hnd]
            | succ j =>
              have := a3 hnd j (by omega)
              rw [← this]; congr 1; omega

theorem split_close_ok (ndebug : Bool) (oldbuckets : Option (List (Option Bucket)))
    (old_mask : Nat) (s s' : State) (h : split_close ndebug oldbuckets old_mask s = .ok s') :
    (∃ heap, s' = { s with dataHeap := heap }) ∧ HeapExt s.dataHeap s'.dataHeap ∧
      (ndebug = false → ∀ obs, oldbuckets = some obs → ∀ j, j ≤ old_mask → obs[j]? = some none) := by
  unfold split_close at h
  cases oldbuckets with
  | none =>
    simp only [Except.ok.injEq] at h
    subst h
    exact ⟨⟨_, rfl⟩, HeapExt.refl _, fun _ obs ho => by cases ho⟩
  | some obs =>
    simp only at h
    obtain ⟨a1, a2, a3⟩ := split_close_buckets_ok ndebug obs (old_mask + 1) 0 s s' h
    refine ⟨a1, a2, ?_⟩
    intro hnd obs' ho j hj
    cases ho
    have := a3 hnd j (by omega)
    rw [← this]; congr 1; omega

/-- The state reached by a split that returns: the tables have one entry per new index, built as
SplitSlot says; every other global is unchanged and every store keeps its contents and parent. -/
theorem buckets_split_mask_ok (ndebug : Bool) (junk : Nat → Option String) (s s' : State)
    (mask : Nat) (h : buckets_split_mask ndebug junk s mask = .ok s')
    (hm : s.mask < 2147483648) :
    ∃ (nl : List (Option Hashmask)) (nb : List (Option Bucket)) (heap : List Data),
      s' = { s with hashmasks := some nl, buckets := some nb, mask := mask, dataHeap := heap } ∧
      nl.length = mask + 1 ∧ nb.length = mask + 1 ∧ HeapExt s.dataHeap heap ∧
      ((mask + 1 : Nat) : Int) ≤ INT_MAX ∧ (ndebug = false → s.mask < mask) ∧
      (ndebug = false → ∀ obs, s.buckets = some obs → ∀ j, j ≤ s.mask → obs[j]? = some none) ∧
      ∀ x, x ≤ mask → ∃ e sl, nl[x]? = some (some e) ∧ nb[x]? = some sl ∧
        SplitSlot ndebug junk s.mask (split_oldlist s) s.buckets s.dataHeap.length x e sl
          heap := by
  unfold buckets_split_mask at h
  simp only [bind_eq_ok, pure_eq_ok, cassert_eq_ok] at h
  obtain ⟨-, hgt, r, hloop, -, -, s2, hclose, -, -, -, -, -, -, hr⟩ := h
  obtain ⟨a1, a2, -, -, ⟨heap1, a5⟩, a6, a7, a8⟩ :=
    split_loop_ok ndebug junk s.mask (split_oldlist s) s.buckets hm (mask + 1) 0 _ r hloop rfl
  obtain ⟨⟨heap2, c1⟩, c2, c3⟩ := split_close_ok ndebug s.buckets s.mask r.2.2 s2 hclose
  simp only [List.length_nil, Nat.zero_add] at a1 a2 a8
  have hheap : s2.dataHeap = heap2 := by rw [c1]
  refine ⟨r.1, r.2.1, heap2, ?_, a1, a2, ?_, ?_, ?_, c3, ?_⟩
  · rw [← hr, c1, a5]
  · rw [← hheap]
    exact HeapExt.trans a6 c2
  · have := a7 (by omega)
    simpa using this
  · intro hnd
    subst hnd
    simpa using hgt
  · intro x hx
    obtain ⟨e, sl, b1, b2, b3⟩ := a8 x (by omega)
    refine ⟨e, sl, b1, b2, ?_⟩
    rw [← hheap]
    exact SplitSlot.mono b3 c2 (le_refl _)

/-! ## Lemmas: the split with assertions compiled out -/

theorem ok_bind {α β : Type} (a : α) (f : α → Except Fault β) :
    ((Except.ok a : Except Fault α) >>= f) = f a := rfl

theorem pure_eq {α : Type} (a : α) : (pure a : Except Fault α) = .ok a := rfl

theorem split_loop_succ (ndebug : Bool) (junk : Nat → Option String) (old_mask : Nat)
    (oldlist : List (Option Hashmask)) (oldbuckets : Option (List (Option Bucket)))
    (n i : Nat) (acc : List (Option Hashmask) × List (Option Bucket) × State) :
    split_loop ndebug junk old_mask oldlist oldbuckets (n + 1) i acc =
      match split_step ndebug junk old_mask oldlist oldbuckets acc.2.2 i with
      | .error e => .error e
      | .ok r =>
        if (i : Int) + 1 > INT_MAX then .error (.overflow 255)
        else
          split_loop ndebug junk old_mask oldlist oldbuckets n (i + 1)
            (acc.1 ++ [some r.1], acc.2.1 ++ [r.2.1], r.2.2) := rfl

theorem split_free_hashmasks_succ (ndebug : Bool) (oldlist : List (Option Hashmask))
    (n i : Nat) :
    split_free_hashmasks ndebug oldlist (n + 1) i =
      match split_free_entry ndebug oldlist i with
      | .error e => .error e
      | .ok _ =>
        if (i : Int) + 1 > INT_MAX then .error (.overflow 301)
        else split_free_hashmasks ndebug oldlist n (i + 1) := rfl

theorem split_close_buckets_succ (ndebug : Bool) (oldbuckets : List (Option Bucket))
    (n i : Nat) (s : State) :
    split_close_buckets ndebug oldbuckets (n + 1) i s =
      match oldbuckets[i]? with
      | none => .error (.outOfBounds 318)
      | some slot =>
        match split_close_slot ndebug s slot with
        | .error e => .error e
        | .ok s1 =>
          if (i : Int) + 1 > INT_MAX then .error (.overflow 317)
          else split_close_buckets ndebug oldbuckets n (i + 1) s1 := rfl

theorem data_at_ok_of_lt (line : Nat) (s : State) (a : Nat) (h : a < s.dataHeap.length) :
    data_at line s (some a) = .ok (a, s.dataHeap[a]) := by
  simp [data_at, List.getElem?_eq_getElem h]

theorem split_bucket_ndebug (s : State) (i : Nat) (ob : Bucket) (a : Nat)
    (hd : ob.data = some a) (ha : a < s.dataHeap.length) :
    ∃ r, split_bucket true s i ob = .ok r := by
  have h1 : bucket_new true s i = .ok ({ hash := i, level := -1, data := some s.dataHeap.length },
      { s with dataHeap := s.dataHeap ++ [{ items := [], next := none, ref := 1 }] }) := by
    simp [bucket_new, bucket_new_assert, cassert_ndebug, data_new, bind, Except.bind, pure,
      Except.pure]
  unfold split_bucket
  rw [h1]
  simp only [bind, Except.bind, cassert_ndebug, assert_ref, if_true]
  rw [data_at_ok_of_lt _ _ _ (by simp)]
  simp only [hd]
  rw [data_at_ok_of_lt _ _ _ (by simp [set_data]; omega)]
  exact ⟨_, rfl⟩

theorem split_slot_ndebug (oldbuckets : Option (List (Option Bucket))) (s : State)
    (i idx : Nat)
    (hob : ∀ obs, oldbuckets = some obs → idx < obs.length ∧
      ∀ b, obs[idx]? = some (some b) → ∃ a, b.data = some a ∧ a < s.dataHeap.length) :
    ∃ r, split_slot true oldbuckets s i (idx : Int) = .ok r := by
  unfold split_slot
  cases oldbuckets with
  | none => exact ⟨_, rfl⟩
  | some obs =>
    obtain ⟨hlt, hb⟩ := hob obs rfl
    have hat : oldbuckets_at 269 obs (idx : Int) = .ok obs[idx] := by
      rw [oldbuckets_at_eq_ok]
      exact List.getElem?_eq_getElem hlt
    simp only [hat]
    rcases hsl : obs[idx] with _ | ob
    · exact ⟨_, rfl⟩
    · obtain ⟨a, ha1, ha2⟩ := hb ob (by rw [List.getElem?_eq_getElem hlt, hsl])
      obtain ⟨r, hr⟩ := split_bucket_ndebug s i ob a ha1 ha2
      simp only [hr]
      exact ⟨_, rfl⟩

theorem split_step_ndebug (junk : Nat → Option String) (old_mask : Nat)
    (oldlist : List (Option Hashmask)) (oldbuckets : Option (List (Option Bucket)))
    (s : State) (i : Nat) (hm : old_mask < 2147483648)
    (hol : ∀ j, j ≤ old_mask → ∃ h : Hashmask, oldlist[j]? = some (some h))
    (hob : ∀ obs, oldbuckets = some obs → obs.length = old_mask + 1 ∧
      ∀ (j : Nat) (b : Bucket), obs[j]? = some (some b) →
        ∃ a, b.data = some a ∧ a < s.dataHeap.length) :
    ∃ r, split_step true junk old_mask oldlist oldbuckets s i = .ok r := by
  have hle : i &&& old_mask ≤ old_mask := Nat.and_le_right
  have h32 : toInt32 ((i &&& old_mask : Nat) : Int) = ((i &&& old_mask : Nat) : Int) :=
    toInt32_of_lt _ (by omega)
  obtain ⟨old, hold⟩ := hol _ hle
  have hat : oldlist_at 263 oldlist ((i &&& old_mask : Nat) : Int) = .ok old := by
    rw [oldlist_at_eq_ok]; exact hold
  obtain ⟨r, hr⟩ := split_slot_ndebug oldbuckets s i (i &&& old_mask) (by
    intro obs ho
    obtain ⟨h1, h2⟩ := hob obs ho
    exact ⟨by omega, fun b hb => h2 _ b hb⟩)
  refine ⟨(split_hashmask_entry (junk i) old, r.1, r.2), ?_⟩
  unfold split_step
  simp only [h32, cassert_ndebug, hat, hr]
  rfl

theorem split_loop_ndebug (junk : Nat → Option String) (old_mask : Nat)
    (oldlist : List (Option Hashmask)) (oldbuckets : Option (List (Option Bucket)))
    (len : Nat) (hm : old_mask < 2147483648)
    (hol : ∀ j, j ≤ old_mask → ∃ h : Hashmask, oldlist[j]? = some (some h))
    (hob : ∀ obs, oldbuckets = some obs → obs.length = old_mask + 1 ∧
      ∀ (j : Nat) (b : Bucket), obs[j]? = some (some b) → ∃ a, b.data = some a ∧ a < len) :
    ∀ (n i : Nat) (acc : List (Option Hashmask) × List (Option Bucket) × State),
      ((i + n : Nat) : Int) ≤ INT_MAX → len ≤ acc.2.2.dataHeap.length →
      acc.2.2.buckets = none →
      ∃ r, split_loop true junk old_mask oldlist oldbuckets n i acc = .ok r := by
  intro n
  induction n with
  | zero => intro i acc _ _ _; exact ⟨_, rfl⟩
  | succ n ih =>
    intro i acc hi hlen hs
    obtain ⟨q, hq⟩ := split_step_ndebug junk old_mask oldlist oldbuckets acc.2.2 i hm hol (by
      intro obs ho
      obtain ⟨h1, h2⟩ := hob obs ho
      refine ⟨h1, fun j b hb => ?_⟩
      obtain ⟨a, ha1, ha2⟩ := h2 j b hb
      exact ⟨a, ha1, by omega⟩)
    obtain ⟨-, ⟨heap, p2⟩, p3⟩ :=
      split_step_ok true junk old_mask oldlist oldbuckets acc.2.2 i q hq hm hs
    have hov : ¬ ((i : Int) + 1 > INT_MAX) := by
      push_cast at hi
      omega
    rw [split_loop_succ, hq]
    simp only [if_neg hov]
    apply ih
    · push_cast at hi ⊢
      omega
    · exact le_trans hlen p3.1
    · show q.2.2.buckets = none
      rw [p2]
      exact hs

theorem split_free_hashmasks_ndebug (ndebug : Bool) (oldlist : List (Option Hashmask)) :
    ∀ (n i : Nat), ((i + n : Nat) : Int) ≤ INT_MAX →
      (∀ j, j < i + n → ∃ h : Hashmask, oldlist[j]? = some (some h)) →
      split_free_hashmasks ndebug oldlist n i = .ok () := by
  intro n
  induction n with
  | zero => intro i _ _; rfl
  | succ n ih =>
    intro i hi hol
    obtain ⟨h, hh⟩ := hol i (by omega)
    have hov : ¬ ((i : Int) + 1 > INT_MAX) := by
      push_cast at hi
      omega
    have he : split_free_entry ndebug oldlist i = .ok () := by
      simp only [split_free_entry, hh]
    rw [split_free_hashmasks_succ, he]
    simp only [if_neg hov]
    apply ih
    · push_cast at hi ⊢
      omega
    · intro j hj
      exact hol j (by omega)

theorem split_close_buckets_ndebug (obs : List (Option Bucket)) (len : Nat)
    (hob : ∀ (j : Nat) (b : Bucket), obs[j]? = some (some b) → ∃ a, b.data = some a ∧ a < len) :
    ∀ (n i : Nat) (s : State), ((i + n : Nat) : Int) ≤ INT_MAX → i + n ≤ obs.length →
      len ≤ s.dataHeap.length →
      ∃ s', split_close_buckets true obs n i s = .ok s' := by
  intro n
  induction n with
  | zero => intro i s _ _ _; exact ⟨_, rfl⟩
  | succ n ih =>
    intro i s hi hlen hheap
    have hlt : i < obs.length := by omega
    have hov : ¬ ((i : Int) + 1 > INT_MAX) := by
      push_cast at hi
      omega
    have key : ∃ s1, split_close_slot true s obs[i] = .ok s1 ∧ len ≤ s1.dataHeap.length := by
      rcases hsl : obs[i] with _ | ob
      · exact ⟨s, rfl, hheap⟩
      · obtain ⟨a, ha1, ha2⟩ := hob i ob (by rw [List.getElem?_eq_getElem hlt, hsl])
        have hal : a < s.dataHeap.length := by omega
        obtain ⟨d, hd⟩ : ∃ d, s.dataHeap[a]? = some d :=
          ⟨_, List.getElem?_eq_getElem hal⟩
        have hat : data_at 321 s ob.data = .ok (a, d) :=
          (data_at_eq_ok 321 s ob.data (a, d)).2 ⟨ha1, hd⟩
        refine ⟨set_data s a { d with ref := d.ref - 1 }, ?_, ?_⟩
        · show split_close_bucket true s ob = _
          unfold split_close_bucket
          rw [cassert_ndebug, ok_bind]
          have har : assert_ref true 320 s ob.data 1 = .ok () := rfl
          rw [har, ok_bind, hat, ok_bind, cassert_ndebug, ok_bind]
          rfl
        · simp only [set_data, List.length_set]
          exact hheap
    obtain ⟨s1, hs1, hl1⟩ := key
    rw [split_close_buckets_succ, List.getElem?_eq_getElem hlt]
    simp only [hs1, if_neg hov]
    apply ih
    · push_cast at hi ⊢
      omega
    · omega
    · exact hl1

/-- With assertions compiled out the split returns on every state that satisfies SplitPre,
for every new mask below INT_MAX. -/
theorem buckets_split_mask_ndebug (junk : Nat → Option String) (s : State) (mask : Nat)
    (hpre : SplitPre s) (hlt : s.mask < mask) (hmax : mask < 2147483647) :
    ∃ s', buckets_split_mask true junk s mask = .ok s' := by
  obtain ⟨hol, hob⟩ := hpre
  have hm : s.mask < 2147483648 := by omega
  obtain ⟨r, hr⟩ := split_loop_ndebug junk s.mask (split_oldlist s) s.buckets s.dataHeap.length
    hm hol hob (mask + 1) 0 ([], [], { s with hashmasks := none, buckets := none })
    (by unfold INT_MAX; omega) (le_refl _) rfl
  obtain ⟨-, -, -, -, ⟨heap1, a5⟩, a6, -, -⟩ :=
    split_loop_ok true junk s.mask (split_oldlist s) s.buckets hm (mask + 1) 0 _ r hr rfl
  have hfree := split_free_hashmasks_ndebug true (split_oldlist s) (s.mask + 1) 0
    (by unfold INT_MAX; omega) (fun j hj => hol j (by omega))
  have hclose : ∃ s2, split_close true s.buckets s.mask r.2.2 = .ok s2 := by
    unfold split_close
    rcases hb : s.buckets with _ | obs
    · exact ⟨_, rfl⟩
    · obtain ⟨h1, h2⟩ := hob obs hb
      exact split_close_buckets_ndebug obs s.dataHeap.length h2 (s.mask + 1) 0 r.2.2
        (by unfold INT_MAX; omega) (by omega) a6.1
  obtain ⟨s2, hs2⟩ := hclose
  unfold buckets_split_mask
  simp only [cassert_ndebug, ok_bind, hr, hfree, hs2]
  exact ⟨_, rfl⟩

/-! ## Lemmas: lookups and the request dispatch -/

theorem bucket_at_eq_ok (line : Nat) (s : State) (i : Nat) (slot : Option Bucket) :
    bucket_at line s (i : Int) = .ok slot ↔ ∃ bs, s.buckets = some bs ∧ bs[i]? = some slot := by
  unfold bucket_at
  rcases hb : s.buckets with _ | bs
  · simp
  · have : ¬ ((i : Int) < 0) := by omega
    simp only [this, if_false, Int.toNat_ofNat, Option.some.injEq, exists_eq_left']
    rcases hh : bs[i]? with _ | x <;> simp

theorem land_land_of_masks (key old mask : Nat)
    (hmasks : ∃ a b, old = 2 ^ a - 1 ∧ mask = 2 ^ b - 1) (hlt : old < mask) :
    (key &&& mask) &&& old = key &&& old := by
  obtain ⟨a, b, ha, hb⟩ := hmasks
  subst ha hb
  have hab : a ≤ b := by
    by_contra hc
    have : 2 ^ b ≤ 2 ^ a := Nat.pow_le_pow_right (by decide) (by omega)
    omega
  rw [Nat.and_pow_two_sub_one_eq_mod, Nat.and_pow_two_sub_one_eq_mod,
    Nat.and_pow_two_sub_one_eq_mod]
  exact Nat.mod_mod_of_dvd _ (pow_dvd_pow 2 hab)

theorem data_lookup_mono (h h' : List Data) (e : HeapExt h h') (m k : Nat) :
    ∀ (n n' : Nat) (p : Option Nat) (v : Nat), n ≤ n' →
      data_lookup h m k n p = some v → data_lookup h' m k n' p = some v := by
  intro n
  induction n with
  | zero =>
    intro n' p v _ hv
    simp [data_lookup] at hv
  | succ n ih =>
    intro n' p v hn hv
    cases n' with
    | zero => omega
    | succ n' =>
      cases p with
      | none => simp [data_lookup] at hv
      | some a =>
        rcases hd : h[a]? with _ | d
        · simp [data_lookup, hd] at hv
        · obtain ⟨d', hd', hi, hnx⟩ := e.2 a d hd
          simp only [data_lookup, hd] at hv
          simp only [data_lookup, hd', hi, hnx]
          rcases hl : d.items.lookup (m, k) with _ | w
          · rw [hl] at hv
            simp only at hv ⊢
            exact ih n' d.next v (by omega) hv
          · rw [hl] at hv
            simpa using hv

theorem buckets_get_value_inv (g : Bool) (s s1 : State) (map_hash key_hash v : Nat)
    (hmask : s.mask < 2147483648)
    (h : buckets_get_value g s map_hash key_hash = .ok (some v, s1)) :
    ∃ bs b, s.buckets = some bs ∧ bs[key_hash &&& s.mask]? = some (some b) ∧ b.level = 0 ∧
      data_get_value s map_hash key_hash b.data = some v := by
  have hcomm : s.mask &&& key_hash = key_hash &&& s.mask := Nat.land_comm _ _
  have hle : key_hash &&& s.mask ≤ s.mask := Nat.and_le_right
  have h32 : toInt32 ((key_hash &&& s.mask : Nat) : Int) = ((key_hash &&& s.mask : Nat) : Int) :=
    toInt32_of_lt _ (by omega)
  unfold buckets_get_value at h
  simp only [hcomm, h32, bind_eq_ok, bucket_at_eq_ok] at h
  obtain ⟨-, -, -, -, slot, ⟨bs, hbs, hslot⟩, hrest⟩ := h
  cases slot with
  | none =>
    simp only [pure_eq_ok, Prod.mk.injEq] at hrest
    exact absurd hrest.1 (by simp)
  | some b =>
    simp only [bind_eq_ok] at hrest
    obtain ⟨-, -, hrest⟩ := hrest
    by_cases hl : b.level = 0
    · simp only [hl, ne_eq, not_true_eq_false, if_false, bind_eq_ok, pure_eq_ok,
        Prod.mk.injEq] at hrest
      obtain ⟨-, -, hv, -⟩ := hrest
      exact ⟨bs, b, hbs, hslot, hl, hv⟩
    · simp only [ne_eq, hl, not_false_eq_true, if_true, pure_eq_ok, Prod.mk.injEq] at hrest
      exact absurd hrest.1 (by simp)

theorem buckets_get_value_eq (ndebug : Bool) (s : State) (map_hash key_hash : Nat)
    (bs : List (Option Bucket)) (hb : s.buckets = some bs) (hlen : bs.length = s.mask + 1)
    (hmask : s.mask < 2147483648)
    (hwf : ∀ b, bs[key_hash &&& s.mask]? = some (some b) →
      b.hash = key_hash &&& s.mask ∧ (b.level = 0 → b.data.isSome = true)) :
    buckets_get_value ndebug s map_hash key_hash =
      .ok ((match bs[key_hash &&& s.mask]? with
            | some (some b) =>
              if b.level = 0 then data_get_value s map_hash key_hash b.data else none
            | _ => none), s) := by
  have hcomm : s.mask &&& key_hash = key_hash &&& s.mask := Nat.land_comm _ _
  have hle : key_hash &&& s.mask ≤ s.mask := Nat.and_le_right
  have h32 : toInt32 ((key_hash &&& s.mask : Nat) : Int) = ((key_hash &&& s.mask : Nat) : Int) :=
    toInt32_of_lt _ (by omega)
  have h64 : toU64 ((key_hash &&& s.mask : Nat) : Int) = key_hash &&& s.mask :=
    toU64_natCast _ (by omega)
  have hlt : key_hash &&& s.mask < bs.length := by omega
  obtain ⟨slot, hslot⟩ : ∃ slot, bs[key_hash &&& s.mask]? = some slot :=
    ⟨bs[key_hash &&& s.mask], List.getElem?_eq_getElem hlt⟩
  have hat := bucket_at_ok 76 s bs (key_hash &&& s.mask) slot hb hslot
  unfold buckets_get_value
  simp only [hcomm, h32, h64, hat, hslot]
  have c1 : cassert ndebug 74 (decide (((key_hash &&& s.mask : Nat) : Int) ≥ 0)) = .ok () := by
    simp [cassert]
  have c2 : cassert ndebug 75 (decide (key_hash &&& s.mask ≤ s.mask)) = .ok () := by
    simp [cassert, hle]
  simp only [c1, c2, bind, Except.bind]
  cases slot with
  | none => rfl
  | some b =>
    obtain ⟨hh, hd⟩ := hwf b hslot
    simp only [hh, decide_True, cassert_true]
    by_cases hl : b.level = 0
    · simp [hl, hd hl, cassert_true, pure, Except.pure]
    · simp [hl, pure, Except.pure]


/-! ## Lemmas: the example states -/

theorem splitPre_exampleHalf : SplitPre exampleHalf := by
  refine ⟨?_, ?_⟩
  · intro i hi
    have hi' : i ≤ 1 := hi
    interval_cases i
    · exact ⟨_, rfl⟩
    · exact ⟨_, rfl⟩
  · intro obs hobs
    have : obs = [some { hash := 0, level := 0, data := some 0 }, none] := by
      have h : exampleHalf.buckets = some [some { hash := 0, level := 0, data := some 0 }, none] :=
        rfl
      rw [h] at hobs
      exact (Option.some.inj hobs).symm
    subst this
    refine ⟨rfl, ?_⟩
    intro i b hb
    match i, hb with
    | 0, hb =>
      simp only [List.getElem?_cons_zero, Option.some.injEq] at hb
      subst hb
      exact ⟨0, rfl, by decide⟩
    | 1, hb => simp at hb
    | n + 2, hb => simp at hb


/-! ## C1: buckets_get_value -/

/-- C1: on a bucket table of length mask+1 (indexable by a C int, replicas carrying their slot
index and a Primary carrying a store), buckets_get_value looks at slot key_hash & mask and
returns the Store's lookup result on that replica's data when the slot holds a Primary, no
value when the slot is empty or the replica is not Primary; the state is unchanged. -/
theorem buckets_get_value_spec (ndebug : Bool) (s : State) (map_hash key_hash : Nat)
    (bs : List (Option Bucket)) (hb : s.buckets = some bs) (hlen : bs.length = s.mask + 1)
    (hmask : s.mask < 2147483648)
    (hwf : ∀ b, bs[key_hash &&& s.mask]? = some (some b) →
      b.hash = key_hash &&& s.mask ∧ (b.level = 0 → b.data.isSome = true)) :
    buckets_get_value ndebug s map_hash key_hash =
      .ok ((match bs[key_hash &&& s.mask]? with
            | some (some b) =>
              if b.level = 0 then data_get_value s map_hash key_hash b.data else none
            | _ => none), s) :=
  buckets_get_value_eq ndebug s map_hash key_hash bs hb hlen hmask hwf

/-- C1, at a concrete state: a Primary slot returns the stored value. -/
theorem buckets_get_value_spec_witness :
    buckets_get_value false exampleHalf 7 4 = .ok (some 99, exampleHalf) := by
  have h := buckets_get_value_spec false exampleHalf 7 4
    [some { hash := 0, level := 0, data := some 0 }, none] rfl rfl (by decide)
    (by
      intro b hb
      have hb2 : b = { hash := 0, level := 0, data := some 0 } := by
        have : (4 &&& exampleHalf.mask) = 0 := by decide
        rw [this] at hb
        simp at hb
        exact hb.symm
      subst hb2
      decide)
  rw [h]
  decide

/-! ## C2: buckets_store_value -/

theorem data_set_value_frame (s : State) (map_hash key_hash : Nat) (data : Option Nat)
    (name : Option String) (name_int : Int) (value : Nat) (expires : Int)
    (backup_client : Option Nat) :
    let s' := data_set_value s map_hash key_hash data name name_int value expires backup_client
    s'.trace = s.trace ++
        [Event.data_set_value map_hash key_hash data name name_int value expires backup_client] ∧
      s'.buckets = s.buckets ∧ s'.hashmasks = s.hashmasks ∧ s'.mask = s.mask ∧
      s'.primary_buckets = s.primary_buckets ∧ s'.secondary_buckets = s.secondary_buckets ∧
      s'.nobackup_buckets = s.nobackup_buckets ∧ s'.bucket_transfer = s.bucket_transfer := by
  simp [data_set_value]

/-- C2, as stated, fails on an empty slot when assertions are checked: the call stops at the
assert(0) of line 137 and does not return -1. -/
theorem buckets_store_value_empty_slot_asserts :
    buckets_store_value false exampleHalf 7 5 none 0 0 42 = .error (.assertion 137) ∧
      buckets_store_value false exampleHalf 7 5 none 0 0 42 ≠ .ok (-1, exampleHalf) := by
  decide

/-- C2, amended: on a bucket table whose mask fits a C int, when the slot
key_hash & mask is empty buckets_store_value stops at the assert(0) of line 137, and with
assertions compiled out returns -1 leaving the whole state (stores, table, counters, trace)
unchanged; when the slot holds a replica carrying its slot index it returns 0 after exactly
one Store write on that replica's data, with no client when the replica has no backup peer and
with the backup node's client when it has one whose client is attached; the write leaves the
bucket table and the counters unchanged. -/
theorem buckets_store_value_spec (ndebug : Bool) (s : State) (map_hash key_hash : Nat)
    (name : Option String) (name_int : Int) (expires : Int) (value : Nat)
    (bs : List (Option Bucket)) (hb : s.buckets = some bs) (hmask : s.mask < 2147483648) :
    (bs[key_hash &&& s.mask]? = some none →
      buckets_store_value ndebug s map_hash key_hash name name_int expires value =
        if ndebug then .ok (-1, s) else .error (.assertion 137)) ∧
    (∀ b, bs[key_hash &&& s.mask]? = some (some b) → b.hash = key_hash &&& s.mask →
      (b.backup_node = none →
        buckets_store_value ndebug s map_hash key_hash name name_int expires value =
          .ok (0, data_set_value s map_hash key_hash b.data name name_int value expires none)) ∧
      (∀ n node c, b.backup_node = some n → s.nodeHeap[n]? = some node →
        node.client = some c →
        buckets_store_value ndebug s map_hash key_hash name name_int expires value =
          .ok (0, data_set_value s map_hash key_hash b.data name name_int value expires
            (some c))) ∧
      (∀ bc,
        let s' := data_set_value s map_hash key_hash b.data name name_int value expires bc
        s'.trace = s.trace ++
            [Event.data_set_value map_hash key_hash b.data name name_int value expires bc] ∧
          s'.buckets = s.buckets ∧ s'.hashmasks = s.hashmasks ∧ s'.mask = s.mask ∧
          s'.primary_buckets = s.primary_buckets ∧
          s'.secondary_buckets = s.secondary_buckets ∧
          s'.nobackup_buckets = s.nobackup_buckets ∧
          s'.bucket_transfer = s.bucket_transfer)) := by
  have hcomm : s.mask &&& key_hash = key_hash &&& s.mask := Nat.land_comm _ _
  have hle : key_hash &&& s.mask ≤ s.mask := Nat.and_le_right
  have h32 : toInt32 ((key_hash &&& s.mask : Nat) : Int) = ((key_hash &&& s.mask : Nat) : Int) :=
    toInt32_of_lt _ (by omega)
  have h64 : toU64 ((key_hash &&& s.mask : Nat) : Int) = key_hash &&& s.mask :=
    toU64_natCast _ (by omega)
  have c1 : cassert ndebug 114 (decide (((key_hash &&& s.mask : Nat) : Int) ≥ 0)) = .ok () := by
    simp [cassert]
  have c2 : cassert ndebug 115 (decide (key_hash &&& s.mask ≤ s.mask)) = .ok () := by
    simp [cassert, hle]
  refine ⟨?_, ?_⟩
  · intro hslot
    have hat := bucket_at_ok 116 s bs (key_hash &&& s.mask) none hb hslot
    unfold buckets_store_value
    simp only [hcomm, h32, h64, hat, c1, c2, bind, Except.bind]
    cases ndebug <;> simp [cassert, pure, Except.pure]
  · intro b hslot hh
    have hat := bucket_at_ok 116 s bs (key_hash &&& s.mask) (some b) hb hslot
    refine ⟨?_, ?_, ?_⟩
    · intro hnb
      unfold buckets_store_value
      simp only [hcomm, h32, h64, hat, c1, c2, bind, Except.bind]
      simp [hh, hnb, cassert_true, pure, Except.pure]
    · intro n node c hn hnode hc
      unfold buckets_store_value
      simp only [hcomm, h32, h64, hat, c1, c2, bind, Except.bind]
      simp [hh, hn, hnode, hc, cassert_true, pure, Except.pure]
    · intro bc
      exact data_set_value_frame s map_hash key_hash b.data name name_int value expires bc

/-- C2, amended, at a concrete state: the populated slot 0 (no backup) takes one local write and
the empty slot 1 stops at the assertion. -/
theorem buckets_store_value_spec_witness :
    buckets_store_value false exampleHalf 7 4 none 0 0 42 =
        .ok (0, data_set_value exampleHalf 7 4 (some 0) none 0 42 0 none) ∧
      buckets_store_value false exampleHalf 7 5 none 0 0 42 = .error (.assertion 137) := by
  have h := buckets_store_value_spec false exampleHalf 7 5 none 0 0 42
    [some { hash := 0, level := 0, data := some 0 }, none] rfl (by decide)
  have h4 := buckets_store_value_spec false exampleHalf 7 4 none 0 0 42
    [some { hash := 0, level := 0, data := some 0 }, none] rfl (by decide)
  refine ⟨?_, ?_⟩
  · exact (h4.2 { hash := 0, level := 0, data := some 0 } (by decide) (by decide)).1 rfl
  · exact h.1 (by decide)

/-! ## C3: buckets_get_primary -/

/-- C3: the code does not do what its own comment and the claim say.  For the Primary replica
hosted in slot 0 (not being migrated) buckets_get_primary returns the address recorded in the
hashmask entry instead of NULL, and for the empty slot 1 it dereferences the NULL slot
(line 699) instead of returning the recorded primary address. -/
theorem buckets_get_primary_diverges :
    buckets_get_primary false exampleHalf 4 = .ok (some "a:1") ∧
      buckets_get_primary true exampleHalf 4 = .ok (some "a:1") ∧
      buckets_get_primary false exampleHalf 5 = .error (.nullDeref 699) ∧
      buckets_get_primary true exampleHalf 5 = .error (.nullDeref 699) := by
  decide

/-! ## C4: the hashmask entries of a split -/

/-- C4: the hashmask entries built by the split are not copies when the old secondary address is
absent.  Line 266 assigns primary instead of secondary, so the new entry loses the old primary
address and its secondary field keeps whatever malloc returned (junk).  On the table with
primary "a:1" and no secondary, both new entries end with no primary. -/
theorem buckets_split_mask_loses_primary :
    (∀ (junk : Option String) (p : Option String),
        split_hashmask_entry junk { primary := p, secondary := none } =
          { primary := none, secondary := junk }) ∧
      (buckets_split_mask false noJunk exampleBare 1).map (fun s => s.hashmasks) =
        .ok (some [some { primary := none, secondary := none },
                   some { primary := none, secondary := none }]) ∧
      (buckets_split_mask true (fun _ => some "junk") exampleBare 1).map (fun s => s.hashmasks) =
        .ok (some [some { primary := none, secondary := some "junk" },
                   some { primary := none, secondary := some "junk" }]) := by
  refine ⟨?_, ?_, ?_⟩
  · intro junk p
    cases p <;> rfl
  · decide
  · decide


/-! ## C5: the bucket slots of a split -/

/-- C5: when buckets_split_mask returns, the new bucket table has one slot per new index; slot
i is populated exactly when the old slot i & old_mask was, and a populated new replica has
index i, the role and the backup, source and logging peers of the old replica, and a store whose
parent (next) is the old replica's store.  With assertions compiled out the split does return,
on every state that satisfies SplitPre. -/
theorem buckets_split_mask_buckets (ndebug : Bool) (junk : Nat → Option String) (s : State)
    (mask : Nat) (hm : s.mask < 2147483648) :
    (∀ s', buckets_split_mask ndebug junk s mask = .ok s' →
      ∃ nb, s'.buckets = some nb ∧ nb.length = mask + 1 ∧
        ∀ i, i ≤ mask →
          ((∃ b, nb[i]? = some (some b)) ↔
            ∃ obs ob, s.buckets = some obs ∧ obs[i &&& s.mask]? = some (some ob)) ∧
          ∀ b, nb[i]? = some (some b) →
            ∃ obs ob, s.buckets = some obs ∧ obs[i &&& s.mask]? = some (some ob) ∧
              b.hash = i ∧ b.level = ob.level ∧ b.backup_node = ob.backup_node ∧
              b.target_node = ob.target_node ∧ b.logging_node = ob.logging_node ∧
              ∃ a d, b.data = some a ∧ s'.dataHeap[a]? = some d ∧ d.next = ob.data) ∧
    (SplitPre s → s.mask < mask → mask < 2147483647 →
      ∃ s', buckets_split_mask true junk s mask = .ok s') := by
  refine ⟨?_, fun hpre hlt hmax => buckets_split_mask_ndebug junk s mask hpre hlt hmax⟩
  intro s' hs'
  obtain ⟨nl, nb, heap, e1, -, e3, -, -, -, -, e8⟩ :=
    buckets_split_mask_ok ndebug junk s s' mask hs' hm
  have hb' : s'.buckets = some nb := by rw [e1]
  have hh' : s'.dataHeap = heap := by rw [e1]
  refine ⟨nb, hb', e3, ?_⟩
  intro i hi
  obtain ⟨e, sl, -, hsl, -, -, hslot⟩ := e8 i hi
  rcases hslot with ⟨h1, h2⟩ | ⟨obs, ob, a, d, q1, q2, q3, -, q4, -, q6, -⟩
  · subst h1
    refine ⟨⟨?_, ?_⟩, ?_⟩
    · rintro ⟨b, hb⟩
      rw [hsl] at hb
      cases hb
    · rintro ⟨obs, ob, ho1, ho2⟩
      rcases h2 with h2 | ⟨obs2, h3, h4⟩
      · rw [h2] at ho1
        cases ho1
      · rw [h3] at ho1
        cases ho1
        rw [h4] at ho2
        cases ho2
    · intro b hb
      rw [hsl] at hb
      cases hb
  · subst q3
    refine ⟨⟨fun _ => ⟨obs, ob, q1, q2⟩, fun _ => ⟨_, hsl⟩⟩, ?_⟩
    intro b hb
    rw [hsl] at hb
    simp only [Option.some.injEq] at hb
    subst hb
    exact ⟨obs, ob, q1, q2, rfl, rfl, rfl, rfl, rfl, a, d, rfl, by rw [hh']; exact q4, q6⟩

/-- C5, at a concrete state: the split of the table of mask 1 that hosts bucket 0 returns (with
assertions compiled out) and the new table has the stated shape. -/
theorem buckets_split_mask_buckets_witness :
    ∃ s', buckets_split_mask true noJunk exampleHalf 3 = .ok s' ∧
      ∃ nb, s'.buckets = some nb ∧ nb.length = 3 + 1 ∧
        ∀ i, i ≤ 3 →
          ((∃ b, nb[i]? = some (some b)) ↔
            ∃ obs ob, exampleHalf.buckets = some obs ∧
              obs[i &&& exampleHalf.mask]? = some (some ob)) ∧
          ∀ b, nb[i]? = some (some b) →
            ∃ obs ob, exampleHalf.buckets = some obs ∧
              obs[i &&& exampleHalf.mask]? = some (some ob) ∧
              b.hash = i ∧ b.level = ob.level ∧ b.backup_node = ob.backup_node ∧
              b.target_node = ob.target_node ∧ b.logging_node = ob.logging_node ∧
              ∃ a d, b.data = some a ∧ s'.dataHeap[a]? = some d ∧ d.next = ob.data := by
  have h := buckets_split_mask_buckets true noJunk exampleHalf 3 (by decide)
  obtain ⟨s', hs'⟩ := h.2 splitPre_exampleHalf (by decide) (by decide)
  exact ⟨s', hs', h.1 s' hs'⟩


/-! ## C6: lookups across a split -/

/-- C6: a key for which buckets_get_value returned a value v before the split gets the same v
after it, and resolves under the new mask to exactly one slot, which is populated; the masks are
of the form 2^k-1 and the new one fits a C int.  With assertions compiled out the split does
return, on every state that satisfies SplitPre. -/
theorem buckets_split_mask_keeps_values (g ndebug : Bool) (junk : Nat → Option String)
    (s : State) (mask map_hash key_hash v : Nat)
    (hmasks : ∃ a b, s.mask = 2 ^ a - 1 ∧ mask = 2 ^ b - 1) (hlt : s.mask < mask)
    (hmax : mask < 2147483647)
    (hget : buckets_get_value g s map_hash key_hash = .ok (some v, s)) :
    (∀ s', buckets_split_mask ndebug junk s mask = .ok s' →
      buckets_get_value g s' map_hash key_hash = .ok (some v, s') ∧
      ∃ nb, s'.buckets = some nb ∧
        ∃! i, i ≤ mask ∧ i = key_hash &&& s'.mask ∧ ∃ b, nb[i]? = some (some b)) ∧
    (SplitPre s → ∃ s', buckets_split_mask true junk s mask = .ok s') := by
  refine ⟨?_, fun hpre => buckets_split_mask_ndebug junk s mask hpre hlt hmax⟩
  intro s' hs'
  have hm : s.mask < 2147483648 := by omega
  obtain ⟨bs, b, hbs, hslot, hlev, hval⟩ := buckets_get_value_inv g s s map_hash key_hash v hm hget
  obtain ⟨nl, nb, heap, e1, -, e3, e4, -, -, -, e8⟩ :=
    buckets_split_mask_ok ndebug junk s s' mask hs' hm
  have hb' : s'.buckets = some nb := by rw [e1]
  have hh' : s'.dataHeap = heap := by rw [e1]
  have hmk : s'.mask = mask := by rw [e1]
  have hle : key_hash &&& mask ≤ mask := Nat.and_le_right
  obtain ⟨e, sl, -, hsl, -, -, hslot'⟩ := e8 (key_hash &&& mask) hle
  rw [land_land_of_masks key_hash s.mask mask hmasks hlt] at hslot'
  rcases hslot' with ⟨-, h2⟩ | ⟨obs, ob, a, d, q1, q2, q3, q0, q4, q5, q6, -⟩
  · rcases h2 with h2 | ⟨obs2, h3, h4⟩
    · rw [h2] at hbs
      cases hbs
    · rw [h3] at hbs
      cases hbs
      rw [h4] at hslot
      cases hslot
  · rw [q1] at hbs
    cases hbs
    rw [q2] at hslot
    cases hslot
    subst q3
    have hval' : data_get_value s' map_hash key_hash (some a) = some v := by
      unfold data_get_value at hval ⊢
      rw [hh']
      have hal : a < heap.length := by
        by_contra hc
        rw [List.getElem?_eq_none (by omega)] at q4
        cases q4
      obtain ⟨k, hk⟩ : ∃ k, heap.length = k + 1 := ⟨heap.length - 1, by omega⟩
      rw [hk]
      simp only [data_lookup, q4, q5, List.lookup_nil, q6]
      exact data_lookup_mono s.dataHeap heap e4 map_hash key_hash s.dataHeap.length k _ v
        (by omega) hval
    refine ⟨?_, nb, hb', ?_⟩
    · have heq := buckets_get_value_eq g s' map_hash key_hash nb hb' (by rw [hmk]; exact e3)
        (by rw [hmk]; omega) (by
          intro b' hb2
          rw [hmk, hsl] at hb2
          simp only [Option.some.injEq] at hb2
          subst hb2
          exact ⟨by rw [hmk], fun _ => rfl⟩)
      rw [heq, hmk, hsl]
      simp only [hlev, if_true, hval']
    · refine ⟨key_hash &&& mask, ⟨hle, by rw [hmk], _, hsl⟩, ?_⟩
      rintro y ⟨-, hy, -⟩
      rw [hy, hmk]

/-- C6, at a concrete state: key (7, 4) is stored in bucket 0 under mask 1 and is still
returned after the split to mask 3. -/
theorem buckets_split_mask_keeps_values_witness :
    ∃ s', buckets_split_mask true noJunk exampleHalf 3 = .ok s' ∧
      buckets_get_value false s' 7 4 = .ok (some 99, s') := by
  have h := buckets_split_mask_keeps_values false true noJunk exampleHalf 3 7 4 99
    ⟨1, 2, by decide, by decide⟩ (by decide) (by decide) (by decide)
  obtain ⟨s', hs'⟩ := h.2 splitPre_exampleHalf
  exact ⟨s', hs', (h.1 s' hs').1⟩

/-! ## C7: totality of the split -/

/-- C7: the split is not total with assertions checked.  From a table that hosts a bucket it
stops in bucket_new, whose assertion of line 148 reads _buckets after line 244 has set it to
NULL; from a table with mask 1 and no bucket it stops at the assertion of line 262, which
requires index < _mask for the old index 1. -/
theorem buckets_split_mask_stops :
    buckets_split_mask false noJunk exampleHalf 3 = .error (.nullDeref 148) ∧
      buckets_split_mask false noJunk exampleEmpty 3 = .error (.assertion 262) := by
  decide

/-! ## Lemmas: the scans of the bucket table -/

theorem scan_buckets_succ (line : Nat) (body : State → Nat → Except Fault (Option Nat × State))
    (n i : Nat) (s : State) :
    scan_buckets line body (n + 1) i s =
      match body s i with
      | .error e => .error e
      | .ok r =>
        if (i : Int) + 1 > INT_MAX then .error (.overflow line)
        else
          match r.1 with
          | some b => .ok (some b, r.2)
          | none => scan_buckets line body n (i + 1) r.2 := rfl

/-- A scan that returns has run its body on consecutive indices, each time without finding a
bucket and (for a body that leaves the state alone when it finds nothing) without changing the
state, up to the index where the body found the bucket returned, if any. -/
theorem scan_buckets_ok (line : Nat) (body : State → Nat → Except Fault (Option Nat × State))
    (hbody : ∀ s i s1, body s i = .ok (none, s1) → s1 = s) :
    ∀ (n i : Nat) (s : State) (r : Option Nat × State),
      scan_buckets line body n i s = .ok r →
      (∀ b, r.1 = some b → ∃ j, i ≤ j ∧ j < i + n ∧ body s j = .ok (some b, r.2) ∧
        ∀ k, i ≤ k → k < j → body s k = .ok (none, s)) ∧
      (r.1 = none → r.2 = s ∧ ∀ k, i ≤ k → k < i + n → body s k = .ok (none, s)) := by
  intro n
  induction n with
  | zero =>
    intro i s r h
    simp only [scan_buckets, Except.ok.injEq] at h
    subst h
    refine ⟨fun b hb => (by cases hb), fun _ => ⟨rfl, fun k h1 h2 => (by omega)⟩⟩
  | succ n ih =>
    intro i s r h
    rw [scan_buckets_succ] at h
    rcases hb : body s i with e | q
    · rw [hb] at h; cases h
    · rw [hb] at h
      simp only at h
      by_cases hov : (i : Int) + 1 > INT_MAX
      · rw [if_pos hov] at h; cases h
      · rw [if_neg hov] at h
        obtain ⟨q1, q2⟩ := q
        cases q1 with
        | some b =>
          simp only [Except.ok.injEq] at h
          subst h
          refine ⟨?_, fun hn => (by cases hn)⟩
          intro b' hb'
          simp only [Option.some.injEq] at hb'
          subst hb'
          exact ⟨i, le_refl _, (by omega), hb, fun k h1 h2 => (by omega)⟩
        | none =>
          simp only at h
          have hq2 : q2 = s := hbody s i q2 hb
          subst hq2
          obtain ⟨a1, a2⟩ := ih (i + 1) q2 r h
          refine ⟨?_, ?_⟩
          · intro b' hb'
            obtain ⟨j, j1, j2, j3, j4⟩ := a1 b' hb'
            refine ⟨j, by omega, by omega, j3, ?_⟩
            intro k k1 k2
            by_cases hk : k = i
            · subst hk; exact hb
            · exact j4 k (by omega) k2
          · intro hn
            obtain ⟨b1, b2⟩ := a2 hn
            refine ⟨b1, ?_⟩
            intro k k1 k2
            by_cases hk : k = i
            · subst hk; exact hb
            · exact b2 k (by omega) (by omega)

/-- A scan returns the bucket found at index j when the body finds nothing, and changes nothing,
at the indices before j. -/
theorem scan_buckets_found (line : Nat) (body : State → Nat → Except Fault (Option Nat × State))
    (s s' : State) (j b : Nat) (hj : (j : Int) + 1 ≤ INT_MAX)
    (hfound : body s j = .ok (some b, s')) :
    ∀ (n i : Nat), i ≤ j → j < i + n →
      (∀ k, i ≤ k → k < j → body s k = .ok (none, s)) →
      scan_buckets line body n i s = .ok (some b, s') := by
  intro n
  induction n with
  | zero => intro i h1 h2 _; omega
  | succ n ih =>
    intro i h1 h2 hbefore
    have hov : ¬ ((i : Int) + 1 > INT_MAX) := by omega
    rw [scan_buckets_succ]
    by_cases hij : i = j
    · subst hij
      rw [hfound]
      simp only [if_neg hov]
    · rw [hbefore i (le_refl _) (by omega)]
      simp only [if_neg hov]
      exact ih (i + 1) (by omega) (by omega) (fun k k1 k2 => hbefore k (by omega) k2)

/-- A scan returns no bucket when the body finds nothing, and changes nothing, at every index. -/
theorem scan_buckets_none (line : Nat) (body : State → Nat → Except Fault (Option Nat × State))
    (s : State) :
    ∀ (n i : Nat), ((i + n : Nat) : Int) ≤ INT_MAX →
      (∀ k, i ≤ k → k < i + n → body s k = .ok (none, s)) →
      scan_buckets line body n i s = .ok (none, s) := by
  intro n
  induction n with
  | zero => intro i _ _; rfl
  | succ n ih =>
    intro i hi hall
    have hov : ¬ ((i : Int) + 1 > INT_MAX) := by
      push_cast at hi
      omega
    rw [scan_buckets_succ, hall i (le_refl _) (by omega)]
    simp only [if_neg hov]
    exact ih (i + 1) (by push_cast at hi ⊢; omega) (fun k k1 k2 => hall k (by omega) (by omega))

/-! ## Lemmas: the rebalancer -/

theorem client_node_eq (line : Nat) (s : State) (client : Nat) (cl : Client)
    (hcl : s.clientHeap[client]? = some cl) : client_node line s client = .ok cl.node := by
  simp only [client_node, hcl]

theorem client_node_name_eq (line : Nat) (s : State) (client P : Nat) (cl : Client) (nd : Node)
    (hcl : s.clientHeap[client]? = some cl) (hP : cl.node = some P)
    (hnode : s.nodeHeap[P]? = some nd) : client_node_name line s client = .ok nd.name := by
  simp only [client_node_name, client_node_eq line s client cl hcl, hP, hnode]

theorem assert_client_node_eq (ndebug : Bool) (s : State) (client P : Nat) (cl : Client)
    (hcl : s.clientHeap[client]? = some cl) (hP : cl.node = some P) :
    assert_client_node ndebug s client = .ok () := by
  cases ndebug with
  | true => rfl
  | false =>
    simp only [assert_client_node, client_node_eq 184 s client cl hcl, hP]
    rfl

/-- The state after a bucket has been marked as transferring to a client and one message has
been sent. -/
theorem mark_state_eq (s : State) (bs : List (Option Bucket)) (i client : Nat) (b : Bucket)
    (e : Event) (hbs : s.buckets = some bs) :
    push { set_bucket s i { b with transfer_client := some client } with bucket_transfer := 1 } e
      = { s with
          buckets := some (bs.set i (some { b with transfer_client := some client }))
          bucket_transfer := 1
          trace := s.trace ++ [e] } := by
  simp only [push, set_bucket, hbs, Option.map_some']

theorem attempt_switch_body_skip (ndebug : Bool) (s : State) (client P k : Nat) (cl : Client)
    (bs : List (Option Bucket)) (slot : Option Bucket)
    (hbs : s.buckets = some bs) (hcl : s.clientHeap[client]? = some cl) (hP : cl.node = some P)
    (hslot : bs[k]? = some slot)
    (hno : ∀ b, slot = some b → ¬ (b.level = 0 ∧ b.backup_node = some P)) :
    attempt_switch_body ndebug client s k = .ok (none, s) := by
  unfold attempt_switch_body
  rw [bucket_at_ok 53 s bs k slot hbs hslot]
  cases slot with
  | none => rfl
  | some b =>
    simp only
    by_cases hl : b.level = 0
    · rw [if_pos hl, client_node_eq 59 s client cl hcl, hP]
      have hne : ¬ (b.backup_node = some P) := fun h => hno b rfl ⟨hl, h⟩
      simp only [if_neg hne]
    · rw [if_neg hl]

theorem attempt_switch_body_hit (ndebug : Bool) (s : State) (client P i : Nat) (cl : Client)
    (nd : Node) (bs : List (Option Bucket)) (b : Bucket)
    (hbs : s.buckets = some bs) (hcl : s.clientHeap[client]? = some cl) (hP : cl.node = some P)
    (hnode : s.nodeHeap[P]? = some nd) (hslot : bs[i]? = some (some b))
    (hl : b.level = 0) (hb : b.backup_node = some P) (hidle : s.bucket_transfer = 0)
    (hmark : b.transfer_client = none) :
    attempt_switch_body ndebug client s i =
      .ok (some i, { s with
          buckets := some (bs.set i (some { b with transfer_client := some client }))
          bucket_transfer := 1
          trace := s.trace ++ [Event.push_control_bucket client b.hash b.level] }) := by
  unfold attempt_switch_body
  rw [bucket_at_ok 53 s bs i (some b) hbs hslot]
  simp only [if_pos hl]
  rw [client_node_eq 59 s client cl hcl, hP]
  simp only [hb, if_true]
  unfold attempt_switch_start
  rw [client_node_name_eq 65 s client P cl nd hcl hP hnode, ok_bind]
  have c1 : cassert ndebug 67 b.transfer_client.isNone = .ok () := by
    rw [hmark]; exact cassert_true ndebug 67
  have c2 : cassert ndebug 70 (decide (s.bucket_transfer = 0)) = .ok () := by
    rw [hidle]; exact cassert_true ndebug 70
  rw [c1, ok_bind]
  simp only [c2, ok_bind, pure_eq, push, set_bucket, hbs, Option.map_some', hb, hl]

theorem attempt_switch_found (ndebug : Bool) (s : State) (client P i0 : Nat) (cl : Client)
    (nd : Node) (bs : List (Option Bucket)) (b0 : Bucket)
    (hbs : s.buckets = some bs) (hlen : bs.length = s.mask + 1) (hmask : s.mask < 2147483647)
    (hcl : s.clientHeap[client]? = some cl) (hP : cl.node = some P)
    (hnode : s.nodeHeap[P]? = some nd) (hi0 : bs[i0]? = some (some b0))
    (hl : b0.level = 0) (hb : b0.backup_node = some P) (hidle : s.bucket_transfer = 0)
    (hmark : b0.transfer_client = none)
    (hfirst : ∀ j b, j < i0 → bs[j]? = some (some b) →
      ¬ (b.level = 0 ∧ b.backup_node = some P)) :
    attempt_switch ndebug s client =
      .ok (1, { s with
          buckets := some (bs.set i0 (some { b0 with transfer_client := some client }))
          bucket_transfer := 1
          trace := s.trace ++ [Event.push_control_bucket client b0.hash b0.level] }) := by
  have hi0lt : i0 < bs.length := by
    by_contra hc
    rw [List.getElem?_eq_none (by omega)] at hi0
    cases hi0
  have hscan := scan_buckets_found 50 (attempt_switch_body ndebug client) s _ i0 i0
    (by unfold INT_MAX; omega)
    (attempt_switch_body_hit ndebug s client P i0 cl nd bs b0 hbs hcl hP hnode hi0 hl hb hidle
      hmark)
    (s.mask + 1) 0 (Nat.zero_le _) (by omega)
    (by
      intro k _ hk
      have hklt : k < bs.length := by omega
      exact attempt_switch_body_skip ndebug s client P k cl bs bs[k] hbs hcl hP
        (List.getElem?_eq_getElem hklt)
        (fun b hbk => hfirst k b hk (by rw [List.getElem?_eq_getElem hklt, hbk])))
  unfold attempt_switch
  rw [hscan]
  rfl


theorem attempt_switch_none (ndebug : Bool) (s : State) (client P : Nat) (cl : Client)
    (bs : List (Option Bucket))
    (hbs : s.buckets = some bs) (hlen : bs.length = s.mask + 1) (hmask : s.mask < 2147483647)
    (hcl : s.clientHeap[client]? = some cl) (hP : cl.node = some P)
    (hnone : ∀ (j : Nat) (b : Bucket), bs[j]? = some (some b) →
        ¬ (b.level = 0 ∧ b.backup_node = some P)) :
    attempt_switch ndebug s client = .ok (0, s) := by
  have hscan := scan_buckets_none 50 (attempt_switch_body ndebug client) s (s.mask + 1) 0
    (by unfold INT_MAX; omega)
    (by
      intro k _ hk
      have hklt : k < bs.length := by omega
      exact attempt_switch_body_skip ndebug s client P k cl bs bs[k] hbs hcl hP
        (List.getElem?_eq_getElem hklt)
        (fun b hbk => hnone k b (by rw [List.getElem?_eq_getElem hklt, hbk])))
  unfold attempt_switch
  rw [hscan]
  rfl

theorem loadlevels_switch_none (ndebug : Bool) (s : State) (client P : Nat) (cl : Client)
    (primary backups : Int) (bs : List (Option Bucket))
    (hbs : s.buckets = some bs) (hlen : bs.length = s.mask + 1) (hmask : s.mask < 2147483647)
    (hcl : s.clientHeap[client]? = some cl) (hP : cl.node = some P)
    (hidle : s.bucket_transfer = 0)
    (hnoswap : ¬ (s.primary_buckets - 1 ≥ s.secondary_buckets + 1 ∧ backups > primary) ∨
      ∀ (j : Nat) (b : Bucket), bs[j]? = some (some b) →
        ¬ (b.level = 0 ∧ b.backup_node = some P)) :
    loadlevels_switch ndebug s client primary backups = .ok (false, s) := by
  unfold loadlevels_switch
  by_cases hc : s.primary_buckets - 1 ≥ s.secondary_buckets + 1 ∧ backups > primary
  · rcases hnoswap with h | h
    · exact absurd hc h
    · rw [if_pos hc, attempt_switch_none ndebug s client P cl bs hbs hlen hmask hcl hP h]
      have h01 : ¬ ((0 : Int) = 1) := by decide
      simp only [h01, if_false, hidle, decide_True, cassert_true, ok_bind, pure_eq]
  · rw [if_neg hc]

theorem find_nobackup_body_skip (ndebug : Bool) (s : State) (k : Nat)
    (bs : List (Option Bucket)) (slot : Option Bucket)
    (hbs : s.buckets = some bs) (hslot : bs[k]? = some slot)
    (hno : ∀ b, slot = some b → ¬ (b.level = 0 ∧ b.backup_node = none)) :
    find_nobackup_body ndebug s k = .ok (none, s) := by
  unfold find_nobackup_body
  rw [bucket_at_ok 94 s bs k slot hbs hslot]
  cases slot with
  | none => rfl
  | some b =>
    simp only
    rw [if_neg (hno b rfl)]

theorem find_nobackup_body_hit (ndebug : Bool) (s : State) (i : Nat)
    (bs : List (Option Bucket)) (b : Bucket)
    (hbs : s.buckets = some bs) (hslot : bs[i]? = some (some b))
    (hl : b.level = 0) (hb : b.backup_node = none) (hhash : b.hash = i)
    (hmark : b.transfer_client = none) :
    find_nobackup_body ndebug s i = .ok (some i, s) := by
  unfold find_nobackup_body
  rw [bucket_at_ok 94 s bs i (some b) hbs hslot]
  simp only [hl, hb, and_self, if_true, hhash, decide_True, cassert_true, hmark,
    Option.isNone_none, ok_bind, pure_eq]

theorem find_nobackup_bucket_found (ndebug : Bool) (s : State) (i0 : Nat)
    (bs : List (Option Bucket)) (b0 : Bucket)
    (hbs : s.buckets = some bs) (hlen : bs.length = s.mask + 1) (hmask : s.mask < 2147483647)
    (hi0 : bs[i0]? = some (some b0)) (hl : b0.level = 0) (hb : b0.backup_node = none)
    (hhash : b0.hash = i0) (hmark : b0.transfer_client = none)
    (hfirst : ∀ j b, j < i0 → bs[j]? = some (some b) →
      ¬ (b.level = 0 ∧ b.backup_node = none)) :
    find_nobackup_bucket ndebug s = .ok (some i0) := by
  have hi0lt : i0 < bs.length := by
    by_contra hc
    rw [List.getElem?_eq_none (by omega)] at hi0
    cases hi0
  have hscan := scan_buckets_found 93 (find_nobackup_body ndebug) s s i0 i0
    (by unfold INT_MAX; omega)
    (find_nobackup_body_hit ndebug s i0 bs b0 hbs hi0 hl hb hhash hmark)
    (s.mask + 1) 0 (Nat.zero_le _) (by omega)
    (by
      intro k _ hk
      have hklt : k < bs.length := by omega
      exact find_nobackup_body_skip ndebug s k bs bs[k] hbs (List.getElem?_eq_getElem hklt)
        (fun b hbk => hfirst k b hk (by rw [List.getElem?_eq_getElem hklt, hbk])))
  unfold find_nobackup_bucket
  rw [hscan]

theorem start_migration_some (ndebug : Bool) (s : State) (client P i : Nat) (cl : Client)
    (nd : Node) (bs : List (Option Bucket)) (b : Bucket)
    (hbs : s.buckets = some bs) (hcl : s.clientHeap[client]? = some cl) (hP : cl.node = some P)
    (hnode : s.nodeHeap[P]? = some nd) (hslot : bs[i]? = some (some b))
    (hidle : s.bucket_transfer = 0) (hmark : b.transfer_client = none) :
    start_migration ndebug s client (some i) =
      .ok { s with
          buckets := some (bs.set i (some { b with transfer_client := some client }))
          bucket_transfer := 1
          trace := s.trace ++ [Event.push_accept_bucket client b.hash] } := by
  unfold start_migration
  simp only
  rw [bucket_at_ok 252 s bs i (some b) hbs hslot]
  have c1 : cassert ndebug 252 b.transfer_client.isNone = .ok () := by
    rw [hmark]; exact cassert_true ndebug 252
  have c2 : cassert ndebug 260 (decide (s.bucket_transfer = 0)) = .ok () := by
    rw [hidle]; exact cassert_true ndebug 260
  have c3 : client_node_name 258 (set_bucket s i { b with transfer_client := some client })
      client = .ok nd.name :=
    client_node_name_eq 258 _ client P cl nd hcl hP hnode
  simp only [c1, ok_bind, c3]
  simp only [c2, ok_bind, pure_eq, push, set_bucket, hbs, Option.map_some']


theorem client_node_eq_ok (line : Nat) (s : State) (client : Nat) (n : Option Nat) :
    client_node line s client = .ok n ↔ ∃ cl, s.clientHeap[client]? = some cl ∧ cl.node = n := by
  unfold client_node
  rcases h : s.clientHeap[client]? with _ | cl <;> simp

theorem attempt_switch_body_ok (ndebug : Bool) (client : Nat) (s : State) (i : Nat)
    (r : Option Nat × State) (h : attempt_switch_body ndebug client s i = .ok r) :
    (r.1 = none → r.2 = s) ∧
      (∀ j, r.1 = some j → ∃ b : Bucket, r.2 =
        marked s i b client (Event.push_control_bucket client b.hash b.level)) := by
  unfold attempt_switch_body at h
  rcases hb : bucket_at 53 s i with e | slot
  · rw [hb] at h; cases h
  · rw [hb] at h
    cases slot with
    | none =>
      simp only [Except.ok.injEq] at h
      subst h
      exact ⟨fun _ => rfl, fun j hj => (by cases hj)⟩
    | some b =>
      simp only at h
      by_cases hl : b.level = 0
      · rw [if_pos hl] at h
        rcases hc : client_node 59 s client with e | cnode
        · rw [hc] at h; cases h
        · rw [hc] at h
          simp only at h
          by_cases hbk : b.backup_node = cnode
          · rw [if_pos hbk] at h
            unfold attempt_switch_start at h
            simp only [bind_eq_ok, pure_eq_ok] at h
            obtain ⟨-, -, -, -, -, -, hr⟩ := h
            subst hr
            exact ⟨fun hn => (by cases hn), fun j _ => ⟨b, rfl⟩⟩
          · rw [if_neg hbk] at h
            simp only [Except.ok.injEq] at h
            subst h
            exact ⟨fun _ => rfl, fun j hj => (by cases hj)⟩
      · rw [if_neg hl] at h
        simp only [Except.ok.injEq] at h
        subst h
        exact ⟨fun _ => rfl, fun j hj => (by cases hj)⟩

/-- What attempt_switch leaves behind: the state as it was when it returns 0, and otherwise
the state with one bucket marked and one CONTROL_BUCKET sent. -/
theorem attempt_switch_ok (ndebug : Bool) (s : State) (client : Nat) (r : Int × State)
    (h : attempt_switch ndebug s client = .ok r) :
    (r.1 = 0 ∧ r.2 = s) ∨
      (r.1 = 1 ∧ ∃ (i : Nat) (b : Bucket), r.2 =
        marked s i b client (Event.push_control_bucket client b.hash b.level)) := by
  unfold attempt_switch at h
  rcases hs : scan_buckets 50 (attempt_switch_body ndebug client) (s.mask + 1) 0 s with e | q
  · rw [hs] at h; cases h
  · rw [hs] at h
    simp only [Except.ok.injEq] at h
    subst h
    obtain ⟨a1, a2⟩ := scan_buckets_ok 50 (attempt_switch_body ndebug client)
      (fun s i s1 hb => (attempt_switch_body_ok ndebug client s i (none, s1) hb).1 rfl)
      (s.mask + 1) 0 s q hs
    rcases hq : q.1 with _ | j
    · exact Or.inl ⟨by simp [hq], (a2 hq).1⟩
    · obtain ⟨i, -, -, hbody, -⟩ := a1 j hq
      obtain ⟨b, hb⟩ := (attempt_switch_body_ok ndebug client s i _ hbody).2 j rfl
      exact Or.inr ⟨by simp [hq], i, b, hb⟩

theorem loadlevels_switch_ok (ndebug : Bool) (s : State) (client : Nat) (primary backups : Int)
    (r : Bool × State) (h : loadlevels_switch ndebug s client primary backups = .ok r) :
    (r.1 = false ∧ r.2 = s) ∨
      (r.1 = true ∧ ∃ (i : Nat) (b : Bucket), r.2 =
        marked s i b client (Event.push_control_bucket client b.hash b.level)) := by
  unfold loadlevels_switch at h
  by_cases hc : s.primary_buckets - 1 ≥ s.secondary_buckets + 1 ∧ backups > primary
  · rw [if_pos hc] at h
    rcases ha : attempt_switch ndebug s client with e | q
    · rw [ha] at h; cases h
    · rw [ha] at h
      simp only at h
      rcases attempt_switch_ok ndebug s client q ha with ⟨q1, q2⟩ | ⟨q1, i, b, q2⟩
      · have h01 : ¬ ((0 : Int) = 1) := by decide
        simp only [q1, h01, if_false, bind_eq_ok, pure_eq_ok] at h
        obtain ⟨-, -, hr⟩ := h
        subst hr
        exact Or.inl ⟨rfl, q2⟩
      · simp only [q1, if_true, bind_eq_ok, pure_eq_ok] at h
        obtain ⟨-, -, -, -, hr⟩ := h
        subst hr
        exact Or.inr ⟨rfl, i, b, q2⟩
  · rw [if_neg hc] at h
    simp only [Except.ok.injEq] at h
    subst h
    exact Or.inl ⟨rfl, rfl⟩

theorem find_nobackup_body_ok (ndebug : Bool) (s : State) (i : Nat) (r : Option Nat × State)
    (h : find_nobackup_body ndebug s i = .ok r) :
    r.2 = s ∧ ∀ j, r.1 = some j → j = i ∧ ∃ (bs : List (Option Bucket)) (b : Bucket),
      s.buckets = some bs ∧ bs[i]? = some (some b) ∧ b.level = 0 ∧ b.backup_node = none := by
  unfold find_nobackup_body at h
  rcases hb : bucket_at 94 s i with e | slot
  · rw [hb] at h; cases h
  · rw [hb] at h
    obtain ⟨bs, hbs, hslot⟩ := (bucket_at_eq_ok 94 s i slot).1 hb
    cases slot with
    | none =>
      simp only [Except.ok.injEq] at h
      subst h
      exact ⟨rfl, fun j hj => (by cases hj)⟩
    | some b =>
      simp only at h
      by_cases hc : b.level = 0 ∧ b.backup_node = none
      · rw [if_pos hc] at h
        simp only [bind_eq_ok, pure_eq_ok] at h
        obtain ⟨-, -, -, -, hr⟩ := h
        subst hr
        refine ⟨rfl, fun j hj => ?_⟩
        simp only [Option.some.injEq] at hj
        exact ⟨hj.symm, bs, b, hbs, hslot, hc.1, hc.2⟩
      · rw [if_neg hc] at h
        simp only [Except.ok.injEq] at h
        subst h
        exact ⟨rfl, fun j hj => (by cases hj)⟩

theorem find_nobackup_bucket_ok (ndebug : Bool) (s : State) (i : Nat)
    (h : find_nobackup_bucket ndebug s = .ok (some i)) :
    ∃ (bs : List (Option Bucket)) (b : Bucket),
      s.buckets = some bs ∧ bs[i]? = some (some b) ∧ b.level = 0 ∧ b.backup_node = none := by
  unfold find_nobackup_bucket at h
  rcases hs : scan_buckets 93 (find_nobackup_body ndebug) (s.mask + 1) 0 s with e | q
  · rw [hs] at h; cases h
  · rw [hs] at h
    simp only [Except.ok.injEq] at h
    obtain ⟨a1, -⟩ := scan_buckets_ok 93 (find_nobackup_body ndebug)
      (fun s i s1 hb => (find_nobackup_body_ok ndebug s i (none, s1) hb).1)
      (s.mask + 1) 0 s q hs
    obtain ⟨j, -, -, hbody, -⟩ := a1 i h
    obtain ⟨hji, hrest⟩ := (find_nobackup_body_ok ndebug s j _ hbody).2 i rfl
    subst hji
    exact hrest

theorem loadlevels_nobackup_ok (ndebug : Bool) (s : State) (primary backups : Int) (i : Nat)
    (h : loadlevels_nobackup ndebug s primary backups = .ok (some i)) :
    ∃ (bs : List (Option Bucket)) (b : Bucket),
      s.buckets = some bs ∧ bs[i]? = some (some b) ∧ b.level = 0 ∧ b.backup_node = none := by
  unfold loadlevels_nobackup at h
  simp only [bind_eq_ok] at h
  obtain ⟨n, -, h⟩ := h
  by_cases hn : n > 0
  · rw [if_pos hn] at h
    simp only [bind_eq_ok] at h
    obtain ⟨sum, -, h⟩ := h
    by_cases hc : toU64 sum < (s.mask + 1) % 18446744073709551616
    · rw [if_pos hc] at h
      simp only [bind_eq_ok, pure_eq_ok] at h
      obtain ⟨b, hb, -, -, hr⟩ := h
      subst hr
      exact find_nobackup_bucket_ok ndebug s i hb
    · rw [if_neg hc] at h
      simp only [pure_eq_ok] at h
      cases h
  · rw [if_neg hn] at h
    simp only [pure_eq_ok] at h
    cases h

theorem choose_test_ok (ndebug : Bool) (s : State) (client : Nat) (sl : Int) (b : Bucket)
    (t : Bool) (h : choose_test ndebug s client sl b = .ok t) :
    ∃ cl, s.clientHeap[client]? = some cl ∧
      (sl = 0 → (t = true ↔ b.backup_node ≠ cl.node)) ∧
      (sl ≠ 0 → (t = true ↔ b.target_node ≠ cl.node)) := by
  unfold choose_test at h
  by_cases hsl : sl = 0
  · rw [if_pos hsl] at h
    simp only [bind_eq_ok, pure_eq_ok, client_node_eq_ok] at h
    obtain ⟨-, -, -, -, n, ⟨cl, hcl, hn⟩, hr⟩ := h
    subst hn hr
    exact ⟨cl, hcl, fun _ => by simp, fun h2 => absurd hsl h2⟩
  · rw [if_neg hsl] at h
    simp only [bind_eq_ok, pure_eq_ok, client_node_eq_ok] at h
    obtain ⟨-, -, -, -, n, ⟨cl, hcl, hn⟩, hr⟩ := h
    subst hn hr
    exact ⟨cl, hcl, fun h2 => absurd h2 hsl, fun _ => by simp⟩

theorem choose_body_ok (ndebug : Bool) (client : Nat) (sl : Int) (s : State) (i : Nat)
    (r : Option Nat × State) (h : choose_body ndebug client sl s i = .ok r) :
    r.2 = s ∧ ∃ (bs : List (Option Bucket)) (slot : Option Bucket),
      s.buckets = some bs ∧ bs[i]? = some slot ∧
      (∀ j, r.1 = some j → j = i ∧ ∃ b cl, slot = some b ∧ b.level = sl ∧
        s.clientHeap[client]? = some cl ∧
        (sl = 0 → b.backup_node ≠ cl.node) ∧ (sl ≠ 0 → b.target_node ≠ cl.node)) ∧
      (r.1 = none → ∀ b, slot = some b → b.level = sl →
        ∃ cl, s.clientHeap[client]? = some cl ∧
          (sl = 0 → b.backup_node = cl.node) ∧ (sl ≠ 0 → b.target_node = cl.node)) := by
  unfold choose_body at h
  rcases hb : bucket_at 136 s i with e | slot
  · rw [hb] at h; cases h
  · rw [hb] at h
    obtain ⟨bs, hbs, hslot⟩ := (bucket_at_eq_ok 136 s i slot).1 hb
    cases slot with
    | none =>
      simp only [Except.ok.injEq] at h
      subst h
      exact ⟨rfl, bs, none, hbs, hslot, fun j hj => (by cases hj), fun _ b hb => (by cases hb)⟩
    | some b =>
      simp only at h
      by_cases hl : b.level = sl
      · rw [if_pos hl] at h
        rcases ht : choose_test ndebug s client sl b with e | t
        · rw [ht] at h; cases h
        · rw [ht] at h
          obtain ⟨cl, hcl, t1, t2⟩ := choose_test_ok ndebug s client sl b t ht
          cases t with
          | true =>
            simp only [Except.ok.injEq] at h
            subst h
            refine ⟨rfl, bs, some b, hbs, hslot, ?_, fun hn => (by cases hn)⟩
            intro j hj
            simp only [Option.some.injEq] at hj
            exact ⟨hj.symm, b, cl, rfl, hl, hcl, fun h0 => (t1 h0).1 rfl,
              fun h0 => (t2 h0).1 rfl⟩
          | false =>
            simp only [Except.ok.injEq] at h
            subst h
            refine ⟨rfl, bs, some b, hbs, hslot, fun j hj => (by cases hj), ?_⟩
            intro _ b' hb' _
            simp only [Option.some.injEq] at hb'
            subst hb'
            refine ⟨cl, hcl, fun h0 => ?_, fun h0 => ?_⟩
            · by_contra hne
              exact absurd ((t1 h0).2 hne) (by simp)
            · by_contra hne
              exact absurd ((t2 h0).2 hne) (by simp)
      · rw [if_neg hl] at h
        simp only [Except.ok.injEq] at h
        subst h
        refine ⟨rfl, bs, some b, hbs, hslot, fun j hj => (by cases hj), ?_⟩
        intro _ b' hb' hl'
        simp only [Option.some.injEq] at hb'
        subst hb'
        exact absurd hl' hl

theorem iadd_eq_ok (line : Nat) (a b r : Int) :
    iadd line a b = .ok r ↔ (INT_MIN ≤ a + b ∧ a + b ≤ INT_MAX) ∧ r = a + b := by
  unfold iadd
  by_cases h : INT_MIN ≤ a + b ∧ a + b ≤ INT_MAX
  · rw [if_pos h]
    simp only [Except.ok.injEq, h, true_and]
    exact eq_comm
  · rw [if_neg h]
    simp only [h, false_and, iff_false]
    intro hc
    cases hc

/-- A bucket returned by choose_bucket_for_migrate: the counts allow a migration, the bucket has
the level to send and its other copy is not on the client's node, and every earlier bucket of
that level has its other copy there. -/
theorem choose_bucket_for_migrate_ok (ndebug : Bool) (s : State) (client : Nat)
    (primary backups ideal : Int) (i : Nat)
    (h : choose_bucket_for_migrate ndebug s client primary backups ideal = .ok (some i)) :
    primary + backups < ideal ∧ s.primary_buckets + s.secondary_buckets > ideal ∧
      ∃ (bs : List (Option Bucket)) (b : Bucket) (cl : Client),
        s.buckets = some bs ∧ bs[i]? = some (some b) ∧ s.clientHeap[client]? = some cl ∧
        b.level = send_level s ∧
        (send_level s = 0 → b.backup_node ≠ cl.node) ∧
        (send_level s ≠ 0 → b.target_node ≠ cl.node) ∧
        ∀ (j : Nat) (b' : Bucket), j < i → bs[j]? = some (some b') → b'.level = send_level s →
          (send_level s = 0 → b'.backup_node = cl.node) ∧
          (send_level s ≠ 0 → b'.target_node = cl.node) := by
  unfold choose_bucket_for_migrate at h
  rcases hsum : iadd 122 primary backups with e | sum
  · rw [hsum] at h; cases h
  · rw [hsum] at h
    obtain ⟨-, hs⟩ := (iadd_eq_ok 122 primary backups sum).1 hsum
    subst hs
    simp only at h
    by_cases hc : primary + backups < ideal ∧ s.primary_buckets + s.secondary_buckets > ideal
    · rw [if_pos hc] at h
      rcases hscan : scan_buckets 135 (choose_body ndebug client (send_level s)) (s.mask + 1) 0 s
        with e | q
      · rw [hscan] at h; cases h
      · rw [hscan] at h
        simp only [Except.ok.injEq] at h
        obtain ⟨a1, -⟩ := scan_buckets_ok 135 (choose_body ndebug client (send_level s))
          (fun s i s1 hb => (choose_body_ok ndebug client _ s i (none, s1) hb).1)
          (s.mask + 1) 0 s q hscan
        obtain ⟨j, -, -, hbody, hbefore⟩ := a1 i h
        obtain ⟨-, bs, slot, hbs, hslot, hsome, -⟩ :=
          choose_body_ok ndebug client _ s j _ hbody
        obtain ⟨hji, b, cl, hsl, hlev, hcl, h0, h1⟩ := hsome i rfl
        subst hji hsl
        refine ⟨hc.1, hc.2, bs, b, cl, hbs, hslot, hcl, hlev, h0, h1, ?_⟩
        intro k b' hk hb' hl'
        obtain ⟨-, bs2, slot2, hbs2, hslot2, -, hnone⟩ :=
          choose_body_ok ndebug client _ s k _ (hbefore k (Nat.zero_le _) hk)
        rw [hbs] at hbs2
        cases hbs2
        rw [hb'] at hslot2
        cases hslot2
        obtain ⟨cl2, hcl2, g0, g1⟩ := hnone rfl b' rfl hl'
        rw [hcl] at hcl2
        cases hcl2
        exact ⟨g0, g1⟩
    · rw [if_neg hc] at h
      cases h

theorem choose_body_skip (ndebug : Bool) (client : Nat) (sl : Int) (s : State) (k : Nat)
    (cl : Client) (bs : List (Option Bucket)) (slot : Option Bucket)
    (hbs : s.buckets = some bs) (hcl : s.clientHeap[client]? = some cl)
    (hslot : bs[k]? = some slot)
    (hno : ∀ b, slot = some b → b.level = sl →
      (sl = 0 → b.backup_node = cl.node) ∧ (sl ≠ 0 → b.target_node = cl.node))
    (hshape : ndebug = true ∨ (cl.node ≠ none ∧ ∀ b, slot = some b → b.level = sl →
      (sl = 0 → b.target_node = none) ∧ (sl ≠ 0 → b.backup_node = none))) :
    choose_body ndebug client sl s k = .ok (none, s) := by
  unfold choose_body
  rw [bucket_at_ok 136 s bs k slot hbs hslot]
  cases slot with
  | none => rfl
  | some b =>
    simp only
    by_cases hl : b.level = sl
    · rw [if_pos hl]
      obtain ⟨n0, n1⟩ := hno b rfl hl
      have ht : choose_test ndebug s client sl b = .ok false := by
        unfold choose_test
        by_cases h0 : sl = 0
        · rw [if_pos h0, client_node_eq 143 s client cl hcl]
          have c1 : cassert ndebug 140 b.target_node.isNone = .ok () := by
            rcases hshape with hnd | ⟨-, hsh⟩
            · rw [hnd]; exact cassert_ndebug _ _
            · rw [(hsh b rfl hl).1 h0]; exact cassert_true _ _
          have c2 : cassert ndebug 141 b.backup_node.isSome = .ok () := by
            rcases hshape with hnd | ⟨hne, -⟩
            · rw [hnd]; exact cassert_ndebug _ _
            · rw [n0 h0]
              rcases hcn : cl.node with _ | n
              · exact absurd hcn hne
              · exact cassert_true _ _
          rw [c1, ok_bind, c2, ok_bind, ok_bind, pure_eq, n0 h0]
          simp
        · rw [if_neg h0, client_node_eq 151 s client cl hcl]
          have c1 : cassert ndebug 148 b.target_node.isSome = .ok () := by
            rcases hshape with hnd | ⟨hne, -⟩
            · rw [hnd]; exact cassert_ndebug _ _
            · rw [n1 h0]
              rcases hcn : cl.node with _ | n
              · exact absurd hcn hne
              · exact cassert_true _ _
          have c2 : cassert ndebug 149 b.backup_node.isNone = .ok () := by
            rcases hshape with hnd | ⟨-, hsh⟩
            · rw [hnd]; exact cassert_ndebug _ _
            · rw [(hsh b rfl hl).2 h0]; exact cassert_true _ _
          rw [c1, ok_bind, c2, ok_bind, ok_bind, pure_eq, n1 h0]
          simp
      rw [ht]
    · rw [if_neg hl]

/-- When no bucket of the level to send has its other copy away from the client's node,
choose_bucket_for_migrate returns no bucket. -/
theorem choose_bucket_for_migrate_none (ndebug : Bool) (s : State) (client : Nat)
    (primary backups ideal : Int) (cl : Client) (bs : List (Option Bucket))
    (hbs : s.buckets = some bs) (hlen : bs.length = s.mask + 1) (hmask : s.mask < 2147483647)
    (hcl : s.clientHeap[client]? = some cl)
    (hsum : INT_MIN ≤ primary + backups ∧ primary + backups ≤ INT_MAX)
    (hno : ∀ (j : Nat) (b : Bucket), bs[j]? = some (some b) → b.level = send_level s →
      (send_level s = 0 → b.backup_node = cl.node) ∧
      (send_level s ≠ 0 → b.target_node = cl.node))
    (hshape : ndebug = true ∨ (cl.node ≠ none ∧ ∀ (j : Nat) (b : Bucket),
      bs[j]? = some (some b) → b.level = send_level s →
      (send_level s = 0 → b.target_node = none) ∧
      (send_level s ≠ 0 → b.backup_node = none))) :
    choose_bucket_for_migrate ndebug s client primary backups ideal = .ok none := by
  unfold choose_bucket_for_migrate
  rw [(iadd_eq_ok 122 primary backups _).2 ⟨hsum, rfl⟩]
  simp only
  by_cases hc : primary + backups < ideal ∧ s.primary_buckets + s.secondary_buckets > ideal
  · rw [if_pos hc]
    have hscan := scan_buckets_none 135 (choose_body ndebug client (send_level s)) s
      (s.mask + 1) 0 (by unfold INT_MAX; omega)
      (by
        intro k _ hk
        have hklt : k < bs.length := by omega
        have hget : bs[k]? = some bs[k] := List.getElem?_eq_getElem hklt
        refine choose_body_skip ndebug client _ s k cl bs bs[k] hbs hcl hget
          (fun b hb hl => hno k b (by rw [hget, hb]) hl) ?_
        rcases hshape with hnd | ⟨hne, hsh⟩
        · exact Or.inl hnd
        · exact Or.inr ⟨hne, fun b hb => hsh k b (by rw [hget, hb])⟩)
    rw [hscan]
  · rw [if_neg hc]

theorem marked_trace (s : State) (i : Nat) (b : Bucket) (client : Nat) (e : Event) :
    (marked s i b client e).trace = s.trace ++ [e] := rfl

theorem client_node_name_ok (line : Nat) (s : State) (client : Nat) (name : String)
    (h : client_node_name line s client = .ok name) :
    ∃ cl n, s.clientHeap[client]? = some cl ∧ cl.node = some n := by
  unfold client_node_name at h
  rcases hc : client_node line s client with e | cn
  · rw [hc] at h; cases h
  · obtain ⟨cl, hcl, hn⟩ := (client_node_eq_ok line s client cn).1 hc
    cases cn with
    | none => rw [hc] at h; cases h
    | some n => exact ⟨cl, n, hcl, hn⟩

theorem start_migration_ok (ndebug : Bool) (s s' : State) (client i : Nat)
    (h : start_migration ndebug s client (some i) = .ok s') :
    ∃ (bs : List (Option Bucket)) (b : Bucket), s.buckets = some bs ∧
      bs[i]? = some (some b) ∧
      s' = marked s i b client (Event.push_accept_bucket client b.hash) := by
  unfold start_migration at h
  simp only at h
  rcases hb : bucket_at 252 s i with e | slot
  · rw [hb] at h; cases h
  · rw [hb] at h
    obtain ⟨bs, hbs, hslot⟩ := (bucket_at_eq_ok 252 s i slot).1 hb
    cases slot with
    | none => cases h
    | some b =>
      simp only [bind_eq_ok, pure_eq_ok] at h
      obtain ⟨-, -, -, -, -, -, hr⟩ := h
      exact ⟨bs, b, hbs, hslot, hr.symm⟩

theorem loadlevels_ideal_ok (ndebug : Bool) (k : Consts) (s : State) (client : Nat)
    (primary backups : Int) (i : Nat)
    (h : loadlevels_ideal ndebug k s client primary backups = .ok (some i)) :
    ∃ ideal, choose_bucket_for_migrate ndebug s client primary backups ideal = .ok (some i) := by
  unfold loadlevels_ideal at h
  simp only [bind_eq_ok] at h
  obtain ⟨active, -, -, -, h⟩ := h
  by_cases hz : toU64 active = 0
  · rw [if_pos hz] at h; cases h
  · rw [if_neg hz] at h
    simp only [bind_eq_ok] at h
    obtain ⟨-, -, h⟩ := h
    by_cases hm : ideal_buckets s active < k.MIN_BUCKETS
    · rw [if_pos hm] at h
      simp only [bind_eq_ok, pure_eq_ok] at h
      obtain ⟨-, -, h⟩ := h
      cases h
    · rw [if_neg hm] at h
      exact ⟨_, h⟩

/-- The outcomes of process_loadlevels: nothing, a bucket marked with one CONTROL_BUCKET sent,
or a bucket marked with one ACCEPT_BUCKET sent; in the last case the bucket is a Primary without
backup, or a bucket picked by choose_bucket_for_migrate. -/
theorem process_loadlevels_ok (ndebug : Bool) (k : Consts) (s s' : State) (client : Nat)
    (primary backups transferring : Int)
    (h : process_loadlevels ndebug k s client primary backups transferring = .ok s') :
    s' = s ∨
      (∃ (i : Nat) (b : Bucket),
        s' = marked s i b client (Event.push_control_bucket client b.hash b.level)) ∨
      ∃ (bs : List (Option Bucket)) (i : Nat) (b : Bucket) (cl : Client) (n : Nat),
        s.buckets = some bs ∧ bs[i]? = some (some b) ∧
        s.clientHeap[client]? = some cl ∧ cl.node = some n ∧
        s' = marked s i b client (Event.push_accept_bucket client b.hash) ∧
        ((b.level = 0 ∧ b.backup_node = none) ∨
          ∃ ideal, choose_bucket_for_migrate ndebug s client primary backups ideal =
            .ok (some i)) := by
  unfold process_loadlevels at h
  simp only [bind_eq_ok] at h
  obtain ⟨-, -, h⟩ := h
  by_cases hg : s.bucket_transfer = 0 ∧ transferring = 0
  · rw [if_pos hg] at h
    simp only [bind_eq_ok] at h
    obtain ⟨name, hname, r, hr, h⟩ := h
    obtain ⟨cl, n, hcl, hn⟩ := client_node_name_ok 198 s client name hname
    rcases loadlevels_switch_ok ndebug s client primary backups r hr with
      ⟨r1, r2⟩ | ⟨r1, i, b, r2⟩
    · rw [r1, r2] at h
      simp only [Bool.false_eq_true, if_false, bind_eq_ok] at h
      obtain ⟨bucket, hch, hst⟩ := h
      cases bucket with
      | none =>
        simp only [start_migration, Except.ok.injEq] at hst
        exact Or.inl hst.symm
      | some i =>
        obtain ⟨bs, b, hbs, hslot, hs'⟩ := start_migration_ok ndebug s s' client i hst
        refine Or.inr (Or.inr ⟨bs, i, b, cl, n, hbs, hslot, hcl, hn, hs', ?_⟩)
        unfold loadlevels_choose at hch
        rcases hnb : loadlevels_nobackup ndebug s primary backups with e | found
        · rw [hnb] at hch; cases hch
        · rw [hnb] at hch
          cases found with
          | some j =>
            simp only [Except.ok.injEq, Option.some.injEq] at hch
            subst hch
            obtain ⟨bs2, b2, hbs2, hslot2, hl2, hb2⟩ :=
              loadlevels_nobackup_ok ndebug s primary backups j hnb
            rw [hbs] at hbs2
            cases hbs2
            rw [hslot] at hslot2
            cases hslot2
            exact Or.inl ⟨hl2, hb2⟩
          | none =>
            simp only at hch
            exact Or.inr (loadlevels_ideal_ok ndebug k s client primary backups i hch)
    · rw [r1] at h
      simp only [if_true, pure_eq_ok] at h
      exact Or.inr (Or.inl ⟨i, b, by rw [← h, r2]⟩)
  · rw [if_neg hg] at h
    simp only [pure_eq_ok] at h
    exact Or.inl h.symm

theorem send_level_eq (s : State) :
    (s.secondary_buckets ≥ s.primary_buckets → send_level s = 1) ∧
      (s.secondary_buckets < s.primary_buckets → send_level s = 0) := by
  unfold send_level
  refine ⟨fun h => ?_, fun h => ?_⟩
  · rw [if_pos h]
  · rw [if_neg (by omega)]

/-! ## C8: rule 1 of the rebalancer -/

/-- C8: rule 1 of the rebalancer.  On a load report from the peer P behind the client, with no
transfer in flight here or on P, primary_count - 1 >= secondary_count + 1, backups_P > primary_P
and b0 in slot i0 the lowest-index Primary replica whose backup peer is P, process_loadlevels
returns the state in which that replica alone is marked as transferring to the client,
bucket_transfer is 1 and the trace has grown by exactly one CONTROL_BUCKET for that bucket
carrying its level; nothing else has changed and no ACCEPT_BUCKET is sent. -/
theorem process_loadlevels_rule1 (ndebug : Bool) (k : Consts) (s : State)
    (client P i0 : Nat) (primary backups : Int) (cl : Client) (nd : Node)
    (bs : List (Option Bucket)) (b0 : Bucket)
    (hbs : s.buckets = some bs) (hlen : bs.length = s.mask + 1) (hmask : s.mask < 2147483647)
    (hcl : s.clientHeap[client]? = some cl) (hP : cl.node = some P)
    (hnode : s.nodeHeap[P]? = some nd)
    (hidle : s.bucket_transfer = 0) (hmark : b0.transfer_client = none)
    (hpay : s.payload_length = 0)
    (hcount : s.primary_buckets - 1 ≥ s.secondary_buckets + 1) (hpeer : backups > primary)
    (hi0 : bs[i0]? = some (some b0)) (hl : b0.level = 0) (hb : b0.backup_node = some P)
    (hfirst : ∀ j b, j < i0 → bs[j]? = some (some b) →
      ¬ (b.level = 0 ∧ b.backup_node = some P)) :
    process_loadlevels ndebug k s client primary backups 0 =
      .ok { s with
          buckets := some (bs.set i0 (some { b0 with transfer_client := some client }))
          bucket_transfer := 1
          trace := s.trace ++ [Event.push_control_bucket client b0.hash b0.level] } := by
  have hsw := attempt_switch_found ndebug s client P i0 cl nd bs b0 hbs hlen hmask hcl hP hnode
    hi0 hl hb hidle hmark hfirst
  have hrule : loadlevels_switch ndebug s client primary backups =
      .ok (true, { s with
          buckets := some (bs.set i0 (some { b0 with transfer_client := some client }))
          bucket_transfer := 1
          trace := s.trace ++ [Event.push_control_bucket client b0.hash b0.level] }) := by
    unfold loadlevels_switch
    rw [if_pos ⟨hcount, hpeer⟩, hsw]
    simp only [if_true, hpay, cassert_true, decide_True, ok_bind, pure_eq]
  unfold process_loadlevels
  rw [assert_client_node_eq ndebug s client P cl hcl hP, ok_bind,
    if_pos ⟨hidle, rfl⟩, client_node_name_eq 198 s client P cl nd hcl hP hnode, ok_bind, hrule,
    ok_bind]
  rfl

/-- C8, at a concrete state: node 0 reports no primaries and two backups; bucket 0, the first
Primary backed on node 0, is marked and one CONTROL_BUCKET is sent. -/
theorem process_loadlevels_rule1_witness :
    process_loadlevels false exampleConsts exampleCluster 0 0 2 0 =
      .ok { exampleCluster with
          buckets := some [some { hash := 0, level := 0, backup_node := some 0, data := some 0,
                                  transfer_client := some 0 },
                           some { hash := 1, level := 0, backup_node := some 0, data := some 1 },
                           some { hash := 2, level := 0, data := some 2 },
                           some { hash := 3, level := 1, target_node := some 1, data := some 3 }]
          bucket_transfer := 1
          trace := [Event.push_control_bucket 0 0 0] } :=
  process_loadlevels_rule1 false exampleConsts exampleCluster 0 0 0 0 2 { node := some 0 }
    { name := "b:1", client := some 0, loadlevel_event := true }
    [some { hash := 0, level := 0, backup_node := some 0, data := some 0 },
     some { hash := 1, level := 0, backup_node := some 0, data := some 1 },
     some { hash := 2, level := 0, data := some 2 },
     some { hash := 3, level := 1, target_node := some 1, data := some 3 }]
    { hash := 0, level := 0, backup_node := some 0, data := some 0 }
    rfl rfl (by decide) rfl rfl rfl rfl rfl rfl (by decide) (by decide) rfl rfl rfl
    (fun j _ hj => absurd hj (Nat.not_lt_zero j))

/-! ## C9: rule 2 of the rebalancer -/

/-- C9, counterexample: the comparison of rule 2 is unsigned.  In exampleCluster no transfer is
under way, unbacked_count is 1 and the mask is 3.  Client 1 reports primary = -1, backups = 0:
the report passes the guard, rule 1 starts no swap (no Primary is backed on the node of client
1) and primary + backups = -1 < mask + 1.  But process.c 218 compares the int sum with _mask+1
as a hash_t, where -1 is 2^64 - 1: rule 2 is skipped, rule 3 finds nothing to send, and
process_loadlevels returns the state as it was, with no replica marked and no ACCEPT_BUCKET. -/
theorem process_loadlevels_rule2_negative_sum :
    exampleCluster.bucket_transfer = 0 ∧ exampleCluster.nobackup_buckets > 0 ∧
      (-1 : Int) + 0 < (exampleCluster.mask : Int) + 1 ∧
      loadlevels_switch false exampleCluster 1 (-1) 0 = .ok (false, exampleCluster) ∧
      loadlevels_nobackup false exampleCluster (-1) 0 = .ok none ∧
      process_loadlevels false exampleConsts exampleCluster 1 (-1) 0 0 = .ok exampleCluster ∧
      process_loadlevels true exampleConsts exampleCluster 1 (-1) 0 0 = .ok exampleCluster := by
  refine ⟨rfl, ?_, ?_, ?_, ?_, ?_, ?_⟩ <;> decide

/-- C9, amended: rule 2 of the rebalancer, for a sum of the reported counts that is not
negative.  On a load report with 0 <= primary_P + backups_P from the peer P behind
the client that passes the guard and for which rule 1 starts no swap, with unbacked_count > 0,
primary_P + backups_P < mask + 1 and b0 in slot i0 the lowest-index Primary replica without
backup peer, process_loadlevels returns the state in which that replica alone is marked as
transferring to the client, bucket_transfer is 1 and the trace has grown by exactly one
ACCEPT_BUCKET for that bucket; the number of active nodes and MIN_BUCKETS play no part. -/
theorem process_loadlevels_rule2 (ndebug : Bool) (k : Consts) (s : State)
    (client P i0 : Nat) (primary backups : Int) (cl : Client) (nd : Node)
    (bs : List (Option Bucket)) (b0 : Bucket)
    (hbs : s.buckets = some bs) (hlen : bs.length = s.mask + 1) (hmask : s.mask < 2147483647)
    (hcl : s.clientHeap[client]? = some cl) (hP : cl.node = some P)
    (hnode : s.nodeHeap[P]? = some nd) (hidle : s.bucket_transfer = 0)
    (hnoswap : ¬ (s.primary_buckets - 1 ≥ s.secondary_buckets + 1 ∧ backups > primary) ∨
      ∀ (j : Nat) (b : Bucket), bs[j]? = some (some b) →
        ¬ (b.level = 0 ∧ b.backup_node = some P))
    (hunbacked : s.nobackup_buckets > 0)
    (hnonneg : 0 ≤ primary + backups) (hroom : primary + backups < (s.mask : Int) + 1)
    (hi0 : bs[i0]? = some (some b0)) (hl : b0.level = 0) (hb : b0.backup_node = none)
    (hhash : b0.hash = i0) (hmark : b0.transfer_client = none)
    (hfirst : ∀ j b, j < i0 → bs[j]? = some (some b) →
      ¬ (b.level = 0 ∧ b.backup_node = none)) :
    process_loadlevels ndebug k s client primary backups 0 =
      .ok { s with
          buckets := some (bs.set i0 (some { b0 with transfer_client := some client }))
          bucket_transfer := 1
          trace := s.trace ++ [Event.push_accept_bucket client b0.hash] } := by
  have hsw := loadlevels_switch_none ndebug s client P cl primary backups bs hbs hlen hmask hcl
    hP hidle hnoswap
  have hfind := find_nobackup_bucket_found ndebug s i0 bs b0 hbs hlen hmask hi0 hl hb hhash
    hmark hfirst
  have hsum : iadd 218 primary backups = .ok (primary + backups) := by
    unfold iadd INT_MIN INT_MAX
    rw [if_pos (by omega)]
  have hcmp : toU64 (primary + backups) < (s.mask + 1) % 18446744073709551616 := by
    unfold toU64
    omega
  have hnb : loadlevels_nobackup ndebug s primary backups = .ok (some i0) := by
    unfold loadlevels_nobackup buckets_nobackup_count
    have c1 : cassert ndebug 344 (decide (s.nobackup_buckets ≥ 0)) = .ok () := by
      have : s.nobackup_buckets ≥ 0 := by omega
      simp only [this, decide_True, cassert_true]
    have c2 : cassert ndebug 220 (decide (s.bucket_transfer = 0)) = .ok () := by
      rw [hidle]; exact cassert_true ndebug 220
    simp only [c1, ok_bind, pure_eq, hunbacked, if_true, hsum, hcmp, hfind, c2]
  have hch : loadlevels_choose ndebug k s client primary backups = .ok (some i0) := by
    unfold loadlevels_choose
    rw [hnb]
  unfold process_loadlevels
  rw [assert_client_node_eq ndebug s client P cl hcl hP, ok_bind,
    if_pos ⟨hidle, rfl⟩, client_node_name_eq 198 s client P cl nd hcl hP hnode, ok_bind, hsw,
    ok_bind]
  simp only [Bool.false_eq_true, if_false, hch, ok_bind]
  exact start_migration_some ndebug s client P i0 cl nd bs b0 hbs hcl hP hnode hi0 hidle hmark

/-- C9, at a concrete state: node 1 reports no primaries and one backup; no Primary is backed on
node 1, so rule 1 starts nothing, and bucket 2, the first Primary without backup, is offered to
node 1 with one ACCEPT_BUCKET. -/
theorem process_loadlevels_rule2_witness :
    process_loadlevels false exampleConsts exampleCluster 1 0 1 0 =
      .ok { exampleCluster with
          buckets := some [some { hash := 0, level := 0, backup_node := some 0, data := some 0 },
                           some { hash := 1, level := 0, backup_node := some 0, data := some 1 },
                           some { hash := 2, level := 0, data := some 2,
                                  transfer_client := some 1 },
                           some { hash := 3, level := 1, target_node := some 1, data := some 3 }]
          bucket_transfer := 1
          trace := [Event.push_accept_bucket 1 2] } :=
  process_loadlevels_rule2 false exampleConsts exampleCluster 1 1 2 0 1 { node := some 1 }
    { name := "c:1", client := some 1, loadlevel_event := true }
    [some { hash := 0, level := 0, backup_node := some 0, data := some 0 },
     some { hash := 1, level := 0, backup_node := some 0, data := some 1 },
     some { hash := 2, level := 0, data := some 2 },
     some { hash := 3, level := 1, target_node := some 1, data := some 3 }]
    { hash := 2, level := 0, data := some 2 }
    rfl rfl (by decide) rfl rfl rfl rfl
    (Or.inr (fun j b hj => by
      match j, hj with
      | 0, hj => simp at hj; subst hj; decide
      | 1, hj => simp at hj; subst hj; decide
      | 2, hj => simp at hj; subst hj; decide
      | 3, hj => simp at hj; subst hj; decide
      | n + 4, hj => simp at hj))
    (by decide) (by decide) (by decide) rfl rfl rfl rfl rfl
    (fun j b hlt hj => by
      match j, hlt, hj with
      | 0, _, hj => simp at hj; subst hj; decide
      | 1, _, hj => simp at hj; subst hj; decide
      | n + 2, hlt, _ => omega)

/-! ## C10: rule 3 selection -/

/-- C10: rule 3 selection.  choose_bucket_for_migrate returns a bucket only if
primary_P + backups_P < ideal and primary_count + secondary_count > ideal; the bucket returned is
the lowest-index replica that is a Secondary whose source peer is not P when
secondary_count >= primary_count, and a Primary whose backup peer is not P otherwise; it returns
none when no such replica exists (the replicas examined having the peers of their role, or
assertions being compiled out).  Hence every ACCEPT_BUCKET that process_loadlevels sends goes to
the client and offers a replica whose other copy is not on the client's node P. -/
theorem choose_bucket_for_migrate_spec (ndebug : Bool) (s : State) (client P : Nat)
    (primary backups ideal : Int) (cl : Client) (bs : List (Option Bucket))
    (hbs : s.buckets = some bs) (hcl : s.clientHeap[client]? = some cl)
    (hP : cl.node = some P) :
    (∀ i, choose_bucket_for_migrate ndebug s client primary backups ideal = .ok (some i) →
      primary + backups < ideal ∧ s.primary_buckets + s.secondary_buckets > ideal ∧
      ∃ b, bs[i]? = some (some b) ∧
        (s.secondary_buckets ≥ s.primary_buckets → b.level = 1 ∧ b.target_node ≠ some P) ∧
        (s.secondary_buckets < s.primary_buckets → b.level = 0 ∧ b.backup_node ≠ some P) ∧
        ∀ (j : Nat) (b' : Bucket), j < i → bs[j]? = some (some b') →
          (s.secondary_buckets ≥ s.primary_buckets →
            ¬ (b'.level = 1 ∧ b'.target_node ≠ some P)) ∧
          (s.secondary_buckets < s.primary_buckets →
            ¬ (b'.level = 0 ∧ b'.backup_node ≠ some P))) ∧
    (bs.length = s.mask + 1 → s.mask < 2147483647 →
      INT_MIN ≤ primary + backups ∧ primary + backups ≤ INT_MAX →
      (∀ (j : Nat) (b : Bucket), bs[j]? = some (some b) →
        (s.secondary_buckets ≥ s.primary_buckets →
          ¬ (b.level = 1 ∧ b.target_node ≠ some P)) ∧
        (s.secondary_buckets < s.primary_buckets →
          ¬ (b.level = 0 ∧ b.backup_node ≠ some P))) →
      (ndebug = true ∨ ∀ (j : Nat) (b : Bucket), bs[j]? = some (some b) →
        (b.level = 0 → b.target_node = none) ∧ (b.level = 1 → b.backup_node = none)) →
      choose_bucket_for_migrate ndebug s client primary backups ideal = .ok none) ∧
    (∀ (k : Consts) (transferring : Int) (s' : State),
      process_loadlevels ndebug k s client primary backups transferring = .ok s' →
      ∀ (c h : Nat), Event.push_accept_bucket c h ∈ s'.trace.drop s.trace.length →
        ∃ (i : Nat) (b : Bucket), bs[i]? = some (some b) ∧ c = client ∧ h = b.hash ∧
          (b.level = 0 → b.backup_node ≠ some P) ∧ (b.level = 1 → b.target_node ≠ some P)) := by
  obtain ⟨sl1, sl0⟩ := send_level_eq s
  have h01 : ¬ ((1 : Int) = 0) := by decide
  refine ⟨?_, ?_, ?_⟩
  · intro i hi
    obtain ⟨a1, a2, bs2, b, cl2, hbs2, hslot, hcl2, hlev, f0, f1, hbefore⟩ :=
      choose_bucket_for_migrate_ok ndebug s client primary backups ideal i hi
    rw [hbs] at hbs2
    cases hbs2
    rw [hcl] at hcl2
    cases hcl2
    rw [hP] at f0 f1 hbefore
    refine ⟨a1, a2, b, hslot, ?_, ?_, ?_⟩
    · intro hge
      rw [sl1 hge] at hlev f1
      exact ⟨hlev, f1 h01⟩
    · intro hlt
      rw [sl0 hlt] at hlev f0
      exact ⟨hlev, f0 rfl⟩
    · intro j b' hj hb'
      refine ⟨fun hge => ?_, fun hlt => ?_⟩
      · rintro ⟨hl', hne⟩
        have := (hbefore j b' hj hb' (by rw [sl1 hge]; exact hl')).2 (by rw [sl1 hge]; exact h01)
        exact hne this
      · rintro ⟨hl', hne⟩
        have := (hbefore j b' hj hb' (by rw [sl0 hlt]; exact hl')).1 (sl0 hlt)
        exact hne this
  · intro hlen hmask hsum hno hshape
    refine choose_bucket_for_migrate_none ndebug s client primary backups ideal cl bs hbs hlen
      hmask hcl hsum ?_ ?_
    · intro j b hb hl
      obtain ⟨n1, n0⟩ := hno j b hb
      rw [hP]
      refine ⟨fun h0 => ?_, fun h1 => ?_⟩
      · by_contra hne
        have hlt : s.secondary_buckets < s.primary_buckets := by
          by_contra hge
          rw [sl1 (by omega)] at h0
          exact h01 h0
        exact n0 hlt ⟨hl.trans h0, hne⟩
      · by_contra hne
        have hge : s.secondary_buckets ≥ s.primary_buckets := by
          by_contra hlt
          exact h1 (sl0 (by omega))
        exact n1 hge ⟨hl.trans (sl1 hge), hne⟩
    · rcases hshape with hnd | hsh
      · exact Or.inl hnd
      · refine Or.inr ⟨by rw [hP]; simp, ?_⟩
        intro j b hb hl
        obtain ⟨g0, g1⟩ := hsh j b hb
        refine ⟨fun h0 => g0 (hl.trans h0), fun h1 => ?_⟩
        have hge : s.secondary_buckets ≥ s.primary_buckets := by
          by_contra hlt
          exact h1 (sl0 (by omega))
        exact g1 (hl.trans (sl1 hge))
  · intro k transferring s' hs' c h hmem
    rcases process_loadlevels_ok ndebug k s s' client primary backups transferring hs' with
      h1 | ⟨i, b, h1⟩ | ⟨bs2, i, b, cl2, n, hbs2, hslot, hcl2, hn, h1, hwhy⟩
    · rw [h1] at hmem
      simp at hmem
    · rw [h1, marked_trace] at hmem
      simp at hmem
    · rw [hbs] at hbs2
      cases hbs2
      rw [hcl] at hcl2
      cases hcl2
      rw [h1, marked_trace] at hmem
      simp only [List.drop_left, List.mem_singleton, Event.push_accept_bucket.injEq] at hmem
      refine ⟨i, b, hslot, hmem.1, hmem.2, ?_⟩
      rcases hwhy with ⟨hl, hb⟩ | ⟨ideal2, hch⟩
      · refine ⟨fun _ => by rw [hb]; simp, fun h1 => ?_⟩
        rw [hl] at h1
        exact absurd h1 (by decide)
      · obtain ⟨-, -, bs3, b3, cl3, hbs3, hslot3, hcl3, hlev, f0, f1, -⟩ :=
          choose_bucket_for_migrate_ok ndebug s client primary backups ideal2 i hch
        rw [hbs] at hbs3
        cases hbs3
        rw [hcl] at hcl3
        cases hcl3
        rw [hslot] at hslot3
        cases hslot3
        rw [hP] at f0 f1
        refine ⟨fun h0 => f0 (hlev.symm.trans h0), fun h1 => f1 ?_⟩
        rw [← hlev, h1]
        exact h01


/-- C10, at concrete states: for node 1 (nothing reported, ideal 2) the first Primary of
exampleCluster, backed on node 0, is chosen; for node 0 on exampleBacked every Primary is backed
on node 0 itself and none is chosen; and the ACCEPT_BUCKET that process_loadlevels sends to node 1
offers bucket 2, which has no other copy. -/
theorem choose_bucket_for_migrate_spec_witness :
    (choose_bucket_for_migrate false exampleCluster 1 0 0 2 = .ok (some 0) ∧
      (0 : Int) + 0 < 2) ∧
      choose_bucket_for_migrate false exampleBacked 0 0 0 2 = .ok none ∧
      ∃ (i : Nat) (b : Bucket),
        [some { hash := 0, level := 0, backup_node := some 0, data := some 0 },
         some { hash := 1, level := 0, backup_node := some 0, data := some 1 },
         some { hash := 2, level := 0, data := some 2 },
         some ({ hash := 3, level := 1, target_node := some 1, data := some 3 } : Bucket)][i]? =
          some (some b) ∧ 1 = 1 ∧ 2 = b.hash ∧
        (b.level = 0 → b.backup_node ≠ some 1) ∧ (b.level = 1 → b.target_node ≠ some 1) := by
  have h1 := choose_bucket_for_migrate_spec false exampleCluster 1 1 0 0 2 { node := some 1 }
    [some { hash := 0, level := 0, backup_node := some 0, data := some 0 },
     some { hash := 1, level := 0, backup_node := some 0, data := some 1 },
     some { hash := 2, level := 0, data := some 2 },
     some { hash := 3, level := 1, target_node := some 1, data := some 3 }] rfl rfl rfl
  have h2 := choose_bucket_for_migrate_spec false exampleBacked 0 0 0 0 2 { node := some 0 }
    [some { hash := 0, level := 0, backup_node := some 0, data := some 0 },
     some { hash := 1, level := 0, backup_node := some 0, data := some 1 },
     none,
     some { hash := 3, level := 1, target_node := some 1, data := some 3 }] rfl rfl rfl
  have e1 : choose_bucket_for_migrate false exampleCluster 1 0 0 2 = .ok (some 0) := by decide
  refine ⟨⟨e1, (h1.1 0 e1).1⟩, ?_, ?_⟩
  · refine h2.2.1 rfl (by decide) (by decide) ?_ (Or.inr ?_)
    · intro j b hj
      match j, hj with
      | 0, hj => simp at hj; subst hj; decide
      | 1, hj => simp at hj; subst hj; decide
      | 2, hj => simp at hj
      | 3, hj => simp at hj; subst hj; decide
      | n + 4, hj => simp at hj
    · intro j b hj
      match j, hj with
      | 0, hj => simp at hj; subst hj; decide
      | 1, hj => simp at hj; subst hj; decide
      | 2, hj => simp at hj
      | 3, hj => simp at hj; subst hj; decide
      | n + 4, hj => simp at hj
  · have e2 : process_loadlevels false exampleConsts exampleCluster 1 0 1 0 =
        .ok (marked exampleCluster 2 { hash := 2, level := 0, data := some 2 } 1
          (Event.push_accept_bucket 1 2)) := by decide
    have h3 := choose_bucket_for_migrate_spec false exampleCluster 1 1 0 1 2 { node := some 1 }
      [some { hash := 0, level := 0, backup_node := some 0, data := some 0 },
       some { hash := 1, level := 0, backup_node := some 0, data := some 1 },
       some { hash := 2, level := 0, data := some 2 },
       some { hash := 3, level := 1, target_node := some 1, data := some 3 }] rfl rfl rfl
    exact h3.2.2 exampleConsts 0 _ e2 1 2 (by decide)

/-! ## Lemmas on the migration handlers -/

theorem assert_node_eq (ndebug : Bool) (line : Nat) (s : State) (client n : Nat) (cl : Client)
    (hcl : s.clientHeap[client]? = some cl) (hn : cl.node = some n) :
    assert_node ndebug line s client = .ok () := by
  cases ndebug with
  | true => rfl
  | false =>
    simp only [assert_node, client_node_eq line s client cl hcl, hn]
    rfl

theorem iadd_eq (line : Nat) (a b : Int) (h1 : INT_MIN ≤ a + b) (h2 : a + b ≤ INT_MAX) :
    iadd line a b = .ok (a + b) := by
  unfold iadd
  rw [if_pos ⟨h1, h2⟩]

theorem isub_eq (line : Nat) (a b : Int) (h1 : INT_MIN ≤ a - b) (h2 : a - b ≤ INT_MAX) :
    isub line a b = .ok (a - b) := by
  unfold isub
  rw [if_pos ⟨h1, h2⟩]

theorem cassert_of (ndebug : Bool) (line : Nat) (c : Bool) (h : c = true) :
    cassert ndebug line c = .ok () := by
  rw [h]
  exact cassert_true ndebug line

/-- The exchange of the two addresses of a hashmask entry that has both. -/
theorem hashmask_switch_eq (ndebug : Bool) (s : State) (i : Nat) (hs : List (Option Hashmask))
    (h : Hashmask) (hhs : s.hashmasks = some hs) (hi : i ≤ s.mask)
    (hentry : hs[i]? = some (some h)) (hp : h.primary.isSome = true)
    (hq : h.secondary.isSome = true) :
    hashmask_switch ndebug s i =
      .ok { s with
          hashmasks := some (hs.set i (some { primary := h.secondary, secondary := h.primary })) } := by
  unfold hashmask_switch
  have c1 : cassert ndebug 672 s.hashmasks.isSome = .ok () := by
    rw [hhs]; exact cassert_true ndebug 672
  have c2 : cassert ndebug 673 (decide (i ≤ s.mask)) = .ok () :=
    cassert_of ndebug 673 _ (decide_eq_true hi)
  rw [c1, ok_bind, c2, ok_bind]
  simp only [hhs, hentry]
  rw [cassert_of ndebug 675 _ hp, ok_bind, cassert_of ndebug 676 _ hq, ok_bind]
  simp only [pure_eq, set_hashmask, hhs, Option.map_some']

/-- A Primary with a backup node becomes the Secondary of that node. -/
theorem switch_roles_primary (ndebug : Bool) (s : State) (b : Bucket) (B : Nat)
    (hl : b.level = 0) (hb : b.backup_node = some B) (ht : b.target_node = none)
    (hprim : 1 ≤ s.primary_buckets ∧ s.primary_buckets ≤ 2147483647)
    (hsec : 0 ≤ s.secondary_buckets ∧ s.secondary_buckets < 2147483647) :
    switch_roles ndebug s b =
      .ok ({ b with level := 1, target_node := some B, backup_node := none },
        { s with
          primary_buckets := s.primary_buckets - 1
          secondary_buckets := s.secondary_buckets + 1 }) := by
  unfold switch_roles
  rw [if_pos hl,
    isub_eq 441 s.primary_buckets 1 (by unfold INT_MIN; omega) (by unfold INT_MAX; omega),
    ok_bind,
    iadd_eq 442 s.secondary_buckets 1 (by unfold INT_MIN; omega) (by unfold INT_MAX; omega),
    ok_bind]
  have c1 : cassert ndebug 444 b.backup_node.isSome = .ok () := by
    rw [hb]; exact cassert_true ndebug 444
  have c2 : cassert ndebug 445 b.target_node.isNone = .ok () := by
    rw [ht]; exact cassert_true ndebug 445
  have c3 : cassert ndebug 449 (decide (s.primary_buckets - 1 ≥ 0)) = .ok () :=
    cassert_of ndebug 449 _ (decide_eq_true (by omega))
  have c4 : cassert ndebug 450 (decide (s.secondary_buckets + 1 > 0)) = .ok () :=
    cassert_of ndebug 450 _ (decide_eq_true (by omega))
  rw [c1, ok_bind, c2, ok_bind, c3, ok_bind, c4, ok_bind]
  simp only [pure_eq, hb]

/-- A Secondary becomes a Primary backed by its source node. -/
theorem switch_roles_secondary (ndebug : Bool) (s : State) (b : Bucket) (S : Nat)
    (hl : b.level = 1) (ht : b.target_node = some S) (hb : b.backup_node = none)
    (hprim : 0 ≤ s.primary_buckets ∧ s.primary_buckets < 2147483647)
    (hsec : 1 ≤ s.secondary_buckets ∧ s.secondary_buckets ≤ 2147483647) :
    switch_roles ndebug s b =
      .ok ({ b with level := 0, backup_node := some S, target_node := none },
        { s with
          primary_buckets := s.primary_buckets + 1
          secondary_buckets := s.secondary_buckets - 1 }) := by
  unfold switch_roles
  have h01 : ¬ (b.level = 0) := by rw [hl]; decide
  rw [if_neg h01]
  have c0 : cassert ndebug 453 (decide (b.level = 1)) = .ok () :=
    cassert_of ndebug 453 _ (decide_eq_true hl)
  rw [c0, ok_bind,
    iadd_eq 455 s.primary_buckets 1 (by unfold INT_MIN; omega) (by unfold INT_MAX; omega),
    ok_bind,
    isub_eq 456 s.secondary_buckets 1 (by unfold INT_MIN; omega) (by unfold INT_MAX; omega),
    ok_bind]
  have c1 : cassert ndebug 458 b.backup_node.isNone = .ok () := by
    rw [hb]; exact cassert_true ndebug 458
  have c2 : cassert ndebug 459 b.target_node.isSome = .ok () := by
    rw [ht]; exact cassert_true ndebug 459
  have c3 : cassert ndebug 463 (decide (s.primary_buckets + 1 > 0)) = .ok () :=
    cassert_of ndebug 463 _ (decide_eq_true (by omega))
  have c4 : cassert ndebug 464 (decide (s.secondary_buckets - 1 ≥ 0)) = .ok () :=
    cassert_of ndebug 464 _ (decide_eq_true (by omega))
  rw [c1, ok_bind, c2, ok_bind, c3, ok_bind, c4, ok_bind]
  simp only [pure_eq, ht]

/-- The run of process_control_bucket_complete on the marked bucket of slot i, given what the
exchange of roles yields. -/
theorem process_control_bucket_complete_eq (ndebug : Bool) (s : State) (client i n : Nat)
    (cl : Client) (bs : List (Option Bucket)) (b b' : Bucket) (hs : List (Option Hashmask))
    (h : Hashmask) (P S : Int)
    (hcl : s.clientHeap[client]? = some cl) (hn : cl.node = some n)
    (hbs : s.buckets = some bs) (hi : i ≤ s.mask) (hslot : bs[i]? = some (some b))
    (hhash : b.hash = i) (hmark : b.transfer_client = some client)
    (hhs : s.hashmasks = some hs) (hentry : hs[i]? = some (some h))
    (hp : h.primary.isSome = true) (hq : h.secondary.isSome = true)
    (hflag : s.bucket_transfer = 1)
    (hsw : switch_roles ndebug s { b with transfer_client := none } =
      .ok (b', { s with primary_buckets := P, secondary_buckets := S })) :
    process_control_bucket_complete ndebug s client s.mask i =
      .ok { s with
          buckets := some (bs.set i (some b'))
          hashmasks := some (hs.set i (some { primary := h.secondary, secondary := h.primary }))
          primary_buckets := P
          secondary_buckets := S
          bucket_transfer := 0
          trace := s.trace ++ [Event.push_hashmask_update b'.hash, Event.push_loadlevels client] } := by
  unfold process_control_bucket_complete
  have c1 : cassert ndebug 422 s.buckets.isSome = .ok () := by
    rw [hbs]; exact cassert_true ndebug 422
  have c2 : cassert ndebug 423 (decide (s.mask = s.mask)) = .ok () :=
    cassert_of ndebug 423 _ (decide_eq_true rfl)
  have c3 : cassert ndebug 424 (decide (i ≤ s.mask)) = .ok () :=
    cassert_of ndebug 424 _ (decide_eq_true hi)
  rw [assert_node_eq ndebug 413 s client n cl hcl hn, ok_bind, c1, ok_bind, c2, ok_bind, c3,
    ok_bind, bucket_at_ok 425 s bs i (some b) hbs hslot, ok_bind]
  have c4 : cassert ndebug 426 (some b).isSome = .ok () := cassert_true ndebug 426
  rw [c4, ok_bind]
  simp only
  have c5 : cassert ndebug 427 (decide (b.hash = i)) = .ok () :=
    cassert_of ndebug 427 _ (decide_eq_true hhash)
  have c6 : cassert ndebug 429 (decide (b.transfer_client = some client)) = .ok () :=
    cassert_of ndebug 429 _ (decide_eq_true hmark)
  rw [c5, ok_bind, c6, ok_bind, hsw, ok_bind]
  simp only
  have hsw2 : hashmask_switch ndebug
      (set_bucket { s with primary_buckets := P, secondary_buckets := S } i b') i =
      .ok { (set_bucket { s with primary_buckets := P, secondary_buckets := S } i b') with
        hashmasks := some (hs.set i (some { primary := h.secondary, secondary := h.primary })) } :=
    hashmask_switch_eq ndebug _ i hs h hhs hi hentry hp hq
  rw [hsw2, ok_bind]
  have c7 : cassert ndebug 473 (decide (s.bucket_transfer = 1)) = .ok () :=
    cassert_of ndebug 473 _ (decide_eq_true hflag)
  simp only [push, set_bucket, hbs, Option.map_some']
  rw [c7, ok_bind]
  simp only [pure_eq, List.append_assoc, List.cons_append, List.nil_append]

theorem bucket_destroy_contents_eq (ndebug : Bool) (s : State) (b : Bucket) (a : Nat)
    (hmark : b.transfer_client = none) (hdata : b.data = some a) :
    bucket_destroy_contents ndebug s b =
      .ok ({ b with data := none }, data_destroy_free s a b.hash) := by
  unfold bucket_destroy_contents
  have c1 : cassert ndebug 179 b.transfer_client.isNone = .ok () := by
    rw [hmark]; exact cassert_true ndebug 179
  rw [c1, ok_bind]
  simp only [hdata, pure_eq]

/-- The end of the migration of a Primary without backup: the node of the client becomes its
backup node and the count of buckets without backup goes down by one. -/
theorem migration_done_first (ndebug : Bool) (s : State) (client n : Nat) (cl : Client)
    (b : Bucket) (hcl : s.clientHeap[client]? = some cl) (hn : cl.node = some n)
    (hl : b.level = 0) (hb : b.backup_node = none)
    (hno : 1 ≤ s.nobackup_buckets ∧ s.nobackup_buckets ≤ 2147483647) :
    migration_done ndebug s client b =
      .ok ({ b with backup_node := some n },
        { s with nobackup_buckets := s.nobackup_buckets - 1 }) := by
  unfold migration_done
  rw [if_pos ⟨hl, hb⟩, assert_node_eq ndebug 519 s client n cl hcl hn, ok_bind,
    client_node_eq 520 s client cl hcl, ok_bind]
  have c1 : cassert ndebug 521 (decide (s.nobackup_buckets > 0)) = .ok () :=
    cassert_of ndebug 521 _ (decide_eq_true (by omega))
  have c2 : cassert ndebug 523 (decide (s.nobackup_buckets - 1 ≥ 0)) = .ok () :=
    cassert_of ndebug 523 _ (decide_eq_true (by omega))
  rw [c1, ok_bind,
    isub_eq 522 s.nobackup_buckets 1 (by unfold INT_MIN; omega) (by unfold INT_MAX; omega),
    ok_bind]
  simp only
  rw [c2, ok_bind]
  simp only [pure_eq, hn]

/-- The end of the migration of a Primary that has a backup: its contents are destroyed and
the count of Primary buckets goes down by one. -/
theorem migration_done_primary (ndebug : Bool) (s : State) (client B a : Nat) (b : Bucket)
    (hl : b.level = 0) (hb : b.backup_node = some B) (hmark : b.transfer_client = none)
    (hdata : b.data = some a)
    (hprim : -2147483647 ≤ s.primary_buckets ∧ s.primary_buckets ≤ 2147483647) :
    migration_done ndebug s client b =
      .ok ({ b with data := none },
        data_destroy_free { s with primary_buckets := s.primary_buckets - 1 } a b.hash) := by
  unfold migration_done
  have h1 : ¬ (b.level = 0 ∧ b.backup_node = none) := by
    rw [hb]
    intro hc
    cases hc.2
  rw [if_neg h1, if_pos hl,
    isub_eq 527 s.primary_buckets 1 (by unfold INT_MIN; omega) (by unfold INT_MAX; omega),
    ok_bind]
  exact bucket_destroy_contents_eq ndebug _ b a hmark hdata

/-- The end of the migration of a Secondary: its contents are destroyed and the count of
Secondary buckets goes down by one. -/
theorem migration_done_secondary (ndebug : Bool) (s : State) (client a : Nat) (b : Bucket)
    (hl : b.level = 1) (hmark : b.transfer_client = none) (hdata : b.data = some a)
    (hsec : -2147483647 ≤ s.secondary_buckets ∧ s.secondary_buckets ≤ 2147483647) :
    migration_done ndebug s client b =
      .ok ({ b with data := none },
        data_destroy_free { s with secondary_buckets := s.secondary_buckets - 1 } a b.hash) := by
  unfold migration_done
  have h0 : ¬ (b.level = 0) := by rw [hl]; decide
  have h1 : ¬ (b.level = 0 ∧ b.backup_node = none) := fun hc => h0 hc.1
  rw [if_neg h1, if_neg h0, cassert_of ndebug 530 _ (decide_eq_true hl), ok_bind,
    isub_eq 531 s.secondary_buckets 1 (by unfold INT_MIN; omega) (by unfold INT_MAX; omega),
    ok_bind]
  exact bucket_destroy_contents_eq ndebug _ b a hmark hdata

/-- The run of process_migration_ack on the marked bucket of slot i, given what the end of the
migration yields. -/
theorem process_migration_ack_eq (ndebug : Bool) (s s1 : State) (client i n : Nat)
    (cl : Client) (bs : List (Option Bucket)) (b b' : Bucket)
    (hcl : s.clientHeap[client]? = some cl) (hn : cl.node = some n)
    (hbs : s.buckets = some bs) (hi : i ≤ s.mask) (hslot : bs[i]? = some (some b))
    (hmark : b.transfer_client = some client)
    (hdone : migration_done ndebug s client { b with transfer_client := none } = .ok (b', s1))
    (hbs1 : s1.buckets = some bs) (hflag1 : s1.bucket_transfer = 1) :
    process_migration_ack ndebug s client s.mask i =
      .ok { s1 with
          buckets := some (bs.set i (some b'))
          bucket_transfer := 0
          trace := s1.trace ++ [Event.push_loadlevels client] } := by
  unfold process_migration_ack
  have c1 : cassert ndebug 502 s.buckets.isSome = .ok () := by
    rw [hbs]; exact cassert_true ndebug 502
  have c2 : cassert ndebug 503 (decide (s.mask = s.mask)) = .ok () :=
    cassert_of ndebug 503 _ (decide_eq_true rfl)
  have c3 : cassert ndebug 504 (decide (i ≤ s.mask)) = .ok () :=
    cassert_of ndebug 504 _ (decide_eq_true hi)
  rw [assert_node_eq ndebug 494 s client n cl hcl hn, ok_bind, c1, ok_bind, c2, ok_bind, c3,
    ok_bind, bucket_at_ok 505 s bs i (some b) hbs hslot, ok_bind]
  have c4 : cassert ndebug 506 (some b).isSome = .ok () := cassert_true ndebug 506
  rw [c4, ok_bind]
  simp only
  have c5 : cassert ndebug 508 (decide (b.transfer_client = some client)) = .ok () :=
    cassert_of ndebug 508 _ (decide_eq_true hmark)
  rw [c5, ok_bind, hdone, ok_bind]
  have c6 : cassert ndebug 538 (decide ((set_bucket s1 i b').bucket_transfer = 1)) = .ok () :=
    cassert_of ndebug 538 _ (decide_eq_true hflag1)
  simp only
  rw [c6, ok_bind]
  simp only [pure_eq, push, set_bucket, hbs1, Option.map_some']

theorem list_set_same {α : Type} (l : List α) (i : Nat) (x : α) (h : l[i]? = some x) :
    l.set i x = l := by
  induction l generalizing i with
  | nil => rfl
  | cons a t ih =>
    cases i with
    | zero =>
      simp only [List.getElem?_cons_zero, Option.some.injEq] at h
      rw [List.set_cons_zero, h]
    | succ j =>
      simp only [List.getElem?_cons_succ] at h
      rw [List.set_cons_succ, ih j h]

theorem getElem?_set_same {α : Type} (l : List α) (i : Nat) (x y : α) (h : l[i]? = some x) :
    (l.set i y)[i]? = some y := by
  have hlt : i < l.length := by
    rcases Nat.lt_or_ge i l.length with h1 | h1
    · exact h1
    · rw [List.getElem?_eq_none h1] at h
      cases h
  rw [List.getElem?_set_self hlt]

/-- The index hash & _mask held in an int, for a mask that fits. -/
theorem index_eq (s : State) (hash : Nat) (hmask : s.mask < 2147483648) :
    toInt32 ((hash &&& s.mask : Nat) : Int) = ((hash &&& s.mask : Nat) : Int) :=
  toInt32_of_lt _ (lt_of_le_of_lt Nat.and_le_right hmask)

theorem index_assert (ndebug : Bool) (line : Nat) (s : State) (hash : Nat)
    (hmask : s.mask < 2147483648) :
    cassert ndebug line (decide (((hash &&& s.mask : Nat) : Int) ≥ 0 ∧
      toU64 ((hash &&& s.mask : Nat) : Int) ≤ s.mask)) = .ok () := by
  have hle : hash &&& s.mask ≤ s.mask := Nat.and_le_right
  apply cassert_of
  rw [toU64_natCast _ (by omega)]
  exact decide_eq_true ⟨by omega, hle⟩

theorem assert_backup_client_eq (ndebug : Bool) (l1 l2 : Nat) (s : State) (b : Bucket)
    (client B : Nat) (nd : Node) (hb : b.backup_node = some B) (hnd : s.nodeHeap[B]? = some nd)
    (hc : nd.client = some client) :
    assert_backup_client ndebug l1 l2 s b client = .ok () := by
  cases ndebug with
  | true => rfl
  | false =>
    simp only [assert_backup_client, hb, hnd, hc, decide_True, Bool.false_eq_true, if_false]
    rfl

/-- The run of process_sync_name_ack for a bucket whose transfer target is the client. -/
theorem process_sync_name_ack_target (ndebug : Bool) (s : State) (client hash n : Nat)
    (cl : Client) (bs : List (Option Bucket)) (b : Bucket)
    (hcl : s.clientHeap[client]? = some cl) (hn : cl.node = some n)
    (hbs : s.buckets = some bs) (hmask : s.mask < 2147483648)
    (hslot : bs[hash &&& s.mask]? = some (some b)) (hmark : b.transfer_client = some client) :
    process_sync_name_ack ndebug s client hash = .ok s := by
  unfold process_sync_name_ack
  have c1 : cassert ndebug 588 s.buckets.isSome = .ok () := by
    rw [hbs]; exact cassert_true ndebug 588
  rw [assert_node_eq ndebug 579 s client n cl hcl hn, ok_bind]
  simp only [index_eq s hash hmask]
  rw [c1, ok_bind, index_assert ndebug 589 s hash hmask, ok_bind,
    bucket_at_ok 590 s bs _ (some b) hbs hslot, ok_bind]
  have c4 : cassert ndebug 591 (some b).isSome = .ok () := cassert_true ndebug 591
  rw [c4, ok_bind]
  simp only [hmark, if_true, pure_eq]

/-- The run of process_sync_name_ack for a bucket whose backup node is the one of the client. -/
theorem process_sync_name_ack_backup (ndebug : Bool) (s : State) (client hash n B : Nat)
    (cl : Client) (nd : Node) (bs : List (Option Bucket)) (b : Bucket)
    (hcl : s.clientHeap[client]? = some cl) (hn : cl.node = some n)
    (hbs : s.buckets = some bs) (hmask : s.mask < 2147483648)
    (hslot : bs[hash &&& s.mask]? = some (some b))
    (hb : b.backup_node = some B) (hnd : s.nodeHeap[B]? = some nd)
    (hc : nd.client = some client) :
    process_sync_name_ack ndebug s client hash = .ok s := by
  unfold process_sync_name_ack
  have c1 : cassert ndebug 588 s.buckets.isSome = .ok () := by
    rw [hbs]; exact cassert_true ndebug 588
  rw [assert_node_eq ndebug 579 s client n cl hcl hn, ok_bind]
  simp only [index_eq s hash hmask]
  rw [c1, ok_bind, index_assert ndebug 589 s hash hmask, ok_bind,
    bucket_at_ok 590 s bs _ (some b) hbs hslot, ok_bind]
  have c4 : cassert ndebug 591 (some b).isSome = .ok () := cassert_true ndebug 591
  rw [c4, ok_bind]
  simp only
  by_cases hm : b.transfer_client = some client
  · rw [if_pos hm]
    rfl
  · rw [if_neg hm, assert_backup_client_eq ndebug 594 594 s b client B nd hb hnd hc, ok_bind]
    rfl

/-- The run of process_sync_ack for a bucket whose transfer target is the client: the item is
marked as migrated, one item less is in transit, and send_transfer_items runs. -/
theorem process_sync_ack_target (ndebug : Bool) (k : Consts) (items : Int) (s : State)
    (client map_hash hash n : Nat) (cl : Client) (bs : List (Option Bucket)) (b : Bucket)
    (hcl : s.clientHeap[client]? = some cl) (hn : cl.node = some n)
    (hbs : s.buckets = some bs) (hmask : s.mask < 2147483648)
    (hslot : bs[hash &&& s.mask]? = some (some b)) (hmark : b.transfer_client = some client) :
    process_sync_ack ndebug k items s client map_hash hash =
      send_transfer_items ndebug k items
        { s with
          in_transit := s.in_transit - 1
          trace := s.trace ++ [Event.data_migrated b.data map_hash hash] } b := by
  unfold process_sync_ack
  have c1 : cassert ndebug 621 s.buckets.isSome = .ok () := by
    rw [hbs]; exact cassert_true ndebug 621
  rw [assert_node_eq ndebug 610 s client n cl hcl hn, ok_bind]
  simp only [index_eq s hash hmask]
  rw [c1, ok_bind, index_assert ndebug 622 s hash hmask, ok_bind,
    bucket_at_ok 623 s bs _ (some b) hbs hslot, ok_bind]
  have c4 : cassert ndebug 624 (some b).isSome = .ok () := cassert_true ndebug 624
  rw [c4, ok_bind]
  simp only [hmark, if_true, data_migrated_dec]

/-- The run of process_sync_ack for a bucket whose transfer target is another client and whose
backup node is the one of the client. -/
theorem process_sync_ack_backup (ndebug : Bool) (k : Consts) (items : Int) (s : State)
    (client map_hash hash n B : Nat) (cl : Client) (nd : Node) (bs : List (Option Bucket))
    (b : Bucket)
    (hcl : s.clientHeap[client]? = some cl) (hn : cl.node = some n)
    (hbs : s.buckets = some bs) (hmask : s.mask < 2147483648)
    (hslot : bs[hash &&& s.mask]? = some (some b)) (hmark : b.transfer_client ≠ some client)
    (hb : b.backup_node = some B) (hnd : s.nodeHeap[B]? = some nd)
    (hc : nd.client = some client) :
    process_sync_ack ndebug k items s client map_hash hash = .ok s := by
  unfold process_sync_ack
  have c1 : cassert ndebug 621 s.buckets.isSome = .ok () := by
    rw [hbs]; exact cassert_true ndebug 621
  rw [assert_node_eq ndebug 610 s client n cl hcl hn, ok_bind]
  simp only [index_eq s hash hmask]
  rw [c1, ok_bind, index_assert ndebug 622 s hash hmask, ok_bind,
    bucket_at_ok 623 s bs _ (some b) hbs hslot, ok_bind]
  have c4 : cassert ndebug 624 (some b).isSome = .ok () := cassert_true ndebug 624
  rw [c4, ok_bind]
  simp only
  rw [if_neg (fun h => hmark h.symm),
    assert_backup_client_eq ndebug 636 637 s b client B nd hb hnd hc, ok_bind]
  rfl

/-- The run of send_transfer_items when data_migrate_items sends items: they are in transit
and nothing else happens. -/
theorem send_transfer_items_more (ndebug : Bool) (k : Consts) (items : Int) (s : State)
    (b : Bucket) (c a : Nat) (hmark : b.transfer_client = some c) (hdata : b.data = some a)
    (hitems : 0 < items)
    (ht : 0 ≤ s.in_transit ∧ s.in_transit ≤ k.TRANSIT_MIN)
    (hk : k.TRANSIT_MIN ≤ k.TRANSIT_MAX ∧ k.TRANSIT_MAX ≤ 2147483647)
    (hroom : s.in_transit < k.TRANSIT_MAX) :
    send_transfer_items ndebug k items s b =
      .ok { s with
          in_transit := s.in_transit + items
          trace := s.trace ++
            [Event.data_migrate_items (some c) (some a) b.hash (k.TRANSIT_MAX - s.in_transit)] } := by
  unfold send_transfer_items
  have c1 : cassert ndebug 334 (decide (s.in_transit ≥ 0)) = .ok () :=
    cassert_of ndebug 334 _ (decide_eq_true ht.1)
  have c2 : cassert ndebug 335 (decide (s.in_transit ≤ k.TRANSIT_MIN)) = .ok () :=
    cassert_of ndebug 335 _ (decide_eq_true ht.2)
  have c3 : cassert ndebug 336 b.transfer_client.isSome = .ok () := by
    rw [hmark]; exact cassert_true ndebug 336
  have c4 : cassert ndebug 337 (decide (k.TRANSIT_MAX ≥ k.TRANSIT_MIN)) = .ok () :=
    cassert_of ndebug 337 _ (decide_eq_true hk.1)
  have c5 : cassert ndebug 338 (decide (k.TRANSIT_MIN ≥ 0)) = .ok () :=
    cassert_of ndebug 338 _ (decide_eq_true (by omega))
  have c6 : cassert ndebug 345 b.data.isSome = .ok () := by
    rw [hdata]; exact cassert_true ndebug 345
  have c7 : cassert ndebug 346 (decide (k.TRANSIT_MAX - s.in_transit > 0)) = .ok () :=
    cassert_of ndebug 346 _ (decide_eq_true (by omega))
  rw [c1, ok_bind, c2, ok_bind, c3, ok_bind, c4, ok_bind, c5, ok_bind,
    isub_eq 340 k.TRANSIT_MAX s.in_transit (by unfold INT_MIN; omega) (by unfold INT_MAX; omega),
    ok_bind, c6, ok_bind, c7, ok_bind]
  simp only
  rw [if_neg (by omega)]
  simp only [pure_eq, data_migrate_items, if_pos hitems, hmark, hdata]

/-- The run of send_transfer_items on a Primary without backup when data_migrate_items has
nothing left to send and nothing is in transit: the migration is finalised. -/
theorem send_transfer_items_done (ndebug : Bool) (k : Consts) (items : Int) (s : State)
    (b : Bucket) (c a : Nat) (hmark : b.transfer_client = some c) (hdata : b.data = some a)
    (hitems : items ≤ 0) (ht : s.in_transit = 0)
    (hk : 0 ≤ k.TRANSIT_MIN ∧ k.TRANSIT_MIN ≤ k.TRANSIT_MAX ∧ 0 < k.TRANSIT_MAX ∧
      k.TRANSIT_MAX ≤ 2147483647)
    (hl : b.level = 0) (hb : b.backup_node = none) :
    send_transfer_items ndebug k items s b =
      .ok { s with
          trace := s.trace ++
            [Event.data_migrate_items (some c) (some a) b.hash k.TRANSIT_MAX,
             Event.push_finalise_migration c b.hash 1] } := by
  unfold send_transfer_items
  have c1 : cassert ndebug 334 (decide (s.in_transit ≥ 0)) = .ok () :=
    cassert_of ndebug 334 _ (decide_eq_true (by omega))
  have c2 : cassert ndebug 335 (decide (s.in_transit ≤ k.TRANSIT_MIN)) = .ok () :=
    cassert_of ndebug 335 _ (decide_eq_true (by omega))
  have c3 : cassert ndebug 336 b.transfer_client.isSome = .ok () := by
    rw [hmark]; exact cassert_true ndebug 336
  have c4 : cassert ndebug 337 (decide (k.TRANSIT_MAX ≥ k.TRANSIT_MIN)) = .ok () :=
    cassert_of ndebug 337 _ (decide_eq_true hk.2.1)
  have c5 : cassert ndebug 338 (decide (k.TRANSIT_MIN ≥ 0)) = .ok () :=
    cassert_of ndebug 338 _ (decide_eq_true hk.1)
  have c6 : cassert ndebug 345 b.data.isSome = .ok () := by
    rw [hdata]; exact cassert_true ndebug 345
  have c7 : cassert ndebug 346 (decide (k.TRANSIT_MAX - s.in_transit > 0)) = .ok () :=
    cassert_of ndebug 346 _ (decide_eq_true (by omega))
  have c8 : cassert ndebug 351 b.transfer_client.isSome = .ok () := by
    rw [hmark]; exact cassert_true ndebug 351
  rw [c1, ok_bind, c2, ok_bind, c3, ok_bind, c4, ok_bind, c5, ok_bind,
    isub_eq 340 k.TRANSIT_MAX s.in_transit (by unfold INT_MIN; omega) (by unfold INT_MAX; omega),
    ok_bind, c6, ok_bind, c7, ok_bind]
  simp only
  rw [if_pos hitems, c8, ok_bind]
  have hno : ¬ (items > 0) := by omega
  have c9 : cassert ndebug 352
      (decide ((data_migrate_items s items b.transfer_client b.data b.hash
        (k.TRANSIT_MAX - s.in_transit)).in_transit = 0)) = .ok () := by
    apply cassert_of
    simp only [data_migrate_items, if_neg hno, ht, add_zero, decide_True]
  rw [c9, ok_bind]
  unfold finalize_migration
  have c10 : cassert ndebug 281 b.transfer_client.isSome = .ok () := by
    rw [hmark]; exact cassert_true ndebug 281
  rw [c10, ok_bind, if_pos hl]
  simp only [hb, hmark, hdata, pure_eq, push, data_migrate_items, if_neg hno, ht, add_zero,
    sub_zero, List.append_assoc, List.cons_append, List.nil_append]

/-! ## C11: rule 3 of the rebalancer below MIN_BUCKETS -/

/-- C11: rule 3 does not split.  When the ideal number of buckets is below MIN_BUCKETS the code
only asserts (process.c 240-241) where its comment says the buckets need to be split.  No run
of process_loadlevels changes the mask: it returns with the mask it was given, or it stops.
With four active nodes, mask 3 and MIN_BUCKETS = 4 the ideal is 2: with assertions checked the
report stops at the assert(0) of line 241, and with assertions compiled out it returns with the
state unchanged, so the mask is still 3 and not 7.  No migration is begun in either build. -/
theorem process_loadlevels_no_split :
    (∀ (ndebug : Bool) (k : Consts) (s : State) (client : Nat)
        (primary backups transferring : Int),
        (process_loadlevels ndebug k s client primary backups transferring).map
            (fun t => t.mask) = .ok s.mask ∨
          ∃ e, process_loadlevels ndebug k s client primary backups transferring = .error e) ∧
      ideal_buckets exampleQuad 4 = 2 ∧ exampleConsts.MIN_BUCKETS = 4 ∧ exampleQuad.mask = 3 ∧
      process_loadlevels false exampleConsts exampleQuad 1 0 0 0 = .error (.assertion 241) ∧
      process_loadlevels true exampleConsts exampleQuad 1 0 0 0 = .ok exampleQuad := by
  refine ⟨?_, by decide, by decide, by decide, by decide, by decide⟩
  intro ndebug k s client primary backups transferring
  rcases h : process_loadlevels ndebug k s client primary backups transferring with e | s'
  · exact Or.inr ⟨e, rfl⟩
  · left
    rcases process_loadlevels_ok ndebug k s s' client primary backups transferring h with
      h1 | ⟨i, b, h1⟩ | ⟨bs, i, b, cl, n, -, -, -, -, h1, -⟩
    · rw [h1]
      rfl
    · rw [h1]
      rfl
    · rw [h1]
      rfl

/-! ## C12: the guard of the rebalancer -/

/-- C12: the guard of process_loadlevels.  On a load report from a client attached to a node
(the assertion of line 184), received while bucket_transfer is not 0 or with a transferring
count that is not 0, process_loadlevels returns the state it was given: the bucket table, the
transfer markers, the counters and bucket_transfer are unchanged and the trace has not grown, so
no CONTROL_BUCKET and no ACCEPT_BUCKET is sent. -/
theorem process_loadlevels_guard (ndebug : Bool) (k : Consts) (s : State) (client : Nat)
    (primary backups transferring : Int) (cl : Client) (n : Nat)
    (hcl : s.clientHeap[client]? = some cl) (hn : cl.node = some n)
    (hbusy : s.bucket_transfer ≠ 0 ∨ transferring ≠ 0) :
    process_loadlevels ndebug k s client primary backups transferring = .ok s := by
  unfold process_loadlevels
  rw [assert_client_node_eq ndebug s client n cl hcl hn, ok_bind, if_neg (by tauto)]
  rfl

/-- C12, at concrete reports: a report that says the peer is transferring, and a report
received while bucket 0 is being transferred, leave the state as it is. -/
theorem process_loadlevels_guard_witness :
    process_loadlevels false exampleConsts exampleCluster 0 0 2 1 = .ok exampleCluster ∧
      process_loadlevels false exampleConsts exampleSwap 1 0 0 0 = .ok exampleSwap :=
  ⟨process_loadlevels_guard false exampleConsts exampleCluster 0 0 2 1 { node := some 0 } 0
      rfl rfl (Or.inr (by decide)),
    process_loadlevels_guard false exampleConsts exampleSwap 1 0 0 0 { node := some 1 } 1
      rfl rfl (Or.inl (by decide))⟩

/-! ## C13: one transfer at a time -/

/-- C13: buckets_split_mask breaks the agreement of the transfer markers with bucket_transfer.
From buckets_init on a node with mask 3, a load report from the peer of client 0 marks bucket 0
and sets bucket_transfer to 1: one marked replica, flag 1.  A split to mask 7 then builds every
new replica with bucket_new, which leaves transfer_client at NULL, and it does not touch
_bucket_transfer: with assertions compiled out the state after the split has no marked replica
and bucket_transfer at 1.  With assertions checked the same split stops in bucket_new at line
148, which reads _buckets after line 244 has set it to NULL. -/
theorem buckets_split_mask_drops_marker :
    (buckets_init true exampleFresh >>= fun s1 =>
        process_loadlevels true exampleConsts s1 0 0 0 0).map
        (fun s => (count_transfer s, s.bucket_transfer)) = .ok (1, 1) ∧
      ((buckets_init true exampleFresh >>= fun s1 =>
        process_loadlevels true exampleConsts s1 0 0 0 0) >>= fun s2 =>
        buckets_split_mask true noJunk s2 7).map
        (fun s => (count_transfer s, s.bucket_transfer, s.mask)) = .ok (0, 1, 7) ∧
      (buckets_init false exampleFresh >>= fun s1 =>
        process_loadlevels false exampleConsts s1 0 0 0 0).map
        (fun s => (count_transfer s, s.bucket_transfer)) = .ok (1, 1) ∧
      ((buckets_init false exampleFresh >>= fun s1 =>
        process_loadlevels false exampleConsts s1 0 0 0 0) >>= fun s2 =>
        buckets_split_mask false noJunk s2 7) = .error (.nullDeref 148) := by
  decide

/-! ## C14: the counters and the populations they stand for -/

/-- C14: the counters do not follow the populations.  After buckets_init they agree (4 Primary
replicas, none backed).  After process_migration_ack for a Primary that has a backup,
primary_count is 2 while the table still holds 3 Primary replicas, and for a Secondary
secondary_count is 0 while the table still holds that Secondary: the counter goes down and the
replica stays in its slot.  bucket_shutdown_handler never touches a counter: with assertions
compiled out it drops the Primary of slot 0 and primary_count is still 3 for 2 Primary
replicas and 3 populated slots; with assertions checked it stops in bucket_free at line 353,
which asserts level < 0 for a bucket whose level is 0.  buckets_split_mask (assertions compiled
out) makes two Primary replicas out of one and leaves primary_count and unbacked_count at 1.
Each census lists (primary_count, Primary replicas), (secondary_count, Secondary replicas),
(unbacked_count, Primary replicas without backup) and the number of populated slots. -/
theorem counters_diverge_from_populations :
    (buckets_init false exampleFresh).map census = .ok ((4, 4), (0, 0), (4, 4), 4) ∧
      census exampleMigrate = ((3, 3), (1, 1), (1, 1), 4) ∧
      (process_migration_ack false exampleMigrate 1 3 0).map census =
        .ok ((2, 3), (1, 1), (1, 1), 4) ∧
      census exampleMigrateSecondary = ((3, 3), (1, 1), (1, 1), 4) ∧
      (process_migration_ack false exampleMigrateSecondary 0 3 3).map census =
        .ok ((3, 3), (0, 1), (1, 1), 4) ∧
      census exampleShutdown = ((3, 3), (1, 1), (1, 1), 4) ∧
      (bucket_shutdown_handler true exampleShutdown 0).map census =
        .ok ((3, 2), (1, 1), (1, 1), 3) ∧
      bucket_shutdown_handler false exampleShutdown 0 = .error (.assertion 353) ∧
      census exampleHalf = ((1, 1), (0, 0), (1, 1), 1) ∧
      (buckets_split_mask true noJunk exampleHalf 3).map census =
        .ok ((1, 2), (0, 0), (1, 2), 2) := by
  refine ⟨?_, ?_, ?_, ?_, ?_, ?_, ?_, ?_, ?_, ?_⟩ <;> decide

/-! ## C15: completion of a PromoteSwap -/

/-- C15: completion of a PromoteSwap.  Let b be the replica of slot i, marked as transferring to
the client, with the hashmask entry of i holding both addresses and bucket_transfer at 1.  On
CONTROL_BUCKET_COMPLETE from that client, a Primary b with backup peer B becomes a Secondary
with source B and no backup, primary_count goes down by one and secondary_count up by one; a
Secondary b with source S becomes a Primary with backup S and no source, with the counters moved
the other way.  In both cases the two addresses of the hashmask entry of i are exchanged, the
marker of b is cleared, bucket_transfer is 0 and the trace has grown by exactly one mask update
for bucket i followed by one LOADLEVELS request to the client.  The result is given as a whole
state: no other replica, hashmask entry or global changes. -/
theorem process_control_bucket_complete_spec (ndebug : Bool) (s : State) (client i n : Nat)
    (cl : Client) (bs : List (Option Bucket)) (b : Bucket) (hs : List (Option Hashmask))
    (p q : String)
    (hcl : s.clientHeap[client]? = some cl) (hn : cl.node = some n)
    (hbs : s.buckets = some bs) (hi : i ≤ s.mask) (hslot : bs[i]? = some (some b))
    (hhash : b.hash = i) (hmark : b.transfer_client = some client)
    (hhs : s.hashmasks = some hs)
    (hentry : hs[i]? = some (some { primary := some p, secondary := some q }))
    (hflag : s.bucket_transfer = 1)
    (hprim : 0 ≤ s.primary_buckets ∧ s.primary_buckets < 2147483647)
    (hsec : 0 ≤ s.secondary_buckets ∧ s.secondary_buckets < 2147483647) :
    (∀ B, b.level = 0 → b.backup_node = some B → b.target_node = none →
      1 ≤ s.primary_buckets →
      process_control_bucket_complete ndebug s client s.mask i =
        .ok { s with
            buckets := some (bs.set i (some { b with
              level := 1, target_node := some B, backup_node := none, transfer_client := none }))
            hashmasks := some (hs.set i (some { primary := some q, secondary := some p }))
            primary_buckets := s.primary_buckets - 1
            secondary_buckets := s.secondary_buckets + 1
            bucket_transfer := 0
            trace := s.trace ++ [Event.push_hashmask_update i, Event.push_loadlevels client] }) ∧
    (∀ S, b.level = 1 → b.target_node = some S → b.backup_node = none →
      1 ≤ s.secondary_buckets →
      process_control_bucket_complete ndebug s client s.mask i =
        .ok { s with
            buckets := some (bs.set i (some { b with
              level := 0, backup_node := some S, target_node := none, transfer_client := none }))
            hashmasks := some (hs.set i (some { primary := some q, secondary := some p }))
            primary_buckets := s.primary_buckets + 1
            secondary_buckets := s.secondary_buckets - 1
            bucket_transfer := 0
            trace := s.trace ++ [Event.push_hashmask_update i, Event.push_loadlevels client] }) := by
  constructor
  · intro B hl hb ht h1
    have hsw := switch_roles_primary ndebug s { b with transfer_client := none } B hl hb ht
      ⟨h1, by omega⟩ hsec
    have h := process_control_bucket_complete_eq ndebug s client i n cl bs b _ hs
      { primary := some p, secondary := some q } _ _ hcl hn hbs hi hslot hhash hmark hhs hentry
      rfl rfl hflag hsw
    rw [h]
    simp only [hhash]
  · intro S hl ht hb h1
    have hsw := switch_roles_secondary ndebug s { b with transfer_client := none } S hl ht hb
      hprim ⟨h1, by omega⟩
    have h := process_control_bucket_complete_eq ndebug s client i n cl bs b _ hs
      { primary := some p, secondary := some q } _ _ hcl hn hbs hi hslot hhash hmark hhs hentry
      rfl rfl hflag hsw
    rw [h]
    simp only [hhash]

/-- C15, at concrete states: bucket 0 of exampleSwap, a Primary backed on node 0 and marked for
client 0, becomes a Secondary of node 0 (primary_count 3 to 2, secondary_count 1 to 2, entry 0
exchanged); bucket 3 of exampleSwapBack, a Secondary of node 1 marked for client 1, becomes a
Primary backed on node 1. -/
theorem process_control_bucket_complete_spec_witness :
    process_control_bucket_complete false exampleSwap 0 3 0 =
      .ok { exampleCluster with
          buckets := some [some { hash := 0, level := 1, target_node := some 0, data := some 0 },
                           some { hash := 1, level := 0, backup_node := some 0, data := some 1 },
                           some { hash := 2, level := 0, data := some 2 },
                           some { hash := 3, level := 1, target_node := some 1, data := some 3 }]
          hashmasks := some [some { primary := some "b:1", secondary := some "a:1" },
                             some { primary := some "a:1", secondary := some "b:1" },
                             some { primary := some "a:1" },
                             some { primary := some "c:1", secondary := some "a:1" }]
          primary_buckets := 2
          secondary_buckets := 2
          bucket_transfer := 0
          trace := [Event.push_hashmask_update 0, Event.push_loadlevels 0] } ∧
      process_control_bucket_complete false exampleSwapBack 1 3 3 =
        .ok { exampleCluster with
            buckets := some [some { hash := 0, level := 0, backup_node := some 0, data := some 0 },
                             some { hash := 1, level := 0, backup_node := some 0, data := some 1 },
                             some { hash := 2, level := 0, data := some 2 },
                             some { hash := 3, level := 0, backup_node := some 1, data := some 3 }]
            hashmasks := some [some { primary := some "a:1", secondary := some "b:1" },
                               some { primary := some "a:1", secondary := some "b:1" },
                               some { primary := some "a:1" },
                               some { primary := some "a:1", secondary := some "c:1" }]
            primary_buckets := 4
            secondary_buckets := 0
            bucket_transfer := 0
            trace := [Event.push_hashmask_update 3, Event.push_loadlevels 1] } :=
  ⟨(process_control_bucket_complete_spec false exampleSwap 0 0 0 { node := some 0 }
      [some { hash := 0, level := 0, backup_node := some 0, data := some 0,
              transfer_client := some 0 },
       some { hash := 1, level := 0, backup_node := some 0, data := some 1 },
       some { hash := 2, level := 0, data := some 2 },
       some { hash := 3, level := 1, target_node := some 1, data := some 3 }]
      { hash := 0, level := 0, backup_node := some 0, data := some 0, transfer_client := some 0 }
      [some { primary := some "a:1", secondary := some "b:1" },
       some { primary := some "a:1", secondary := some "b:1" },
       some { primary := some "a:1" },
       some { primary := some "c:1", secondary := some "a:1" }]
      "a:1" "b:1" rfl rfl rfl (by decide) rfl rfl rfl rfl rfl rfl (by decide) (by decide)).1
      0 rfl rfl rfl (by decide),
    (process_control_bucket_complete_spec false exampleSwapBack 1 3 1 { node := some 1 }
      [some { hash := 0, level := 0, backup_node := some 0, data := some 0 },
       some { hash := 1, level := 0, backup_node := some 0, data := some 1 },
       some { hash := 2, level := 0, data := some 2 },
       some { hash := 3, level := 1, target_node := some 1, data := some 3,
              transfer_client := some 1 }]
      { hash := 3, level := 1, target_node := some 1, data := some 3, transfer_client := some 1 }
      [some { primary := some "a:1", secondary := some "b:1" },
       some { primary := some "a:1", secondary := some "b:1" },
       some { primary := some "a:1" },
       some { primary := some "c:1", secondary := some "a:1" }]
      "c:1" "a:1" rfl rfl rfl (by decide) rfl rfl rfl rfl rfl rfl (by decide) (by decide)).2
      1 rfl rfl rfl (by decide)⟩

/-! ## C16: finalisation of a first backup -/

/-- C16: finalisation of a first backup.  Let b be the replica of slot i, a Primary without
backup peer, marked as transferring to the client, with bucket_transfer at 1 and at least one
bucket counted as unbacked.  On MIGRATION_ACK from that client process_migration_ack returns the
state in which b has the node of the client as backup peer and no marker, unbacked_count is one
less, bucket_transfer is 0 and the trace has grown by exactly one LOADLEVELS request to the
client.  The result is given as a whole state: b stays in its slot as a Primary with its store,
and primary_count, secondary_count, the stores and every other replica are unchanged. -/
theorem process_migration_ack_first_backup (ndebug : Bool) (s : State) (client i n : Nat)
    (cl : Client) (bs : List (Option Bucket)) (b : Bucket)
    (hcl : s.clientHeap[client]? = some cl) (hn : cl.node = some n)
    (hbs : s.buckets = some bs) (hi : i ≤ s.mask) (hslot : bs[i]? = some (some b))
    (hmark : b.transfer_client = some client) (hl : b.level = 0) (hb : b.backup_node = none)
    (hflag : s.bucket_transfer = 1)
    (hno : 1 ≤ s.nobackup_buckets ∧ s.nobackup_buckets ≤ 2147483647) :
    process_migration_ack ndebug s client s.mask i =
      .ok { s with
          buckets := some (bs.set i (some { b with
            backup_node := some n, transfer_client := none }))
          nobackup_buckets := s.nobackup_buckets - 1
          bucket_transfer := 0
          trace := s.trace ++ [Event.push_loadlevels client] } :=
  process_migration_ack_eq ndebug s _ client i n cl bs b _ hcl hn hbs hi hslot hmark
    (migration_done_first ndebug s client n cl { b with transfer_client := none } hcl hn hl hb hno)
    hbs hflag

/-- C16, in the first scenario of the specification: with mask 3 and four unbacked primaries,
the acknowledgement of the migration of bucket 0 to the peer of client 0 leaves the four
primaries in place, bucket 0 backed on node 0, and unbacked_count at 3. -/
theorem process_migration_ack_first_backup_witness :
    process_migration_ack false exampleFirstBackup 0 3 0 =
      .ok { exampleFirstBackup with
          buckets := some [some { hash := 0, level := 0, backup_node := some 0, data := some 0 },
                           some { hash := 1, level := 0, data := some 1 },
                           some { hash := 2, level := 0, data := some 2 },
                           some { hash := 3, level := 0, data := some 3 }]
          nobackup_buckets := 3
          bucket_transfer := 0
          trace := [Event.push_loadlevels 0] } :=
  process_migration_ack_first_backup false exampleFirstBackup 0 0 0 { node := some 0 }
    [some { hash := 0, level := 0, data := some 0, transfer_client := some 0 },
     some { hash := 1, level := 0, data := some 1 },
     some { hash := 2, level := 0, data := some 2 },
     some { hash := 3, level := 0, data := some 3 }]
    { hash := 0, level := 0, data := some 0, transfer_client := some 0 }
    rfl rfl rfl (by decide) rfl rfl rfl rfl rfl (by decide)

/-! ## C17: the source replica after a migration -/

/-- C17: process_migration_ack does not empty the slot.  Let b be the replica of slot i, marked
as transferring to the client, a Secondary or a Primary that has a backup peer.  On
MIGRATION_ACK from that client the handler returns; the contents of the store of b are destroyed
and the counter of the role of b goes down by one, but slot i of the bucket table still holds b
(without marker and without store): line 535 sets the local pointer to NULL, not _buckets[hash],
so the node still hosts bucket i. -/
theorem process_migration_ack_keeps_slot (ndebug : Bool) (s : State) (client i n a : Nat)
    (cl : Client) (bs : List (Option Bucket)) (b : Bucket)
    (hcl : s.clientHeap[client]? = some cl) (hn : cl.node = some n)
    (hbs : s.buckets = some bs) (hi : i ≤ s.mask) (hslot : bs[i]? = some (some b))
    (hmark : b.transfer_client = some client) (hdata : b.data = some a)
    (hrole : (b.level = 0 ∧ ∃ B, b.backup_node = some B) ∨ b.level = 1)
    (hflag : s.bucket_transfer = 1)
    (hprim : 1 ≤ s.primary_buckets ∧ s.primary_buckets ≤ 2147483647)
    (hsec : 1 ≤ s.secondary_buckets ∧ s.secondary_buckets ≤ 2147483647) :
    ∃ s' bs', process_migration_ack ndebug s client s.mask i = .ok s' ∧
      s'.buckets = some bs' ∧
      bs'[i]? = some (some { b with transfer_client := none, data := none }) ∧
      (∀ j, j ≠ i → bs'[j]? = bs[j]?) ∧
      (b.level = 0 → s'.primary_buckets = s.primary_buckets - 1 ∧
        s'.secondary_buckets = s.secondary_buckets) ∧
      (b.level = 1 → s'.secondary_buckets = s.secondary_buckets - 1 ∧
        s'.primary_buckets = s.primary_buckets) ∧
      s'.trace = s.trace ++
        [Event.data_destroy a b.hash, Event.data_free a, Event.push_loadlevels client] := by
  have hlt : i < bs.length := by
    rcases Nat.lt_or_ge i bs.length with h | h
    · exact h
    · rw [List.getElem?_eq_none h] at hslot
      cases hslot
  have hset : (bs.set i (some { b with transfer_client := none, data := none }))[i]? =
      some (some { b with transfer_client := none, data := none }) := by
    rw [List.getElem?_set_self hlt]
  have hother : ∀ j, j ≠ i →
      (bs.set i (some { b with transfer_client := none, data := none }))[j]? = bs[j]? := by
    intro j hj
    rw [List.getElem?_set_ne (Ne.symm hj)]
  rcases hrole with ⟨hl, B, hb⟩ | hl
  · have hdone := migration_done_primary ndebug s client B a { b with transfer_client := none }
      hl hb rfl hdata ⟨by omega, hprim.2⟩
    have h := process_migration_ack_eq ndebug s _ client i n cl bs b _ hcl hn hbs hi hslot hmark
      hdone hbs hflag
    refine ⟨_, _, h, rfl, hset, hother, fun _ => ⟨rfl, rfl⟩, ?_, ?_⟩
    · intro h1
      rw [hl] at h1
      cases h1
    · simp only [data_destroy_free, List.append_assoc, List.cons_append, List.nil_append]
  · have hdone := migration_done_secondary ndebug s client a { b with transfer_client := none }
      hl rfl hdata ⟨by omega, hsec.2⟩
    have h := process_migration_ack_eq ndebug s _ client i n cl bs b _ hcl hn hbs hi hslot hmark
      hdone hbs hflag
    refine ⟨_, _, h, rfl, hset, hother, ?_, fun _ => ⟨rfl, rfl⟩, ?_⟩
    · intro h0
      rw [hl] at h0
      cases h0
    · simp only [data_destroy_free, List.append_assoc, List.cons_append, List.nil_append]

/-- C17, at concrete states: after the acknowledgement of the migration of bucket 0 of
exampleMigrate (a Primary backed on node 0) to client 1, and of bucket 3 of
exampleMigrateSecondary (a Secondary) to client 0, the slot still holds the replica. -/
theorem process_migration_ack_keeps_slot_witness :
    (∃ s' bs', process_migration_ack false exampleMigrate 1 3 0 = .ok s' ∧
      s'.buckets = some bs' ∧
      bs'[0]? = some (some { hash := 0, level := 0, backup_node := some 0, data := none }) ∧
      s'.primary_buckets = 2) ∧
    (∃ s' bs', process_migration_ack false exampleMigrateSecondary 0 3 3 = .ok s' ∧
      s'.buckets = some bs' ∧
      bs'[3]? = some (some { hash := 3, level := 1, target_node := some 1, data := none }) ∧
      s'.secondary_buckets = 0) := by
  constructor
  · obtain ⟨s', bs', h1, h2, h3, -, h5, -, -⟩ :=
      process_migration_ack_keeps_slot false exampleMigrate 1 0 1 0 { node := some 1 }
        [some { hash := 0, level := 0, backup_node := some 0, data := some 0,
                transfer_client := some 1 },
         some { hash := 1, level := 0, backup_node := some 0, data := some 1 },
         some { hash := 2, level := 0, data := some 2 },
         some { hash := 3, level := 1, target_node := some 1, data := some 3 }]
        { hash := 0, level := 0, backup_node := some 0, data := some 0,
          transfer_client := some 1 }
        rfl rfl rfl (by decide) rfl rfl rfl (Or.inl ⟨rfl, 0, rfl⟩) rfl (by decide) (by decide)
    exact ⟨s', bs', h1, h2, h3, (h5 rfl).1⟩
  · obtain ⟨s', bs', h1, h2, h3, -, -, h6, -⟩ :=
      process_migration_ack_keeps_slot false exampleMigrateSecondary 0 3 0 3 { node := some 0 }
        [some { hash := 0, level := 0, backup_node := some 0, data := some 0 },
         some { hash := 1, level := 0, backup_node := some 0, data := some 1 },
         some { hash := 2, level := 0, data := some 2 },
         some { hash := 3, level := 1, target_node := some 1, data := some 3,
                transfer_client := some 0 }]
        { hash := 3, level := 1, target_node := some 1, data := some 3,
          transfer_client := some 0 }
        rfl rfl rfl (by decide) rfl rfl rfl (Or.inr rfl) rfl (by decide) (by decide)
    exact ⟨s', bs', h1, h2, h3, (h6 rfl).1⟩

/-! ## C18: the hashmask entry after a first backup -/

/-- C18: process_migration_ack does not touch the hashmask table.  Let b be the replica of slot
i, a Primary without backup peer marked as transferring to the client, and let the hashmask
entry of i hold this node's address p as primary and no secondary.  After MIGRATION_ACK from the
client the entry of i is what it was: its secondary address is still absent, not the address of
the new backup peer.  A later PromoteSwap of bucket i cannot exchange the two: hashmask_switch
stops at the assertion of line 676, and with assertions compiled out it leaves the entry without
a primary address. -/
theorem process_migration_ack_hashmask (ndebug : Bool) (s : State) (client i n : Nat)
    (cl : Client) (bs : List (Option Bucket)) (b : Bucket) (hs : List (Option Hashmask))
    (p : String)
    (hcl : s.clientHeap[client]? = some cl) (hn : cl.node = some n)
    (hbs : s.buckets = some bs) (hi : i ≤ s.mask) (hslot : bs[i]? = some (some b))
    (hmark : b.transfer_client = some client) (hl : b.level = 0) (hb : b.backup_node = none)
    (hflag : s.bucket_transfer = 1)
    (hno : 1 ≤ s.nobackup_buckets ∧ s.nobackup_buckets ≤ 2147483647)
    (hhs : s.hashmasks = some hs)
    (hentry : hs[i]? = some (some { primary := some p, secondary := none })) :
    ∃ s', process_migration_ack ndebug s client s.mask i = .ok s' ∧
      s'.hashmasks = some hs ∧
      hashmask_switch false s' i = .error (.assertion 676) ∧
      (hashmask_switch true s' i).map (fun t => t.hashmasks) =
        .ok (some (hs.set i (some { primary := none, secondary := some p }))) := by
  have h := process_migration_ack_eq ndebug s _ client i n cl bs b _ hcl hn hbs hi hslot hmark
    (migration_done_first ndebug s client n cl { b with transfer_client := none } hcl hn hl hb hno)
    hbs hflag
  refine ⟨_, h, hhs, ?_, ?_⟩
  · unfold hashmask_switch
    simp only [hhs, hentry, Option.isSome_some, cassert_true, ok_bind, decide_eq_true hi,
      Option.isSome_none, cassert_false]
    rfl
  · unfold hashmask_switch
    simp only [hhs, hentry, cassert_ndebug, ok_bind, pure_eq, set_hashmask, Option.map_some',
      Except.map]

/-- C18, in the first scenario of the specification: after the acknowledgement of the migration
of bucket 0 to the peer of client 0 the hashmask entry of bucket 0 still has no secondary
address, and the exchange of its addresses stops at the assertion of line 676. -/
theorem process_migration_ack_hashmask_witness :
    ∃ s', process_migration_ack false exampleFirstBackup 0 3 0 = .ok s' ∧
      s'.hashmasks = some [some { primary := some "a:1" }, some { primary := some "a:1" },
                           some { primary := some "a:1" }, some { primary := some "a:1" }] ∧
      hashmask_switch false s' 0 = .error (.assertion 676) := by
  obtain ⟨s', h1, h2, h3, -⟩ :=
    process_migration_ack_hashmask false exampleFirstBackup 0 0 0 { node := some 0 }
      [some { hash := 0, level := 0, data := some 0, transfer_client := some 0 },
       some { hash := 1, level := 0, data := some 1 },
       some { hash := 2, level := 0, data := some 2 },
       some { hash := 3, level := 0, data := some 3 }]
      { hash := 0, level := 0, data := some 0, transfer_client := some 0 }
      [some { primary := some "a:1" }, some { primary := some "a:1" },
       some { primary := some "a:1" }, some { primary := some "a:1" }]
      "a:1" rfl rfl rfl (by decide) rfl rfl rfl rfl rfl (by decide) rfl rfl
  exact ⟨s', h1, h2, h3⟩

/-! ## C19: two swaps in a row -/

/-- C19: two swaps restore the topology.  Let b be the replica of slot i, marked as transferring
to the client of node N, either a Primary whose backup peer is N or a Secondary whose source
peer is N, with the hashmask entry of i holding both addresses.  process_control_bucket_complete
returns a state whose slot i holds the swapped replica b1; when b1 is marked again for the same
client (marker set, bucket_transfer 1) a second process_control_bucket_complete returns the
first state with the marker of b cleared, bucket_transfer 0 and four more messages in the trace:
the role, the backup and source peers of b, primary_count, secondary_count and the whole
hashmask table are what they were before the first swap. -/
theorem process_control_bucket_complete_twice (ndebug : Bool) (s : State) (client i n N : Nat)
    (cl : Client) (bs : List (Option Bucket)) (b : Bucket) (hs : List (Option Hashmask))
    (p q : String)
    (hcl : s.clientHeap[client]? = some cl) (hn : cl.node = some n)
    (hbs : s.buckets = some bs) (hi : i ≤ s.mask) (hslot : bs[i]? = some (some b))
    (hhash : b.hash = i) (hmark : b.transfer_client = some client)
    (hhs : s.hashmasks = some hs)
    (hentry : hs[i]? = some (some { primary := some p, secondary := some q }))
    (hflag : s.bucket_transfer = 1)
    (hprim : 0 ≤ s.primary_buckets ∧ s.primary_buckets < 2147483647)
    (hsec : 0 ≤ s.secondary_buckets ∧ s.secondary_buckets < 2147483647)
    (hrole : (b.level = 0 ∧ b.backup_node = some N ∧ b.target_node = none ∧
        1 ≤ s.primary_buckets) ∨
      (b.level = 1 ∧ b.target_node = some N ∧ b.backup_node = none ∧
        1 ≤ s.secondary_buckets)) :
    ∃ s1 bs1 b1, process_control_bucket_complete ndebug s client s.mask i = .ok s1 ∧
      s1.buckets = some bs1 ∧ bs1[i]? = some (some b1) ∧ b1.level = 1 - b.level ∧
      process_control_bucket_complete ndebug
        { s1 with
          buckets := some (bs1.set i (some { b1 with transfer_client := some client }))
          bucket_transfer := 1 } client s.mask i =
        .ok { s with
            buckets := some (bs.set i (some { b with transfer_client := none }))
            bucket_transfer := 0
            trace := s.trace ++
              [Event.push_hashmask_update i, Event.push_loadlevels client,
               Event.push_hashmask_update i, Event.push_loadlevels client] } := by
  have hentry2 : (hs.set i (some { primary := some q, secondary := some p }))[i]? =
      some (some { primary := some q, secondary := some p }) :=
    getElem?_set_same hs i _ _ hentry
  rcases hrole with ⟨hl, hb, ht, h1⟩ | ⟨hl, ht, hb, h1⟩
  · have hsw := switch_roles_primary ndebug s { b with transfer_client := none } N hl hb ht
      ⟨h1, by omega⟩ hsec
    have e1 := process_control_bucket_complete_eq ndebug s client i n cl bs b _ hs
      { primary := some p, secondary := some q } _ _ hcl hn hbs hi hslot hhash hmark hhs hentry
      rfl rfl hflag hsw
    refine ⟨_, _, _, e1, rfl, getElem?_set_same bs i _ _ hslot, ?_, ?_⟩
    · simp only [hl]
      rfl
    · have hsw2 := switch_roles_secondary ndebug
        { s with
          buckets := some ((bs.set i (some { b with
            level := 1, target_node := some N, backup_node := none,
            transfer_client := none })).set i (some { b with
              level := 1, target_node := some N, backup_node := none,
              transfer_client := some client }))
          hashmasks := some (hs.set i (some { primary := some q, secondary := some p }))
          primary_buckets := s.primary_buckets - 1
          secondary_buckets := s.secondary_buckets + 1
          bucket_transfer := 1
          trace := s.trace ++ [Event.push_hashmask_update b.hash, Event.push_loadlevels client] }
        { b with level := 1, target_node := some N, backup_node := none,
                 transfer_client := none } N rfl rfl rfl
        ⟨by simp only; omega, by simp only; omega⟩ ⟨by simp only; omega, by simp only; omega⟩
      have e2 := process_control_bucket_complete_eq ndebug
        ({ s with
          buckets := some ((bs.set i (some { b with
            level := 1, target_node := some N, backup_node := none,
            transfer_client := none })).set i (some { b with
              level := 1, target_node := some N, backup_node := none,
              transfer_client := some client }))
          hashmasks := some (hs.set i (some { primary := some q, secondary := some p }))
          primary_buckets := s.primary_buckets - 1
          secondary_buckets := s.secondary_buckets + 1
          bucket_transfer := 1
          trace := s.trace ++ [Event.push_hashmask_update b.hash, Event.push_loadlevels client] } :
          State) client i n cl _
        { b with level := 1, target_node := some N, backup_node := none,
                 transfer_client := some client } _
        (hs.set i (some { primary := some q, secondary := some p }))
        { primary := some q, secondary := some p } _ _ hcl hn rfl hi
        (getElem?_set_same _ i _ _ (getElem?_set_same bs i _ _ hslot)) hhash rfl rfl hentry2
        rfl rfl rfl hsw2
      refine e2.trans ?_
      congr 1
      simp only [State.mk.injEq, List.set_set, true_and, and_true, List.append_assoc,
        List.cons_append, List.nil_append, hhash, Option.some.injEq]
      refine ⟨?_, ?_, ?_, ?_⟩
      · congr 2
        cases b
        simp only at hl hb ht
        simp only [hl, hb, ht]
      · rw [hhs, list_set_same hs i _ hentry]
      · omega
      · omega
  · have hsw := switch_roles_secondary ndebug s { b with transfer_client := none } N hl ht hb
      hprim ⟨h1, by omega⟩
    have e1 := process_control_bucket_complete_eq ndebug s client i n cl bs b _ hs
      { primary := some p, secondary := some q } _ _ hcl hn hbs hi hslot hhash hmark hhs hentry
      rfl rfl hflag hsw
    refine ⟨_, _, _, e1, rfl, getElem?_set_same bs i _ _ hslot, ?_, ?_⟩
    · simp only [hl]
      rfl
    · have hsw2 := switch_roles_primary ndebug
        { s with
          buckets := some ((bs.set i (some { b with
            level := 0, backup_node := some N, target_node := none,
            transfer_client := none })).set i (some { b with
              level := 0, backup_node := some N, target_node := none,
              transfer_client := some client }))
          hashmasks := some (hs.set i (some { primary := some q, secondary := some p }))
          primary_buckets := s.primary_buckets + 1
          secondary_buckets := s.secondary_buckets - 1
          bucket_transfer := 1
          trace := s.trace ++ [Event.push_hashmask_update b.hash, Event.push_loadlevels client] }
        { b with level := 0, backup_node := some N, target_node := none,
                 transfer_client := none } N rfl rfl rfl
        ⟨by simp only; omega, by simp only; omega⟩ ⟨by simp only; omega, by simp only; omega⟩
      have e2 := process_control_bucket_complete_eq ndebug
        ({ s with
          buckets := some ((bs.set i (some { b with
            level := 0, backup_node := some N, target_node := none,
            transfer_client := none })).set i (some { b with
              level := 0, backup_node := some N, target_node := none,
              transfer_client := some client }))
          hashmasks := some (hs.set i (some { primary := some q, secondary := some p }))
          primary_buckets := s.primary_buckets + 1
          secondary_buckets := s.secondary_buckets - 1
          bucket_transfer := 1
          trace := s.trace ++ [Event.push_hashmask_update b.hash, Event.push_loadlevels client] } :
          State) client i n cl _
        { b with level := 0, backup_node := some N, target_node := none,
                 transfer_client := some client } _
        (hs.set i (some { primary := some q, secondary := some p }))
        { primary := some q, secondary := some p } _ _ hcl hn rfl hi
        (getElem?_set_same _ i _ _ (getElem?_set_same bs i _ _ hslot)) hhash rfl rfl hentry2
        rfl rfl rfl hsw2
      refine e2.trans ?_
      congr 1
      simp only [State.mk.injEq, List.set_set, true_and, and_true, List.append_assoc,
        List.cons_append, List.nil_append, hhash, Option.some.injEq]
      refine ⟨?_, ?_, ?_, ?_⟩
      · congr 2
        cases b
        simp only at hl hb ht
        simp only [hl, hb, ht]
      · rw [hhs, list_set_same hs i _ hentry]
      · omega
      · omega

/-- C19, at a concrete state: bucket 0 of exampleSwap, a Primary backed on node 0, is swapped
twice with the peer of client 0; the second swap returns the cluster of exampleCluster, with
four messages in the trace. -/
theorem process_control_bucket_complete_twice_witness :
    ∃ s1 bs1 b1, process_control_bucket_complete false exampleSwap 0 3 0 = .ok s1 ∧
      s1.buckets = some bs1 ∧ bs1[0]? = some (some b1) ∧ b1.level = 1 ∧
      process_control_bucket_complete false
        { s1 with
          buckets := some (bs1.set 0 (some { b1 with transfer_client := some 0 }))
          bucket_transfer := 1 } 0 3 0 =
        .ok { exampleCluster with
            trace := [Event.push_hashmask_update 0, Event.push_loadlevels 0,
                      Event.push_hashmask_update 0, Event.push_loadlevels 0] } :=
  process_control_bucket_complete_twice false exampleSwap 0 0 0 0 { node := some 0 }
    [some { hash := 0, level := 0, backup_node := some 0, data := some 0,
            transfer_client := some 0 },
     some { hash := 1, level := 0, backup_node := some 0, data := some 1 },
     some { hash := 2, level := 0, data := some 2 },
     some { hash := 3, level := 1, target_node := some 1, data := some 3 }]
    { hash := 0, level := 0, backup_node := some 0, data := some 0, transfer_client := some 0 }
    [some { primary := some "a:1", secondary := some "b:1" },
     some { primary := some "a:1", secondary := some "b:1" },
     some { primary := some "a:1" },
     some { primary := some "c:1", secondary := some "a:1" }]
    "a:1" "b:1" rfl rfl rfl (by decide) rfl rfl rfl rfl rfl rfl (by decide) (by decide)
    (Or.inl ⟨rfl, rfl, rfl, by decide⟩)

/-! ## C20: acknowledgements during streaming -/

/-- C20, counterexample: SYNC_NAME_ACK from the transfer target does not decrease in_transit and
does not send anything.  While bucket 2 is streamed to client 1 with one item in transit,
process_sync_name_ack from client 1 returns the state it was given (in_transit still 1, empty
trace), where process_sync_ack from the same client brings in_transit to 0 and asks the store
for more items. -/
theorem process_sync_name_ack_keeps_in_transit :
    exampleStreaming.in_transit = 1 ∧
      process_sync_name_ack false exampleStreaming 1 2 = .ok exampleStreaming ∧
      process_sync_name_ack true exampleStreaming 1 2 = .ok exampleStreaming ∧
      process_sync_ack false exampleConsts 3 exampleStreaming 1 7 2 =
        .ok { exampleStreaming with
            in_transit := 3
            trace := [Event.data_migrated (some 2) 7 2,
                      Event.data_migrate_items (some 1) (some 2) 2 8] } := by
  refine ⟨?_, ?_, ?_, ?_⟩ <;> decide

/-- C20, amended: let b be the replica of slot hash & mask and let the client be attached to a
node.  When the client is the transfer target of b: process_sync_ack marks the item as migrated,
decreases in_transit by exactly one and then runs send_transfer_items for b, which asks the
store for TRANSIT_MAX - in_transit more items, counts the items sent as in transit, and when
there is none left and none in transit finalises the migration; process_sync_name_ack returns
the state unchanged.  When the client is not the transfer target of b but the client of its
backup node, both handlers return the state unchanged. -/
theorem process_sync_ack_spec (ndebug : Bool) (k : Consts) (items : Int) (s : State)
    (client map_hash hash n : Nat) (cl : Client) (bs : List (Option Bucket)) (b : Bucket)
    (hcl : s.clientHeap[client]? = some cl) (hn : cl.node = some n)
    (hbs : s.buckets = some bs) (hmask : s.mask < 2147483648)
    (hslot : bs[hash &&& s.mask]? = some (some b)) :
    (b.transfer_client = some client →
      process_sync_name_ack ndebug s client hash = .ok s ∧
      process_sync_ack ndebug k items s client map_hash hash =
        send_transfer_items ndebug k items
          { s with
            in_transit := s.in_transit - 1
            trace := s.trace ++ [Event.data_migrated b.data map_hash hash] } b ∧
      (∀ a, b.data = some a → 0 < items →
        1 ≤ s.in_transit → s.in_transit - 1 ≤ k.TRANSIT_MIN →
        k.TRANSIT_MIN ≤ k.TRANSIT_MAX → k.TRANSIT_MAX ≤ 2147483647 →
        s.in_transit - 1 < k.TRANSIT_MAX →
        process_sync_ack ndebug k items s client map_hash hash =
          .ok { s with
              in_transit := s.in_transit - 1 + items
              trace := s.trace ++
                [Event.data_migrated (some a) map_hash hash,
                 Event.data_migrate_items (some client) (some a) b.hash
                   (k.TRANSIT_MAX - (s.in_transit - 1))] }) ∧
      (∀ a, b.data = some a → items ≤ 0 → s.in_transit = 1 →
        0 ≤ k.TRANSIT_MIN → k.TRANSIT_MIN ≤ k.TRANSIT_MAX → 0 < k.TRANSIT_MAX →
        k.TRANSIT_MAX ≤ 2147483647 → b.level = 0 → b.backup_node = none →
        process_sync_ack ndebug k items s client map_hash hash =
          .ok { s with
              in_transit := 0
              trace := s.trace ++
                [Event.data_migrated (some a) map_hash hash,
                 Event.data_migrate_items (some client) (some a) b.hash k.TRANSIT_MAX,
                 Event.push_finalise_migration client b.hash 1] })) ∧
    (∀ B nd, b.transfer_client ≠ some client → b.backup_node = some B →
      s.nodeHeap[B]? = some nd → nd.client = some client →
      process_sync_ack ndebug k items s client map_hash hash = .ok s ∧
      process_sync_name_ack ndebug s client hash = .ok s) := by
  constructor
  · intro hmark
    have hack := process_sync_ack_target ndebug k items s client map_hash hash n cl bs b hcl hn
      hbs hmask hslot hmark
    refine ⟨process_sync_name_ack_target ndebug s client hash n cl bs b hcl hn hbs hmask hslot
      hmark, hack, ?_, ?_⟩
    · intro a hdata hitems h1 h2 h3 h4 h5
      rw [hack, send_transfer_items_more ndebug k items _ b client a hmark hdata hitems
        ⟨by simp only; omega, h2⟩ ⟨h3, h4⟩ h5]
      simp only [hdata, List.append_assoc, List.cons_append, List.nil_append]
    · intro a hdata hitems h1 h2 h3 h4 h5 hl hb
      rw [hack, send_transfer_items_done ndebug k items _ b client a hmark hdata hitems
        (by simp only; omega) ⟨h2, h3, h4, h5⟩ hl hb]
      simp only [hdata, h1, sub_self, List.append_assoc, List.cons_append, List.nil_append]
  · intro B nd hmark hb hnd hc
    exact ⟨process_sync_ack_backup ndebug k items s client map_hash hash n B cl nd bs b hcl hn
        hbs hmask hslot hmark hb hnd hc,
      process_sync_name_ack_backup ndebug s client hash n B cl nd bs b hcl hn hbs hmask hslot
        hb hnd hc⟩

/-- C20, at a concrete state: bucket 2 is streamed to client 1 with one item in transit.  A
SYNC_ACK from client 1 after which the store sends three items leaves three in transit, and one
after which it has nothing left finalises the migration; a SYNC_ACK or SYNC_NAME_ACK from client
0 for bucket 0, whose backup node it serves, changes nothing. -/
theorem process_sync_ack_spec_witness :
    process_sync_ack false exampleConsts 3 exampleStreaming 1 7 2 =
        .ok { exampleStreaming with
            in_transit := 3
            trace := [Event.data_migrated (some 2) 7 2,
                      Event.data_migrate_items (some 1) (some 2) 2 8] } ∧
      process_sync_ack false exampleConsts 0 exampleStreaming 1 7 2 =
        .ok { exampleStreaming with
            in_transit := 0
            trace := [Event.data_migrated (some 2) 7 2,
                      Event.data_migrate_items (some 1) (some 2) 2 8,
                      Event.push_finalise_migration 1 2 1] } ∧
      process_sync_ack false exampleConsts 3 exampleStreaming 0 7 4 = .ok exampleStreaming ∧
      process_sync_name_ack false exampleStreaming 0 4 = .ok exampleStreaming :=
  have target := (process_sync_ack_spec false exampleConsts 3 exampleStreaming 1 7 2 1
    { node := some 1 }
    [some { hash := 0, level := 0, backup_node := some 0, data := some 0 },
     some { hash := 1, level := 0, backup_node := some 0, data := some 1 },
     some { hash := 2, level := 0, data := some 2, transfer_client := some 1 },
     some { hash := 3, level := 1, target_node := some 1, data := some 3 }]
    { hash := 2, level := 0, data := some 2, transfer_client := some 1 }
    rfl rfl rfl (by decide) rfl).1 rfl
  have last := (process_sync_ack_spec false exampleConsts 0 exampleStreaming 1 7 2 1
    { node := some 1 }
    [some { hash := 0, level := 0, backup_node := some 0, data := some 0 },
     some { hash := 1, level := 0, backup_node := some 0, data := some 1 },
     some { hash := 2, level := 0, data := some 2, transfer_client := some 1 },
     some { hash := 3, level := 1, target_node := some 1, data := some 3 }]
    { hash := 2, level := 0, data := some 2, transfer_client := some 1 }
    rfl rfl rfl (by decide) rfl).1 rfl
  have other := (process_sync_ack_spec false exampleConsts 3 exampleStreaming 0 7 4 0
    { node := some 0 }
    [some { hash := 0, level := 0, backup_node := some 0, data := some 0 },
     some { hash := 1, level := 0, backup_node := some 0, data := some 1 },
     some { hash := 2, level := 0, data := some 2, transfer_client := some 1 },
     some { hash := 3, level := 1, target_node := some 1, data := some 3 }]
    { hash := 0, level := 0, backup_node := some 0, data := some 0 }
    rfl rfl rfl (by decide) rfl).2 0
    { name := "b:1", client := some 0, loadlevel_event := true } (by decide) rfl rfl rfl
  ⟨target.2.2.1 2 rfl (by decide) (by decide) (by decide) (by decide) (by decide) (by decide),
    last.2.2.2 2 rfl (by decide) rfl (by decide) (by decide) (by decide) (by decide) rfl rfl,
    other.1, other.2⟩

/-! ## Lemmas on the streaming window and on finalisation -/

/-- With assertions checked send_transfer_items stops at line 335 when more than TRANSIT_MIN
items are in transit. -/
theorem send_transfer_items_over (k : Consts) (items : Int) (s : State) (b : Bucket)
    (h0 : 0 ≤ s.in_transit) (hover : k.TRANSIT_MIN < s.in_transit) :
    send_transfer_items false k items s b = .error (.assertion 335) := by
  unfold send_transfer_items
  have c1 : cassert false 334 (decide (s.in_transit ≥ 0)) = .ok () :=
    cassert_of false 334 _ (decide_eq_true h0)
  have c2 : cassert false 335 (decide (s.in_transit ≤ k.TRANSIT_MIN)) =
      .error (.assertion 335) := by
    rw [decide_eq_false (by omega)]
    exact cassert_false 335
  rw [c1, ok_bind, c2]
  rfl

/-- With assertions compiled out send_transfer_items asks the store for items whatever the
number of items in transit. -/
theorem send_transfer_items_ndebug_more (k : Consts) (items : Int) (s : State) (b : Bucket)
    (hitems : 0 < items)
    (hr : -2147483648 ≤ k.TRANSIT_MAX - s.in_transit ∧ k.TRANSIT_MAX - s.in_transit ≤ 2147483647) :
    send_transfer_items true k items s b =
      .ok { s with
          in_transit := s.in_transit + items
          trace := s.trace ++
            [Event.data_migrate_items b.transfer_client b.data b.hash
              (k.TRANSIT_MAX - s.in_transit)] } := by
  unfold send_transfer_items
  simp only [cassert_ndebug, ok_bind]
  rw [isub_eq 340 k.TRANSIT_MAX s.in_transit (by unfold INT_MIN; omega) (by unfold INT_MAX; omega),
    ok_bind, if_neg (by omega)]
  simp only [pure_eq, data_migrate_items, if_pos hitems]

/-- The checks of send_transfer_items up to the call of the store, when they all pass. -/
theorem send_transfer_items_fetch (ndebug : Bool) (k : Consts) (items : Int) (s : State)
    (b : Bucket) (c a : Nat) (hmark : b.transfer_client = some c) (hdata : b.data = some a)
    (hitems : items ≤ 0)
    (ht : 0 ≤ s.in_transit ∧ s.in_transit ≤ k.TRANSIT_MIN)
    (hk : k.TRANSIT_MIN ≤ k.TRANSIT_MAX ∧ k.TRANSIT_MAX ≤ 2147483647)
    (hroom : s.in_transit < k.TRANSIT_MAX) :
    send_transfer_items ndebug k items s b = (do
      cassert ndebug 352 (decide (s.in_transit = 0))
      finalize_migration ndebug
        { s with
          trace := s.trace ++
            [Event.data_migrate_items (some c) (some a) b.hash (k.TRANSIT_MAX - s.in_transit)] }
        (some c) b) := by
  unfold send_transfer_items
  have c1 : cassert ndebug 334 (decide (s.in_transit ≥ 0)) = .ok () :=
    cassert_of ndebug 334 _ (decide_eq_true ht.1)
  have c2 : cassert ndebug 335 (decide (s.in_transit ≤ k.TRANSIT_MIN)) = .ok () :=
    cassert_of ndebug 335 _ (decide_eq_true ht.2)
  have c3 : cassert ndebug 336 b.transfer_client.isSome = .ok () := by
    rw [hmark]; exact cassert_true ndebug 336
  have c4 : cassert ndebug 337 (decide (k.TRANSIT_MAX ≥ k.TRANSIT_MIN)) = .ok () :=
    cassert_of ndebug 337 _ (decide_eq_true hk.1)
  have c5 : cassert ndebug 338 (decide (k.TRANSIT_MIN ≥ 0)) = .ok () :=
    cassert_of ndebug 338 _ (decide_eq_true (by omega))
  have c6 : cassert ndebug 345 b.data.isSome = .ok () := by
    rw [hdata]; exact cassert_true ndebug 345
  have c7 : cassert ndebug 346 (decide (k.TRANSIT_MAX - s.in_transit > 0)) = .ok () :=
    cassert_of ndebug 346 _ (decide_eq_true (by omega))
  have c8 : cassert ndebug 351 b.transfer_client.isSome = .ok () := by
    rw [hmark]; exact cassert_true ndebug 351
  rw [c1, ok_bind, c2, ok_bind, c3, ok_bind, c4, ok_bind, c5, ok_bind,
    isub_eq 340 k.TRANSIT_MAX s.in_transit (by unfold INT_MIN; omega) (by unfold INT_MAX; omega),
    ok_bind, c6, ok_bind, c7, ok_bind]
  simp only
  rw [if_pos hitems, c8, ok_bind]
  have hno : ¬ (items > 0) := by omega
  simp only [data_migrate_items, if_neg hno, add_zero, hmark, hdata]

/-- The function finalize_migration for a Secondary that knows its source node: with
assertions checked it stops at the assert(0) of line 309, with assertions compiled out it
returns without a message. -/
theorem finalize_migration_secondary (s : State) (c S : Nat) (b : Bucket) (hl : b.level = 1)
    (ht : b.target_node = some S) :
    finalize_migration false s (some c) b = .error (.assertion 309) ∧
      finalize_migration true s (some c) b = .ok s := by
  have h0 : ¬ (b.level = 0) := by rw [hl]; decide
  constructor
  · unfold finalize_migration
    have c0 : cassert false 281 (some c).isSome = .ok () := cassert_true false 281
    have c1 : cassert false 306 b.target_node.isSome = .ok () := by
      rw [ht]; exact cassert_true false 306
    rw [c0, ok_bind, if_neg h0, if_pos hl, c1, ok_bind, cassert_false]
    rfl
  · unfold finalize_migration
    simp only [cassert_ndebug, ok_bind, if_neg h0, if_pos hl, pure_eq]

/-! ## C21: the back-pressure window -/

/-- C21: process_sync_ack does not hold back when more than TRANSIT_MIN items are still in
transit.  Let the client be the transfer target of the replica of slot hash & mask, with
TRANSIT_MAX >= TRANSIT_MIN >= 0 and in_transit in [1, TRANSIT_MAX].  When the decremented
in_transit is above TRANSIT_MIN, send_transfer_items is called all the same: with assertions
checked the handler stops at the assertion of line 335 (in_transit <= TRANSIT_MIN), and with
assertions compiled out it asks the store for TRANSIT_MAX - (in_transit - 1) items although
in_transit - 1 > TRANSIT_MIN. -/
theorem process_sync_ack_window (k : Consts) (items : Int) (s : State)
    (client map_hash hash n : Nat) (cl : Client) (bs : List (Option Bucket)) (b : Bucket)
    (hcl : s.clientHeap[client]? = some cl) (hn : cl.node = some n)
    (hbs : s.buckets = some bs) (hmask : s.mask < 2147483648)
    (hslot : bs[hash &&& s.mask]? = some (some b)) (hmark : b.transfer_client = some client)
    (hk : 0 ≤ k.TRANSIT_MIN ∧ k.TRANSIT_MIN ≤ k.TRANSIT_MAX ∧ k.TRANSIT_MAX ≤ 2147483647)
    (hin : 1 ≤ s.in_transit ∧ s.in_transit ≤ k.TRANSIT_MAX)
    (hover : k.TRANSIT_MIN < s.in_transit - 1) (hitems : 0 < items) :
    process_sync_ack false k items s client map_hash hash = .error (.assertion 335) ∧
      process_sync_ack true k items s client map_hash hash =
        .ok { s with
            in_transit := s.in_transit - 1 + items
            trace := s.trace ++
              [Event.data_migrated b.data map_hash hash,
               Event.data_migrate_items (some client) b.data b.hash
                 (k.TRANSIT_MAX - (s.in_transit - 1))] } := by
  constructor
  · rw [process_sync_ack_target false k items s client map_hash hash n cl bs b hcl hn hbs hmask
      hslot hmark]
    exact send_transfer_items_over k items _ b (by simp only; omega) hover
  · rw [process_sync_ack_target true k items s client map_hash hash n cl bs b hcl hn hbs hmask
      hslot hmark,
      send_transfer_items_ndebug_more k items _ b hitems ⟨by simp only; omega, by simp only; omega⟩]
    simp only [hmark, List.append_assoc, List.cons_append, List.nil_append]

/-- C21, at a concrete state: with TRANSIT_MIN = 2 and TRANSIT_MAX = 8, bucket 2 is streamed to
client 1 and 8 items are in transit.  The first SYNC_ACK leaves 7 in transit: with assertions
checked the handler stops at line 335, with assertions compiled out it fetches one more item. -/
theorem process_sync_ack_window_witness :
    process_sync_ack false exampleConsts 1 exampleWindowFull 1 7 2 = .error (.assertion 335) ∧
      process_sync_ack true exampleConsts 1 exampleWindowFull 1 7 2 =
        .ok { exampleWindowFull with
            in_transit := 8
            trace := [Event.data_migrated (some 2) 7 2,
                      Event.data_migrate_items (some 1) (some 2) 2 1] } :=
  process_sync_ack_window exampleConsts 1 exampleWindowFull 1 7 2 1 { node := some 1 }
    [some { hash := 0, level := 0, backup_node := some 0, data := some 0 },
     some { hash := 1, level := 0, backup_node := some 0, data := some 1 },
     some { hash := 2, level := 0, data := some 2, transfer_client := some 1 },
     some { hash := 3, level := 1, target_node := some 1, data := some 3 }]
    { hash := 2, level := 0, data := some 2, transfer_client := some 1 }
    rfl rfl rfl (by decide) rfl rfl (by decide) (by decide) (by decide) (by decide)

/-! ## C22: entering finalisation -/

/-- C22: finalisation is only implemented for a Primary without backup.  Let b be a bucket
under transfer to the client c, fetched from at an in_transit value in [0, TRANSIT_MIN], and let
the store report that it sent no item.  For a Primary without backup and nothing in transit
send_transfer_items sends exactly one FINALISE_MIGRATION to c with level 1 and changes nothing
else.  For a Secondary that knows its source node nothing is sent to that node: with assertions
checked the run stops at the assert(0) of line 309, with assertions compiled out it returns
with the request to the store as its only call.  And while items are still in transit (fewer
than TRANSIT_MAX) the run stops at the assertion of line 352 (in_transit == 0) instead of waiting
for them. -/
theorem send_transfer_items_finalise (k : Consts) (items : Int) (s : State) (b : Bucket)
    (c a : Nat) (hmark : b.transfer_client = some c) (hdata : b.data = some a)
    (hitems : items ≤ 0)
    (hk : 0 ≤ k.TRANSIT_MIN ∧ k.TRANSIT_MIN ≤ k.TRANSIT_MAX ∧ 0 < k.TRANSIT_MAX ∧
      k.TRANSIT_MAX ≤ 2147483647) :
    (b.level = 0 → b.backup_node = none → s.in_transit = 0 → ∀ ndebug,
      send_transfer_items ndebug k items s b =
        .ok { s with
            trace := s.trace ++
              [Event.data_migrate_items (some c) (some a) b.hash k.TRANSIT_MAX,
               Event.push_finalise_migration c b.hash 1] }) ∧
    (∀ S, b.level = 1 → b.target_node = some S → s.in_transit = 0 →
      send_transfer_items false k items s b = .error (.assertion 309) ∧
      send_transfer_items true k items s b =
        .ok { s with
            trace := s.trace ++
              [Event.data_migrate_items (some c) (some a) b.hash k.TRANSIT_MAX] }) ∧
    (0 < s.in_transit → s.in_transit ≤ k.TRANSIT_MIN → s.in_transit < k.TRANSIT_MAX →
      send_transfer_items false k items s b = .error (.assertion 352)) := by
  refine ⟨?_, ?_, ?_⟩
  · intro hl hb ht ndebug
    exact send_transfer_items_done ndebug k items s b c a hmark hdata hitems ht hk hl hb
  · intro S hl htn ht
    have hf := fun ndebug => send_transfer_items_fetch ndebug k items s b c a hmark hdata hitems
      ⟨by omega, by omega⟩ ⟨hk.2.1, hk.2.2.2⟩ (by omega)
    have hz : cassert false 352 (decide (s.in_transit = 0)) = .ok () :=
      cassert_of false 352 _ (decide_eq_true ht)
    constructor
    · rw [hf false, hz, ok_bind]
      exact (finalize_migration_secondary _ c S b hl htn).1
    · rw [hf true, cassert_ndebug, ok_bind, (finalize_migration_secondary _ c S b hl htn).2]
      simp only [ht, sub_zero]
  · intro hpos hle hlt
    rw [send_transfer_items_fetch false k items s b c a hmark hdata hitems ⟨by omega, hle⟩
      ⟨hk.2.1, hk.2.2.2⟩ hlt]
    have hz : cassert false 352 (decide (s.in_transit = 0)) = .error (.assertion 352) := by
      rw [decide_eq_false (by omega)]
      exact cassert_false 352
    rw [hz]
    rfl

/-- C22, at concrete states: bucket 3, a Secondary of node 1 streamed to client 0 with nothing
in transit, stops at line 309 (and sends nothing with assertions compiled out); bucket 2, a
Primary without backup streamed to client 1 with one item in transit, stops at line 352. -/
theorem send_transfer_items_finalise_witness :
    (send_transfer_items false exampleConsts 0 exampleStreamingSecondary
        { hash := 3, level := 1, target_node := some 1, data := some 3,
          transfer_client := some 0 } = .error (.assertion 309) ∧
      send_transfer_items true exampleConsts 0 exampleStreamingSecondary
        { hash := 3, level := 1, target_node := some 1, data := some 3,
          transfer_client := some 0 } =
        .ok { exampleStreamingSecondary with
            trace := [Event.data_migrate_items (some 0) (some 3) 3 8] }) ∧
    send_transfer_items false exampleConsts 0 exampleStreaming
      { hash := 2, level := 0, data := some 2, transfer_client := some 1 } =
      .error (.assertion 352) :=
  ⟨(send_transfer_items_finalise exampleConsts 0 exampleStreamingSecondary
      { hash := 3, level := 1, target_node := some 1, data := some 3, transfer_client := some 0 }
      0 3 rfl rfl (by decide) (by decide)).2.1 1 rfl rfl rfl,
    (send_transfer_items_finalise exampleConsts 0 exampleStreaming
      { hash := 2, level := 0, data := some 2, transfer_client := some 1 }
      1 2 rfl rfl (by decide) (by decide)).2.2 (by decide) (by decide) (by decide)⟩

/-! ## Lemmas on the shutdown of a bucket -/

/-- With assertions checked the end of bucket_shutdown_handler stops in bucket_free: line 353
asserts level < 0 for a bucket whose level has not been changed. -/
theorem shutdown_finish_debug (s : State) (i a : Nat) (bs : List (Option Bucket)) (b : Bucket)
    (hbs : s.buckets = some bs) (hlt : i < bs.length) (hhash : b.hash = i)
    (hmark : b.transfer_client = none) (hdata : b.data = some a)
    (hev : b.shutdown_event = true) (hl : 0 ≤ b.level) :
    shutdown_finish false s i b = .error (.assertion 353) := by
  unfold shutdown_finish
  have c1 : cassert false 422 b.transfer_client.isNone = .ok () := by
    rw [hmark]; exact cassert_true false 422
  rw [c1, ok_bind, bucket_destroy_contents_eq false s b a hmark hdata, ok_bind]
  simp only
  rw [cassert_of false 426 _ hev, ok_bind]
  have c2 : shutdown_event_deref 427 { b with data := none } = .ok () := by
    simp only [shutdown_event_deref, hev, if_true]
  rw [c2, ok_bind, cassert_of false 430 _ (decide_eq_true hhash), ok_bind]
  have c3 : clear_bucket 431
      (push (push (data_destroy_free s a b.hash) (Event.push_hashmask_update b.hash))
        (Event.event_free_shutdown b.hash)) b.hash =
      .ok { (push (push (data_destroy_free s a b.hash) (Event.push_hashmask_update b.hash))
        (Event.event_free_shutdown b.hash)) with buckets := some (bs.set b.hash none) } := by
    simp only [clear_bucket, push, data_destroy_free, hbs, hhash, if_pos hlt]
  rw [c3, ok_bind]
  unfold bucket_free
  have c4 : cassert false 353 (decide (b.level < 0)) = .error (.assertion 353) := by
    rw [decide_eq_false (by omega)]
    exact cassert_false 353
  simp only [c4]
  rfl

/-- With assertions compiled out the end of bucket_shutdown_handler destroys the store of the
bucket, tells the clients, frees the timer and empties the slot. -/
theorem shutdown_finish_ndebug (s : State) (i a : Nat) (bs : List (Option Bucket)) (b : Bucket)
    (hbs : s.buckets = some bs) (hlt : i < bs.length) (hhash : b.hash = i)
    (hdata : b.data = some a) (hev : b.shutdown_event = true) :
    shutdown_finish true s i b =
      .ok { s with
          buckets := some (bs.set i none)
          dataHeap := (data_destroy_free s a i).dataHeap
          trace := s.trace ++
            [Event.data_destroy a i, Event.data_free a, Event.push_hashmask_update i,
             Event.event_free_shutdown i] } := by
  unfold shutdown_finish
  simp only [cassert_ndebug, ok_bind, bucket_destroy_contents, hdata, pure_eq,
    shutdown_event_deref, hev, if_true, bucket_free]
  simp only [clear_bucket, push, data_destroy_free, hbs, hhash, if_pos hlt,
    List.append_assoc, List.cons_append, List.nil_append]
  rfl

theorem shutdown_decide_secondary (ndebug : Bool) (s : State) (b : Bucket) (hl : 0 < b.level) :
    shutdown_decide ndebug s b = .ok (1, b, s) := by
  unfold shutdown_decide
  rw [if_pos hl]

theorem shutdown_decide_alone (ndebug : Bool) (s : State) (b : Bucket) (hl : b.level = 0)
    (hn : s.node_count = 0) : shutdown_decide ndebug s b = .ok (1, b, s) := by
  unfold shutdown_decide
  rw [if_neg (by omega), cassert_of ndebug 385 _ (decide_eq_true hl), ok_bind, if_pos hn]
  rfl

theorem shutdown_decide_promote (ndebug : Bool) (s : State) (b : Bucket) (B c : Nat)
    (nd : Node) (hl : b.level = 0) (hn : 0 < s.node_count) (hb : b.backup_node = some B)
    (hnd : s.nodeHeap[B]? = some nd) (hc : nd.client = some c)
    (hp : b.promoting = Promoting.NOT_PROMOTING) :
    shutdown_decide ndebug s b =
      .ok (1, { b with promoting := Promoting.PROMOTING },
        push s (Event.push_promote c b.hash)) := by
  unfold shutdown_decide
  rw [if_neg (by omega), cassert_of ndebug 385 _ (decide_eq_true hl), ok_bind,
    if_neg (by omega), cassert_of ndebug 392 _ (decide_eq_true hn), ok_bind]
  simp only [hb, shutdown_promote, hnd, hc]
  have c1 : cassert ndebug 397 (some c).isSome = .ok () := cassert_true ndebug 397
  rw [c1, ok_bind, cassert_of ndebug 400 _ (decide_eq_true hp), ok_bind]
  rfl

/-- The run of bucket_shutdown_handler on the bucket of slot i when the decision is that the
bucket is done with. -/
theorem bucket_shutdown_handler_done (ndebug : Bool) (s s1 : State) (i : Nat)
    (bs : List (Option Bucket)) (b b1 : Bucket)
    (hbs : s.buckets = some bs) (hslot : bs[i]? = some (some b))
    (hev : b.shutdown_event = true)
    (hd : shutdown_decide ndebug s b = .ok (1, b1, s1)) :
    bucket_shutdown_handler ndebug s i = shutdown_finish ndebug s1 i b1 := by
  unfold bucket_shutdown_handler
  rw [bucket_at_ok 371 s bs i (some b) hbs hslot]
  simp only
  rw [cassert_of ndebug 377 _ hev, ok_bind, hd, ok_bind]
  simp only
  rw [if_pos (by decide)]

/-! ## C23: shutdown of a Primary that has a backup -/

/-- C23: the firing of bucket_shutdown_handler that sends PROMOTE also drops the replica.  Let
b be the replica of slot i, a Primary whose backup node B has a client c attached, with other
nodes known, its shutdown timer armed, not promoting and not being transferred.  Line 403
counts the bucket as done right after push_promote, without waiting for an acknowledgement:
with assertions compiled out the same firing destroys the store of b, frees the timer without
arming it again and empties slot i; with assertions checked the firing stops in bucket_free at
line 353, after the slot has been emptied. -/
theorem bucket_shutdown_handler_promote (s : State) (i a B c : Nat) (nd : Node)
    (bs : List (Option Bucket)) (b : Bucket)
    (hbs : s.buckets = some bs) (hslot : bs[i]? = some (some b))
    (hev : b.shutdown_event = true) (hhash : b.hash = i) (hmark : b.transfer_client = none)
    (hdata : b.data = some a) (hl : b.level = 0) (hn : 0 < s.node_count)
    (hb : b.backup_node = some B) (hnd : s.nodeHeap[B]? = some nd) (hc : nd.client = some c)
    (hp : b.promoting = Promoting.NOT_PROMOTING) :
    bucket_shutdown_handler false s i = .error (.assertion 353) ∧
      bucket_shutdown_handler true s i =
        .ok { s with
            buckets := some (bs.set i none)
            dataHeap := (data_destroy_free s a i).dataHeap
            trace := s.trace ++
              [Event.push_promote c i, Event.data_destroy a i, Event.data_free a,
               Event.push_hashmask_update i, Event.event_free_shutdown i] } := by
  have hlt : i < bs.length := by
    rcases Nat.lt_or_ge i bs.length with h | h
    · exact h
    · rw [List.getElem?_eq_none h] at hslot
      cases hslot
  have hd := fun ndebug => shutdown_decide_promote ndebug s b B c nd hl hn hb hnd hc hp
  constructor
  · rw [bucket_shutdown_handler_done false s _ i bs b _ hbs hslot hev (hd false)]
    exact shutdown_finish_debug (push s (Event.push_promote c b.hash)) i a bs
      { b with promoting := Promoting.PROMOTING } hbs hlt hhash hmark hdata hev
      (by simp only; omega)
  · rw [bucket_shutdown_handler_done true s _ i bs b _ hbs hslot hev (hd true),
      shutdown_finish_ndebug (push s (Event.push_promote c b.hash)) i a bs
        { b with promoting := Promoting.PROMOTING } hbs hlt hhash hdata hev]
    simp only [push, data_destroy_free, hhash, List.append_assoc, List.cons_append,
      List.nil_append]

/-- C23, at a concrete state: the first firing for bucket 0 of exampleShutdown, a Primary backed
on node 0, sends PROMOTE to client 0 and, with assertions compiled out, leaves slot 0 empty and
the store of bucket 0 destroyed; with assertions checked it stops at line 353. -/
theorem bucket_shutdown_handler_promote_witness :
    bucket_shutdown_handler false exampleShutdown 0 = .error (.assertion 353) ∧
      bucket_shutdown_handler true exampleShutdown 0 =
        .ok { exampleShutdown with
            buckets := some [none,
              some { hash := 1, level := 0, backup_node := some 0, data := some 1 },
              some { hash := 2, level := 0, data := some 2 },
              some { hash := 3, level := 1, target_node := some 1, data := some 3 }]
            dataHeap := [{ items := [], ref := 0 }, {}, {}, {}]
            trace := [Event.push_promote 0 0, Event.data_destroy 0 0, Event.data_free 0,
                      Event.push_hashmask_update 0, Event.event_free_shutdown 0] } :=
  bucket_shutdown_handler_promote exampleShutdown 0 0 0 0
    { name := "b:1", client := some 0, loadlevel_event := true }
    [some { hash := 0, level := 0, backup_node := some 0, data := some 0,
            shutdown_event := true },
     some { hash := 1, level := 0, backup_node := some 0, data := some 1 },
     some { hash := 2, level := 0, data := some 2 },
     some { hash := 3, level := 1, target_node := some 1, data := some 3 }]
    { hash := 0, level := 0, backup_node := some 0, data := some 0, shutdown_event := true }
    rfl rfl rfl rfl rfl rfl rfl (by decide) rfl rfl rfl rfl

/-! ## C24: the done path of the shutdown of a bucket -/

/-- C24: the done path of bucket_shutdown_handler does not pass bucket_free.  Let b be the
replica of slot i, with its shutdown timer armed and no transfer in progress, a Secondary, or a
Primary on a node that knows no other node.  With assertions checked the firing stops in
bucket_free at line 353, which asserts level < 0 for a bucket whose level is never changed
(and for a Secondary line 355 would ask for a source node that is never cleared).  With
assertions compiled out the firing returns: the store of b is destroyed, one hashmask update is
sent, the timer is freed and slot i is emptied; every other slot and every counter is
unchanged. -/
theorem bucket_shutdown_handler_done_path (s : State) (i a : Nat) (bs : List (Option Bucket))
    (b : Bucket)
    (hbs : s.buckets = some bs) (hslot : bs[i]? = some (some b))
    (hev : b.shutdown_event = true) (hhash : b.hash = i) (hmark : b.transfer_client = none)
    (hdata : b.data = some a)
    (hrole : b.level = 1 ∨ (b.level = 0 ∧ s.node_count = 0)) :
    bucket_shutdown_handler false s i = .error (.assertion 353) ∧
      bucket_shutdown_handler true s i =
        .ok { s with
            buckets := some (bs.set i none)
            dataHeap := (data_destroy_free s a i).dataHeap
            trace := s.trace ++
              [Event.data_destroy a i, Event.data_free a, Event.push_hashmask_update i,
               Event.event_free_shutdown i] } := by
  have hlt : i < bs.length := by
    rcases Nat.lt_or_ge i bs.length with h | h
    · exact h
    · rw [List.getElem?_eq_none h] at hslot
      cases hslot
  have hd : ∀ ndebug, shutdown_decide ndebug s b = .ok (1, b, s) := by
    intro ndebug
    rcases hrole with hl | ⟨hl, hn⟩
    · exact shutdown_decide_secondary ndebug s b (by omega)
    · exact shutdown_decide_alone ndebug s b hl hn
  have hl0 : 0 ≤ b.level := by
    rcases hrole with hl | ⟨hl, -⟩ <;> omega
  constructor
  · rw [bucket_shutdown_handler_done false s _ i bs b _ hbs hslot hev (hd false)]
    exact shutdown_finish_debug s i a bs b hbs hlt hhash hmark hdata hev hl0
  · rw [bucket_shutdown_handler_done true s _ i bs b _ hbs hslot hev (hd true)]
    exact shutdown_finish_ndebug s i a bs b hbs hlt hhash hdata hev

/-- C24, at concrete states: the firing for bucket 3 of exampleShutdownSecondary, a Secondary,
and for bucket 0 of exampleAloneShutdown, a Primary on a node that knows no other node, stops
at line 353 with assertions checked. -/
theorem bucket_shutdown_handler_done_path_witness :
    bucket_shutdown_handler false exampleShutdownSecondary 3 = .error (.assertion 353) ∧
      bucket_shutdown_handler false exampleAloneShutdown 0 = .error (.assertion 353) ∧
      bucket_shutdown_handler true exampleAloneShutdown 0 =
        .ok { exampleAloneShutdown with
            buckets := some [none, some { hash := 1, level := 0, data := some 1 }]
            dataHeap := [{ items := [], ref := 0 }, {}]
            trace := [Event.data_destroy 0 0, Event.data_free 0, Event.push_hashmask_update 0,
                      Event.event_free_shutdown 0] } :=
  have alone := bucket_shutdown_handler_done_path exampleAloneShutdown 0 0
    [some { hash := 0, level := 0, data := some 0, shutdown_event := true },
     some { hash := 1, level := 0, data := some 1 }]
    { hash := 0, level := 0, data := some 0, shutdown_event := true }
    rfl rfl rfl rfl rfl rfl (Or.inr ⟨rfl, rfl⟩)
  ⟨(bucket_shutdown_handler_done_path exampleShutdownSecondary 3 3
      [some { hash := 0, level := 0, backup_node := some 0, data := some 0 },
       some { hash := 1, level := 0, backup_node := some 0, data := some 1 },
       some { hash := 2, level := 0, data := some 2 },
       some { hash := 3, level := 1, target_node := some 1, data := some 3,
              shutdown_event := true }]
      { hash := 3, level := 1, target_node := some 1, data := some 3, shutdown_event := true }
      rfl rfl rfl rfl rfl rfl (Or.inl rfl)).1,
    alone.1, alone.2⟩

/-! ## Lemmas on the connection handling of node.c -/

/-- The run of node_detach_client on a node while at least one node is counted as active. -/
theorem node_detach_client_eq (ndebug : Bool) (s : State) (n : Nat) (node : Node)
    (hnode : s.nodeHeap[n]? = some node)
    (hact : 1 ≤ s.active_nodes ∧ s.active_nodes ≤ 2147483647) :
    node_detach_client ndebug s n =
      .ok { s with
          nodeHeap := s.nodeHeap.set n { node with loadlevel_event := false, client := none }
          active_nodes := s.active_nodes - 1
          trace := s.trace ++
            (if node.loadlevel_event then [Event.event_free_loadlevel n] else []) } := by
  unfold node_detach_client
  simp only [hnode]
  have hactive : ∀ t : State,
      (set_node t n { node with loadlevel_event := false, client := none }).active_nodes =
        t.active_nodes := fun _ => rfl
  cases hle : node.loadlevel_event with
  | true =>
    simp only [if_true, hactive, push]
    rw [isub_eq 66 s.active_nodes 1 (by unfold INT_MIN; omega) (by unfold INT_MAX; omega),
      ok_bind, cassert_of ndebug 67 _ (decide_eq_true (by omega)), ok_bind]
    rfl
  | false =>
    simp only [Bool.false_eq_true, if_false, hactive]
    rw [isub_eq 66 s.active_nodes 1 (by unfold INT_MIN; omega) (by unfold INT_MAX; omega),
      ok_bind, cassert_of ndebug 67 _ (decide_eq_true (by omega)), ok_bind]
    simp only [pure_eq, set_node, List.append_nil]

/-- The run of node_retry on a node that is neither connecting nor waiting. -/
theorem node_retry_eq (ndebug : Bool) (s : State) (n : Nat) (node : Node)
    (hnode : s.nodeHeap[n]? = some node) (hconn : node.connect_event = false)
    (hwait : node.wait_event = false) :
    node_retry ndebug true s n =
      .ok { s with
          nodeHeap := s.nodeHeap.set n { node with client := none, wait_event := true }
          trace := s.trace ++ [Event.evtimer_add_wait n] } := by
  unfold node_retry
  simp only [hnode]
  rw [cassert_true, ok_bind, cassert_of ndebug 217 _ (by rw [hconn]; rfl), ok_bind,
    cassert_of ndebug 218 _ (by rw [hwait]; rfl), ok_bind]
  rfl

/-- The run of node_connect_handler when the connect timed out: only assert(0). -/
theorem node_connect_handler_timeout (evbase : Bool) (s : State) (fd : Int) (flags n : Nat)
    (error : Int) (node : Node) (hnode : s.nodeHeap[n]? = some node) (hfd : 0 ≤ fd)
    (hflags : flags &&& EV_TIMEOUT ≠ 0) :
    node_connect_handler false evbase s fd flags n error = .error (.assertion 84) ∧
      node_connect_handler true evbase s fd flags n error = .ok s := by
  have hne : flags ≠ 0 := by
    intro h0
    rw [h0] at hflags
    exact hflags (Nat.zero_and _)
  constructor
  · unfold node_connect_handler
    simp only [hnode]
    rw [cassert_of false 77 _ (decide_eq_true ⟨hfd, hne⟩), ok_bind, if_pos hflags, cassert_false]
    rfl
  · unfold node_connect_handler
    simp only [hnode]
    rw [cassert_ndebug, ok_bind, if_pos hflags, cassert_ndebug, ok_bind]
    rfl

/-- The run of node_connect_handler when the connection was refused. -/
theorem node_connect_handler_refused (ndebug : Bool) (s : State) (fd : Int) (flags n : Nat)
    (node : Node) (hnode : s.nodeHeap[n]? = some node) (hfd : 0 ≤ fd) (hne : flags ≠ 0)
    (hflags : flags &&& EV_TIMEOUT = 0) (hconn : node.connect_event = true)
    (hwait : node.wait_event = false) :
    node_connect_handler ndebug true s fd flags n ECONNREFUSED =
      .ok { s with
          nodeHeap := s.nodeHeap.set n { node with connect_event := false, wait_event := true }
          trace := s.trace ++
            [Event.event_free_connect n, Event.close fd, Event.evtimer_add_wait n] } := by
  unfold node_connect_handler
  simp only [hnode]
  rw [cassert_of ndebug 77 _ (decide_eq_true ⟨hfd, hne⟩), ok_bind,
    if_neg (by rw [hflags]; exact fun h => h rfl), cassert_of ndebug 89 _ hconn, ok_bind]
  simp only [hconn, if_true, node_connect_refused]
  have c1 : cassert ndebug 105 (!false) = .ok () := cassert_true ndebug 105
  have c2 : cassert ndebug 106 (!node.wait_event) = .ok () := by
    rw [hwait]; exact cassert_true ndebug 106
  rw [c1, ok_bind, c2, ok_bind, cassert_true, ok_bind]
  simp only [pure_eq, push, set_node, List.set_set, List.append_assoc, List.cons_append,
    List.nil_append]

/-! ## C25: loss of the peer during a transfer -/

/-- C25, counterexample: node_detach_client followed by node_retry does not tear a transfer
down.  While bucket 2 is streamed to client 1, the client of node 1, and the connection of node
1 is lost, the two calls leave bucket 2 marked for client 1 and bucket_transfer at 1. -/
theorem node_retry_keeps_transfer :
    (node_detach_client false exampleStreaming 1 >>= fun t => node_retry false true t 1).map
        (fun t => (count_transfer t, t.bucket_transfer, t.buckets)) =
      .ok (1, 1, exampleStreaming.buckets) := by
  decide

/-- C25, amended: let node n, with or without a client attached, be neither connecting nor
waiting, with at least one node counted as active.  node_detach_client followed by node_retry returns the
state in which n has no client and no loadlevel timer, its wait_event is armed and active_nodes
is one less; the trace has grown by the release of the loadlevel timer, if one was armed, and
the arming of the wait timer.  The result is given as a whole state: the bucket table with
every transfer marker, bucket_transfer, the counters and the stores are unchanged, so a replica
that was marked as transferring to the client of n still is and bucket_transfer is still 1. -/
theorem node_detach_retry_spec (ndebug : Bool) (s : State) (n : Nat) (node : Node)
    (hnode : s.nodeHeap[n]? = some node)
    (hconn : node.connect_event = false) (hwait : node.wait_event = false)
    (hact : 1 ≤ s.active_nodes ∧ s.active_nodes ≤ 2147483647) :
    (node_detach_client ndebug s n >>= fun t => node_retry ndebug true t n) =
      .ok { s with
          nodeHeap := s.nodeHeap.set n { node with
            client := none, loadlevel_event := false, wait_event := true }
          active_nodes := s.active_nodes - 1
          trace := s.trace ++
            (if node.loadlevel_event then [Event.event_free_loadlevel n] else []) ++
            [Event.evtimer_add_wait n] } := by
  have hlt : n < s.nodeHeap.length := by
    rcases Nat.lt_or_ge n s.nodeHeap.length with h | h
    · exact h
    · rw [List.getElem?_eq_none h] at hnode
      cases hnode
  rw [node_detach_client_eq ndebug s n node hnode hact, ok_bind,
    node_retry_eq ndebug _ n { node with loadlevel_event := false, client := none }
      (by simp only; rw [List.getElem?_set_self hlt]) hconn hwait]
  simp only [List.set_set]

/-- C25, at a concrete state: the connection of node 1 is lost while bucket 2 is streamed to its
client; node 1 ends without client, waiting, and one node is counted as active. -/
theorem node_detach_retry_spec_witness :
    (node_detach_client false exampleStreaming 1 >>= fun t => node_retry false true t 1) =
      .ok { exampleStreaming with
          nodeHeap := [{ name := "b:1", client := some 0, loadlevel_event := true },
                       { name := "c:1", wait_event := true }]
          active_nodes := 1
          trace := [Event.event_free_loadlevel 1, Event.evtimer_add_wait 1] } :=
  node_detach_retry_spec false exampleStreaming 1
    { name := "c:1", client := some 1, loadlevel_event := true } rfl rfl rfl (by decide)

/-! ## Lemmas on buckets_init -/

theorem buckets_init_loop_succ (ndebug : Bool) (n i : Nat) (s : State) :
    buckets_init_loop ndebug (n + 1) i s =
      match buckets_init_step ndebug s i with
      | .error e => .error e
      | .ok s1 =>
        if (i : Int) + 1 > INT_MAX then .error (.overflow 479)
        else buckets_init_loop ndebug n (i + 1) s1 := rfl

/-- One pass of the loop of buckets_init on an empty slot. -/
theorem buckets_init_step_eq (ndebug : Bool) (s : State) (i : Nat) (addr : String)
    (bs : List (Option Bucket)) (hs : List (Option Hashmask))
    (hbs : s.buckets = some bs) (hslot : bs[i]? = some none) (hhs : s.hashmasks = some hs)
    (htr : s.in_transit = 0) (hif : s.interface = some addr)
    (hprim : -2147483648 ≤ s.primary_buckets + 1 ∧ s.primary_buckets + 1 ≤ 2147483647) :
    buckets_init_step ndebug s i =
      .ok { s with
          buckets := some (bs.set i (some { hash := i, level := 0, data := some s.dataHeap.length }))
          hashmasks := some (hs.set i (some { primary := some addr, secondary := none }))
          primary_buckets := s.primary_buckets + 1
          dataHeap := s.dataHeap ++ [{ items := [], next := none, ref := 1 }]
          trace := s.trace ++ [Event.push_hashmask_update i] } := by
  have hnew : bucket_new ndebug s i =
      .ok ({ hash := i, level := -1, data := some s.dataHeap.length },
        { s with dataHeap := s.dataHeap ++ [{ items := [], next := none, ref := 1 }] }) := by
    unfold bucket_new
    have c0 : bucket_new_assert ndebug s i = .ok () := by
      cases ndebug with
      | true => rfl
      | false =>
        simp only [bucket_new_assert, hbs, hslot]
        rfl
    rw [c0, ok_bind, cassert_of ndebug 160 _ (decide_eq_true htr), ok_bind]
    rfl
  unfold buckets_init_step
  rw [hnew, ok_bind]
  simp only [set_bucket, hbs, Option.map_some']
  rw [iadd_eq 482 s.primary_buckets 1 (by unfold INT_MIN; omega) (by unfold INT_MAX; omega),
    ok_bind]
  simp only [push, hif]
  have c1 : cassert ndebug 491 (some addr).isSome = .ok () := cassert_true ndebug 491
  rw [c1, ok_bind]
  simp only [pure_eq, set_hashmask, hhs, Option.map_some']

/-- One pass of the loop of buckets_init carries the invariant from i to i + 1. -/
theorem buckets_init_step_inv (ndebug : Bool) (addr : String) (L base i : Nat) (s : State)
    (h : InitInv addr L base i s) (hi : i < L) (hL : L ≤ 2147483647) :
    ∃ s1, buckets_init_step ndebug s i = .ok s1 ∧ InitInv addr L base (i + 1) s1 ∧
      s1.mask = s.mask ∧ s1.secondary_buckets = s.secondary_buckets ∧
      s1.nobackup_buckets = s.nobackup_buckets ∧ s1.bucket_transfer = s.bucket_transfer := by
  obtain ⟨bs, hs, hbs, hlen, hlow, hhigh, hhs, hhlen, hhlow, hprim, htr, hif, hheap⟩ := h
  have hstep := buckets_init_step_eq ndebug s i addr bs hs hbs (hhigh i (le_refl i) hi) hhs htr
    hif (by rw [hprim]; omega)
  refine ⟨_, hstep, ⟨_, _, rfl, ?_, ?_, ?_, rfl, ?_, ?_, ?_, htr, hif, ?_⟩, rfl, rfl, rfl, rfl⟩
  · rw [List.length_set, hlen]
  · intro j hj
    rcases Nat.lt_or_ge j i with hlt | hge
    · rw [List.getElem?_set_ne (by omega), hlow j hlt]
    · have hji : j = i := by omega
      subst hji
      rw [List.getElem?_set_self (by rw [hlen]; exact hi), hheap]
  · intro j hj hjL
    rw [List.getElem?_set_ne (by omega), hhigh j (by omega) hjL]
  · rw [List.length_set, hhlen]
  · intro j hj
    rcases Nat.lt_or_ge j i with hlt | hge
    · rw [List.getElem?_set_ne (by omega), hhlow j hlt]
    · have hji : j = i := by omega
      subst hji
      rw [List.getElem?_set_self (by rw [hhlen]; exact hi)]
  · simp only
    rw [hprim]
    push_cast
    rfl
  · simp only [List.length_append, List.length_singleton, hheap]
    omega

/-- The loop of buckets_init runs to the end of the table and fills it. -/
theorem buckets_init_loop_inv (ndebug : Bool) (addr : String) (L base : Nat) (hL : L ≤ 2147483647) :
    ∀ (n i : Nat) (s : State), InitInv addr L base i s → i + n = L →
      ∃ s', buckets_init_loop ndebug n i s = .ok s' ∧ InitInv addr L base L s' ∧
        s'.mask = s.mask ∧ s'.secondary_buckets = s.secondary_buckets ∧
        s'.nobackup_buckets = s.nobackup_buckets ∧ s'.bucket_transfer = s.bucket_transfer := by
  intro n
  induction n with
  | zero =>
    intro i s h hin
    have hiL : i = L := by omega
    subst hiL
    exact ⟨s, rfl, h, rfl, rfl, rfl, rfl⟩
  | succ n ih =>
    intro i s h hin
    obtain ⟨s1, hstep, hinv, e1, e2, e3, e4⟩ :=
      buckets_init_step_inv ndebug addr L base i s h (by omega) hL
    obtain ⟨s', hloop, hinv', f1, f2, f3, f4⟩ := ih (i + 1) s1 hinv (by omega)
    refine ⟨s', ?_, hinv', by rw [f1, e1], by rw [f2, e2], by rw [f3, e3], by rw [f4, e4]⟩
    rw [buckets_init_loop_succ, hstep]
    simp only
    rw [if_neg (by unfold INT_MAX; omega)]
    exact hloop

/-! ## C26: the table built by buckets_init -/

/-- C26: the table built by buckets_init.  On a node whose mask is above 0 and below 2^31 - 1
(the loop counter is an int), with primary_count and secondary_count at 0, no hashmask table,
nothing in transit and its own address addr configured, buckets_init returns, in both builds.
Afterwards the bucket table has length mask + 1 and every slot i holds a replica with index i,
level 0 (Primary), no backup, source or logging node, no transfer marker and a store of its
own; the hashmask table has length mask + 1 and every entry has addr as primary and no
secondary; primary_count is mask + 1, secondary_count is 0 and unbacked_count is mask + 1; the
mask and bucket_transfer are unchanged. -/
theorem buckets_init_spec (ndebug : Bool) (s : State) (addr : String)
    (hmask : 0 < s.mask ∧ s.mask < 2147483647)
    (hprim : s.primary_buckets = 0) (hsec : s.secondary_buckets = 0)
    (hhs : s.hashmasks = none) (htr : s.in_transit = 0) (hif : s.interface = some addr) :
    ∃ (s' : State) (bs : List (Option Bucket)) (hs : List (Option Hashmask)),
      buckets_init ndebug s = .ok s' ∧
      s'.buckets = some bs ∧ bs.length = s.mask + 1 ∧
      (∀ i, i ≤ s.mask →
        bs[i]? = some (some { hash := i, level := 0, data := some (s.dataHeap.length + i) })) ∧
      s'.hashmasks = some hs ∧ hs.length = s.mask + 1 ∧
      (∀ i, i ≤ s.mask → hs[i]? = some (some { primary := some addr, secondary := none })) ∧
      s'.primary_buckets = (s.mask : Int) + 1 ∧ s'.secondary_buckets = 0 ∧
      s'.nobackup_buckets = (s.mask : Int) + 1 ∧
      s'.mask = s.mask ∧ s'.bucket_transfer = s.bucket_transfer := by
  have h0 : InitInv addr (s.mask + 1) s.dataHeap.length 0
      { s with
        buckets := some (List.replicate (s.mask + 1) none)
        hashmasks := some (List.replicate (s.mask + 1) none) } := by
    refine ⟨_, _, rfl, List.length_replicate _ _, ?_, ?_, rfl, List.length_replicate _ _, ?_,
      ?_, htr, hif, rfl⟩
    · intro j hj
      exact absurd hj (Nat.not_lt_zero j)
    · intro j _ hj
      rw [List.getElem?_eq_getElem (by rw [List.length_replicate]; exact hj),
        List.getElem_replicate]
    · intro j hj
      exact absurd hj (Nat.not_lt_zero j)
    · simp only [hprim]
      rfl
  obtain ⟨s3, hloop, ⟨bs, hs, e1, e2, e3, -, e5, e6, e7, e8, -, -, -⟩, f1, f2, -, f4⟩ :=
    buckets_init_loop_inv ndebug addr (s.mask + 1) s.dataHeap.length (by omega) (s.mask + 1) 0
      _ h0 (by omega)
  have hno : toInt32 (((s.mask + 1) % 18446744073709551616 : Nat) : Int) = (s.mask : Int) + 1 := by
    rw [Nat.mod_eq_of_lt (by omega), toInt32_of_lt _ (by omega)]
    push_cast
    rfl
  refine ⟨{ s3 with nobackup_buckets := (s.mask : Int) + 1 }, bs, hs, ?_, e1, e2,
    fun i hi => e3 i (Nat.lt_succ_of_le hi), e5, e6, fun i hi => e7 i (Nat.lt_succ_of_le hi), ?_, ?_, rfl, f1, f4⟩
  · unfold buckets_init
    have c1 : cassert ndebug 466 (decide (s.mask > 0)) = .ok () :=
      cassert_of ndebug 466 _ (decide_eq_true hmask.1)
    have c2 : cassert ndebug 471 (decide (s.primary_buckets = 0)) = .ok () :=
      cassert_of ndebug 471 _ (decide_eq_true hprim)
    have c3 : cassert ndebug 472 (decide (s.secondary_buckets = 0)) = .ok () :=
      cassert_of ndebug 472 _ (decide_eq_true hsec)
    have c4 : cassert ndebug 474 s.hashmasks.isNone = .ok () := by
      rw [hhs]; exact cassert_true ndebug 474
    rw [c1, ok_bind]
    simp only
    rw [c2, ok_bind, c3, ok_bind, c4, ok_bind, hloop, ok_bind, hno]
    rfl
  · simp only
    rw [e8]
    push_cast
    rfl
  · simp only
    rw [f2]
    exact hsec

/-- C26, in the first scenario of the specification: a node with mask 3 and address "a:1" that
boots alone creates buckets 0 to 3 as Primary without backup, and unbacked_count is 4. -/
theorem buckets_init_spec_witness :
    ∃ (s' : State) (bs : List (Option Bucket)) (hs : List (Option Hashmask)),
      buckets_init false exampleFresh = .ok s' ∧
      s'.buckets = some bs ∧ bs.length = 3 + 1 ∧
      (∀ i, i ≤ 3 → bs[i]? = some (some { hash := i, level := 0, data := some (0 + i) })) ∧
      s'.hashmasks = some hs ∧ hs.length = 3 + 1 ∧
      (∀ i, i ≤ 3 → hs[i]? = some (some { primary := some "a:1", secondary := none })) ∧
      s'.primary_buckets = 3 + 1 ∧ s'.secondary_buckets = 0 ∧ s'.nobackup_buckets = 3 + 1 ∧
      s'.mask = 3 ∧ s'.bucket_transfer = 0 :=
  buckets_init_spec false exampleFresh "a:1" (by decide) rfl rfl rfl rfl rfl

/-! ## C27: name bindings -/

/-- C27: the dispatch of name bindings.  On a bucket table of length mask + 1, for every key
hash, name and integer name: the slot key_hash & mask lies inside the table; when it holds a
replica, of whatever role, that carries its slot index and a store (the assertions of lines 521
and 524), buckets_store_name_str and buckets_store_name_int return 0 and make exactly one call
of data_set_name_str (data_set_name_int) on the store of that replica; when it is empty they
return -1 and make no call.  The state returned differs from the one given in the trace
only: the bucket table, the counters and the stores are unchanged. -/
theorem buckets_store_name_spec (ndebug : Bool) (s : State) (key_hash : Nat) (name : String)
    (int_key : Int) (bs : List (Option Bucket))
    (hbs : s.buckets = some bs) (hlen : bs.length = s.mask + 1) :
    s.mask &&& key_hash < bs.length ∧
    (∀ b : Bucket, bs[s.mask &&& key_hash]? = some (some b) →
      b.hash = s.mask &&& key_hash → b.data.isSome = true →
      buckets_store_name_str ndebug s key_hash (some name) =
        .ok (0, { s with
          trace := s.trace ++ [Event.data_set_name_str key_hash b.data name] }) ∧
      buckets_store_name_int ndebug s key_hash int_key =
        .ok (0, { s with
          trace := s.trace ++ [Event.data_set_name_int key_hash b.data int_key] })) ∧
    (bs[s.mask &&& key_hash]? = some none →
      buckets_store_name_str ndebug s key_hash (some name) = .ok (-1, s) ∧
      buckets_store_name_int ndebug s key_hash int_key = .ok (-1, s)) := by
  have hle : s.mask &&& key_hash ≤ s.mask := Nat.and_le_left
  have c0 : cassert ndebug 512 (some name).isSome = .ok () := cassert_true ndebug 512
  refine ⟨by omega, ?_, ?_⟩
  · intro b hslot hh hd
    constructor
    · unfold buckets_store_name_str
      rw [c0, ok_bind]
      simp only
      rw [cassert_of ndebug 516 _ (decide_eq_true hle), ok_bind]
      simp only [bucket_at_hash, hbs, hslot, ok_bind]
      rw [cassert_of ndebug 521 _ (decide_eq_true hh), ok_bind, cassert_of ndebug 524 _ hd,
        ok_bind]
      simp only [pure_eq, data_set_name_str, data_set_name_int, push, hbs]
    · unfold buckets_store_name_int
      simp only
      rw [cassert_of ndebug 544 _ (decide_eq_true hle), ok_bind]
      simp only [bucket_at_hash, hbs, hslot, ok_bind]
      rw [cassert_of ndebug 549 _ (decide_eq_true hh), ok_bind, cassert_of ndebug 552 _ hd,
        ok_bind]
      simp only [pure_eq, data_set_name_str, data_set_name_int, push, hbs]
  · intro hslot
    constructor
    · unfold buckets_store_name_str
      rw [c0, ok_bind]
      simp only
      rw [cassert_of ndebug 516 _ (decide_eq_true hle), ok_bind]
      simp only [bucket_at_hash, hbs, hslot, ok_bind, pure_eq]
    · unfold buckets_store_name_int
      simp only
      rw [cassert_of ndebug 544 _ (decide_eq_true hle), ok_bind]
      simp only [bucket_at_hash, hbs, hslot, ok_bind, pure_eq]

/-- C27, at concrete states: in exampleCluster key hash 7 belongs to slot 3, a Secondary, and
both bindings return 0 with one call on its store; in exampleBacked key hash 6 belongs to the
empty slot 2 and both return -1 with the state unchanged. -/
theorem buckets_store_name_spec_witness :
    (buckets_store_name_str false exampleCluster 7 (some "k") =
        .ok (0, { exampleCluster with trace := [Event.data_set_name_str 7 (some 3) "k"] }) ∧
      buckets_store_name_int false exampleCluster 7 42 =
        .ok (0, { exampleCluster with trace := [Event.data_set_name_int 7 (some 3) 42] })) ∧
    (buckets_store_name_str false exampleBacked 6 (some "k") = .ok (-1, exampleBacked) ∧
      buckets_store_name_int false exampleBacked 6 42 = .ok (-1, exampleBacked)) :=
  ⟨(buckets_store_name_spec false exampleCluster 7 "k" 42
      [some { hash := 0, level := 0, backup_node := some 0, data := some 0 },
       some { hash := 1, level := 0, backup_node := some 0, data := some 1 },
       some { hash := 2, level := 0, data := some 2 },
       some { hash := 3, level := 1, target_node := some 1, data := some 3 }]
      rfl rfl).2.1
      { hash := 3, level := 1, target_node := some 1, data := some 3 } rfl rfl rfl,
    (buckets_store_name_spec false exampleBacked 6 "k" 42
      [some { hash := 0, level := 0, backup_node := some 0, data := some 0 },
       some { hash := 1, level := 0, backup_node := some 0, data := some 1 },
       none,
       some { hash := 3, level := 1, target_node := some 1, data := some 3 }]
      rfl rfl).2.2 rfl⟩

/-! ## C28: the width of the bucket index -/

/-- C28, counterexample: the claim fails for k = 32.  In exampleWide the mask is 2^32 - 1 and
every slot is empty.  For the key hash 2^31, key_hash & mask is 2^31, which lies in [0, mask],
but buckets_get_value, buckets_store_value and buckets_get_primary hold the index in an int,
where it is -2^31: they stop at their assertion that the index is not negative (lines 74, 114,
696), and with assertions compiled out they access _buckets outside the array (lines 76, 116,
698).  buckets_store_name_str and buckets_store_name_int hold the index in a hash_t: they read
slot 2^31, find it empty and return -1. -/
theorem bucket_index_int_wraps :
    exampleWide.mask &&& 2147483648 = 2147483648 ∧
      toInt32 ((exampleWide.mask &&& 2147483648 : Nat) : Int) = -2147483648 ∧
      buckets_get_value false exampleWide 7 2147483648 = .error (.assertion 74) ∧
      buckets_get_value true exampleWide 7 2147483648 = .error (.outOfBounds 76) ∧
      buckets_store_value false exampleWide 7 2147483648 none 0 0 0 = .error (.assertion 114) ∧
      buckets_store_value true exampleWide 7 2147483648 none 0 0 0 =
        .error (.outOfBounds 116) ∧
      buckets_get_primary false exampleWide 2147483648 = .error (.assertion 696) ∧
      buckets_get_primary true exampleWide 2147483648 = .error (.outOfBounds 698) ∧
      ∀ ndebug : Bool,
        buckets_store_name_str ndebug exampleWide 2147483648 (some "n") =
          .ok (-1, exampleWide) ∧
        buckets_store_name_int ndebug exampleWide 2147483648 5 = .ok (-1, exampleWide) := by
  have hand : exampleWide.mask &&& 2147483648 = 2147483648 := by decide
  have hslot : bucket_at_hash 517 exampleWide 2147483648 = .ok none ∧
      bucket_at_hash 545 exampleWide 2147483648 = .ok none := by
    have hget : (List.replicate 4294967296 (none : Option Bucket))[2147483648]? = some none := by
      rw [List.getElem?_replicate, if_pos (by decide)]
    have hbs : exampleWide.buckets = some (List.replicate 4294967296 none) := rfl
    exact ⟨bucket_at_hash_ok 517 exampleWide _ 2147483648 none hbs hget,
      bucket_at_hash_ok 545 exampleWide _ 2147483648 none hbs hget⟩
  refine ⟨hand, by decide, by decide, by decide, by decide, by decide, by decide, by decide, ?_⟩
  intro ndebug
  have hle : (2147483648 : Nat) ≤ exampleWide.mask := by decide
  constructor
  · have c0 : cassert ndebug 512 (some "n").isSome = .ok () := cassert_true ndebug 512
    unfold buckets_store_name_str
    rw [c0, ok_bind]
    simp only
    rw [hand, cassert_of ndebug 516 _ (decide_eq_true hle), ok_bind, hslot.1, ok_bind]
    rfl
  · unfold buckets_store_name_int
    simp only
    rw [hand, cassert_of ndebug 544 _ (decide_eq_true hle), ok_bind, hslot.2, ok_bind]
    rfl

/-- C28, amended: for every mask below 2^31, so for every mask of the form 2^k - 1 with
1 <= k <= 31, every key hash and a bucket table of mask+1 slots, the index computed by the five
functions is one and the same number: key_hash & mask lies in [0, mask]; the int that holds
_mask & key_hash in buckets_get_value, buckets_store_value and buckets_get_primary has that
value, also when it is compared with the mask as a hash_t; the hash_t that holds it in
buckets_store_name_str and buckets_store_name_int has that value; and all five read the same
slot of the table with it.  When that slot is empty each function takes its path for an empty
slot: buckets_get_value returns no value, buckets_store_value stops at the assert(0) of line
137 and returns -1 without assertions, buckets_get_primary dereferences the NULL pointer, and
the two name functions return -1. -/
theorem bucket_index_spec (ndebug : Bool) (s : State) (key_hash : Nat)
    (bs : List (Option Bucket))
    (hm : s.mask < 2147483648) (hbs : s.buckets = some bs) (hlen : bs.length = s.mask + 1) :
    key_hash &&& s.mask ≤ s.mask ∧
    toInt32 ((s.mask &&& key_hash : Nat) : Int) = ((key_hash &&& s.mask : Nat) : Int) ∧
    toU64 (toInt32 ((s.mask &&& key_hash : Nat) : Int)) = key_hash &&& s.mask ∧
    s.mask &&& key_hash = key_hash &&& s.mask ∧
    ∃ slot, bs[key_hash &&& s.mask]? = some slot ∧
      bucket_at 76 s (toInt32 ((s.mask &&& key_hash : Nat) : Int)) = .ok slot ∧
      bucket_at 116 s (toInt32 ((s.mask &&& key_hash : Nat) : Int)) = .ok slot ∧
      bucket_at 698 s (toInt32 ((s.mask &&& key_hash : Nat) : Int)) = .ok slot ∧
      bucket_at_hash 517 s (s.mask &&& key_hash) = .ok slot ∧
      bucket_at_hash 545 s (s.mask &&& key_hash) = .ok slot ∧
      (slot = none →
        ∀ (map_hash : Nat) (name : Option String) (name_int expires : Int) (value : Nat)
          (nm : String) (int_key : Int),
          buckets_get_value ndebug s map_hash key_hash = .ok (none, s) ∧
          buckets_store_value false s map_hash key_hash name name_int expires value =
            .error (.assertion 137) ∧
          buckets_store_value true s map_hash key_hash name name_int expires value =
            .ok (-1, s) ∧
          buckets_get_primary ndebug s key_hash = .error (.nullDeref 699) ∧
          buckets_store_name_str ndebug s key_hash (some nm) = .ok (-1, s) ∧
          buckets_store_name_int ndebug s key_hash int_key = .ok (-1, s)) := by
  have hcomm : s.mask &&& key_hash = key_hash &&& s.mask := Nat.land_comm _ _
  have hle : key_hash &&& s.mask ≤ s.mask := Nat.and_le_right
  have h32 : toInt32 ((key_hash &&& s.mask : Nat) : Int) = ((key_hash &&& s.mask : Nat) : Int) :=
    toInt32_of_lt _ (by omega)
  have h64 : toU64 ((key_hash &&& s.mask : Nat) : Int) = key_hash &&& s.mask :=
    toU64_natCast _ (by omega)
  have hlt : key_hash &&& s.mask < bs.length := by omega
  have hslot : bs[key_hash &&& s.mask]? = some bs[key_hash &&& s.mask] :=
    List.getElem?_eq_getElem hlt
  have hat : ∀ line, bucket_at line s ((key_hash &&& s.mask : Nat) : Int) =
      .ok bs[key_hash &&& s.mask] :=
    fun line => bucket_at_ok line s bs (key_hash &&& s.mask) _ hbs hslot
  have hath : ∀ line, bucket_at_hash line s (key_hash &&& s.mask) =
      .ok bs[key_hash &&& s.mask] :=
    fun line => bucket_at_hash_ok line s bs (key_hash &&& s.mask) _ hbs hslot
  have cge : ∀ (g : Bool) (line : Nat),
      cassert g line (decide (((key_hash &&& s.mask : Nat) : Int) ≥ 0)) = .ok () :=
    fun g line => cassert_of g line _ (decide_eq_true (by omega))
  have cle : ∀ (g : Bool) (line : Nat),
      cassert g line (decide (key_hash &&& s.mask ≤ s.mask)) = .ok () :=
    fun g line => cassert_of g line _ (decide_eq_true hle)
  refine ⟨hle, by rw [hcomm, h32], by rw [hcomm, h32, h64], hcomm, bs[key_hash &&& s.mask],
    hslot, by rw [hcomm, h32]; exact hat 76, by rw [hcomm, h32]; exact hat 116,
    by rw [hcomm, h32]; exact hat 698, by rw [hcomm]; exact hath 517,
    by rw [hcomm]; exact hath 545, ?_⟩
  intro hnone map_hash name name_int expires value nm int_key
  rw [hnone] at hat hath
  refine ⟨?_, ?_, ?_, ?_, ?_, ?_⟩
  · unfold buckets_get_value
    simp only [hcomm, h32, h64]
    rw [cge, ok_bind, cle, ok_bind, hat, ok_bind]
    rfl
  · unfold buckets_store_value
    simp only [hcomm, h32, h64]
    rw [cge, ok_bind, cle, ok_bind, hat, ok_bind]
    rfl
  · unfold buckets_store_value
    simp only [hcomm, h32, h64]
    rw [cge, ok_bind, cle, ok_bind, hat, ok_bind]
    rfl
  · unfold buckets_get_primary
    simp only [hcomm, h32, h64]
    rw [cge, ok_bind, cle, ok_bind, hat, ok_bind]
  · have c0 : cassert ndebug 512 (some nm).isSome = .ok () := cassert_true ndebug 512
    unfold buckets_store_name_str
    rw [c0, ok_bind]
    simp only [hcomm]
    rw [cle, ok_bind, hath, ok_bind]
    rfl
  · unfold buckets_store_name_int
    simp only [hcomm]
    rw [cle, ok_bind, hath, ok_bind]
    rfl

/-- C28, at a concrete state: in exampleHalf the mask is 1 (k = 1); the key hash 5 gives the
index 1 in all five functions, slot 1 is empty, and each function takes its path for an empty
slot. -/
theorem bucket_index_spec_witness :
    toInt32 ((exampleHalf.mask &&& 5 : Nat) : Int) = 1 ∧ exampleHalf.mask &&& 5 = 1 ∧
      buckets_get_value false exampleHalf 7 5 = .ok (none, exampleHalf) ∧
      buckets_store_name_int false exampleHalf 5 9 = .ok (-1, exampleHalf) := by
  obtain ⟨-, h1, -, h2, slot, hs, -, -, -, -, -, hempty⟩ := bucket_index_spec false exampleHalf 5
    [some { hash := 0, level := 0, data := some 0 }, none] (by decide) rfl rfl
  have hnone : slot = none := Option.some.inj (hs.symm.trans rfl)
  have h3 := hempty hnone 7 none 0 0 0 "n" 9
  exact ⟨h1, h2, h3.1, h3.2.2.2.2.2⟩

/-! ## C29: failure of a connect -/

/-- C29: a connect that times out is not handled.  Let node n be connecting (connect_event
set, no wait_event).  When node_connect_handler fires with EV_TIMEOUT in its flags, the branch
of lines 80-85 is a log line and assert(0) under a comment that says the timeout still needs to
be handled: with assertions checked the handler stops at line 84, and with assertions compiled
out it returns the state unchanged, so connect_event is still set and wait_event is not armed.
When it fires without EV_TIMEOUT and the socket error is ECONNREFUSED the node does end in
Waiting: connect_event is cleared, the socket is closed, wait_event is armed, and no client or
loadlevel timer is attached. -/
theorem node_connect_handler_failure (s : State) (fd : Int) (flags n : Nat) (error : Int)
    (node : Node) (hnode : s.nodeHeap[n]? = some node) (hfd : 0 ≤ fd)
    (hconn : node.connect_event = true) (hwait : node.wait_event = false) :
    (flags &&& EV_TIMEOUT ≠ 0 → ∀ evbase,
      node_connect_handler false evbase s fd flags n error = .error (.assertion 84) ∧
      node_connect_handler true evbase s fd flags n error = .ok s) ∧
    (flags ≠ 0 → flags &&& EV_TIMEOUT = 0 → ∀ ndebug,
      node_connect_handler ndebug true s fd flags n ECONNREFUSED =
        .ok { s with
            nodeHeap := s.nodeHeap.set n { node with
              connect_event := false, wait_event := true }
            trace := s.trace ++
              [Event.event_free_connect n, Event.close fd, Event.evtimer_add_wait n] }) :=
  ⟨fun hflags evbase => node_connect_handler_timeout evbase s fd flags n error node hnode hfd hflags,
    fun hne hflags ndebug =>
      node_connect_handler_refused ndebug s fd flags n node hnode hfd hne hflags hconn hwait⟩

/-- C29, at a concrete state: node 0 of exampleConnecting is connecting on socket 5.  A firing
with EV_TIMEOUT stops at line 84, or with assertions compiled out leaves the node connecting; a
firing with EV_WRITE and ECONNREFUSED leaves it waiting. -/
theorem node_connect_handler_failure_witness :
    (node_connect_handler false true exampleConnecting 5 1 0 0 = .error (.assertion 84) ∧
      node_connect_handler true true exampleConnecting 5 1 0 0 = .ok exampleConnecting) ∧
    node_connect_handler false true exampleConnecting 5 4 0 ECONNREFUSED =
      .ok { exampleConnecting with
          nodeHeap := [{ name := "b:1", wait_event := true, connect_attempts := 1 }]
          trace := [Event.event_free_connect 0, Event.close 5, Event.evtimer_add_wait 0] } :=
  ⟨(node_connect_handler_failure exampleConnecting 5 1 0 0
      { name := "b:1", connect_event := true, connect_attempts := 1 } rfl (by decide) rfl rfl).1
      (by decide) true,
    (node_connect_handler_failure exampleConnecting 5 4 0 0
      { name := "b:1", connect_event := true, connect_attempts := 1 } rfl (by decide) rfl rfl).2
      (by decide) (by decide) false⟩

/-! ## C30: the disconnect transition -/

/-- C30, counterexample: node_detach_client does not arm wait_event.  After the client of node 0
of exampleCluster is detached, node 0 has no client and no loadlevel timer, one node less is
counted as active, and its wait_event is not armed. -/
theorem node_detach_client_no_wait :
    (node_detach_client false exampleCluster 0).map (fun t => (t.nodeHeap[0]?, t.active_nodes)) =
      .ok (some { name := "b:1", client := none, loadlevel_event := false, wait_event := false },
        1) := by
  decide

/-- C30, amended: for every node n, with or without a client attached, while at least one node
is counted as active, node_detach_client clears the client link of n, frees and clears its loadlevel
timer if one is armed, and decreases active_nodes by exactly one, to a value that is not below
zero.  It leaves wait_event as it was: the wait timer is armed by node_retry.  The result is
given as a whole state: no other node and nothing else is changed. -/
theorem node_detach_client_spec (ndebug : Bool) (s : State) (n : Nat) (node : Node)
    (hnode : s.nodeHeap[n]? = some node)
    (hact : 1 ≤ s.active_nodes ∧ s.active_nodes ≤ 2147483647) :
    node_detach_client ndebug s n =
      .ok { s with
          nodeHeap := s.nodeHeap.set n { node with loadlevel_event := false, client := none }
          active_nodes := s.active_nodes - 1
          trace := s.trace ++
            (if node.loadlevel_event then [Event.event_free_loadlevel n] else []) } ∧
      0 ≤ s.active_nodes - 1 ∧
      ∀ j, j ≠ n →
        (s.nodeHeap.set n { node with loadlevel_event := false, client := none })[j]? =
          s.nodeHeap[j]? :=
  ⟨node_detach_client_eq ndebug s n node hnode hact, by omega,
    fun _ hj => List.getElem?_set_ne (Ne.symm hj)⟩

/-- C30, at a concrete state: the client of node 0 of exampleCluster is detached. -/
theorem node_detach_client_spec_witness :
    node_detach_client false exampleCluster 0 =
      .ok { exampleCluster with
          nodeHeap := [{ name := "b:1" },
                       { name := "c:1", client := some 1, loadlevel_event := true }]
          active_nodes := 1
          trace := [Event.event_free_loadlevel 0] } :=
  (node_detach_client_spec false exampleCluster 0
    { name := "b:1", client := some 0, loadlevel_event := true } rfl (by decide)).1

/-! ## Lemmas: the shutdown of a node -/

theorem nodes_remove_succ (s : State) (n fuel i : Nat) :
    nodes_remove s n (fuel + 1) i =
      match s.nodes with
      | none => .error (.nullDeref 398)
      | some ns =>
        match ns[i]? with
        | none => .error (.outOfBounds 398)
        | some slot =>
          if slot = some n then .ok { s with nodes := some (ns.set i none) }
          else if (i : Int) + 1 > INT_MAX then .error (.overflow 397)
          else nodes_remove s n fuel (i + 1) := rfl

/-- The loop of node_shutdown_handler clears the first slot of _nodes that points to the node,
when that slot is among the slots it visits. -/
theorem nodes_remove_first (s : State) (n : Nat) (ns : List (Option Nat)) (i : Nat)
    (hns : s.nodes = some ns) (hi : ns[i]? = some (some n))
    (hfirst : ∀ j, j < i → ns[j]? ≠ some (some n))
    (hmax : (i : Int) ≤ INT_MAX) :
    ∀ fuel i0, i0 ≤ i → i < i0 + fuel →
      nodes_remove s n fuel i0 = .ok { s with nodes := some (ns.set i none) } := by
  intro fuel
  induction fuel with
  | zero => intro i0 h1 h2; omega
  | succ fuel ih =>
    intro i0 h1 h2
    rw [nodes_remove_succ, hns]
    by_cases he : i0 = i
    · subst he
      simp only [hi, if_true]
    · have hlt : i0 < i := by omega
      have hlen : i < ns.length := by
        rcases Nat.lt_or_ge i ns.length with h | h
        · exact h
        · rw [List.getElem?_eq_none h] at hi; cases hi
      have hslot : ns[i0]? = some (ns[i0]) := List.getElem?_eq_getElem (by omega)
      have hne : ns[i0] ≠ some n := by
        intro hc
        apply hfirst i0 hlt
        rw [hslot, hc]
      have hov : ¬ ((i0 : Int) + 1 > INT_MAX) := by
        unfold INT_MAX at hmax ⊢
        omega
      simp only [hslot, if_neg hne, if_neg hov]
      exact ih (i0 + 1) (by omega) (by omega)

/-- After a call of node_shutdown that returns the node has a shutdown timer. -/
theorem node_shutdown_ok (ndebug evbase : Bool) (s s' : State) (n : Nat)
    (h : node_shutdown ndebug evbase s n = .ok s') :
    ∃ node, s'.nodeHeap[n]? = some node ∧ node.shutdown_event = true := by
  unfold node_shutdown at h
  rcases hn : s.nodeHeap[n]? with _ | node
  · rw [hn] at h
    simp only at h
    split at h <;> cases h
  · rw [hn] at h
    simp only at h
    by_cases hs : node.shutdown_event = true
    · rw [if_pos hs] at h
      simp only [Except.ok.injEq] at h
      subst h
      exact ⟨node, hn, hs⟩
    · rw [if_neg hs] at h
      simp only [bind_eq_ok, pure_eq_ok] at h
      obtain ⟨-, -, h⟩ := h
      subst h
      have hlt : n < s.nodeHeap.length := by
        rcases Nat.lt_or_ge n s.nodeHeap.length with hlt | hge
        · exact hlt
        · rw [List.getElem?_eq_none hge] at hn
          cases hn
      refine ⟨{ node with shutdown_event := true }, ?_, rfl⟩
      simp only [push, set_node]
      exact List.getElem?_set_self hlt

/-! ## C31: the shutdown of a node -/

/-- C31: a registered node under shutdown, that is a node whose shutdown timer exists, held by
slot i of _nodes and by no slot before it, with i below node_count.  While the node is
connecting, node_shutdown_handler re-arms the shutdown timer and changes nothing else, and while
its client is connected it changes nothing at all, so the node stays registered; both hold with
and without assertions.  When the node has no connect event, no wait event and no client (and
no loadlevel timer, which goes with the client), the build with assertions stops at the
assertion of node.c 358 in node_free, which requires the shutdown timer to be NULL although the
handler runs as the callback of that very timer and nothing clears it; the build without
assertions clears slot i, frees the node and leaves every other slot of the registry as it
was. -/
theorem node_shutdown_handler_idle (s : State) (n i : Nat) (node : Node)
    (ns : List (Option Nat))
    (hnode : s.nodeHeap[n]? = some node) (hshut : node.shutdown_event = true)
    (hns : s.nodes = some ns) (hi : ns[i]? = some (some n))
    (hfirst : ∀ j, j < i → ns[j]? ≠ some (some n))
    (hcount : (i : Int) < s.node_count ∧ s.node_count ≤ INT_MAX) :
    (node.connect_event = true → ∀ ndebug,
      node_shutdown_handler ndebug s (-1) n =
        .ok { s with trace := s.trace ++ [Event.evtimer_add_node_shutdown n] }) ∧
    (node.connect_event = false → node.wait_event = false → node.client.isSome = true →
      ∀ ndebug, node_shutdown_handler ndebug s (-1) n = .ok s) ∧
    (node.connect_event = false → node.wait_event = false → node.client = none →
      node.loadlevel_event = false →
      node_shutdown_handler false s (-1) n = .error (.assertion 358) ∧
      node_shutdown_handler true s (-1) n =
        .ok { s with nodes := some (ns.set i none), trace := s.trace ++ [Event.free_node n] } ∧
      (ns.set i none)[i]? = some none ∧
      ∀ j, j ≠ i → (ns.set i none)[j]? = ns[j]?) := by
  have c0 : ∀ ndebug, cassert ndebug 376 (decide True) = .ok () :=
    fun ndebug => cassert_true ndebug 376
  refine ⟨?_, ?_, ?_⟩
  · intro hc ndebug
    unfold node_shutdown_handler
    rw [hnode]
    simp only
    rw [c0, ok_bind, if_pos hc, hshut, cassert_true, ok_bind, if_pos rfl]
    rfl
  · intro hc hw hcl ndebug
    unfold node_shutdown_handler
    rw [hnode]
    simp only
    rw [c0, ok_bind, hc, hw, hcl]
    simp only [Bool.false_eq_true, if_false, Bool.not_false, cassert_true, ok_bind, if_true]
    rfl
  · intro hc hw hcl hl
    have hrem : nodes_remove s n s.node_count.toNat 0 =
        .ok { s with nodes := some (ns.set i none) } :=
      nodes_remove_first s n ns i hns hi hfirst (by omega) s.node_count.toNat 0
        (Nat.zero_le _) (by omega)
    have hlen : i < ns.length := by
      rcases Nat.lt_or_ge i ns.length with h | h
      · exact h
      · rw [List.getElem?_eq_none h] at hi; cases hi
    refine ⟨?_, ?_, ?_, ?_⟩
    · unfold node_shutdown_handler
      rw [hnode]
      simp only
      rw [c0, ok_bind, hc, hw, hcl]
      simp only [Bool.false_eq_true, if_false, Bool.not_false, cassert_true, ok_bind,
        Option.isSome_none, hrem]
      unfold node_free
      rw [hc, hw, hcl, hl, hshut]
      simp only [Option.isNone_none, Bool.not_false, cassert_true, ok_bind, Bool.not_true,
        cassert_false]
      rfl
    · unfold node_shutdown_handler
      rw [hnode]
      simp only
      rw [cassert_ndebug, ok_bind, hc, hw, hcl]
      simp only [Bool.false_eq_true, if_false, cassert_ndebug, ok_bind,
        Option.isSome_none, hrem]
      unfold node_free
      simp only [cassert_ndebug, ok_bind, pure_eq, push]
    · rw [List.getElem?_set_self hlen]
    · intro j hj
      exact List.getElem?_set_ne (Ne.symm hj)

/-- C31, at concrete states: node 0 of exampleRegistry is idle and registered in slot 0; the
handler stops at the assertion of line 358, and without assertions clears slot 0 only and frees
the node.  Node 1 has its client connected and nothing changes.  The node of
exampleConnectingShutdown is connecting: its shutdown timer is armed again. -/
theorem node_shutdown_handler_idle_witness :
    node_shutdown_handler false exampleRegistry (-1) 0 = .error (.assertion 358) ∧
    node_shutdown_handler true exampleRegistry (-1) 0 =
      .ok { exampleRegistry with
          nodes := some [none, some 1], trace := [Event.free_node 0] } ∧
    node_shutdown_handler false exampleRegistry (-1) 1 = .ok exampleRegistry ∧
    node_shutdown_handler false exampleConnectingShutdown (-1) 0 =
      .ok { exampleConnectingShutdown with
          trace := exampleConnectingShutdown.trace ++ [Event.evtimer_add_node_shutdown 0] } :=
  ⟨((node_shutdown_handler_idle exampleRegistry 0 0 { name := "b:1", shutdown_event := true }
      [some 0, some 1] rfl rfl rfl rfl (fun j hj => absurd hj (Nat.not_lt_zero j))
      (by decide)).2.2 rfl rfl rfl rfl).1,
    ((node_shutdown_handler_idle exampleRegistry 0 0 { name := "b:1", shutdown_event := true }
      [some 0, some 1] rfl rfl rfl rfl (fun j hj => absurd hj (Nat.not_lt_zero j))
      (by decide)).2.2 rfl rfl rfl rfl).2.1,
    by decide, by decide⟩

/-! ## Lemmas: what the operations leave unchanged -/

/-- A pass of buckets_init that returns stores a new Primary replica without peers in slot i;
the mask and the sync counter are as before. -/
theorem buckets_init_step_ok (ndebug : Bool) (s s1 : State) (i : Nat)
    (h : buckets_init_step ndebug s i = .ok s1) :
    s1.migrate_sync = s.migrate_sync ∧ s1.mask = s.mask ∧
      s1.buckets = s.buckets.map fun bs =>
        bs.set i (some { hash := i, level := 0, data := some s.dataHeap.length }) := by
  unfold buckets_init_step at h
  simp only [bind_eq_ok, pure_eq_ok] at h
  obtain ⟨r, hr, p, -, -, -, h⟩ := h
  obtain ⟨r1, r2, -⟩ := bucket_new_ok ndebug s i r hr
  obtain ⟨ra, rb⟩ := r
  simp only at r1 r2
  subst r1 r2
  simp only [push, set_bucket] at h
  rcases hif : s.interface with _ | a
  · rw [hif] at h; cases h
  · rw [hif] at h
    simp only [pure_eq_ok] at h
    subst h
    exact ⟨rfl, rfl, rfl⟩

/-- The loop of buckets_init, when it returns, has kept the mask and the sync counter, every
index it handled fits an int, and every replica of the table is one that was there before or a
new Primary without peers. -/
theorem buckets_init_loop_ok (ndebug : Bool) :
    ∀ (n i : Nat) (s s' : State), buckets_init_loop ndebug n i s = .ok s' →
      s'.migrate_sync = s.migrate_sync ∧ s'.mask = s.mask ∧
      (0 < n → ((i + n : Nat) : Int) ≤ INT_MAX) ∧
      ∀ (bs' : List (Option Bucket)) (j : Nat) (b : Bucket),
        s'.buckets = some bs' → bs'[j]? = some (some b) →
        (∃ bs, s.buckets = some bs ∧ bs[j]? = some (some b)) ∨
          (b.level = 0 ∧ b.target_node = none ∧ b.backup_node = none) := by
  intro n
  induction n with
  | zero =>
    intro i s s' h
    simp only [buckets_init_loop, Except.ok.injEq] at h
    subst h
    exact ⟨rfl, rfl, fun h0 => absurd h0 (Nat.lt_irrefl 0),
      fun bs' j b h1 h2 => Or.inl ⟨bs', h1, h2⟩⟩
  | succ n ih =>
    intro i s s' h
    rw [buckets_init_loop_succ] at h
    rcases hst : buckets_init_step ndebug s i with e | s1
    · rw [hst] at h; cases h
    · rw [hst] at h
      simp only at h
      by_cases hov : (i : Int) + 1 > INT_MAX
      · rw [if_pos hov] at h; cases h
      · rw [if_neg hov] at h
        obtain ⟨a1, a2, a3⟩ := buckets_init_step_ok ndebug s s1 i hst
        obtain ⟨b1, b2, b3, b4⟩ := ih (i + 1) s1 s' h
        refine ⟨b1.trans a1, b2.trans a2, ?_, ?_⟩
        · intro _
          rcases Nat.eq_zero_or_pos n with hn | hn
          · subst hn
            unfold INT_MAX at hov ⊢
            omega
          · have := b3 hn
            unfold INT_MAX at this ⊢
            omega
        · intro bs' j b h1 h2
          rcases b4 bs' j b h1 h2 with ⟨bs1, c1, c2⟩ | c
          · rw [a3] at c1
            rcases hbs : s.buckets with _ | bs
            · rw [hbs] at c1; cases c1
            · rw [hbs] at c1
              simp only [Option.map_some', Option.some.injEq] at c1
              subst c1
              by_cases hji : i = j
              · subst hji
                rcases Nat.lt_or_ge i bs.length with hlt | hge
                · rw [List.getElem?_set_self hlt] at c2
                  simp only [Option.some.injEq] at c2
                  subst c2
                  exact Or.inr ⟨rfl, rfl, rfl⟩
                · rw [List.getElem?_eq_none (by rw [List.length_set]; exact hge)] at c2
                  cases c2
              · rw [List.getElem?_set_ne hji] at c2
                exact Or.inl ⟨bs, rfl, c2⟩
          · exact Or.inr c

/-- A call of buckets_init that returns leaves a table in which every replica is a Primary
without peers; the mask is as before and fits an int, and the sync counter is as before. -/
theorem buckets_init_ok (ndebug : Bool) (s s' : State) (h : buckets_init ndebug s = .ok s') :
    s'.migrate_sync = s.migrate_sync ∧ s'.mask = s.mask ∧ ((s.mask + 1 : Nat) : Int) ≤ INT_MAX ∧
      ∀ (bs' : List (Option Bucket)) (j : Nat) (b : Bucket),
        s'.buckets = some bs' → bs'[j]? = some (some b) →
        b.level = 0 ∧ b.target_node = none ∧ b.backup_node = none := by
  unfold buckets_init at h
  simp only [bind_eq_ok, pure_eq_ok] at h
  obtain ⟨-, -, -, -, -, -, -, -, s3, hloop, h⟩ := h
  subst h
  obtain ⟨a1, a2, a3, a4⟩ := buckets_init_loop_ok ndebug (s.mask + 1) 0 _ s3 hloop
  refine ⟨a1, a2, ?_, ?_⟩
  · have := a3 (Nat.succ_pos _)
    rw [Nat.zero_add] at this
    exact this
  · intro bs' j b h1 h2
    rcases a4 bs' j b h1 h2 with ⟨bs, c1, c2⟩ | c
    · simp only [Option.some.injEq] at c1
      subst c1
      rw [List.getElem?_replicate] at c2
      split at c2
      · cases c2
      · cases c2
    · exact c

theorem buckets_get_value_sync (ndebug : Bool) (s : State) (map_hash key_hash : Nat)
    (r : Option Nat × State) (h : buckets_get_value ndebug s map_hash key_hash = .ok r) :
    r.2 = s := by
  unfold buckets_get_value at h
  simp only [bind_eq_ok, pure_eq_ok] at h
  obtain ⟨-, -, -, -, slot, -, h⟩ := h
  cases slot with
  | none =>
    simp only [pure_eq_ok] at h
    rw [← h]
  | some b =>
    simp only [bind_eq_ok] at h
    obtain ⟨-, -, h⟩ := h
    split at h
    · simp only [pure_eq_ok] at h
      rw [← h]
    · simp only [bind_eq_ok, pure_eq_ok] at h
      obtain ⟨-, -, h⟩ := h
      rw [← h]

theorem buckets_store_value_sync (ndebug : Bool) (s : State) (map_hash key_hash : Nat)
    (name : Option String) (name_int expires : Int) (value : Nat) (r : Int × State)
    (h : buckets_store_value ndebug s map_hash key_hash name name_int expires value = .ok r) :
    r.2.migrate_sync = s.migrate_sync := by
  unfold buckets_store_value at h
  simp only [bind_eq_ok, pure_eq_ok] at h
  obtain ⟨-, -, -, -, slot, -, h⟩ := h
  cases slot with
  | none =>
    simp only [bind_eq_ok, pure_eq_ok] at h
    obtain ⟨-, -, h⟩ := h
    rw [← h]
  | some b =>
    simp only [bind_eq_ok] at h
    obtain ⟨-, -, h⟩ := h
    rcases hbk : b.backup_node with _ | n
    · rw [hbk] at h
      simp only [bind_eq_ok, pure_eq_ok] at h
      obtain ⟨y, -, hr⟩ := h
      rw [← hr]
      rfl
    · rw [hbk] at h
      simp only at h
      rcases hn : s.nodeHeap[n]? with _ | node
      · rw [hn] at h
        simp only [bind_eq_ok] at h
        obtain ⟨y, hy, -⟩ := h
        cases hy
      · rw [hn] at h
        simp only [bind_eq_ok, pure_eq_ok] at h
        obtain ⟨-, -, y, -, hr⟩ := h
        rw [← hr]
        rfl

theorem buckets_store_name_str_sync (ndebug : Bool) (s : State) (key_hash : Nat)
    (name : Option String) (r : Int × State)
    (h : buckets_store_name_str ndebug s key_hash name = .ok r) :
    r.2.migrate_sync = s.migrate_sync := by
  unfold buckets_store_name_str at h
  simp only [bind_eq_ok, pure_eq_ok] at h
  obtain ⟨-, -, -, -, slot, -, h⟩ := h
  cases slot with
  | none =>
    simp only [pure_eq_ok] at h
    rw [← h]
  | some b =>
    simp only [bind_eq_ok, pure_eq_ok] at h
    obtain ⟨-, -, -, -, h⟩ := h
    cases name with
    | none => cases h
    | some nm =>
      simp only [pure_eq_ok] at h
      rw [← h]
      rfl

theorem buckets_store_name_int_sync (ndebug : Bool) (s : State) (key_hash : Nat)
    (int_key : Int) (r : Int × State)
    (h : buckets_store_name_int ndebug s key_hash int_key = .ok r) :
    r.2.migrate_sync = s.migrate_sync := by
  unfold buckets_store_name_int at h
  simp only [bind_eq_ok, pure_eq_ok] at h
  obtain ⟨-, -, slot, -, h⟩ := h
  cases slot with
  | none =>
    simp only [pure_eq_ok] at h
    rw [← h]
  | some b =>
    simp only [bind_eq_ok, pure_eq_ok] at h
    obtain ⟨-, -, -, -, h⟩ := h
    rw [← h]
    rfl

/-- A call of hashmask_switch that returns has changed the hashmask list only. -/
theorem hashmask_switch_ok (ndebug : Bool) (s s' : State) (hash : Nat)
    (h : hashmask_switch ndebug s hash = .ok s') :
    ∃ hs, s' = { s with hashmasks := hs } := by
  unfold hashmask_switch at h
  simp only [bind_eq_ok] at h
  obtain ⟨-, -, -, -, h⟩ := h
  rcases hh : s.hashmasks with _ | hs
  · rw [hh] at h; cases h
  · rw [hh] at h
    simp only at h
    rcases he : hs[hash]? with _ | _ | e
    · rw [he] at h; cases h
    · rw [he] at h
      simp only [bind_eq_ok] at h
      obtain ⟨-, -, h⟩ := h
      cases h
    · rw [he] at h
      simp only [bind_eq_ok, pure_eq_ok] at h
      obtain ⟨-, -, -, -, h⟩ := h
      exact ⟨_, h.symm⟩

theorem bucket_shutdown_sync (ndebug : Bool) (s s' : State) (i : Nat)
    (h : bucket_shutdown ndebug s i = .ok s') : s'.migrate_sync = s.migrate_sync := by
  unfold bucket_shutdown at h
  rcases hb : bucket_at 450 s i with e | slot
  · rw [hb] at h; cases h
  · rw [hb] at h
    cases slot with
    | none =>
      simp only at h
      split at h <;> cases h
    | some b =>
      simp only at h
      split at h
      · simp only [Except.ok.injEq] at h
        rw [← h]
      · simp only [Except.ok.injEq] at h
        rw [← h]
        rfl

theorem split_slot_frame (ndebug : Bool) (oldbuckets : Option (List (Option Bucket)))
    (s : State) (i : Nat) (index : Int) (r : Option Bucket × State)
    (h : split_slot ndebug oldbuckets s i index = .ok r) :
    ∃ heap, r.2 = { s with dataHeap := heap } := by
  unfold split_slot at h
  cases oldbuckets with
  | none =>
    simp only [Except.ok.injEq] at h
    subst h
    exact ⟨_, rfl⟩
  | some obs =>
    simp only at h
    rcases hob : oldbuckets_at 269 obs index with e | slot
    · rw [hob] at h; cases h
    · rw [hob] at h
      cases slot with
      | none =>
        simp only [Except.ok.injEq] at h
        subst h
        exact ⟨_, rfl⟩
      | some ob =>
        simp only at h
        rcases hsb : split_bucket ndebug s i ob with e | q
        · rw [hsb] at h; cases h
        · rw [hsb] at h
          simp only [Except.ok.injEq] at h
          subst h
          obtain ⟨-, ⟨heap, hq, -⟩, -⟩ := split_bucket_ok ndebug s i ob q hsb
          exact ⟨heap, hq⟩

theorem split_step_frame (ndebug : Bool) (junk : Nat → Option String) (old_mask : Nat)
    (oldlist : List (Option Hashmask)) (oldbuckets : Option (List (Option Bucket)))
    (s : State) (i : Nat) (r : Hashmask × Option Bucket × State)
    (h : split_step ndebug junk old_mask oldlist oldbuckets s i = .ok r) :
    ∃ heap, r.2.2 = { s with dataHeap := heap } := by
  unfold split_step at h
  simp only [bind_eq_ok, pure_eq_ok] at h
  obtain ⟨-, -, old, -, q, hq, hr⟩ := h
  subst hr
  exact split_slot_frame ndebug oldbuckets s i _ q hq

theorem split_loop_frame (ndebug : Bool) (junk : Nat → Option String) (old_mask : Nat)
    (oldlist : List (Option Hashmask)) (oldbuckets : Option (List (Option Bucket))) :
    ∀ (n i : Nat) (acc r : List (Option Hashmask) × List (Option Bucket) × State),
      split_loop ndebug junk old_mask oldlist oldbuckets n i acc = .ok r →
      ∃ heap, r.2.2 = { acc.2.2 with dataHeap := heap } := by
  intro n
  induction n with
  | zero =>
    intro i acc r h
    simp only [split_loop, Except.ok.injEq] at h
    subst h
    exact ⟨_, rfl⟩
  | succ n ih =>
    intro i acc r h
    rw [split_loop_succ] at h
    rcases hst : split_step ndebug junk old_mask oldlist oldbuckets acc.2.2 i with e | q
    · rw [hst] at h; cases h
    · rw [hst] at h
      simp only at h
      by_cases hov : (i : Int) + 1 > INT_MAX
      · rw [if_pos hov] at h; cases h
      · rw [if_neg hov] at h
        obtain ⟨heap1, h1⟩ := split_step_frame ndebug junk old_mask oldlist oldbuckets _ i q hst
        obtain ⟨heap2, h2⟩ := ih (i + 1) _ r h
        simp only at h2
        exact ⟨heap2, by rw [h2, h1]⟩

/-- A split that returns has replaced the two tables, the mask and the store heap, and nothing
else, whatever the old mask. -/
theorem buckets_split_mask_frame (ndebug : Bool) (junk : Nat → Option String) (s s' : State)
    (mask : Nat) (h : buckets_split_mask ndebug junk s mask = .ok s') :
    ∃ (nl : List (Option Hashmask)) (nb : List (Option Bucket)) (heap : List Data),
      s' = { s with hashmasks := some nl, buckets := some nb, mask := mask, dataHeap := heap } := by
  unfold buckets_split_mask at h
  simp only [bind_eq_ok, pure_eq_ok, cassert_eq_ok] at h
  obtain ⟨-, -, r, hloop, -, -, s2, hclose, -, -, -, -, -, -, hr⟩ := h
  obtain ⟨heap1, a5⟩ :=
    split_loop_frame ndebug junk s.mask (split_oldlist s) s.buckets (mask + 1) 0 _ r hloop
  obtain ⟨⟨heap2, c1⟩, -, -⟩ := split_close_ok ndebug s.buckets s.mask r.2.2 s2 hclose
  refine ⟨r.1, r.2.1, heap2, ?_⟩
  rw [← hr, c1, a5]

theorem bucket_destroy_contents_sync (ndebug : Bool) (s : State) (b : Bucket)
    (r : Bucket × State) (h : bucket_destroy_contents ndebug s b = .ok r) :
    r.2.migrate_sync = s.migrate_sync ∧ r.2.buckets = s.buckets ∧ r.2.mask = s.mask ∧
      r.2.bucket_transfer = s.bucket_transfer ∧
      r.1.level = b.level ∧ r.1.target_node = b.target_node ∧
      r.1.backup_node = b.backup_node := by
  unfold bucket_destroy_contents at h
  simp only [bind_eq_ok] at h
  obtain ⟨-, -, h⟩ := h
  rcases hd : b.data with _ | a
  · rw [hd] at h
    simp only [pure_eq_ok] at h
    subst h
    exact ⟨rfl, rfl, rfl, rfl, rfl, rfl, rfl⟩
  · rw [hd] at h
    simp only [pure_eq_ok] at h
    subst h
    exact ⟨rfl, rfl, rfl, rfl, rfl, rfl, rfl⟩

theorem shutdown_decide_sync (ndebug : Bool) (s : State) (b : Bucket)
    (d : Int × Bucket × State) (h : shutdown_decide ndebug s b = .ok d) :
    d.2.2.migrate_sync = s.migrate_sync := by
  unfold shutdown_decide at h
  split at h
  · simp only [Except.ok.injEq] at h
    rw [← h]
  · simp only [bind_eq_ok] at h
    obtain ⟨-, -, h⟩ := h
    split at h
    · simp only [pure_eq_ok] at h
      rw [← h]
    · simp only [bind_eq_ok] at h
      obtain ⟨-, -, h⟩ := h
      rcases hbk : b.backup_node with _ | n
      · rw [hbk] at h
        simp only [bind_eq_ok, pure_eq_ok] at h
        obtain ⟨-, -, h⟩ := h
        rw [← h]
      · rw [hbk] at h
        simp only [bind_eq_ok, pure_eq_ok] at h
        obtain ⟨r, hr, h⟩ := h
        rw [← h]
        simp only
        unfold shutdown_promote at hr
        rcases hn : s.nodeHeap[n]? with _ | node
        · rw [hn] at hr; cases hr
        · rw [hn] at hr
          simp only [bind_eq_ok] at hr
          obtain ⟨-, -, hr⟩ := hr
          rcases hc : node.client with _ | c
          · rw [hc] at hr; cases hr
          · rw [hc] at hr
            simp only [bind_eq_ok, pure_eq_ok] at hr
            obtain ⟨-, -, hr⟩ := hr
            rw [← hr]
            rfl

theorem clear_bucket_sync (line : Nat) (s s' : State) (i : Nat)
    (h : clear_bucket line s i = .ok s') : s'.migrate_sync = s.migrate_sync := by
  unfold clear_bucket at h
  rcases hb : s.buckets with _ | bs
  · rw [hb] at h; cases h
  · rw [hb] at h
    simp only at h
    split at h
    · simp only [Except.ok.injEq] at h
      rw [← h]
    · cases h

theorem shutdown_finish_sync (ndebug : Bool) (s s' : State) (i : Nat) (b : Bucket)
    (h : shutdown_finish ndebug s i b = .ok s') : s'.migrate_sync = s.migrate_sync := by
  unfold shutdown_finish at h
  simp only [bind_eq_ok, pure_eq_ok] at h
  obtain ⟨-, -, r, hr, -, -, -, -, -, -, s3, h3, -, -, h⟩ := h
  subst h
  rw [clear_bucket_sync 431 _ s3 _ h3]
  exact (bucket_destroy_contents_sync ndebug s b r hr).1

theorem bucket_shutdown_handler_sync (ndebug : Bool) (s s' : State) (i : Nat)
    (h : bucket_shutdown_handler ndebug s i = .ok s') : s'.migrate_sync = s.migrate_sync := by
  unfold bucket_shutdown_handler at h
  rcases hb : bucket_at 371 s i with e | slot
  · rw [hb] at h; cases h
  · rw [hb] at h
    cases slot with
    | none =>
      simp only at h
      split at h <;> cases h
    | some b =>
      simp only [bind_eq_ok] at h
      obtain ⟨-, -, d, hd, h⟩ := h
      have hsync := shutdown_decide_sync ndebug s b d hd
      split at h
      · rw [shutdown_finish_sync ndebug _ s' i _ h, hsync]
      · simp only [bind_eq_ok, pure_eq_ok] at h
        obtain ⟨-, -, -, -, h⟩ := h
        rw [← h]
        exact hsync

theorem finalize_migration_sync (ndebug : Bool) (s s' : State) (client : Option Nat)
    (b : Bucket) (h : finalize_migration ndebug s client b = .ok s') :
    s'.migrate_sync = s.migrate_sync := by
  unfold finalize_migration at h
  simp only [bind_eq_ok] at h
  obtain ⟨-, -, h⟩ := h
  split at h
  · rcases hbk : b.backup_node with _ | n
    · rw [hbk] at h
      cases client with
      | none => cases h
      | some c =>
        simp only [pure_eq_ok] at h
        rw [← h]
        rfl
    · rw [hbk] at h
      simp only [bind_eq_ok, pure_eq_ok] at h
      obtain ⟨-, -, -, -, h⟩ := h
      rw [← h]
  · split at h
    · simp only [bind_eq_ok, pure_eq_ok] at h
      obtain ⟨-, -, -, -, -, -, h⟩ := h
      rw [← h]
    · simp only [bind_eq_ok, pure_eq_ok] at h
      obtain ⟨-, -, h⟩ := h
      rw [← h]

theorem send_transfer_items_sync (ndebug : Bool) (k : Consts) (items : Int) (s s' : State)
    (b : Bucket) (h : send_transfer_items ndebug k items s b = .ok s') :
    s'.migrate_sync = s.migrate_sync := by
  unfold send_transfer_items at h
  simp only [bind_eq_ok] at h
  obtain ⟨-, -, -, -, -, -, -, -, -, -, avail, -, -, -, -, -, h⟩ := h
  split at h
  · simp only [bind_eq_ok] at h
    obtain ⟨-, -, -, -, h⟩ := h
    rw [finalize_migration_sync ndebug _ s' _ b h]
    rfl
  · simp only [pure_eq_ok] at h
    rw [← h]
    rfl

theorem process_sync_name_ack_sync (ndebug : Bool) (s s' : State) (client hash : Nat)
    (h : process_sync_name_ack ndebug s client hash = .ok s') : s' = s := by
  unfold process_sync_name_ack at h
  simp only [bind_eq_ok] at h
  obtain ⟨-, -, -, -, -, -, slot, -, -, -, h⟩ := h
  cases slot with
  | none =>
    simp only [pure_eq_ok] at h
    exact h.symm
  | some b =>
    simp only at h
    split at h
    · simp only [pure_eq_ok] at h
      exact h.symm
    · simp only [bind_eq_ok, pure_eq_ok] at h
      obtain ⟨-, -, h⟩ := h
      exact h.symm

theorem process_sync_ack_sync (ndebug : Bool) (k : Consts) (items : Int) (s s' : State)
    (client map_hash hash : Nat)
    (h : process_sync_ack ndebug k items s client map_hash hash = .ok s') :
    s'.migrate_sync = s.migrate_sync := by
  unfold process_sync_ack at h
  simp only [bind_eq_ok] at h
  obtain ⟨-, -, -, -, -, -, slot, -, -, -, h⟩ := h
  cases slot with
  | none => cases h
  | some b =>
    simp only at h
    split at h
    · rw [send_transfer_items_sync ndebug k items _ s' b h]
      rfl
    · simp only [bind_eq_ok, pure_eq_ok] at h
      obtain ⟨-, -, h⟩ := h
      rw [← h]

theorem toInt32_succ (x : Int) (h : 0 ≤ x ∧ x < 2147483647) : toInt32 (x + 1) = x + 1 := by
  unfold toInt32
  omega

/-- A call of process_accept_bucket that returns has set the sync counter to the old value plus
one, taken modulo 2^32; with assertions the old value was not negative and the new one is
positive. -/
theorem process_accept_bucket_sync (ndebug : Bool) (k : Consts) (items : Int) (s s' : State)
    (client mask hash : Nat)
    (h : process_accept_bucket ndebug k items s client mask hash = .ok s') :
    s'.migrate_sync = toInt32 (s.migrate_sync + 1) ∧
      (ndebug = false → 0 ≤ s.migrate_sync ∧ 0 < toInt32 (s.migrate_sync + 1)) := by
  unfold process_accept_bucket at h
  simp only [bind_eq_ok, cassert_eq_ok] at h
  obtain ⟨-, -, -, -, -, -, slot, -, -, -, -, h390, -, h392, -, -, h⟩ := h
  have hsync : s'.migrate_sync = toInt32 (s.migrate_sync + 1) := by
    cases slot with
    | none =>
      unfold send_transfer_items_slot at h
      simp only at h
      split at h <;> cases h
    | some b =>
      unfold send_transfer_items_slot at h
      simp only at h
      rw [send_transfer_items_sync ndebug k items _ s' b h]
  refine ⟨hsync, fun hnd => ?_⟩
  subst hnd
  simp only [Bool.false_eq_true, false_or, decide_eq_true_eq] at h390 h392
  exact ⟨h390, h392⟩

theorem switch_roles_ok (ndebug : Bool) (s : State) (b : Bucket) (r : Bucket × State)
    (h : switch_roles ndebug s b = .ok r) :
    r.2.migrate_sync = s.migrate_sync ∧ r.2.mask = s.mask ∧ r.2.buckets = s.buckets ∧
      Exclusive r.1 := by
  unfold switch_roles at h
  split at h
  · simp only [bind_eq_ok, pure_eq_ok] at h
    obtain ⟨p, -, q, -, -, -, -, -, -, -, -, -, h⟩ := h
    subst h
    refine ⟨rfl, rfl, rfl, fun h0 => ?_, fun _ => rfl⟩
    have h0' : (1 : Int) = 0 := h0
    omega
  · simp only [bind_eq_ok, pure_eq_ok] at h
    obtain ⟨-, -, p, -, q, -, -, -, -, -, -, -, -, -, h⟩ := h
    subst h
    refine ⟨rfl, rfl, rfl, fun _ => rfl, fun h1 => ?_⟩
    have h1' : (0 : Int) = 1 := h1
    omega

/-- A call of process_control_bucket_complete that returns has stored in slot hash a replica
that satisfies role/peer exclusivity; the other slots, the mask and the sync counter are as
before. -/
theorem process_control_bucket_complete_ok (ndebug : Bool) (s s' : State)
    (client mask hash : Nat)
    (h : process_control_bucket_complete ndebug s client mask hash = .ok s') :
    s'.migrate_sync = s.migrate_sync ∧ s'.mask = s.mask ∧
      ∃ b', Exclusive b' ∧ s'.buckets = s.buckets.map fun bs => bs.set hash (some b') := by
  unfold process_control_bucket_complete at h
  simp only [bind_eq_ok] at h
  obtain ⟨-, -, -, -, -, -, -, -, slot, -, -, -, h⟩ := h
  cases slot with
  | none => cases h
  | some b =>
    simp only [bind_eq_ok, pure_eq_ok] at h
    obtain ⟨-, -, -, -, r, hr, s2, h2, -, -, h⟩ := h
    subst h
    obtain ⟨a1, a2, a3, a4⟩ := switch_roles_ok ndebug s _ r hr
    obtain ⟨hs, h2'⟩ := hashmask_switch_ok ndebug _ s2 hash h2
    subst h2'
    refine ⟨a1, a2, r.1, a4, ?_⟩
    simp only [push, set_bucket, a3]

theorem migration_done_ok (ndebug : Bool) (s : State) (client : Nat) (b : Bucket)
    (r : Bucket × State) (h : migration_done ndebug s client b = .ok r) :
    r.2.migrate_sync = s.migrate_sync ∧ r.2.mask = s.mask ∧ r.2.buckets = s.buckets ∧
      (Exclusive b → Exclusive r.1) := by
  unfold migration_done at h
  split at h
  · rename_i hc
    simp only [bind_eq_ok, pure_eq_ok] at h
    obtain ⟨-, -, cnode, -, -, -, nb, -, -, -, h⟩ := h
    subst h
    refine ⟨rfl, rfl, rfl, fun hex => ⟨fun h0 => hex.1 h0, fun h1 => ?_⟩⟩
    have h1' : b.level = 1 := h1
    rw [hc.1] at h1'
    exact absurd h1' (by decide)
  · split at h
    · simp only [bind_eq_ok] at h
      obtain ⟨p, -, h⟩ := h
      obtain ⟨a1, a2, a3, -, a5, a6, a7⟩ := bucket_destroy_contents_sync ndebug _ b r h
      refine ⟨a1, a3, a2, fun hex => ⟨fun h0 => ?_, fun h1 => ?_⟩⟩
      · rw [a6]; exact hex.1 (a5 ▸ h0)
      · rw [a7]; exact hex.2 (a5 ▸ h1)
    · simp only [bind_eq_ok] at h
      obtain ⟨-, -, p, -, h⟩ := h
      obtain ⟨a1, a2, a3, -, a5, a6, a7⟩ := bucket_destroy_contents_sync ndebug _ b r h
      refine ⟨a1, a3, a2, fun hex => ⟨fun h0 => ?_, fun h1 => ?_⟩⟩
      · rw [a6]; exact hex.1 (a5 ▸ h0)
      · rw [a7]; exact hex.2 (a5 ▸ h1)

/-- A call of process_migration_ack that returns has stored in slot hash a replica that
satisfies role/peer exclusivity when the replica of that slot did; the other slots, the mask
and the sync counter are as before. -/
theorem process_migration_ack_ok (ndebug : Bool) (s s' : State) (client mask hash : Nat)
    (h : process_migration_ack ndebug s client mask hash = .ok s') :
    s'.migrate_sync = s.migrate_sync ∧ s'.mask = s.mask ∧
      ∃ (bs : List (Option Bucket)) (b b' : Bucket),
        s.buckets = some bs ∧ bs[hash]? = some (some b) ∧ (Exclusive b → Exclusive b') ∧
        s'.buckets = s.buckets.map fun bs => bs.set hash (some b') := by
  unfold process_migration_ack at h
  simp only [bind_eq_ok] at h
  obtain ⟨-, -, -, -, -, -, -, -, slot, hslot, -, -, h⟩ := h
  obtain ⟨bs, hbs, hget⟩ := (bucket_at_eq_ok 505 s hash slot).1 hslot
  cases slot with
  | none => cases h
  | some b =>
    simp only [bind_eq_ok, pure_eq_ok] at h
    obtain ⟨-, -, r, hr, -, -, h⟩ := h
    subst h
    obtain ⟨a1, a2, a3, a4⟩ := migration_done_ok ndebug s client _ r hr
    refine ⟨a1, a2, bs, b, r.1, hbs, hget, fun hex => a4 ⟨hex.1, hex.2⟩, ?_⟩
    simp only [push, set_bucket, a3]

theorem attempt_switch_body_slot (ndebug : Bool) (client : Nat) (s : State) (i : Nat)
    (r : Option Nat × State) (h : attempt_switch_body ndebug client s i = .ok r) :
    ∀ j, r.1 = some j → ∃ (bs : List (Option Bucket)) (b : Bucket),
      s.buckets = some bs ∧ bs[i]? = some (some b) ∧
      r.2 = marked s i b client (Event.push_control_bucket client b.hash b.level) := by
  intro j hj
  obtain ⟨b', hb'⟩ := (attempt_switch_body_ok ndebug client s i r h).2 j hj
  unfold attempt_switch_body at h
  rcases hb : bucket_at 53 s i with e | slot
  · rw [hb] at h; cases h
  · rw [hb] at h
    obtain ⟨bs, hbs, hslot⟩ := (bucket_at_eq_ok 53 s i slot).1 hb
    cases slot with
    | none =>
      simp only [Except.ok.injEq] at h
      subst h
      cases hj
    | some b =>
      simp only at h
      split at h
      · rcases hc : client_node 59 s client with e | cnode
        · rw [hc] at h; cases h
        · rw [hc] at h
          simp only at h
          split at h
          · unfold attempt_switch_start at h
            simp only [bind_eq_ok, pure_eq_ok] at h
            obtain ⟨-, -, -, -, -, -, hr⟩ := h
            subst hr
            exact ⟨bs, b, hbs, hslot, rfl⟩
          · simp only [Except.ok.injEq] at h
            subst h
            cases hj
      · simp only [Except.ok.injEq] at h
        subst h
        cases hj

/-- A call of process_loadlevels that returns has changed nothing, or has marked one replica
of the table, set the transfer flag and sent one message. -/
theorem process_loadlevels_slot (ndebug : Bool) (k : Consts) (s s' : State) (client : Nat)
    (primary backups transferring : Int)
    (h : process_loadlevels ndebug k s client primary backups transferring = .ok s') :
    s' = s ∨ ∃ (bs : List (Option Bucket)) (i : Nat) (b : Bucket) (e : Event),
      s.buckets = some bs ∧ bs[i]? = some (some b) ∧ s' = marked s i b client e := by
  rcases process_loadlevels_ok ndebug k s s' client primary backups transferring h with
    h1 | ⟨i0, b0, h2⟩ | ⟨bs, i, b, cl, n, hbs, hslot, -, -, h3, -⟩
  · exact Or.inl h1
  · unfold process_loadlevels at h
    simp only [bind_eq_ok] at h
    obtain ⟨-, -, h⟩ := h
    split at h
    · simp only [bind_eq_ok] at h
      obtain ⟨name, -, r, hr, h⟩ := h
      unfold loadlevels_switch at hr
      split at hr
      · rcases ha : attempt_switch ndebug s client with e | q
        · rw [ha] at hr; cases hr
        · rw [ha] at hr
          simp only at hr
          unfold attempt_switch at ha
          rcases hs : scan_buckets 50 (attempt_switch_body ndebug client) (s.mask + 1) 0 s
            with e | sc
          · rw [hs] at ha; cases ha
          · rw [hs] at ha
            simp only [Except.ok.injEq] at ha
            subst ha
            obtain ⟨a1, a2⟩ := scan_buckets_ok 50 (attempt_switch_body ndebug client)
              (fun s i s1 hb => (attempt_switch_body_ok ndebug client s i (none, s1) hb).1 rfl)
              (s.mask + 1) 0 s sc hs
            rcases hq : sc.1 with _ | j
            · obtain ⟨e1, -⟩ := a2 hq
              simp only [hq, Option.isSome_none, Bool.false_eq_true, if_false] at hr
              have h01 : ¬ ((0 : Int) = 1) := by decide
              simp only [h01, if_false, bind_eq_ok, pure_eq_ok] at hr
              obtain ⟨-, -, hr⟩ := hr
              subst hr
              simp only [Bool.false_eq_true, if_false, bind_eq_ok] at h
              obtain ⟨bucket, -, hst⟩ := h
              rw [e1] at hst
              cases bucket with
              | none =>
                simp only [start_migration, Except.ok.injEq] at hst
                exact Or.inl hst.symm
              | some i =>
                obtain ⟨bs, b, hbs, hslot, hs'⟩ := start_migration_ok ndebug s s' client i hst
                exact Or.inr ⟨bs, i, b, _, hbs, hslot, hs'⟩
            · obtain ⟨i, -, -, hbody, -⟩ := a1 j hq
              obtain ⟨bs, b, hbs, hslot, hmk⟩ :=
                attempt_switch_body_slot ndebug client s i _ hbody j rfl
              simp only [hq, Option.isSome_some, if_true, bind_eq_ok, pure_eq_ok] at hr
              obtain ⟨-, -, -, -, hr⟩ := hr
              subst hr
              simp only [if_true, pure_eq_ok] at h
              subst h
              exact Or.inr ⟨bs, i, b, _, hbs, hslot, hmk⟩
      · simp only [Except.ok.injEq] at hr
        subst hr
        simp only [Bool.false_eq_true, if_false, bind_eq_ok] at h
        obtain ⟨bucket, -, hst⟩ := h
        cases bucket with
        | none =>
          simp only [start_migration, Except.ok.injEq] at hst
          exact Or.inl hst.symm
        | some i =>
          obtain ⟨bs, b, hbs, hslot, hs'⟩ := start_migration_ok ndebug s s' client i hst
          exact Or.inr ⟨bs, i, b, _, hbs, hslot, hs'⟩
    · simp only [pure_eq_ok] at h
      exact Or.inl h.symm
  · exact Or.inr ⟨bs, i, b, _, hbs, hslot, h3⟩

/-- None of the operations other than process_accept_bucket changes the sync counter. -/
theorem otherOp_sync (s s' : State) (h : OtherOp s s') : s'.migrate_sync = s.migrate_sync := by
  cases h with
  | init ndebug _ _ h => exact (buckets_init_ok ndebug s s' h).1
  | get_value ndebug _ map_hash key_hash r h =>
    rw [buckets_get_value_sync ndebug s map_hash key_hash r h]
  | store_value ndebug _ map_hash key_hash name name_int expires value r h =>
    exact buckets_store_value_sync ndebug s map_hash key_hash name name_int expires value r h
  | store_name_str ndebug _ key_hash name r h =>
    exact buckets_store_name_str_sync ndebug s key_hash name r h
  | store_name_int ndebug _ key_hash int_key r h =>
    exact buckets_store_name_int_sync ndebug s key_hash int_key r h
  | split_mask ndebug junk _ _ mask h =>
    obtain ⟨nl, nb, heap, hs⟩ := buckets_split_mask_frame ndebug junk s s' mask h
    rw [hs]
  | switch ndebug _ _ hash h =>
    obtain ⟨hs, hs'⟩ := hashmask_switch_ok ndebug s s' hash h
    rw [hs']
  | shutdown ndebug _ _ i h => exact bucket_shutdown_sync ndebug s s' i h
  | shutdown_handler ndebug _ _ i h => exact bucket_shutdown_handler_sync ndebug s s' i h
  | loadlevels ndebug k _ _ client primary backups transferring h =>
    rcases process_loadlevels_slot ndebug k s s' client primary backups transferring h with
      h1 | ⟨bs, i, b, e, -, -, h2⟩
    · rw [h1]
    · rw [h2]
      rfl
  | sync_name_ack ndebug _ _ client hash h =>
    rw [process_sync_name_ack_sync ndebug s s' client hash h]
  | sync_ack ndebug k items _ _ client map_hash hash h =>
    exact process_sync_ack_sync ndebug k items s s' client map_hash hash h
  | control_bucket_complete ndebug _ _ client mask hash h =>
    exact (process_control_bucket_complete_ok ndebug s s' client mask hash h).1
  | migration_ack ndebug _ _ client mask hash h =>
    exact (process_migration_ack_ok ndebug s s' client mask hash h).1

/-- Along a sequence of calls the sync counter does not go down. -/
theorem run_sync (s s' : State) (h : Run s s') : s.migrate_sync ≤ s'.migrate_sync := by
  induction h with
  | refl => exact le_refl _
  | accept ndebug k items t t' t'' client mask hash _ hb hacc ih =>
    have h1 := (process_accept_bucket_sync ndebug k items t' t'' client mask hash hacc).1
    rw [toInt32_succ _ hb] at h1
    omega
  | other t t' t'' _ hop ih =>
    have := otherOp_sync t' t'' hop
    omega

/-- The run of process_accept_bucket on a replica that is marked for a client and has a store,
when no item is in transit, the sync counter is not negative and below INT_MAX and the store
sends items. -/
theorem process_accept_bucket_eq (ndebug : Bool) (k : Consts) (items : Int) (s : State)
    (client hash n c a : Nat) (cl : Client) (bs : List (Option Bucket)) (b : Bucket)
    (hcl : s.clientHeap[client]? = some cl) (hn : cl.node = some n)
    (hbs : s.buckets = some bs) (hslot : bs[hash]? = some (some b))
    (hmark : b.transfer_client = some c) (hdata : b.data = some a)
    (hsync : 0 ≤ s.migrate_sync ∧ s.migrate_sync < 2147483647)
    (htr : s.in_transit = 0) (hitems : 0 < items)
    (hk : 0 ≤ k.TRANSIT_MIN ∧ k.TRANSIT_MIN ≤ k.TRANSIT_MAX ∧ 0 < k.TRANSIT_MAX ∧
      k.TRANSIT_MAX ≤ 2147483647) :
    process_accept_bucket ndebug k items s client s.mask hash =
      .ok { s with
          migrate_sync := s.migrate_sync + 1
          in_transit := s.in_transit + items
          trace := s.trace ++
            [Event.data_migrate_items (some c) (some a) b.hash (k.TRANSIT_MAX - s.in_transit)] } := by
  unfold process_accept_bucket
  have c1 : cassert ndebug 383 s.buckets.isSome = .ok () := by
    rw [hbs]; exact cassert_true ndebug 383
  have c2 : cassert ndebug 384 (decide (s.mask = s.mask)) = .ok () :=
    cassert_of ndebug 384 _ (decide_eq_true rfl)
  have c3 : cassert ndebug 386 (some b).isSome = .ok () := cassert_true ndebug 386
  have c4 : cassert ndebug 390 (decide (s.migrate_sync ≥ 0)) = .ok () :=
    cassert_of ndebug 390 _ (decide_eq_true hsync.1)
  have c5 : cassert ndebug 392 (decide (s.migrate_sync + 1 > 0)) = .ok () :=
    cassert_of ndebug 392 _ (decide_eq_true (by omega))
  have c6 : cassert ndebug 396 (decide (s.in_transit = 0)) = .ok () :=
    cassert_of ndebug 396 _ (decide_eq_true htr)
  rw [assert_node_eq ndebug 372 s client n cl hcl hn, ok_bind, c1, ok_bind, c2, ok_bind,
    bucket_at_ok 385 s bs hash (some b) hbs hslot, ok_bind, c3, ok_bind, c4, ok_bind]
  simp only
  rw [toInt32_succ _ hsync, c5, ok_bind, c6, ok_bind]
  unfold send_transfer_items_slot
  simp only
  rw [send_transfer_items_more ndebug k items _ b c a hmark hdata hitems
    (by simp only; omega) ⟨hk.2.1, hk.2.2.2⟩ (by simp only; omega)]

/-! ## C33: the sync counter of the migrations -/

/-- C33, counterexample: the claim does not hold for every state.  In exampleSyncMax bucket 2
is offered to client 1 and the sync counter is INT_MAX.  When client 1 accepts, the increment
of process.c 391 wraps to -2147483648: with assertions the handler stops at the check of line
392, and with assertions compiled out it returns with a counter that is smaller than before. -/
theorem process_accept_bucket_wraps :
    exampleSyncMax.migrate_sync = 2147483647 ∧
      process_accept_bucket false exampleConsts 3 exampleSyncMax 1 3 2 =
        .error (.assertion 392) ∧
      process_accept_bucket true exampleConsts 3 exampleSyncMax 1 3 2 =
        .ok { exampleSyncMax with
            migrate_sync := -2147483648
            in_transit := 3
            trace := [Event.push_accept_bucket 1 2,
                      Event.data_migrate_items (some 1) (some 2) 2 8] } := by
  refine ⟨rfl, ?_, ?_⟩ <;> decide

/-- C33, amended: while the sync counter is not negative and below INT_MAX it is strictly
monotonic.  Along every sequence of calls that return, each a call of process_accept_bucket
made while the counter is in that range or a call of another operation of the bucket table, the
rebalancer or the migration engine, the sync counter at the end is greater than or equal to the
sync counter at the start.  Every call of process_accept_bucket that returns from a state with
the counter in that range leaves the counter exactly one greater than before, without
wrap-around; with assertions checked this holds for every state whose counter is an int, the
checks of lines 390 and 392 stopping the call otherwise.  No call of another operation changes
the counter.  And process_accept_bucket does return, with the counter one greater, when the
client has a node, the mask of the message is the current mask, the replica is marked and has a
store, no item is in transit, the counter is in that range, and the store sends items. -/
theorem migrate_sync_monotonic (s s' : State) (h : Run s s') :
    s.migrate_sync ≤ s'.migrate_sync ∧
    (∀ (ndebug : Bool) (k : Consts) (items : Int) (t t' : State) (client mask hash : Nat),
      0 ≤ t.migrate_sync ∧ t.migrate_sync < 2147483647 →
      process_accept_bucket ndebug k items t client mask hash = .ok t' →
      t'.migrate_sync = t.migrate_sync + 1 ∧ t.migrate_sync < t'.migrate_sync ∧
        t'.migrate_sync ≤ INT_MAX) ∧
    (∀ (k : Consts) (items : Int) (t t' : State) (client mask hash : Nat),
      t.migrate_sync ≤ 2147483647 →
      process_accept_bucket false k items t client mask hash = .ok t' →
      t'.migrate_sync = t.migrate_sync + 1 ∧ t'.migrate_sync ≤ INT_MAX) ∧
    (∀ t t' : State, OtherOp t t' → t'.migrate_sync = t.migrate_sync) ∧
    (∀ (ndebug : Bool) (k : Consts) (items : Int) (t : State) (client hash n c a : Nat)
      (cl : Client) (bs : List (Option Bucket)) (b : Bucket),
      t.clientHeap[client]? = some cl → cl.node = some n →
      t.buckets = some bs → bs[hash]? = some (some b) →
      b.transfer_client = some c → b.data = some a →
      0 ≤ t.migrate_sync ∧ t.migrate_sync < 2147483647 →
      t.in_transit = 0 → 0 < items →
      0 ≤ k.TRANSIT_MIN ∧ k.TRANSIT_MIN ≤ k.TRANSIT_MAX ∧ 0 < k.TRANSIT_MAX ∧
        k.TRANSIT_MAX ≤ 2147483647 →
      process_accept_bucket ndebug k items t client t.mask hash =
        .ok { t with
            migrate_sync := t.migrate_sync + 1
            in_transit := t.in_transit + items
            trace := t.trace ++
              [Event.data_migrate_items (some c) (some a) b.hash
                (k.TRANSIT_MAX - t.in_transit)] }) := by
  refine ⟨run_sync s s' h, ?_, ?_, otherOp_sync, ?_⟩
  · intro ndebug k items t t' client mask hash hb hacc
    have h1 := (process_accept_bucket_sync ndebug k items t t' client mask hash hacc).1
    rw [toInt32_succ _ hb] at h1
    refine ⟨h1, by omega, ?_⟩
    unfold INT_MAX
    omega
  · intro k items t t' client mask hash hint hacc
    obtain ⟨h1, h2⟩ := process_accept_bucket_sync false k items t t' client mask hash hacc
    obtain ⟨h3, h4⟩ := h2 rfl
    have hlt : t.migrate_sync < 2147483647 := by
      unfold toInt32 at h4
      omega
    rw [toInt32_succ _ ⟨h3, hlt⟩] at h1
    refine ⟨h1, ?_⟩
    unfold INT_MAX
    omega
  · intro ndebug k items t client hash n c a cl bs b hcl hn hbs hslot hmark hdata hsync htr
      hitems hk
    exact process_accept_bucket_eq ndebug k items t client hash n c a cl bs b hcl hn hbs hslot
      hmark hdata hsync htr hitems hk

/-- C33, at a concrete sequence: on exampleCluster the load report of client 1 offers bucket 2,
then client 1 accepts it; the sync counter goes from 0 to 1. -/
theorem migrate_sync_monotonic_witness :
    Run exampleCluster exampleAccepted ∧
      exampleCluster.migrate_sync ≤ exampleAccepted.migrate_sync ∧
      exampleCluster.migrate_sync = 0 ∧ exampleAccepted.migrate_sync = 1 :=
  ⟨Run.accept false exampleConsts 3 exampleCluster exampleOffered exampleAccepted 1 3 2
      (Run.other exampleCluster exampleCluster exampleOffered (Run.refl exampleCluster)
        (OtherOp.loadlevels false exampleConsts exampleCluster exampleOffered 1 1 0 0
          (by decide)))
      (by decide) (by decide),
    (migrate_sync_monotonic exampleCluster exampleAccepted
      (Run.accept false exampleConsts 3 exampleCluster exampleOffered exampleAccepted 1 3 2
        (Run.other exampleCluster exampleCluster exampleOffered (Run.refl exampleCluster)
          (OtherOp.loadlevels false exampleConsts exampleCluster exampleOffered 1 1 0 0
            (by decide)))
        (by decide) (by decide))).1,
    rfl, rfl⟩

/-! ## Lemmas: role/peer exclusivity is kept -/

/-- Storing a replica that satisfies role/peer exclusivity in a slot keeps it for the table. -/
theorem allExclusive_set (s s' : State) (i : Nat) (b' : Bucket) (h : AllExclusive s)
    (hb : Exclusive b')
    (hs : s'.buckets = s.buckets.map fun bs => bs.set i (some b')) : AllExclusive s' := by
  intro bs' j b hbs' hj
  rcases hbs : s.buckets with _ | bs
  · rw [hbs] at hs
    rw [hs] at hbs'
    cases hbs'
  · rw [hbs, hbs'] at hs
    simp only [Option.map_some', Option.some.injEq] at hs
    subst hs
    by_cases hij : i = j
    · subst hij
      rcases Nat.lt_or_ge i bs.length with hlt | hge
      · rw [List.getElem?_set_self hlt] at hj
        simp only [Option.some.injEq] at hj
        subst hj
        exact hb
      · rw [List.getElem?_eq_none (by rw [List.length_set]; exact hge)] at hj
        cases hj
    · rw [List.getElem?_set_ne hij] at hj
      exact h bs j b hbs hj

theorem buckets_init_exclusive (ndebug : Bool) (s s' : State)
    (h : buckets_init ndebug s = .ok s') : s'.mask < 2147483648 ∧ AllExclusive s' := by
  obtain ⟨-, a2, a3, a4⟩ := buckets_init_ok ndebug s s' h
  refine ⟨?_, ?_⟩
  · rw [a2]
    unfold INT_MAX at a3
    omega
  · intro bs j b hbs hj
    obtain ⟨c1, c2, c3⟩ := a4 bs j b hbs hj
    exact ⟨fun _ => c2, fun _ => c3⟩

theorem process_loadlevels_exclusive (ndebug : Bool) (k : Consts) (s s' : State) (client : Nat)
    (primary backups transferring : Int)
    (h : process_loadlevels ndebug k s client primary backups transferring = .ok s')
    (hinv : s.mask < 2147483648 ∧ AllExclusive s) :
    s'.mask < 2147483648 ∧ AllExclusive s' := by
  rcases process_loadlevels_slot ndebug k s s' client primary backups transferring h with
    h1 | ⟨bs, i, b, e, hbs, hslot, h2⟩
  · rw [h1]
    exact hinv
  · subst h2
    refine ⟨hinv.1, ?_⟩
    have hex := hinv.2 bs i b hbs hslot
    exact allExclusive_set s _ i { b with transfer_client := some client } hinv.2
      ⟨hex.1, hex.2⟩ rfl

theorem process_control_bucket_complete_exclusive (ndebug : Bool) (s s' : State)
    (client mask hash : Nat)
    (h : process_control_bucket_complete ndebug s client mask hash = .ok s')
    (hinv : s.mask < 2147483648 ∧ AllExclusive s) :
    s'.mask < 2147483648 ∧ AllExclusive s' := by
  obtain ⟨-, a2, b', hb', hs⟩ := process_control_bucket_complete_ok ndebug s s' client mask hash h
  exact ⟨by rw [a2]; exact hinv.1, allExclusive_set s s' hash b' hinv.2 hb' hs⟩

theorem process_migration_ack_exclusive (ndebug : Bool) (s s' : State)
    (client mask hash : Nat)
    (h : process_migration_ack ndebug s client mask hash = .ok s')
    (hinv : s.mask < 2147483648 ∧ AllExclusive s) :
    s'.mask < 2147483648 ∧ AllExclusive s' := by
  obtain ⟨-, a2, bs, b, b', hbs, hslot, hex, hs⟩ :=
    process_migration_ack_ok ndebug s s' client mask hash h
  exact ⟨by rw [a2]; exact hinv.1,
    allExclusive_set s s' hash b' hinv.2 (hex (hinv.2 bs hash b hbs hslot)) hs⟩

theorem buckets_split_mask_exclusive (ndebug : Bool) (junk : Nat → Option String)
    (s s' : State) (mask : Nat) (h : buckets_split_mask ndebug junk s mask = .ok s')
    (hinv : s.mask < 2147483648 ∧ AllExclusive s) :
    s'.mask < 2147483648 ∧ AllExclusive s' := by
  obtain ⟨nl, nb, heap, hs', -, hlen, -, hmax, -, -, hslots⟩ :=
    buckets_split_mask_ok ndebug junk s s' mask h hinv.1
  subst hs'
  refine ⟨?_, ?_⟩
  · simp only
    unfold INT_MAX at hmax
    omega
  · intro bs' j b hbs' hj
    simp only [Option.some.injEq] at hbs'
    subst hbs'
    have hjlt : j < nb.length := by
      rcases Nat.lt_or_ge j nb.length with hlt | hge
      · exact hlt
      · rw [List.getElem?_eq_none hge] at hj
        cases hj
    obtain ⟨e, sl, -, hsl, -, -, hsp⟩ := hslots j (by omega)
    rw [hj] at hsl
    simp only [Option.some.injEq] at hsl
    subst hsl
    rcases hsp with ⟨hnone, -⟩ | ⟨obs, ob, a, d, hobs, hob, hb, -⟩
    · cases hnone
    · simp only [Option.some.injEq] at hb
      subst hb
      have hex := hinv.2 obs _ ob hobs hob
      exact ⟨hex.1, hex.2⟩

/-! ## C32: role/peer exclusivity -/

/-- C32: in every state reached from a call of buckets_init that returns by calls that return
of process_loadlevels, process_control_bucket_complete, process_migration_ack and
buckets_split_mask, with or without assertions and whatever the arguments, every replica of
the bucket table that is Primary has no source peer (target_node is NULL) and every replica
that is Secondary has no backup peer (backup_node is NULL). -/
theorem reachable_exclusive (s : State) (h : Reachable s) :
    ∀ (bs : List (Option Bucket)) (i : Nat) (b : Bucket),
      s.buckets = some bs → bs[i]? = some (some b) →
      (b.level = 0 → b.target_node = none) ∧ (b.level = 1 → b.backup_node = none) := by
  have hinv : s.mask < 2147483648 ∧ AllExclusive s := by
    induction h with
    | init ndebug s0 t h0 => exact buckets_init_exclusive ndebug s0 t h0
    | loadlevels ndebug k t t' client primary backups transferring _ hop ih =>
      exact process_loadlevels_exclusive ndebug k t t' client primary backups transferring hop ih
    | control_bucket_complete ndebug t t' client mask hash _ hop ih =>
      exact process_control_bucket_complete_exclusive ndebug t t' client mask hash hop ih
    | migration_ack ndebug t t' client mask hash _ hop ih =>
      exact process_migration_ack_exclusive ndebug t t' client mask hash hop ih
    | split_mask ndebug junk t t' mask _ hop ih =>
      exact buckets_split_mask_exclusive ndebug junk t t' mask hop ih
  exact hinv.2

/-- C32, at a concrete state: exampleFirstBacked is reached from buckets_init on exampleFresh
by the load report of client 0 and the acknowledgement of the migration of bucket 0; its
bucket 0 is a Primary that has a backup peer and no source peer. -/
theorem reachable_exclusive_witness :
    Reachable exampleFirstBacked ∧
      Exclusive { hash := 0, level := 0, backup_node := some 0, data := some 0 } :=
  ⟨Reachable.migration_ack false exampleFirstOffer exampleFirstBacked 0 3 0
      (Reachable.loadlevels false exampleConsts exampleInitialised exampleFirstOffer 0 0 0 0
        (Reachable.init false exampleFresh exampleInitialised (by decide)) (by decide))
      (by decide),
    reachable_exclusive exampleFirstBacked
      (Reachable.migration_ack false exampleFirstOffer exampleFirstBacked 0 3 0
        (Reachable.loadlevels false exampleConsts exampleInitialised exampleFirstOffer 0 0 0 0
          (Reachable.init false exampleFresh exampleInitialised (by decide)) (by decide))
        (by decide))
      [some { hash := 0, level := 0, backup_node := some 0, data := some 0 },
       some { hash := 1, level := 0, data := some 1 },
       some { hash := 2, level := 0, data := some 2 },
       some { hash := 3, level := 0, data := some 3 }]
      0 { hash := 0, level := 0, backup_node := some 0, data := some 0 } rfl rfl⟩

/-! ## Lemmas: the rebalancer runs to completion in consistent states -/

end OpenCluster

